import Mathlib

/-!
Advanced vehicle telematics: the ingest and detection engine.

A shallow embedding of `src/advanced_telematics.cpp` and theorems about it.

Modelling conventions
* `double` values are rationals: arithmetic and comparisons are exact and
  rounding is outside the model.  The thresholds of the rules (200, 110, 6, ...)
  are exactly representable, so the comparisons against them are the source's.
  NaN is modelled where finite samples can produce it: `haversine` returns NaN
  when it takes the square root of a negative number, and NaN then reaches
  `total_distance_km` and the value of a MAINTENANCE anomaly; these three are
  of type `MaybeNaN`.
* A `system_clock::time_point` is an integer number of clock ticks
  (nanoseconds); `duration_cast` truncates toward zero.
* `std::unordered_map<int, T>` is a total function from keys; for the windows,
  the anomaly index, the trend buffers and the baseline vectors an absent key
  and an empty container are not distinguished (no code path tells them
  apart), the profile table and the training table keep their key sets.
* `std::atomic<int>` counters wrap at 32 bits; plain `int` members are unbounded
  integers (their overflow is undefined in the source).
* What the source leaves to its environment (libm, the time zone, the value
  that each read of a never-assigned `double` yields, the id that a
  default-constructed profile carries) is the parameter `Env`; general theorems
  hold for every `Env`.  Every read of `system_clock::now()` is taken from a
  clock argument: `clk k` is the value of the k-th read within one call of
  `processSensorReading`.
* The file has three parts: the embedding of the source, auxiliary definitions
  for the proofs (among them one concrete `Env` for running the model on
  concrete inputs), and the theorems.
-/

namespace Telematics

/-! ## Time -/

/-- A point of `std::chrono::system_clock`: clock ticks since the epoch. -/
abbrev TimePoint := Int

/-- Ticks of `system_clock` in one second (nanosecond ticks). -/
def ticksPerSecond : Int := 1000000000

/-- The count of `std::chrono::duration_cast` to a unit of `period` ticks:
integer division truncating toward zero. -/
def durationCast (d period : Int) : Int :=
  if 0 ≤ d then d / period else -((-d) / period)

/-- Count of `duration_cast<std::chrono::seconds>`. -/
def toSeconds (d : Int) : Int := durationCast d ticksPerSecond

/-- Count of `duration_cast<std::chrono::minutes>`. -/
def toMinutes (d : Int) : Int := durationCast d (60 * ticksPerSecond)

/-- Count of `duration_cast<std::chrono::hours>`. -/
def toHours (d : Int) : Int := durationCast d (3600 * ticksPerSecond)

/-- Ticks of `std::chrono::hours(h)`. -/
def hours (h : Int) : Int := h * (3600 * ticksPerSecond)

/-- Wrap-around of a 32-bit signed counter (`std::atomic<int>` increments). -/
def wrapInt32 (x : Int) : Int := (x + 2147483648) % 4294967296 - 2147483648

/-- A map with one key rebound. -/
def mapSet {κ : Type} {α : Type} [DecidableEq κ] (f : κ → α) (k : κ) (v : α) : κ → α :=
  fun j => if j = k then v else f j

/-! ## Doubles that can be NaN -/

/-- A `double` that may be NaN: `none` is NaN, `some x` the number `x`. -/
abbrev MaybeNaN := Option ℚ

/-- The sum of two doubles: NaN when one of them is NaN. -/
def MaybeNaN.add (x y : MaybeNaN) : MaybeNaN :=
  match x, y with
  | some a, some b => some (a + b)
  | _, _ => none

/-- The comparison `x > c` of a double with a number: false when `x` is NaN. -/
def MaybeNaN.gt (x : MaybeNaN) (c : ℚ) : Prop :=
  match x with
  | some a => a > c
  | none => False

instance (x : MaybeNaN) (c : ℚ) : Decidable (MaybeNaN.gt x c) := by
  unfold MaybeNaN.gt
  cases x <;> infer_instance

/-- The comparison `x <= c` of a double with a number: false when `x` is NaN. -/
def MaybeNaN.le (x : MaybeNaN) (c : ℚ) : Prop :=
  match x with
  | some a => a ≤ c
  | none => False

instance (x : MaybeNaN) (c : ℚ) : Decidable (MaybeNaN.le x c) := by
  unfold MaybeNaN.le
  cases x <;> infer_instance

/-! ## Enumerations and records -/

/-- The kinds of anomaly. -/
inductive AnomalyType where
  | SPEED_OUT_OF_RANGE
  | RPM_OUT_OF_RANGE
  | TEMP_OUT_OF_RANGE
  | SUDDEN_SPEED_CHANGE
  | SUDDEN_RPM_CHANGE
  | SUDDEN_TEMP_CHANGE
  | ENGINE_STALL
  | OVERHEATING_PATTERN
  | ERRATIC_BEHAVIOR
  | SENSOR_FAILURE
  | FUEL_LEAK
  | MAINTENANCE_REQUIRED
  | GEOFENCE_VIOLATION
  | HARSH_ACCELERATION
  | HARSH_BRAKING
deriving DecidableEq

/-- The states of a vehicle. -/
inductive VehicleState where
  | NORMAL
  | WARNING
  | CRITICAL
  | OFFLINE
  | MAINTENANCE
deriving DecidableEq

/-- One telemetry sample. -/
structure SensorReading where
  timestamp : TimePoint
  vehicle_id : Int := 0
  speed_kmph : ℚ := 0
  rpm : ℚ := 0
  engine_temp_celsius : ℚ := 0
  fuel_level_percent : ℚ := 0
  throttle_position_percent : ℚ := 0
  engine_on : Bool := true
  latitude : ℚ := 0
  longitude : ℚ := 0
  acceleration_ms2 : ℚ := 0
  brake_pressure_bar : ℚ := 0
  oil_pressure_bar : ℚ := 0
  battery_voltage : ℚ := 12
  odometer_km : Int := 0
  abs_active : Bool := false
  traction_control_active : Bool := false
deriving DecidableEq

/-- One detected anomaly.  `priority` is the integer value of the
`AlertPriority` the constructor casts to. -/
structure AnomalyRecord where
  timestamp : TimePoint
  vehicle_id : Int
  sensor_name : String
  value : MaybeNaN
  type : AnomalyType
  description : String
  severity : Int
  priority : Int
  acknowledged : Bool := false
  location_info : String
deriving DecidableEq

/-- The constructor of `AnomalyRecord`; `now` is the clock value it reads. -/
def AnomalyRecord.new (now : TimePoint) (vid : Int) (sensor : String) (val : MaybeNaN)
    (t : AnomalyType) (desc : String) (sev : Int) (loc : String) : AnomalyRecord :=
  { timestamp := now, vehicle_id := vid, sensor_name := sensor, value := val, type := t,
    description := desc, severity := sev, priority := min 5 (max 1 sev),
    acknowledged := false, location_info := loc }

/-- The token `getTypeString` prints for a kind. -/
def AnomalyRecord.getTypeString (a : AnomalyRecord) : String :=
  match a.type with
  | .SPEED_OUT_OF_RANGE => "SPEED_RANGE"
  | .RPM_OUT_OF_RANGE => "RPM_RANGE"
  | .TEMP_OUT_OF_RANGE => "TEMP_RANGE"
  | .SUDDEN_SPEED_CHANGE => "SPEED_SPIKE"
  | .SUDDEN_RPM_CHANGE => "RPM_SPIKE"
  | .SUDDEN_TEMP_CHANGE => "TEMP_SPIKE"
  | .ENGINE_STALL => "ENGINE_STALL"
  | .OVERHEATING_PATTERN => "OVERHEATING"
  | .ERRATIC_BEHAVIOR => "ERRATIC"
  | .SENSOR_FAILURE => "SENSOR_FAIL"
  | .FUEL_LEAK => "FUEL_LEAK"
  | .MAINTENANCE_REQUIRED => "MAINTENANCE"
  | .GEOFENCE_VIOLATION => "GEOFENCE"
  | .HARSH_ACCELERATION => "HARSH_ACCEL"
  | .HARSH_BRAKING => "HARSH_BRAKE"

/-- Per-vehicle metadata and aggregates. -/
structure VehicleProfile where
  vehicle_id : Int
  make_model : String
  license_plate : String
  current_state : VehicleState
  last_seen : TimePoint
  total_distance_km : MaybeNaN
  total_anomalies : Int
  avg_fuel_efficiency : ℚ
  route_history : List (ℚ × ℚ)
  last_maintenance : TimePoint
  maintenance_interval_km : Int := 10000
  max_speed_recorded : ℚ := 0
  avg_speed : ℚ := 0
  harsh_events_count : Int := 0
  performance_metrics : String → Option ℚ := fun _ => none

/-- The constructor of `VehicleProfile`; `now1` and `now2` are the two clock
values it reads, for `last_seen` and for `last_maintenance`. -/
def VehicleProfile.new (now1 now2 : TimePoint) (id : Int) (model : String) (plate : String) :
    VehicleProfile :=
  { vehicle_id := id, make_model := model, license_plate := plate,
    current_state := .NORMAL, last_seen := now1, total_distance_km := some 0,
    total_anomalies := 0, avg_fuel_efficiency := 0, route_history := [],
    last_maintenance := now2 - hours (24 * 30) }

/-! ## The environment -/

/-- The fields of `struct tm` that the source reads. -/
structure Tm where
  tm_hour : Int
  tm_min : Int
  tm_wday : Int
deriving DecidableEq

/-- What the program takes from its environment. -/
structure Env where
  /-- Function `std::sin`. -/
  sin : ℚ → ℚ
  /-- Function `std::cos`. -/
  cos : ℚ → ℚ
  /-- Function `std::sqrt`. -/
  sqrt : ℚ → ℚ
  /-- Function `std::atan2`. -/
  atan2 : ℚ → ℚ → ℚ
  /-- Function `std::localtime` after `system_clock::to_time_t`. -/
  localtime : TimePoint → Tm
  /-- The values read from `double` members that were never assigned:
  `indeterminate k j` is what read number `j` of such a member yields during call
  number `k` of `processSensorReading`.  Every read has its own value. -/
  indeterminate : Nat → Nat → ℚ
  /-- The `vehicle_id` of a default-constructed `VehicleProfile`.  The
  constructor of the source gives its first parameter no default, so the value
  is the one that a default for it supplies; the other members are set by the
  body of the constructor. -/
  default_vehicle_id : Int

/-! ## Utility functions -/

/-- The constant `M_PI` of `<cmath>`. -/
def M_PI : ℚ := 314159265358979323846 / 100000000000000000000

/-- Degrees to radians. -/
def deg2rad (deg : ℚ) : ℚ := deg * M_PI / 180

/-- The argument `a` of the two square roots in `haversine`. -/
def haversineArg (E : Env) (lat1 lon1 lat2 lon2 : ℚ) : ℚ :=
  let dLat := deg2rad (lat2 - lat1)
  let dLon := deg2rad (lon2 - lon1)
  E.sin (dLat / 2) * E.sin (dLat / 2) +
    E.cos (deg2rad lat1) * E.cos (deg2rad lat2) *
    E.sin (dLon / 2) * E.sin (dLon / 2)

/-- Great-circle distance in km on a sphere of radius 6371 km.  `std::sqrt` of a
negative number is NaN, and `std::atan2` and the two products pass a NaN on: the
result is NaN when `a < 0` or `1 - a < 0`. -/
def haversine (E : Env) (lat1 lon1 lat2 lon2 : ℚ) : MaybeNaN :=
  let R : ℚ := 6371
  let a := haversineArg E lat1 lon1 lat2 lon2
  if a < 0 ∨ 1 - a < 0 then none
  else
    let c := 2 * E.atan2 (E.sqrt a) (E.sqrt (1 - a))
    some (R * c)

/-! ## Geofences -/

/-- A named circle on the map. -/
structure Geofence where
  name : String
  center_lat : ℚ
  center_lon : ℚ
  radius_km : ℚ
  is_restricted : Bool
deriving DecidableEq

/-- Membership test of a geofence. -/
def Geofence.isInside (E : Env) (g : Geofence) (lat lon : ℚ) : Bool :=
  decide (MaybeNaN.le (haversine E g.center_lat g.center_lon lat lon) g.radius_km)

/-! ## The baseline scorer (`MLAnomalyDetector`) -/

/-- The feature vector of the baseline. -/
structure FeatureVector where
  speed : ℚ
  rpm : ℚ
  temperature : ℚ
  acceleration : ℚ
  fuel_consumption_rate : ℚ
  time_of_day : ℚ
  day_of_week : ℚ
deriving DecidableEq

/-- State of the baseline scorer.  `feature_means` and `feature_stds` hold the
seven-element vectors; an index past the end of a vector reads as 0. -/
structure MLAnomalyDetector where
  training_data : Int → Option (List FeatureVector) := fun _ => none
  feature_means : Int → List ℚ := fun _ => []
  feature_stds : Int → List ℚ := fun _ => []

/-- The body of the training loop for one consecutive pair: the member
`fuel_consumption_rate` is assigned only when the elapsed seconds are positive;
otherwise the vector is stored with the value `stale` that a read of the
never-assigned member yields. -/
def trainFeature (E : Env) (previous current : SensorReading) (stale : ℚ) : FeatureVector :=
  let time_diff := toSeconds (current.timestamp - previous.timestamp)
  let tm_info := E.localtime current.timestamp
  { speed := current.speed_kmph
    rpm := current.rpm
    temperature := current.engine_temp_celsius
    acceleration := current.acceleration_ms2
    fuel_consumption_rate :=
      if time_diff > 0 then
        (previous.fuel_level_percent - current.fuel_level_percent) / (time_diff : ℚ)
      else stale
    time_of_day := (tm_info.tm_hour : ℚ) + (tm_info.tm_min : ℚ) / 60
    day_of_week := (tm_info.tm_wday : ℚ) }

/-- The training loop: one feature vector for every index 1 .. size-1; `stale i`
is what the never-assigned member of vector number `i` (counted from 0) reads as. -/
def trainFeatures (E : Env) : List SensorReading → (Nat → ℚ) → List FeatureVector
  | previous :: current :: rest, stale =>
      trainFeature E previous current (stale 0) ::
        trainFeatures E (current :: rest) (fun i => stale (i + 1))
  | _, _ => []

/-- Sum of a field over the training vectors. -/
def sumOver (data : List FeatureVector) (f : FeatureVector → ℚ) : ℚ :=
  (data.map f).sum

/-- Method `MLAnomalyDetector::calculateStatistics`. -/
def MLAnomalyDetector.calculateStatistics (E : Env) (d : MLAnomalyDetector) (vehicle_id : Int) :
    MLAnomalyDetector :=
  let data := (d.training_data vehicle_id).getD []
  if data.isEmpty then d else
  let n : ℚ := (data.length : ℚ)
  let fields : List (FeatureVector → ℚ) :=
    [FeatureVector.speed, FeatureVector.rpm, FeatureVector.temperature,
     FeatureVector.acceleration, FeatureVector.fuel_consumption_rate,
     FeatureVector.time_of_day, FeatureVector.day_of_week]
  let means := fields.map fun f => sumOver data f / n
  let stds := (fields.zip means).map fun fm =>
    E.sqrt (sumOver data (fun fv => (fm.1 fv - fm.2) * (fm.1 fv - fm.2)) / n)
  { d with feature_means := mapSet d.feature_means vehicle_id means
           feature_stds := mapSet d.feature_stds vehicle_id stds }

/-- Method `MLAnomalyDetector::trainModel`; `stale` gives the values of the
never-assigned members of its vectors. -/
def MLAnomalyDetector.trainModel (E : Env) (d : MLAnomalyDetector) (vehicle_id : Int)
    (historical_data : List SensorReading) (stale : Nat → ℚ) : MLAnomalyDetector :=
  if historical_data.length < 50 then d else
  let features := trainFeatures E historical_data stale
  let d1 := { d with training_data := mapSet d.training_data vehicle_id (some features) }
  d1.calculateStatistics E vehicle_id

/-- Method `MLAnomalyDetector::calculateMahalanobisDistance`. -/
def MLAnomalyDetector.calculateMahalanobisDistance (E : Env) (d : MLAnomalyDetector)
    (vehicle_id : Int) (fv : FeatureVector) : ℚ :=
  let means := d.feature_means vehicle_id
  let stds := d.feature_stds vehicle_id
  let eps : ℚ := 1 / 1000000
  let normalized : List ℚ :=
    [(fv.speed - means.getD 0 0) / (stds.getD 0 0 + eps),
     (fv.rpm - means.getD 1 0) / (stds.getD 1 0 + eps),
     (fv.temperature - means.getD 2 0) / (stds.getD 2 0 + eps),
     (fv.acceleration - means.getD 3 0) / (stds.getD 3 0 + eps),
     (fv.fuel_consumption_rate - means.getD 4 0) / (stds.getD 4 0 + eps),
     (fv.time_of_day - means.getD 5 0) / (stds.getD 5 0 + eps),
     (fv.day_of_week - means.getD 6 0) / (stds.getD 6 0 + eps)]
  let distance := (normalized.map fun val => val * val).sum
  E.sqrt distance

/-- Method `MLAnomalyDetector::calculateAnomalyScore`; the feature vector it
builds never assigns `fuel_consumption_rate`, and `stale` is the value that the
read of that member yields. -/
def MLAnomalyDetector.calculateAnomalyScore (E : Env) (d : MLAnomalyDetector)
    (vehicle_id : Int) (reading : SensorReading) (stale : ℚ) : ℚ :=
  if (d.training_data vehicle_id).isNone then 0 else
  let tm_info := E.localtime reading.timestamp
  let fv : FeatureVector :=
    { speed := reading.speed_kmph
      rpm := reading.rpm
      temperature := reading.engine_temp_celsius
      acceleration := reading.acceleration_ms2
      fuel_consumption_rate := stale
      time_of_day := (tm_info.tm_hour : ℚ) + (tm_info.tm_min : ℚ) / 60
      day_of_week := (tm_info.tm_wday : ℚ) }
  d.calculateMahalanobisDistance E vehicle_id fv

/-! ## The trend buffers (`AdvancedAnalytics`) -/

/-- The five per-vehicle trend buffers. -/
structure AdvancedAnalytics where
  speed_trends : Int → List ℚ := fun _ => []
  rpm_trends : Int → List ℚ := fun _ => []
  temp_trends : Int → List ℚ := fun _ => []
  fuel_trends : Int → List ℚ := fun _ => []
  acceleration_trends : Int → List ℚ := fun _ => []

/-- Capacity of a trend buffer. -/
def MAX_TREND_SIZE : Nat := 200

/-- The lambda `updateTrend`: append, then drop the first value when over capacity. -/
def updateTrend (trend : List ℚ) (value : ℚ) : List ℚ :=
  let t := trend ++ [value]
  if t.length > MAX_TREND_SIZE then t.tail else t

/-- Method `AdvancedAnalytics::updateTrends`. -/
def AdvancedAnalytics.updateTrends (a : AdvancedAnalytics) (vehicle_id : Int)
    (reading : SensorReading) : AdvancedAnalytics :=
  { speed_trends := mapSet a.speed_trends vehicle_id
      (updateTrend (a.speed_trends vehicle_id) reading.speed_kmph)
    rpm_trends := mapSet a.rpm_trends vehicle_id
      (updateTrend (a.rpm_trends vehicle_id) reading.rpm)
    temp_trends := mapSet a.temp_trends vehicle_id
      (updateTrend (a.temp_trends vehicle_id) reading.engine_temp_celsius)
    fuel_trends := mapSet a.fuel_trends vehicle_id
      (updateTrend (a.fuel_trends vehicle_id) reading.fuel_level_percent)
    acceleration_trends := mapSet a.acceleration_trends vehicle_id
      (updateTrend (a.acceleration_trends vehicle_id) reading.acceleration_ms2) }

/-! ## The data manager (`AdvancedDataManager`) -/

/-- Capacity of a sliding window. -/
def WINDOW_SIZE : Nat := 200

/-- One line of the anomaly sink, field by field. -/
structure AnomalyLine where
  timestamp : TimePoint
  vehicle_id : Int
  sensor : String
  value : MaybeNaN
  type : String
  description : String
  severity : Int
  priority : Int
  location : String
  ml_score : ℚ
deriving DecidableEq

/-- One line of the performance sink: the two counters it prints. -/
structure PerformanceLine where
  total_readings : Int
  total_anomalies : Int
deriving DecidableEq

/-- The shared store.  The three sinks are the lists of lines written so far
and a flag for `is_open()`; `anomaly_priority_queue` lists the pushed pairs in
push order; `clock_reads` counts the reads of `system_clock::now()` in the
running call of `processSensorReading`, and `calls_started` counts the calls of
`processSensorReading` (both are bookkeeping of the model: they index the clock
reads and the reads of never-assigned members). -/
structure AdvancedDataManager where
  vehicle_data_windows : Int → List SensorReading
  detected_anomalies : Int → List AnomalyRecord
  vehicle_profiles : Int → Option VehicleProfile
  geofences : List Geofence
  anomaly_priority_queue : List (Int × Int)
  analytics : AdvancedAnalytics
  ml_detector : MLAnomalyDetector
  total_readings_processed : Int
  total_anomalies_detected : Int
  data_log_open : Bool
  anomaly_log_open : Bool
  performance_log_open : Bool
  data_log : List SensorReading
  anomaly_log : List AnomalyLine
  performance_log : List PerformanceLine
  clock_reads : Nat
  calls_started : Nat

/-- A clock: the value of the k-th read of `system_clock::now()` in a call. -/
abbrev Clock := Nat → TimePoint

/-- The profile that `vehicle_profiles[id]` inserts for an absent key: the one
the constructor builds from its defaults, reading the clock for `last_seen`
(read `k` of the call) and for `last_maintenance` (read `k + 1`). -/
def insertedProfile (E : Env) (clk : Clock) (k : Nat) : VehicleProfile :=
  VehicleProfile.new (clk k) (clk (k + 1)) E.default_vehicle_id "Unknown Vehicle" ""

/-- The reference `vehicle_profiles[id]`: the stored profile, or the one the
map inserts for an absent key. -/
def profileRef (E : Env) (clk : Clock) (m : AdvancedDataManager) (id : Int) : VehicleProfile :=
  (m.vehicle_profiles id).getD (insertedProfile E clk m.clock_reads)

/-- The store after the access `vehicle_profiles[id]`: unchanged when the key is
present; for an absent key the inserted profile is stored and the two clock
reads of its constructor are counted. -/
def touchProfile (E : Env) (clk : Clock) (m : AdvancedDataManager) (id : Int) :
    AdvancedDataManager :=
  match m.vehicle_profiles id with
  | some _ => m
  | none =>
      { m with
        vehicle_profiles :=
          mapSet m.vehicle_profiles id (some (insertedProfile E clk m.clock_reads))
        clock_reads := m.clock_reads + 2 }

/-- Write through the reference `vehicle_profiles[id]`. -/
def setProfile (m : AdvancedDataManager) (id : Int) (p : VehicleProfile) : AdvancedDataManager :=
  { m with vehicle_profiles := mapSet m.vehicle_profiles id (some p) }

/-- The body of `updateVehicleProfile`, acting on the profile it references. -/
def updateProfileBody (E : Env) (profile : VehicleProfile) (reading : SensorReading) :
    VehicleProfile :=
  let profile := { profile with last_seen := reading.timestamp }
  let profile :=
    match profile.route_history.getLast? with
    | some last_pos =>
        let distance := haversine E reading.latitude reading.longitude last_pos.1 last_pos.2
        { profile with total_distance_km := MaybeNaN.add profile.total_distance_km distance }
    | none => profile
  let profile :=
    { profile with route_history := profile.route_history ++ [(reading.latitude, reading.longitude)] }
  let profile :=
    if profile.route_history.length > 1000 then
      { profile with route_history := profile.route_history.tail }
    else profile
  let profile :=
    { profile with max_speed_recorded := max profile.max_speed_recorded reading.speed_kmph }
  let profile :=
    if (profile.performance_metrics "total_speed_sum").isNone then
      { profile with
        performance_metrics :=
          mapSet (mapSet profile.performance_metrics "total_speed_sum" (some 0))
            "speed_count" (some 0) }
    else profile
  let profile :=
    { profile with
      performance_metrics :=
        mapSet profile.performance_metrics "total_speed_sum"
          (some ((profile.performance_metrics "total_speed_sum").getD 0 + reading.speed_kmph)) }
  let profile :=
    { profile with
      performance_metrics :=
        mapSet profile.performance_metrics "speed_count"
          (some ((profile.performance_metrics "speed_count").getD 0 + 1)) }
  let profile :=
    { profile with
      avg_speed :=
        (profile.performance_metrics "total_speed_sum").getD 0 /
          (profile.performance_metrics "speed_count").getD 0 }
  let profile :=
    if |reading.acceleration_ms2| > 4 then
      { profile with harsh_events_count := profile.harsh_events_count + 1 }
    else profile
  profile

/-- Method `updateVehicleProfile`: the body applied to `vehicle_profiles[vehicle_id]`. -/
def updateVehicleProfile (E : Env) (clk : Clock) (m : AdvancedDataManager) (vehicle_id : Int)
    (reading : SensorReading) : AdvancedDataManager :=
  let profile := profileRef E clk m vehicle_id
  let m := touchProfile E clk m vehicle_id
  setProfile m vehicle_id (updateProfileBody E profile reading)

/-- Method `addEnhancedAnomaly`. -/
def addEnhancedAnomaly (clk : Clock) (m : AdvancedDataManager) (vehicle_id : Int)
    (sensor : String) (value : MaybeNaN) (type : AnomalyType) (description : String)
    (severity : Int) (location : String) (ml_score : ℚ) : AdvancedDataManager :=
  let anomaly := AnomalyRecord.new (clk m.clock_reads) vehicle_id sensor value type
    description severity location
  let m := { m with clock_reads := m.clock_reads + 1 }
  let m :=
    { m with
      detected_anomalies :=
        mapSet m.detected_anomalies vehicle_id (m.detected_anomalies vehicle_id ++ [anomaly]) }
  let m := { m with total_anomalies_detected := wrapInt32 (m.total_anomalies_detected + 1) }
  let m :=
    if severity ≥ 4 then
      { m with anomaly_priority_queue := m.anomaly_priority_queue ++ [(severity, vehicle_id)] }
    else m
  let m :=
    match m.vehicle_profiles vehicle_id with
    | some p => setProfile m vehicle_id { p with total_anomalies := p.total_anomalies + 1 }
    | none => m
  let m :=
    if m.anomaly_log_open then
      { m with
        anomaly_log := m.anomaly_log ++
          [{ timestamp := anomaly.timestamp, vehicle_id := vehicle_id, sensor := sensor,
             value := value, type := anomaly.getTypeString, description := description,
             severity := severity, priority := anomaly.priority, location := location,
             ml_score := ml_score }] }
    else m
  m

/-- Method `checkGeofenceViolations`: the loop over the geofence table. -/
def checkGeofenceLoop (E : Env) (clk : Clock) (reading : SensorReading) :
    List Geofence → AdvancedDataManager → AdvancedDataManager
  | [], m => m
  | geofence :: rest, m =>
      let inside := geofence.isInside E reading.latitude reading.longitude
      let m :=
        if geofence.is_restricted && inside then
          addEnhancedAnomaly clk m reading.vehicle_id "location" (some 0)
            AnomalyType.GEOFENCE_VIOLATION
            ("Vehicle entered restricted area: " ++ geofence.name) 4 geofence.name 0
        else m
      checkGeofenceLoop E clk reading rest m

/-- Method `checkGeofenceViolations`. -/
def checkGeofenceViolations (E : Env) (clk : Clock) (m : AdvancedDataManager)
    (reading : SensorReading) : AdvancedDataManager :=
  checkGeofenceLoop E clk reading m.geofences m

/-- Method `calculateFuelDropRate`. -/
def calculateFuelDropRate (window : List SensorReading) : ℚ :=
  if h : window.length < 10 then 0 else
  let oldest := window.get ⟨window.length - 10, by omega⟩
  let newest := window.get ⟨window.length - 1, by omega⟩
  let time_diff := toMinutes (newest.timestamp - oldest.timestamp)
  if time_diff ≤ 0 then 0 else
  let fuel_drop := oldest.fuel_level_percent - newest.fuel_level_percent
  fuel_drop / (time_diff : ℚ)

/-- Method `checkMaintenanceRequirements`; the call of `addEnhancedAnomaly`
leaves location and score at their defaults. -/
def checkMaintenanceRequirements (E : Env) (clk : Clock) (m : AdvancedDataManager)
    (reading : SensorReading) : AdvancedDataManager :=
  let profile := profileRef E clk m reading.vehicle_id
  let m := touchProfile E clk m reading.vehicle_id
  let time_since_maintenance := toHours (reading.timestamp - profile.last_maintenance)
  if MaybeNaN.gt profile.total_distance_km (profile.maintenance_interval_km : ℚ) ∨
      time_since_maintenance > 24 * 30 * 3 then
    let m := addEnhancedAnomaly clk m reading.vehicle_id "maintenance"
      profile.total_distance_km AnomalyType.MAINTENANCE_REQUIRED
      "Scheduled maintenance due" 2 "" 0
    setProfile m reading.vehicle_id
      { profileRef E clk m reading.vehicle_id with current_state := VehicleState.MAINTENANCE }
  else m

/-- Method `detectEnhancedAnomalies`: the new store and the flag it returns. -/
def detectEnhancedAnomalies (E : Env) (clk : Clock) (m : AdvancedDataManager)
    (current : SensorReading) (window : List SensorReading) : AdvancedDataManager × Bool :=
  let s : AdvancedDataManager × Bool := (m, false)
  let ml_score := m.ml_detector.calculateAnomalyScore E current.vehicle_id current
    (E.indeterminate m.calls_started 0)
  let s :=
    if current.speed_kmph > 200 ∨ current.speed_kmph < -5 then
      (addEnhancedAnomaly clk s.1 current.vehicle_id "speed" (some current.speed_kmph)
        AnomalyType.SPEED_OUT_OF_RANGE "Speed outside safe range" 4 "" ml_score, true)
    else s
  let s :=
    if current.rpm > 8000 ∨
        (current.rpm < 400 ∧ current.engine_on = true ∧ current.speed_kmph > 10) then
      (addEnhancedAnomaly clk s.1 current.vehicle_id "rpm" (some current.rpm)
        AnomalyType.RPM_OUT_OF_RANGE "RPM outside normal range" 3 "" ml_score, true)
    else s
  let s :=
    if current.engine_temp_celsius > 110 then
      (addEnhancedAnomaly clk s.1 current.vehicle_id "temperature" (some current.engine_temp_celsius)
        AnomalyType.TEMP_OUT_OF_RANGE "Engine overheating detected" 5 "" ml_score, true)
    else s
  let s :=
    if |current.acceleration_ms2| > 6 then
      let type :=
        if current.acceleration_ms2 > 0 then AnomalyType.HARSH_ACCELERATION
        else AnomalyType.HARSH_BRAKING
      let desc :=
        if current.acceleration_ms2 > 0 then "Harsh acceleration detected"
        else "Harsh braking detected"
      (addEnhancedAnomaly clk s.1 current.vehicle_id "acceleration" (some current.acceleration_ms2)
        type desc 3 "" ml_score, true)
    else s
  let s :=
    if current.oil_pressure_bar < 1 ∧ current.engine_on = true then
      (addEnhancedAnomaly clk s.1 current.vehicle_id "oil_pressure" (some current.oil_pressure_bar)
        AnomalyType.SENSOR_FAILURE "Critically low oil pressure" 5 "" ml_score, true)
    else s
  let s :=
    if current.battery_voltage < 11 ∨ current.battery_voltage > 15 then
      (addEnhancedAnomaly clk s.1 current.vehicle_id "battery" (some current.battery_voltage)
        AnomalyType.SENSOR_FAILURE "Battery voltage abnormal" 3 "" ml_score, true)
    else s
  let s :=
    if window.length ≥ 10 then
      let fuel_drop_rate := calculateFuelDropRate window
      if fuel_drop_rate > 2 then
        (addEnhancedAnomaly clk s.1 current.vehicle_id "fuel" (some fuel_drop_rate)
          AnomalyType.FUEL_LEAK "Potential fuel leak detected" 4 "" ml_score, true)
      else s
    else s
  let s :=
    if ml_score > 3 then
      (addEnhancedAnomaly clk s.1 current.vehicle_id "ml_pattern" (some ml_score)
        AnomalyType.ERRATIC_BEHAVIOR "ML detected unusual pattern" 3 "" ml_score, true)
    else s
  (checkMaintenanceRequirements E clk s.1 current, s.2)

/-- An anomaly counts as recent when its age in whole minutes is at most 5. -/
def isRecent (now : TimePoint) (anomaly : AnomalyRecord) : Bool :=
  decide (toMinutes (now - anomaly.timestamp) ≤ 5)

/-- Method `updateVehicleState`. -/
def updateVehicleState (clk : Clock) (m : AdvancedDataManager) (vehicle_id : Int) :
    AdvancedDataManager :=
  match m.vehicle_profiles vehicle_id with
  | none => m
  | some profile =>
      let now := clk m.clock_reads
      let m := { m with clock_reads := m.clock_reads + 1 }
      let recent_critical := (m.detected_anomalies vehicle_id).countP
        fun anomaly => isRecent now anomaly && decide (anomaly.severity = 5)
      let recent_high := (m.detected_anomalies vehicle_id).countP
        fun anomaly => isRecent now anomaly && decide (anomaly.severity ≠ 5) &&
          decide (anomaly.severity = 4)
      let profile :=
        if recent_critical > 0 then { profile with current_state := VehicleState.CRITICAL }
        else if recent_high > 2 then { profile with current_state := VehicleState.WARNING }
        else if profile.current_state ≠ VehicleState.MAINTENANCE then
          { profile with current_state := VehicleState.NORMAL }
        else profile
      let since_last := toSeconds (now - profile.last_seen)
      let profile :=
        if since_last > 30 then { profile with current_state := VehicleState.OFFLINE }
        else profile
      setProfile m vehicle_id profile

/-- Statement `total_readings_processed++` of `processSensorReading`. -/
def countReading (m : AdvancedDataManager) : AdvancedDataManager :=
  { m with total_readings_processed := wrapInt32 (m.total_readings_processed + 1) }

/-- The window block of `processSensorReading`: `push_back`, then `pop_front`
when the size exceeds `WINDOW_SIZE`. -/
def appendToWindow (m : AdvancedDataManager) (reading : SensorReading) : AdvancedDataManager :=
  let vehicle_id := reading.vehicle_id
  let m :=
    { m with
      vehicle_data_windows :=
        mapSet m.vehicle_data_windows vehicle_id (m.vehicle_data_windows vehicle_id ++ [reading]) }
  if (m.vehicle_data_windows vehicle_id).length > WINDOW_SIZE then
    { m with
      vehicle_data_windows :=
        mapSet m.vehicle_data_windows vehicle_id (m.vehicle_data_windows vehicle_id).tail }
  else m

/-- The values that the training loop of call number `k` reads from the
never-assigned members of its vectors: vector number `i` reads
`E.indeterminate k (i + 1)`. -/
def trainingReads (E : Env) (k : Nat) : Nat → ℚ := fun i => E.indeterminate k (i + 1)

/-- The training block of `processSensorReading`.  The test
`total_readings_processed % 100 == 0` is the same for the truncating remainder
of the source and the remainder used here.  The never-assigned members of the
training vectors read as `E.indeterminate k 1`, `E.indeterminate k 2`, ... in call
number `k`; `E.indeterminate k 0` is the read of `calculateAnomalyScore`. -/
def trainPeriodically (E : Env) (m : AdvancedDataManager) (vehicle_id : Int) :
    AdvancedDataManager :=
  if (m.vehicle_data_windows vehicle_id).length ≥ 100 ∧
      m.total_readings_processed % 100 = 0 then
    { m with
      ml_detector := m.ml_detector.trainModel E vehicle_id (m.vehicle_data_windows vehicle_id)
        (trainingReads E m.calls_started) }
  else m

/-- The data-log block of `processSensorReading`. -/
def logReading (m : AdvancedDataManager) (reading : SensorReading) : AdvancedDataManager :=
  if m.data_log_open then { m with data_log := m.data_log ++ [reading] } else m

/-- The performance-log block of `processSensorReading`: one line with the two
counters on every call whose reading count is a multiple of 100. -/
def logPerformance (m : AdvancedDataManager) : AdvancedDataManager :=
  if m.performance_log_open ∧ m.total_readings_processed % 100 = 0 then
    { m with
      performance_log := m.performance_log ++
        [{ total_readings := m.total_readings_processed,
           total_anomalies := m.total_anomalies_detected }] }
  else m

/-- Method `processSensorReading`, block by block; `clk` gives the clock reads
of this call, counted from 0. -/
def processSensorReading (E : Env) (clk : Clock) (m : AdvancedDataManager)
    (reading : SensorReading) : AdvancedDataManager :=
  let m := { m with clock_reads := 0, calls_started := m.calls_started + 1 }
  let vehicle_id := reading.vehicle_id
  let m := countReading m
  let m :=
    if (m.vehicle_profiles vehicle_id).isSome then
      updateVehicleProfile E clk m vehicle_id reading
    else m
  let m := appendToWindow m reading
  let m := { m with analytics := m.analytics.updateTrends vehicle_id reading }
  let m := trainPeriodically E m vehicle_id
  let m := (detectEnhancedAnomalies E clk m reading (m.vehicle_data_windows vehicle_id)).1
  let m := checkGeofenceViolations E clk m reading
  let m := logReading m reading
  let m := updateVehicleState clk m vehicle_id
  logPerformance m

/-! ## Construction -/

/-- The catalogue of `initializeVehicleProfiles`. -/
def vehicles : List (String × String) :=
  [("Honda Civic", "ABC-123"), ("Toyota Camry", "DEF-456"), ("Ford F-150", "GHI-789"),
   ("BMW X3", "JKL-012"), ("Tesla Model 3", "MNO-345"), ("Chevrolet Silverado", "PQR-678"),
   ("Nissan Altima", "STU-901"), ("Hyundai Elantra", "VWX-234"), ("Mercedes C-Class", "YZA-567"),
   ("Audi A4", "BCD-890"), ("Volkswagen Jetta", "EFG-123"), ("Subaru Outback", "HIJ-456"),
   ("Mazda CX-5", "KLM-789"), ("Jeep Wrangler", "NOP-012"), ("Kia Sorento", "QRS-345"),
   ("Volvo XC90", "TUV-678"), ("Lexus RX", "WXY-901"), ("Acura MDX", "ZAB-234"),
   ("Infiniti Q50", "CDE-567"), ("Cadillac Escalade", "FGH-890")]

/-- Method `initializeVehicleProfiles`: profiles 1 .. 20, each constructor
reading the clock twice. -/
def initializeVehicleProfiles (clk : Clock) : Int → Option VehicleProfile :=
  fun id =>
    if 1 ≤ id ∧ id ≤ 20 then
      (vehicles.get? (id - 1).toNat).map fun v =>
        VehicleProfile.new (clk (2 * (id - 1).toNat)) (clk (2 * (id - 1).toNat + 1)) id v.1 v.2
    else none

/-- Method `initializeGeofences`. -/
def initializeGeofences : List Geofence :=
  [{ name := "Downtown Area", center_lat := 407128 / 10000, center_lon := -740060 / 10000,
     radius_km := 5, is_restricted := false },
   { name := "Industrial Zone", center_lat := 406892 / 10000, center_lon := -740445 / 10000,
     radius_km := 3, is_restricted := true },
   { name := "School Zone", center_lat := 407589 / 10000, center_lon := -739851 / 10000,
     radius_km := 1, is_restricted := true },
   { name := "Highway Rest Area", center_lat := 407505 / 10000, center_lon := -739934 / 10000,
     radius_km := 2, is_restricted := false }]

/-- The constructor of `AdvancedDataManager`; the three flags say whether the
log files could be opened. -/
def AdvancedDataManager.new (clk : Clock) (data_open anomaly_open performance_open : Bool) :
    AdvancedDataManager :=
  { vehicle_data_windows := fun _ => []
    detected_anomalies := fun _ => []
    vehicle_profiles := initializeVehicleProfiles clk
    geofences := initializeGeofences
    anomaly_priority_queue := []
    analytics := {}
    ml_detector := {}
    total_readings_processed := 0
    total_anomalies_detected := 0
    data_log_open := data_open
    anomaly_log_open := anomaly_open
    performance_log_open := performance_open
    data_log := []
    anomaly_log := []
    performance_log := []
    clock_reads := 0
    calls_started := 0 }

/-- A sequence of `processSensorReading` calls, each with its own clock. -/
def processAll (E : Env) (m : AdvancedDataManager) :
    List (Clock × SensorReading) → AdvancedDataManager
  | [] => m
  | (clk, reading) :: rest => processAll E (processSensorReading E clk m reading) rest

/-! ## The query surface

The queries take the lock and print from the store.  None of them reads the
clock or calls `updateVehicleState`; `now`, the clock time at which a query
runs, is an argument so that statements can name it. -/

/-- Method `printEnhancedAnalytics`: the state on its line `Current State:`, or
`none` when it prints that the vehicle has no data. -/
def printEnhancedAnalytics (E : Env) (_now : TimePoint) (m : AdvancedDataManager)
    (vehicle_id : Int) : Option VehicleState :=
  if (m.vehicle_data_windows vehicle_id).isEmpty then none
  else some (profileRef E (fun _ => _now) m vehicle_id).current_state

/-- Method `exportSystemReport`: the line `State:` of the block it writes for
profile `vehicle_id`, or `none` when the profile table has no such key. -/
def exportSystemReport (_now : TimePoint) (m : AdvancedDataManager) (vehicle_id : Int) :
    Option VehicleState :=
  (m.vehicle_profiles vehicle_id).map fun profile => profile.current_state

/-- What `printSystemStatus` prints from the store: the two counters and the
number of geofences.  It prints the state of no vehicle. -/
structure SystemStatus where
  total_readings : Int
  total_anomalies : Int
  geofences : Nat
deriving DecidableEq

/-- Method `printSystemStatus`. -/
def printSystemStatus (_now : TimePoint) (m : AdvancedDataManager) : SystemStatus :=
  { total_readings := m.total_readings_processed
    total_anomalies := m.total_anomalies_detected
    geofences := m.geofences.length }

/-! ## Rolling statistics (`AdvancedAnalytics::calculateStatistics`) -/

/-- The record `AdvancedAnalytics::Statistics`; every member defaults to 0. -/
structure Statistics where
  mean : ℚ := 0
  median : ℚ := 0
  std_deviation : ℚ := 0
  min_val : ℚ := 0
  max_val : ℚ := 0
  percentile_95 : ℚ := 0
  trend_slope : ℚ := 0
  coefficient_of_variation : ℚ := 0
  outlier_count : Int := 0
deriving DecidableEq

/-- The value of `static_cast<size_t>(x)` for a non-negative `x`: the integer part. -/
def truncToSize (x : ℚ) : Nat := (x.num / (x.den : Int)).toNat

/-- The loop of the trend slope over the values from index `i` on: it adds to
`sum_x`, `sum_y`, `sum_xy` and `sum_x2`. -/
def slopeLoop : Nat → List ℚ → ℚ × ℚ × ℚ × ℚ → ℚ × ℚ × ℚ × ℚ
  | _, [], acc => acc
  | i, y :: rest, acc =>
      slopeLoop (i + 1) rest
        (acc.1 + (i : ℚ), acc.2.1 + y, acc.2.2.1 + (i : ℚ) * y, acc.2.2.2 + ((i * i : Nat) : ℚ))

/-- The trend slope block of `calculateStatistics`. -/
def trendSlope (data : List ℚ) : ℚ :=
  let n := data.length
  if n ≥ 2 then
    let sums := slopeLoop 0 data (0, 0, 0, 0)
    let sum_x := sums.1
    let sum_y := sums.2.1
    let sum_xy := sums.2.2.1
    let sum_x2 := sums.2.2.2
    let n_d : ℚ := (n : ℚ)
    let denom := n_d * sum_x2 - sum_x * sum_x
    if denom ≠ 0 then (n_d * sum_xy - sum_x * sum_y) / denom else 0
  else 0

/-- Method `AdvancedAnalytics::calculateStatistics`; `std::sort` is the
ascending sort, and an index past the end of the sorted vector reads as 0. -/
def AdvancedAnalytics.calculateStatistics (E : Env) (data : List ℚ) : Statistics :=
  if data.isEmpty then {} else
  let sorted_data := data.insertionSort (fun a b => a ≤ b)
  let n := sorted_data.length
  let mean := data.sum / (n : ℚ)
  let median :=
    if n % 2 = 0 then (sorted_data.getD (n / 2 - 1) 0 + sorted_data.getD (n / 2) 0) / 2
    else sorted_data.getD (n / 2) 0
  let p95_idx := truncToSize (95 / 100 * ((n - 1 : Nat) : ℚ))
  let variance := (data.map fun val => (val - mean) * (val - mean)).sum
  let std_deviation := E.sqrt (variance / (n : ℚ))
  let lower_bound := mean - 2 * std_deviation
  let upper_bound := mean + 2 * std_deviation
  { mean := mean
    median := median
    std_deviation := std_deviation
    min_val := sorted_data.head?.getD 0
    max_val := sorted_data.getLast?.getD 0
    percentile_95 := sorted_data.getD p95_idx 0
    trend_slope := trendSlope data
    coefficient_of_variation := if mean ≠ 0 then std_deviation / |mean| else 0
    outlier_count :=
      ((data.countP fun val => decide (val < lower_bound ∨ val > upper_bound) : Nat) : Int) }

/-- Method `getSpeedStats`. -/
def AdvancedAnalytics.getSpeedStats (E : Env) (a : AdvancedAnalytics) (vehicle_id : Int) :
    Statistics :=
  AdvancedAnalytics.calculateStatistics E (a.speed_trends vehicle_id)

/-- Method `getRPMStats`. -/
def AdvancedAnalytics.getRPMStats (E : Env) (a : AdvancedAnalytics) (vehicle_id : Int) :
    Statistics :=
  AdvancedAnalytics.calculateStatistics E (a.rpm_trends vehicle_id)

/-- Method `getTempStats`. -/
def AdvancedAnalytics.getTempStats (E : Env) (a : AdvancedAnalytics) (vehicle_id : Int) :
    Statistics :=
  AdvancedAnalytics.calculateStatistics E (a.temp_trends vehicle_id)

/-- Method `getFuelStats`. -/
def AdvancedAnalytics.getFuelStats (E : Env) (a : AdvancedAnalytics) (vehicle_id : Int) :
    Statistics :=
  AdvancedAnalytics.calculateStatistics E (a.fuel_trends vehicle_id)

/-- Method `getAccelerationStats`. -/
def AdvancedAnalytics.getAccelerationStats (E : Env) (a : AdvancedAnalytics)
    (vehicle_id : Int) : Statistics :=
  AdvancedAnalytics.calculateStatistics E (a.acceleration_trends vehicle_id)

/-- The five statistics records that `printEnhancedAnalytics` prints (speed,
rpm, temperature, fuel, acceleration), or `none` when it prints that the
vehicle has no data. -/
def printedStatistics (E : Env) (m : AdvancedDataManager) (vehicle_id : Int) :
    Option (List Statistics) :=
  if (m.vehicle_data_windows vehicle_id).isEmpty then none
  else some
    [m.analytics.getSpeedStats E vehicle_id, m.analytics.getRPMStats E vehicle_id,
     m.analytics.getTempStats E vehicle_id, m.analytics.getFuelStats E vehicle_id,
     m.analytics.getAccelerationStats E vehicle_id]


/-- The nine-argument constructor of `SensorReading`; `now` is the clock value
it reads.  The source gives the last five arguments the defaults 50, 0, true, 0
and 0; the members it does not name keep their initialisers. -/
def SensorReading.new (now : TimePoint) (vid : Int) (speed r temp fuel throttle : ℚ)
    (engine : Bool) (lat lon : ℚ) : SensorReading :=
  { timestamp := now, vehicle_id := vid, speed_kmph := speed, rpm := r,
    engine_temp_celsius := temp, fuel_level_percent := fuel,
    throttle_position_percent := throttle, engine_on := engine, latitude := lat,
    longitude := lon }
/-! ## Auxiliary definitions for the proofs -/

/-- A profile with its anomaly counter advanced by `k`. -/
def bumpAnomalies (k : Int) (p : VehicleProfile) : VehicleProfile :=
  { p with total_anomalies := p.total_anomalies + k }

/-- The arguments of one call of `addEnhancedAnomaly`, the vehicle id apart. -/
structure Emission where
  sensor : String
  value : MaybeNaN
  type : AnomalyType
  description : String
  severity : Int
  location : String
  ml_score : ℚ
deriving DecidableEq

/-- One call of `addEnhancedAnomaly` with the arguments `e`. -/
def emit (clk : Clock) (vid : Int) (m : AdvancedDataManager) (e : Emission) :
    AdvancedDataManager :=
  addEnhancedAnomaly clk m vid e.sensor e.value e.type e.description e.severity e.location
    e.ml_score

/-- The calls of `addEnhancedAnomaly` for a list of arguments, in order. -/
def emitAll (clk : Clock) (vid : Int) : List Emission → AdvancedDataManager → AdvancedDataManager
  | [], m => m
  | e :: es, m => emitAll clk vid es (emit clk vid m e)

/-- The records that `emitAll` stores, the first one stamped with clock read `k`. -/
def stamp (clk : Clock) (vid : Int) (k : Nat) : List Emission → List AnomalyRecord
  | [] => []
  | e :: es =>
      AnomalyRecord.new (clk k) vid e.sensor e.value e.type e.description e.severity e.location ::
        stamp clk vid (k + 1) es

/-- The emissions of the instantaneous rules (speed, rpm, temperature,
acceleration, oil pressure, battery) of `detectEnhancedAnomalies`, in source order. -/
def instantEmissions (ml_score : ℚ) (current : SensorReading) : List Emission :=
  (if current.speed_kmph > 200 ∨ current.speed_kmph < -5 then
    [{ sensor := "speed", value := some current.speed_kmph, type := AnomalyType.SPEED_OUT_OF_RANGE,
       description := "Speed outside safe range", severity := 4, location := "",
       ml_score := ml_score }] else []) ++
  (if current.rpm > 8000 ∨
      (current.rpm < 400 ∧ current.engine_on = true ∧ current.speed_kmph > 10) then
    [{ sensor := "rpm", value := some current.rpm, type := AnomalyType.RPM_OUT_OF_RANGE,
       description := "RPM outside normal range", severity := 3, location := "",
       ml_score := ml_score }] else []) ++
  (if current.engine_temp_celsius > 110 then
    [{ sensor := "temperature", value := some current.engine_temp_celsius,
       type := AnomalyType.TEMP_OUT_OF_RANGE,
       description := "Engine overheating detected", severity := 5, location := "",
       ml_score := ml_score }] else []) ++
  (if |current.acceleration_ms2| > 6 then
    [{ sensor := "acceleration", value := some current.acceleration_ms2,
       type := if current.acceleration_ms2 > 0 then AnomalyType.HARSH_ACCELERATION
               else AnomalyType.HARSH_BRAKING,
       description := if current.acceleration_ms2 > 0 then "Harsh acceleration detected"
                      else "Harsh braking detected",
       severity := 3, location := "", ml_score := ml_score }] else []) ++
  (if current.oil_pressure_bar < 1 ∧ current.engine_on = true then
    [{ sensor := "oil_pressure", value := some current.oil_pressure_bar,
       type := AnomalyType.SENSOR_FAILURE,
       description := "Critically low oil pressure", severity := 5, location := "",
       ml_score := ml_score }] else []) ++
  (if current.battery_voltage < 11 ∨ current.battery_voltage > 15 then
    [{ sensor := "battery", value := some current.battery_voltage,
       type := AnomalyType.SENSOR_FAILURE,
       description := "Battery voltage abnormal", severity := 3, location := "",
       ml_score := ml_score }] else [])

/-- The emission of the fuel-leak rule of `detectEnhancedAnomalies`. -/
def fuelEmissions (ml_score : ℚ) (window : List SensorReading) : List Emission :=
  if window.length ≥ 10 ∧ calculateFuelDropRate window > 2 then
    [{ sensor := "fuel", value := some (calculateFuelDropRate window), type := AnomalyType.FUEL_LEAK,
       description := "Potential fuel leak detected", severity := 4, location := "",
       ml_score := ml_score }]
  else []

/-- The emission of the baseline rule of `detectEnhancedAnomalies`. -/
def mlEmissions (ml_score : ℚ) : List Emission :=
  if ml_score > 3 then
    [{ sensor := "ml_pattern", value := some ml_score, type := AnomalyType.ERRATIC_BEHAVIOR,
       description := "ML detected unusual pattern", severity := 3, location := "",
       ml_score := ml_score }]
  else []

/-- The emissions of `detectEnhancedAnomalies` before its maintenance check. -/
def detectEmissions (ml_score : ℚ) (current : SensorReading) (window : List SensorReading) :
    List Emission :=
  instantEmissions ml_score current ++ fuelEmissions ml_score window ++ mlEmissions ml_score

/-- The emission of `checkGeofenceViolations` for one fence. -/
def geofenceEmission (geofence : Geofence) : Emission :=
  { sensor := "location", value := some 0, type := AnomalyType.GEOFENCE_VIOLATION,
    description := "Vehicle entered restricted area: " ++ geofence.name, severity := 4,
    location := geofence.name, ml_score := 0 }

/-- The restricted fences of a table that contain the position of a sample, in table order. -/
def violatedFences (E : Env) (fences : List Geofence) (reading : SensorReading) : List Geofence :=
  fences.filter fun g => g.is_restricted && g.isInside E reading.latitude reading.longitude

/-- The condition of `checkMaintenanceRequirements` on a profile and a sample. -/
def maintenanceDue (profile : VehicleProfile) (reading : SensorReading) : Prop :=
  MaybeNaN.gt profile.total_distance_km (profile.maintenance_interval_km : ℚ) ∨
    toHours (reading.timestamp - profile.last_maintenance) > 24 * 30 * 3

instance (profile : VehicleProfile) (reading : SensorReading) :
    Decidable (maintenanceDue profile reading) := by
  unfold maintenanceDue
  infer_instance

/-- The emission of `checkMaintenanceRequirements`. -/
def maintenanceEmission (profile : VehicleProfile) : Emission :=
  { sensor := "maintenance", value := profile.total_distance_km,
    type := AnomalyType.MAINTENANCE_REQUIRED, description := "Scheduled maintenance due",
    severity := 2, location := "", ml_score := 0 }

/-- One guarded call of `addEnhancedAnomaly` in `detectEnhancedAnomalies`. -/
def stepIf (clk : Clock) (v : Int) (c : Prop) [Decidable c] (e : Emission)
    (s : AdvancedDataManager × Bool) : AdvancedDataManager × Bool :=
  if c then (emit clk v s.1 e, true) else s

/-- A call of `addEnhancedAnomaly` under two nested guards. -/
def stepIf2 (clk : Clock) (v : Int) (a b : Prop) [Decidable a] [Decidable b] (e : Emission)
    (s : AdvancedDataManager × Bool) : AdvancedDataManager × Bool :=
  if a then (if b then (emit clk v s.1 e, true) else s) else s

/-- The window step of `processSensorReading`: append, then drop the front
sample when the length exceeds `WINDOW_SIZE`. -/
def pushEvict (window : List SensorReading) (reading : SensorReading) : List SensorReading :=
  if (window ++ [reading]).length > WINDOW_SIZE then (window ++ [reading]).tail
  else window ++ [reading]

/-- The store of `processSensorReading` when it reaches `detectEnhancedAnomalies`:
counter, profile, window, trend buffers and baseline are updated. -/
def ingested (E : Env) (clk : Clock) (m : AdvancedDataManager) (reading : SensorReading) :
    AdvancedDataManager :=
  let m := { m with clock_reads := 0, calls_started := m.calls_started + 1 }
  let vehicle_id := reading.vehicle_id
  let m := countReading m
  let m :=
    if (m.vehicle_profiles vehicle_id).isSome then
      updateVehicleProfile E clk m vehicle_id reading
    else m
  let m := appendToWindow m reading
  let m := { m with analytics := m.analytics.updateTrends vehicle_id reading }
  trainPeriodically E m vehicle_id

/-- The store of `processSensorReading` when it reaches `updateVehicleState`. -/
def beforeTransition (E : Env) (clk : Clock) (m : AdvancedDataManager)
    (reading : SensorReading) : AdvancedDataManager :=
  let m := ingested E clk m reading
  let m :=
    (detectEnhancedAnomalies E clk m reading (m.vehicle_data_windows reading.vehicle_id)).1
  let m := checkGeofenceViolations E clk m reading
  logReading m reading

/-! ## Concrete inputs for the worked examples -/

/-- Newton iteration for the integer square root of `n`, starting from `x`. -/
def isqrtIter (n : Nat) : Nat → Nat → Nat
  | 0, x => x
  | fuel + 1, x =>
      let y := (x + n / x) / 2
      if y < x then isqrtIter n fuel y else x

/-- The integer square root: the largest `r` with `r * r ≤ n`. -/
def isqrt (n : Nat) : Nat :=
  if n < 2 ^ 102 then isqrtIter n 128 (2 ^ 51)
  else if n < 2 ^ 204 then isqrtIter n 256 (2 ^ 102)
  else isqrtIter n (2 * n) n

/-- A rational square root: the argument is rounded down to a multiple of
`1e-30` and the root to a multiple of `1e-15`; 0 on negative arguments. -/
def sqrtApprox (x : ℚ) : ℚ :=
  if x ≤ 0 then 0
  else (isqrt (x.num.toNat * 1000000000000000000000000000000 / x.den) : ℚ) / 1000000000000000

/-- The sine polynomial of degree 11, in Horner form. -/
def sinApprox (x : ℚ) : ℚ :=
  x * (1 - x * x / 6 * (1 - x * x / 20 * (1 - x * x / 42 * (1 - x * x / 72 *
    (1 - x * x / 110)))))

/-- The cosine polynomial of degree 10, in Horner form. -/
def cosApprox (x : ℚ) : ℚ :=
  1 - x * x / 2 * (1 - x * x / 12 * (1 - x * x / 30 * (1 - x * x / 56 *
    (1 - x * x / 90))))

/-- The arctangent polynomial of degree 9, for arguments between 0 and 1. -/
def atanApprox (t : ℚ) : ℚ :=
  t * (1 - t * t * (1 / 3 - t * t * (1 / 5 - t * t * (1 / 7 - t * t / 9))))

/-- An `atan2` for `y ≥ 0` and `x ≥ 0`, the arguments that `haversine` passes:
the polynomial on the smaller quotient, reflected at `M_PI / 2` past 45 degrees. -/
def atan2Approx (y x : ℚ) : ℚ :=
  if y = 0 then 0
  else if y ≤ x then atanApprox (y / x)
  else M_PI / 2 - atanApprox (x / y)

/-- One admissible environment, used to run the model on concrete inputs: libm
is replaced by polynomial and Newton approximations over the rationals, which
return the exact values `sin 0 = 0`, `cos 0 = 1`, `sqrt 0 = 0`, `sqrt 1 = 1`
and `atan2 0 x = 0`, so the distance of a point to itself is exactly 0 as in
the source.  Local time is read as midnight on day 0, every read of a
never-assigned `double` yields 0, and a default-constructed profile carries
the id 0. -/
def exampleEnv : Env :=
  { sin := sinApprox
    cos := cosApprox
    sqrt := sqrtApprox
    atan2 := atan2Approx
    localtime := fun _ => { tm_hour := 0, tm_min := 0, tm_wday := 0 }
    indeterminate := fun _ _ => 0
    default_vehicle_id := 0 }

/-- A clock that stands still at `t`. -/
def constClock (t : TimePoint) : Clock := fun _ => t

/-- A freshly constructed manager, built at clock time `t`, all sinks open. -/
def freshManager (t : TimePoint) : AdvancedDataManager :=
  AdvancedDataManager.new (constClock t) true true true

/-- An unremarkable sample of vehicle `vid` stamped `t`: 50 km/h, 2500 rpm,
90 degrees, fuel 80, oil pressure 3 bar, battery 12 V, position (0, 0). -/
def calmReading (vid : Int) (t : TimePoint) : SensorReading :=
  { timestamp := t, vehicle_id := vid, speed_kmph := 50, rpm := 2500,
    engine_temp_celsius := 90, fuel_level_percent := 80, oil_pressure_bar := 3 }

/-- The call list of `n` calm samples of vehicle `vid`, all processed and stamped at `t`. -/
def calmCalls (vid : Int) (t : TimePoint) (n : Nat) : List (Clock × SensorReading) :=
  List.replicate n (constClock t, calmReading vid t)

/-- A manager whose window of vehicle 7 is full: 200 calm samples stamped 0 .. 199. -/
def fullWindowManager : AdvancedDataManager :=
  { freshManager 0 with
    vehicle_data_windows := fun v =>
      if v = 7 then (List.range 200).map fun (i : Nat) => calmReading 7 (Int.ofNat i) else [] }

/-! ## The rule table as the specification words it -/

/-- Rules R1 to R7 of the specification's table: kind token and severity of
every rule whose condition holds, in table order. -/
def specInstantRules (S : SensorReading) : List (String × Int) :=
  (if S.speed_kmph > 200 ∨ S.speed_kmph < -5 then [("SPEED_RANGE", 4)] else []) ++
  (if S.rpm > 8000 ∨ (S.rpm < 400 ∧ S.engine_on = true ∧ S.speed_kmph > 10) then
    [("RPM_RANGE", 3)] else []) ++
  (if S.engine_temp_celsius > 110 then [("TEMP_RANGE", 5)] else []) ++
  (if S.acceleration_ms2 > 6 then [("HARSH_ACCEL", 3)] else []) ++
  (if S.acceleration_ms2 < -6 then [("HARSH_BRAKE", 3)] else []) ++
  (if S.oil_pressure_bar < 1 ∧ S.engine_on = true then [("SENSOR_FAIL", 5)] else []) ++
  (if S.battery_voltage < 11 ∨ S.battery_voltage > 15 then [("SENSOR_FAIL", 3)] else [])

/-- Kind token and severity of a stored anomaly. -/
def kindAndSeverity (a : AnomalyRecord) : String × Int := (a.getTypeString, a.severity)

/-- Kind token and severity that an emission is stored with. -/
def emissionKey (e : Emission) : String × Int :=
  ((AnomalyRecord.new 0 0 e.sensor e.value e.type e.description e.severity
    e.location).getTypeString, e.severity)

/-! ## One whole call -/

/-- A profile with its state set to `MAINTENANCE`. -/
def markMaintenance (p : VehicleProfile) : VehicleProfile :=
  { p with current_state := VehicleState.MAINTENANCE }

/-- The baseline score of a call. -/
def callScore (E : Env) (clk : Clock) (m : AdvancedDataManager) (reading : SensorReading) : ℚ :=
  (ingested E clk m reading).ml_detector.calculateAnomalyScore E reading.vehicle_id reading
    (E.indeterminate (ingested E clk m reading).calls_started 0)

/-- The emissions of the detection rules of a call. -/
def callDetections (E : Env) (clk : Clock) (m : AdvancedDataManager)
    (reading : SensorReading) : List Emission :=
  detectEmissions (callScore E clk m reading) reading
    ((ingested E clk m reading).vehicle_data_windows reading.vehicle_id)

/-- The profile that the maintenance check of a call reads (its anomaly counter
apart): the stored one, or for an absent key the one inserted by the access,
whose constructor reads the clock after the records of the detection rules. -/
def checkedProfile (E : Env) (clk : Clock) (m : AdvancedDataManager)
    (reading : SensorReading) : VehicleProfile :=
  ((ingested E clk m reading).vehicle_profiles reading.vehicle_id).getD
    (insertedProfile E clk (callDetections E clk m reading).length)

/-- The maintenance emission of a call, if the check fires. -/
def maintenanceEmissions (E : Env) (clk : Clock) (m : AdvancedDataManager)
    (reading : SensorReading) : List Emission :=
  if maintenanceDue (checkedProfile E clk m reading) reading then
    [maintenanceEmission (checkedProfile E clk m reading)]
  else []

/-- All emissions of one `processSensorReading` call, in the order of the calls
of `addEnhancedAnomaly`: detection rules, maintenance check, geofence loop. -/
def callEmissions (E : Env) (clk : Clock) (m : AdvancedDataManager)
    (reading : SensorReading) : List Emission :=
  callDetections E clk m reading ++
    maintenanceEmissions E clk m reading ++
    (violatedFences E m.geofences reading).map geofenceEmission

/-- The profile that the maintenance check reads after `n` anomalies have been
stored since the store `m`: the stored one, or the one that the access inserts
at the clock reads that follow. -/
def profileAfter (E : Env) (clk : Clock) (m : AdvancedDataManager) (v : Int) (n : Nat) :
    VehicleProfile :=
  (m.vehicle_profiles v).getD (insertedProfile E clk (m.clock_reads + n))

/-- The clock reads that the access `vehicle_profiles[id]` of the maintenance
check takes in a call: none when the vehicle has a profile, the two of the
constructor when the access inserts one. -/
def insertionReads (m : AdvancedDataManager) (reading : SensorReading) : Nat :=
  if (m.vehicle_profiles reading.vehicle_id).isSome then 0 else 2

/-- The anomaly records that one `processSensorReading` call stores under the
id of its sample, in order: each record is stamped with its own clock read, and
the records of the maintenance check and of the geofence loop come after the
clock reads of an inserted profile. -/
def callRecords (E : Env) (clk : Clock) (m : AdvancedDataManager)
    (reading : SensorReading) : List AnomalyRecord :=
  stamp clk reading.vehicle_id 0 (callDetections E clk m reading) ++
    stamp clk reading.vehicle_id
      ((callDetections E clk m reading).length + insertionReads m reading)
      (maintenanceEmissions E clk m reading ++
        (violatedFences E m.geofences reading).map geofenceEmission)

/-! ## The state machine -/

/-- The number of recent anomalies of severity 5 that `updateVehicleState` counts. -/
def recentCritical (now : TimePoint) (anomalies : List AnomalyRecord) : Nat :=
  anomalies.countP fun anomaly => isRecent now anomaly && decide (anomaly.severity = 5)

/-- The number of recent anomalies of severity 4 that `updateVehicleState` counts. -/
def recentHigh (now : TimePoint) (anomalies : List AnomalyRecord) : Nat :=
  anomalies.countP fun anomaly =>
    isRecent now anomaly && decide (anomaly.severity ≠ 5) && decide (anomaly.severity = 4)

/-- The state that `updateVehicleState` stores, from the clock value it reads,
the anomalies of the vehicle and the profile it finds. -/
def transitionState (now : TimePoint) (anomalies : List AnomalyRecord)
    (profile : VehicleProfile) : VehicleState :=
  if toSeconds (now - profile.last_seen) > 30 then VehicleState.OFFLINE
  else if recentCritical now anomalies > 0 then VehicleState.CRITICAL
  else if recentHigh now anomalies > 2 then VehicleState.WARNING
  else if profile.current_state ≠ VehicleState.MAINTENANCE then VehicleState.NORMAL
  else profile.current_state

/-- The state rule of the specification: `offline` is the liveness test, `c5`
and `c4` the numbers of recent anomalies of severity 5 and 4, `prior` the state
just before the transition. -/
def specState (offline : Prop) [Decidable offline] (c5 c4 : Nat) (prior : VehicleState) :
    VehicleState :=
  if offline then VehicleState.OFFLINE
  else if c5 > 0 then VehicleState.CRITICAL
  else if c4 > 2 then VehicleState.WARNING
  else if prior = VehicleState.MAINTENANCE then VehicleState.MAINTENANCE
  else VehicleState.NORMAL

/-- The clock value that the state transition of a call reads. -/
def transitionClock (E : Env) (clk : Clock) (m : AdvancedDataManager)
    (reading : SensorReading) : TimePoint :=
  clk (beforeTransition E clk m reading).clock_reads

/-- The test for the kind `TEMP_OUT_OF_RANGE` on a stored anomaly. -/
def isTempRecord (a : AnomalyRecord) : Bool := decide (a.type = AnomalyType.TEMP_OUT_OF_RANGE)

/-- The test for the kind `TEMP_OUT_OF_RANGE` on an emission. -/
def isTempEmission (e : Emission) : Bool := decide (e.type = AnomalyType.TEMP_OUT_OF_RANGE)

/-- The emission of the temperature rule. -/
def tempEmission (ml_score : ℚ) (current : SensorReading) : Emission :=
  { sensor := "temperature", value := some current.engine_temp_celsius,
    type := AnomalyType.TEMP_OUT_OF_RANGE, description := "Engine overheating detected",
    severity := 5, location := "", ml_score := ml_score }

/-- The overheat sample of the end-to-end scenario, built as the nine-argument
constructor builds it (oil pressure 0, battery 12 V, position (0, 0)): speed 50,
rpm 2500, temperature 115, fuel 80, acceleration 0, stamped `t`. -/
def overheatReading (vid : Int) (t : TimePoint) : SensorReading :=
  { timestamp := t, vehicle_id := vid, speed_kmph := 50, rpm := 2500,
    engine_temp_celsius := 115, fuel_level_percent := 80 }

/-- Vehicle 7 after 60 calm samples at 90 degrees, all at clock time 0. -/
def seededManager : AdvancedDataManager :=
  processAll exampleEnv (freshManager 0) (calmCalls 7 0 60)

/-- A calm sample of vehicle 7 stamped 0 and processed on a fresh manager while
the clock reads 30.5 seconds. -/
def lateManager : AdvancedDataManager :=
  processSensorReading exampleEnv (constClock 30500000000) (freshManager 0) (calmReading 7 0)

/-- A calm sample of vehicle 12 stamped 0 and processed at clock time 0 on a
fresh manager: the store that later queries read. -/
def silentManager : AdvancedDataManager :=
  processSensorReading exampleEnv (constClock 0) (freshManager 0) (calmReading 12 0)

/-- Clock time 61 days after the construction of `freshManager 0`, that is 91
days after the `last_maintenance` of its profiles. -/
def dueTime : TimePoint := hours (24 * 61)

/-- A calm sample of vehicle 7 stamped and processed at `dueTime` on a fresh
manager: maintenance is due by time. -/
def maintenanceManager : AdvancedDataManager :=
  processSensorReading exampleEnv (constClock dueTime) (freshManager 0) (calmReading 7 dueTime)

/-- The overheat sample of vehicle 7 processed next, at the same clock time. -/
def overheatedManager : AdvancedDataManager :=
  processSensorReading exampleEnv (constClock dueTime) maintenanceManager
    (overheatReading 7 dueTime)

/-- The state stored for a vehicle, if it has a profile. -/
def stateOf (m : AdvancedDataManager) (v : Int) : Option VehicleState :=
  (m.vehicle_profiles v).map fun p => p.current_state

/-- A manager built at clock time 30 days, so that every profile has
`last_maintenance = 0`. -/
def servicedManager : AdvancedDataManager := freshManager (hours (24 * 30))

/-- Ninety days and thirty minutes, in clock ticks. -/
def ninetyDaysAndHalfHour : TimePoint := hours (24 * 90) + 30 * (60 * ticksPerSecond)

/-- The stored anomaly of the maintenance rule, stamped `now`. -/
def maintenanceRecord (now : TimePoint) (v : Int) (p : VehicleProfile) : AnomalyRecord :=
  AnomalyRecord.new now v "maintenance" p.total_distance_km AnomalyType.MAINTENANCE_REQUIRED
    "Scheduled maintenance due" 2 ""

/-! ## Fuel leak and geofence examples -/

/-- The drop rate as the specification words it: the fuel difference between the
tenth-newest and the newest sample divided by the minutes elapsed between them
(an exact quotient), and 0 when the elapsed time is not positive. -/
def specDropRate (H : List SensorReading) : ℚ :=
  if h : H.length < 10 then 0 else
  let oldest := H.get ⟨H.length - 10, by omega⟩
  let newest := H.get ⟨H.length - 1, by omega⟩
  let elapsed : Int := newest.timestamp - oldest.timestamp
  if elapsed ≤ 0 then 0 else
  (oldest.fuel_level_percent - newest.fuel_level_percent) /
    ((elapsed : ℚ) / ((60 * ticksPerSecond : Int) : ℚ))

/-- The test for a kind on a stored anomaly. -/
def isKindRecord (t : AnomalyType) (a : AnomalyRecord) : Bool := decide (a.type = t)

/-- The test for a kind on an emission. -/
def isKindEmission (t : AnomalyType) (e : Emission) : Bool := decide (e.type = t)

/-- Kind token, severity, sensor label, value and location label of a stored anomaly. -/
def recordView (a : AnomalyRecord) : String × Int × String × MaybeNaN × String :=
  (a.getTypeString, a.severity, a.sensor_name, a.value, a.location_info)

/-- The view that an emission is stored with. -/
def emissionView (e : Emission) : String × Int × String × MaybeNaN × String :=
  recordView (AnomalyRecord.new 0 0 e.sensor e.value e.type e.description e.severity e.location)

/-- Sample `i` of a run of vehicle 3: stamped `i * step` ticks, fuel `80 - i * drop`. -/
def fuelReading (step : Int) (drop : ℚ) (i : Nat) : SensorReading :=
  { calmReading 3 (Int.ofNat i * step) with fuel_level_percent := 80 - (i : ℚ) * drop }

/-- The first `n` samples of such a run. -/
def fuelWindow (step : Int) (drop : ℚ) (n : Nat) : List SensorReading :=
  (List.range n).map (fuelReading step drop)

/-- The calls that process the first `n` samples of such a run, each at its own timestamp. -/
def fuelCalls (step : Int) (drop : ℚ) (n : Nat) : List (Clock × SensorReading) :=
  (List.range n).map fun i => (constClock (Int.ofNat i * step), fuelReading step drop i)

/-- Ticks between the samples of a run of ten samples that is spread over two minutes. -/
def twoMinuteStep : Int := 13333333334

/-- Fuel drop between the samples of a run of ten samples that falls from 80 to 60. -/
def twentyPercentDrop : ℚ := 20 / 9

/-- The built-in restricted fence "School Zone". -/
def schoolZone : Geofence :=
  { name := "School Zone", center_lat := 407589 / 10000, center_lon := -739851 / 10000,
    radius_km := 1, is_restricted := true }

/-- A second restricted fence around the same centre, radius 2 km. -/
def campusZone : Geofence :=
  { name := "Campus", center_lat := 407589 / 10000, center_lon := -739851 / 10000,
    radius_km := 2, is_restricted := true }

/-- A fresh manager whose geofence table holds the two overlapping restricted fences. -/
def overlapManager : AdvancedDataManager :=
  { freshManager 0 with geofences := [schoolZone, campusZone] }

/-- A calm sample of vehicle `vid` at position (`lat`, `lon`), stamped `t`. -/
def positionedReading (vid : Int) (t : TimePoint) (lat lon : ℚ) : SensorReading :=
  { calmReading vid t with latitude := lat, longitude := lon }

/-- The sample of the geofence scenario: vehicle 5 at (40.7590, -73.9852). -/
def schoolReading : SensorReading :=
  positionedReading 5 0 (407590 / 10000) (-739852 / 10000)

/-- A sample of vehicle 5 at the very centre of the two overlapping fences. -/
def centreReading : SensorReading :=
  positionedReading 5 0 (407589 / 10000) (-739851 / 10000)

/-- The view of the anomaly that the geofence loop stores for a fence. -/
def geofenceView (g : Geofence) : String × Int × String × MaybeNaN × String :=
  ("GEOFENCE", 4, "location", some 0, g.name)

/-! ## Runs -/

/-- The samples of vehicle `v` in a list of calls, in processing order. -/
def samplesOf (v : Int) (calls : List (Clock × SensorReading)) : List SensorReading :=
  (calls.map fun c => c.2).filter fun r => decide (r.vehicle_id = v)

/-- The distance that `updateVehicleProfile` adds for a sample: the haversine
distance from the last route point, nothing when the route is empty. -/
def addedDistance (E : Env) (p : VehicleProfile) (reading : SensorReading) : MaybeNaN :=
  match p.route_history.getLast? with
  | some last_pos => haversine E reading.latitude reading.longitude last_pos.1 last_pos.2
  | none => some 0

/-! ## Order of the rules and score of the lines -/

/-- A calm sample of vehicle 5 at (40.7590, -73.9852), stamped `dueTime`: inside
"School Zone" and with maintenance due by time. -/
def dueSchoolReading : SensorReading :=
  positionedReading 5 dueTime (407590 / 10000) (-739852 / 10000)

/-- That sample processed at clock time `dueTime` on a fresh manager. -/
def bothFireManager : AdvancedDataManager :=
  processSensorReading exampleEnv (constClock dueTime) (freshManager 0) dueSchoolReading

/-- The lines that `emitAll` writes to an open anomaly sink, the first one
stamped with clock read `k`. -/
def stampLines (clk : Clock) (vid : Int) (k : Nat) : List Emission → List AnomalyLine
  | [] => []
  | e :: es =>
      { timestamp := clk k, vehicle_id := vid, sensor := e.sensor, value := e.value,
        type := (AnomalyRecord.new (clk k) vid e.sensor e.value e.type e.description e.severity
          e.location).getTypeString,
        description := e.description, severity := e.severity,
        priority := (AnomalyRecord.new (clk k) vid e.sensor e.value e.type e.description
          e.severity e.location).priority,
        location := e.location, ml_score := e.ml_score } ::
        stampLines clk vid (k + 1) es

/-- The lines that one `processSensorReading` call appends to an open anomaly
sink, in order; they are stamped with the same clock reads as the records of
`callRecords`. -/
def callLines (E : Env) (clk : Clock) (m : AdvancedDataManager)
    (reading : SensorReading) : List AnomalyLine :=
  stampLines clk reading.vehicle_id 0 (callDetections E clk m reading) ++
    stampLines clk reading.vehicle_id
      ((callDetections E clk m reading).length + insertionReads m reading)
      (maintenanceEmissions E clk m reading ++
        (violatedFences E m.geofences reading).map geofenceEmission)

/-- Kind token and severity of a line of the anomaly sink. -/
def lineKey (l : AnomalyLine) : String × Int := (l.type, l.severity)

/-- The store of `processSensorReading` when it reaches its training block. -/
def preTraining (E : Env) (clk : Clock) (m : AdvancedDataManager) (reading : SensorReading) :
    AdvancedDataManager :=
  let m := { m with clock_reads := 0, calls_started := m.calls_started + 1 }
  let vehicle_id := reading.vehicle_id
  let m := countReading m
  let m :=
    if (m.vehicle_profiles vehicle_id).isSome then
      updateVehicleProfile E clk m vehicle_id reading
    else m
  let m := appendToWindow m reading
  { m with analytics := m.analytics.updateTrends vehicle_id reading }

/-- A manager with a trained baseline for vehicle 7: 100 calm samples processed. -/
def trainedManager : AdvancedDataManager :=
  processAll exampleEnv (freshManager 0) (calmCalls 7 0 100)

/-- A sample of vehicle 7 at 115 degrees inside "School Zone". -/
def hotSchoolReading : SensorReading :=
  { positionedReading 7 0 (407590 / 10000) (-739852 / 10000) with engine_temp_celsius := 115 }

/-- That sample processed at clock time 0 on the trained manager. -/
def scoredManager : AdvancedDataManager :=
  processSensorReading exampleEnv (constClock 0) trainedManager hotSchoolReading

/-! ## Counters of anomalies -/

/-- The ids of the catalogue of `initializeVehicleProfiles`. -/
def catalogueIds : List Int :=
  [1, 2, 3, 4, 5, 6, 7, 8, 9, 10, 11, 12, 13, 14, 15, 16, 17, 18, 19, 20]

/-- A vehicle id is catalogued when `initializeVehicleProfiles` builds its profile. -/
def catalogued (v : Int) : Prop := 1 ≤ v ∧ v ≤ 20

instance (v : Int) : Decidable (catalogued v) := by
  unfold catalogued
  infer_instance

/-- The counter `total_anomalies` stored for id `v`, 0 when `v` has no profile. -/
def profileTotal (m : AdvancedDataManager) (v : Int) : Int :=
  ((m.vehicle_profiles v).map fun p => p.total_anomalies).getD 0

/-- The sum of `total_anomalies` over the profiles of the catalogue. -/
def sumTotals (m : AdvancedDataManager) : Int :=
  (catalogueIds.map (profileTotal m)).sum

/-- Every sample of a call list carries a catalogued vehicle id. -/
def allCatalogued (calls : List (Clock × SensorReading)) : Prop :=
  ∀ c ∈ calls, catalogued c.2.vehicle_id

/-- An overheating sample of the uncatalogued vehicle 99, processed at clock
time 0 on a fresh manager. -/
def strangerManager : AdvancedDataManager :=
  processSensorReading exampleEnv (constClock 0) (freshManager 0) (overheatReading 99 0)

/-- The position of a sample, as `route_history` stores it. -/
def positionOf (r : SensorReading) : ℚ × ℚ := (r.latitude, r.longitude)

/-- Two samples of vehicle 7 that arrive out of order: stamped 10, then 5. -/
def outOfOrderCalls : List (Clock × SensorReading) :=
  [(constClock 10, calmReading 7 10), (constClock 10, calmReading 7 5)]

/-- The store after the two out-of-order samples. -/
def outOfOrderManager : AdvancedDataManager :=
  processAll exampleEnv (freshManager 0) outOfOrderCalls

/-- The distance a sample adds as the specification words it: nothing for the
first sample of a vehicle, otherwise the haversine distance from the position
of the vehicle's previous sample. -/
def specAddedDistance (E : Env) (previous : Option SensorReading) (reading : SensorReading) :
    MaybeNaN :=
  match previous with
  | none => some 0
  | some prev => haversine E reading.latitude reading.longitude prev.latitude prev.longitude

/-- The feature vector that `calculateAnomalyScore` builds from a sample; its
`fuel_consumption_rate` is never assigned and reads as `stale`. -/
def scoreFeatures (E : Env) (reading : SensorReading) (stale : ℚ) : FeatureVector :=
  { speed := reading.speed_kmph
    rpm := reading.rpm
    temperature := reading.engine_temp_celsius
    acceleration := reading.acceleration_ms2
    fuel_consumption_rate := stale
    time_of_day :=
      ((E.localtime reading.timestamp).tm_hour : ℚ) +
        ((E.localtime reading.timestamp).tm_min : ℚ) / 60
    day_of_week := ((E.localtime reading.timestamp).tm_wday : ℚ) }

/-! ## The score as the specification words it -/

/-- The seven features of a vector, in the order of the baseline vectors. -/
def featureList (fv : FeatureVector) : List ℚ :=
  [fv.speed, fv.rpm, fv.temperature, fv.acceleration, fv.fuel_consumption_rate,
   fv.time_of_day, fv.day_of_week]

/-- The score of the specification: the square root of the sum over the seven
features of `((f_i - mu_i) / (sigma_i + 1e-6))^2`. -/
def specScore (E : Env) (f mu sigma : List ℚ) : ℚ :=
  E.sqrt (((List.range 7).map fun (i : Nat) =>
    ((f.getD i 0 - mu.getD i 0) / (sigma.getD i 0 + 1 / 1000000)) *
      ((f.getD i 0 - mu.getD i 0) / (sigma.getD i 0 + 1 / 1000000))).sum)

/-- The fuel consumption rate of the specification for a consecutive pair: the
fuel difference divided by the elapsed time in seconds, 0 when that time is
not positive. -/
def specFuelRate (previous current : SensorReading) : ℚ :=
  let dt : ℚ := ((current.timestamp - previous.timestamp : Int) : ℚ) / (ticksPerSecond : ℚ)
  if dt ≤ 0 then 0 else (previous.fuel_level_percent - current.fuel_level_percent) / dt

/-- A sample of vehicle 7 stamped `t` with fuel level `fuel`. -/
def fuelSample (t : TimePoint) (fuel : ℚ) : SensorReading :=
  { calmReading 7 t with fuel_level_percent := fuel }

/-! ## Unknown ids, harsh events and recent anomalies -/

/-- A calm sample of the uncatalogued vehicle 99, stamped and processed at
clock time 0 on a fresh manager. -/
def calmStrangerManager : AdvancedDataManager :=
  processSensorReading exampleEnv (constClock 0) (freshManager 0) (calmReading 99 0)

/-- A calm sample of the uncatalogued vehicle 99 whose timestamp is `dueTime`,
61 days ahead of the clock, processed at clock time 0 on a fresh manager. -/
def aheadStrangerManager : AdvancedDataManager :=
  processSensorReading exampleEnv (constClock 0) (freshManager 0) (calmReading 99 dueTime)

/-- A sample of vehicle 3 accelerating at 13.9 m/s^2, otherwise calm. -/
def harshReading : SensorReading :=
  { calmReading 3 0 with acceleration_ms2 := 139 / 10 }

/-- Five minutes and thirty seconds, in ticks. -/
def fiveMinutesThirty : TimePoint := 330 * ticksPerSecond

/-- An overheating sample of vehicle 7 processed at clock time 0, then a calm
sample of vehicle 7 stamped and processed 5 minutes 30 seconds later. -/
def agedManager : AdvancedDataManager :=
  processAll exampleEnv (freshManager 0)
    [(constClock 0, overheatReading 7 0),
     (constClock fiveMinutesThirty, calmReading 7 fiveMinutesThirty)]

/-- The anomalies that the specification's rule counts toward C5 or C4: those
of the given severity whose age `now - timestamp` is at most 5 minutes. -/
def specRecentCount (severity : Int) (now : TimePoint) (anomalies : List AnomalyRecord) : Nat :=
  anomalies.countP fun a =>
    decide (now - a.timestamp ≤ 5 * (60 * ticksPerSecond)) && decide (a.severity = severity)

/-- The anomalies of the given severity whose age in whole minutes is at most
5, that is, whose age is below 6 minutes. -/
def wholeMinuteCount (severity : Int) (now : TimePoint) (anomalies : List AnomalyRecord) : Nat :=
  anomalies.countP fun a =>
    decide (now - a.timestamp < 6 * (60 * ticksPerSecond)) && decide (a.severity = severity)

/-! ## The statistics as the specification words them -/

/-- The ordinary-least-squares slope of a sequence against the indices
`0 .. n-1`: `(n*sum(i*x_i) - sum(i)*sum(x_i)) / (n*sum(i^2) - (sum(i))^2)`, and
0 when `n < 2` or the denominator is 0. -/
def specSlope (X : List ℚ) : ℚ :=
  let n := X.length
  if n < 2 then 0 else
  let sum_i := ((List.range n).map fun (i : Nat) => (i : ℚ)).sum
  let sum_x := ((List.range n).map fun (i : Nat) => X.getD i 0).sum
  let sum_ix := ((List.range n).map fun (i : Nat) => (i : ℚ) * X.getD i 0).sum
  let sum_ii := ((List.range n).map fun (i : Nat) => (i : ℚ) * (i : ℚ)).sum
  let denom := (n : ℚ) * sum_ii - sum_i * sum_i
  if denom = 0 then 0 else ((n : ℚ) * sum_ix - sum_i * sum_x) / denom

/-- The five field sequences of a window, in the order speed, rpm,
temperature, fuel, acceleration. -/
def windowFields (window : List SensorReading) : List (List ℚ) :=
  [window.map fun r => r.speed_kmph, window.map fun r => r.rpm,
   window.map fun r => r.engine_temp_celsius, window.map fun r => r.fuel_level_percent,
   window.map fun r => r.acceleration_ms2]

/-- The five trend buffers of a vehicle, in the same order. -/
def trendBuffers (a : AdvancedAnalytics) (v : Int) : List (List ℚ) :=
  [a.speed_trends v, a.rpm_trends v, a.temp_trends v, a.fuel_trends v,
   a.acceleration_trends v]

/-! ## The partial operations of a call, with their faults -/

/-- Element `i` of a vector, `none` when the index is out of range. -/
def indexChecked {α : Type} (l : List α) (i : Int) : Option α :=
  if 0 ≤ i ∧ i < (l.length : Int) then l.get? i.toNat else none

/-- The quotient, `none` when the divisor is 0. -/
def divChecked (a b : ℚ) : Option ℚ := if b = 0 then none else some (a / b)

/-- Method `calculateFuelDropRate` with its two reads of the window and its
division checked. -/
def calculateFuelDropRateChecked (window : List SensorReading) : Option ℚ :=
  if window.length < 10 then some 0 else
  (indexChecked window ((window.length : Int) - 10)).bind fun oldest =>
  (indexChecked window ((window.length : Int) - 1)).bind fun newest =>
  let time_diff := toMinutes (newest.timestamp - oldest.timestamp)
  if time_diff ≤ 0 then some 0 else
  divChecked (oldest.fuel_level_percent - newest.fuel_level_percent) (time_diff : ℚ)

/-- The body of the training loop with the division of the fuel consumption
rate checked. -/
def trainFeatureChecked (E : Env) (previous current : SensorReading) (stale : ℚ) :
    Option FeatureVector :=
  let time_diff := toSeconds (current.timestamp - previous.timestamp)
  let tm_info := E.localtime current.timestamp
  (if time_diff > 0 then
    divChecked (previous.fuel_level_percent - current.fuel_level_percent) (time_diff : ℚ)
   else some stale).map fun rate =>
    { speed := current.speed_kmph
      rpm := current.rpm
      temperature := current.engine_temp_celsius
      acceleration := current.acceleration_ms2
      fuel_consumption_rate := rate
      time_of_day := (tm_info.tm_hour : ℚ) + (tm_info.tm_min : ℚ) / 60
      day_of_week := (tm_info.tm_wday : ℚ) }

/-- The entry "total_speed_sum" of a profile after `updateVehicleProfile` has
added the speed of a sample. -/
def avgSpeedSum (p : VehicleProfile) (reading : SensorReading) : ℚ :=
  (if (p.performance_metrics "total_speed_sum").isNone then 0
   else (p.performance_metrics "total_speed_sum").getD 0) + reading.speed_kmph

/-- The entry "speed_count" of a profile after `updateVehicleProfile` has
incremented it: the count by which `avg_speed` divides. -/
def avgSpeedCount (p : VehicleProfile) : ℚ :=
  (if (p.performance_metrics "total_speed_sum").isNone then 0
   else (p.performance_metrics "speed_count").getD 0) + 1

/-- The division for `avg_speed` in `updateVehicleProfile`, checked. -/
def avgSpeedChecked (p : VehicleProfile) (reading : SensorReading) : Option ℚ :=
  divChecked (avgSpeedSum p reading) (avgSpeedCount p)

/-- The speed counter of a profile is sound: absent together with the speed
sum, or not negative. -/
def metricsSound (p : VehicleProfile) : Prop :=
  (p.performance_metrics "total_speed_sum").isNone ∨
    0 ≤ (p.performance_metrics "speed_count").getD 0

/-- One entry of `normalized` in `calculateMahalanobisDistance`: the reads of
`means[i]` and `stds[i]` and the division, checked. -/
def zScoreChecked (means stds : List ℚ) (i : Int) (x : ℚ) : Option ℚ :=
  (indexChecked means i).bind fun mu =>
  (indexChecked stds i).bind fun sd => divChecked (x - mu) (sd + 1 / 1000000)

/-- All results of a list of checked operations, `none` when one of them faults. -/
def sequenceChecked : List (Option ℚ) → Option (List ℚ)
  | [] => some []
  | o :: rest => o.bind fun x => (sequenceChecked rest).map fun xs => x :: xs

/-- Method `calculateMahalanobisDistance` with its reads of the two baseline
vectors and its divisions checked. -/
def MLAnomalyDetector.calculateMahalanobisDistanceChecked (E : Env) (d : MLAnomalyDetector)
    (vehicle_id : Int) (fv : FeatureVector) : Option ℚ :=
  let means := d.feature_means vehicle_id
  let stds := d.feature_stds vehicle_id
  (sequenceChecked
    [zScoreChecked means stds 0 fv.speed, zScoreChecked means stds 1 fv.rpm,
     zScoreChecked means stds 2 fv.temperature, zScoreChecked means stds 3 fv.acceleration,
     zScoreChecked means stds 4 fv.fuel_consumption_rate,
     zScoreChecked means stds 5 fv.time_of_day,
     zScoreChecked means stds 6 fv.day_of_week]).map fun normalized =>
    E.sqrt ((normalized.map fun val => val * val).sum)

/-- Method `calculateAnomalyScore` over the checked distance. -/
def MLAnomalyDetector.calculateAnomalyScoreChecked (E : Env) (d : MLAnomalyDetector)
    (vehicle_id : Int) (reading : SensorReading) (stale : ℚ) : Option ℚ :=
  if (d.training_data vehicle_id).isNone then some 0
  else d.calculateMahalanobisDistanceChecked E vehicle_id (scoreFeatures E reading stale)

/-! ## The lock `data_mutex`

`processSensorReading` takes `data_mutex` in a `lock_guard` on its first line and
holds it to its last; `printEnhancedAnalytics`, `printSystemStatus`,
`getActiveVehicleIds` and `exportSystemReport` do the same.  The simulation
thread is the only caller of `processSensorReading`, and the read of the window
in `generateEnhancedSyntheticReading` runs on that thread, before the call.  The
model interleaves the blocks of a running call with the readers; a reader
observes the store while it holds the lock. -/

/-- Who holds `data_mutex`. -/
inductive LockHolder where
  | free
  | ingest
  | reader
deriving DecidableEq

/-- Where the simulation thread stands in `processSensorReading`: outside a call,
or inside the call on a sample with the lock taken, the window extended, the
anomalies indexed, or the state recomputed. -/
inductive IngestPhase where
  | idle
  | locked (clk : Clock) (reading : SensorReading)
  | appended (clk : Clock) (reading : SensorReading)
  | indexed (clk : Clock) (reading : SensorReading)
  | finished (clk : Clock) (reading : SensorReading)

/-- The shared store with its lock, the position of the simulation thread, and
the calls of `processSensorReading` that have returned. -/
structure System where
  store : AdvancedDataManager
  lock : LockHolder
  phase : IngestPhase
  completed : List (Clock × SensorReading)

/-- The system after the constructor of `AdvancedDataManager`. -/
def System.start (clk0 : Clock) (data_open anomaly_open performance_open : Bool) : System :=
  { store := AdvancedDataManager.new clk0 data_open anomaly_open performance_open
    lock := LockHolder.free
    phase := IngestPhase.idle
    completed := [] }

/-- One step of one thread.  The simulation thread takes the free lock, runs the
blocks of `processSensorReading` in order and releases the lock; a reader takes
the free lock and releases it. -/
inductive Step (E : Env) : System → System → Prop where
  | ingestLock (s : System) (clk : Clock) (reading : SensorReading)
      (hl : s.lock = LockHolder.free) (hp : s.phase = IngestPhase.idle) :
      Step E s { s with lock := LockHolder.ingest, phase := IngestPhase.locked clk reading }
  | ingestAppend (s : System) (clk : Clock) (reading : SensorReading)
      (hp : s.phase = IngestPhase.locked clk reading) :
      Step E s { s with
        store := ingested E clk s.store reading
        phase := IngestPhase.appended clk reading }
  | ingestIndex (s : System) (clk : Clock) (reading : SensorReading)
      (hp : s.phase = IngestPhase.appended clk reading) :
      Step E s { s with
        store := logReading (checkGeofenceViolations E clk
          (detectEnhancedAnomalies E clk s.store reading
            (s.store.vehicle_data_windows reading.vehicle_id)).1 reading) reading
        phase := IngestPhase.indexed clk reading }
  | ingestFinish (s : System) (clk : Clock) (reading : SensorReading)
      (hp : s.phase = IngestPhase.indexed clk reading) :
      Step E s { s with
        store := logPerformance (updateVehicleState clk s.store reading.vehicle_id)
        phase := IngestPhase.finished clk reading }
  | ingestUnlock (s : System) (clk : Clock) (reading : SensorReading)
      (hp : s.phase = IngestPhase.finished clk reading) :
      Step E s { s with
        lock := LockHolder.free
        phase := IngestPhase.idle
        completed := s.completed ++ [(clk, reading)] }
  | readerLock (s : System) (hl : s.lock = LockHolder.free) :
      Step E s { s with lock := LockHolder.reader }
  | readerUnlock (s : System) (hl : s.lock = LockHolder.reader) :
      Step E s { s with lock := LockHolder.free }

/-- The systems that the two threads can reach from the constructor. -/
def Reachable (E : Env) (clk0 : Clock) (data_open anomaly_open performance_open : Bool)
    (s : System) : Prop :=
  Relation.ReflTransGen (Step E) (System.start clk0 data_open anomaly_open performance_open) s

/-- What the position of the simulation thread says about the lock and the store. -/
def lockInvariant (E : Env) (init : AdvancedDataManager) (s : System) : Prop :=
  match s.phase with
  | IngestPhase.idle =>
      s.lock ≠ LockHolder.ingest ∧ s.store = processAll E init s.completed
  | IngestPhase.locked _ _ =>
      s.lock = LockHolder.ingest ∧ s.store = processAll E init s.completed
  | IngestPhase.appended clk reading =>
      s.lock = LockHolder.ingest ∧
        s.store = ingested E clk (processAll E init s.completed) reading
  | IngestPhase.indexed clk reading =>
      s.lock = LockHolder.ingest ∧
        s.store = beforeTransition E clk (processAll E init s.completed) reading
  | IngestPhase.finished clk reading =>
      s.lock = LockHolder.ingest ∧
        s.store = processSensorReading E clk (processAll E init s.completed) reading

/-- A store between two calls, with a reader holding the lock. -/
def readerAt (m : AdvancedDataManager) (calls : List (Clock × SensorReading)) : System :=
  { store := m, lock := LockHolder.reader, phase := IngestPhase.idle, completed := calls }

/-- A store between two calls, with the lock free. -/
def restAt (m : AdvancedDataManager) (calls : List (Clock × SensorReading)) : System :=
  { store := m, lock := LockHolder.free, phase := IngestPhase.idle, completed := calls }

/-- The simulation thread inside the call on an overheat sample of vehicle 7,
the window extended and the anomalies not yet indexed. -/
def midCallSystem : System :=
  { store := ingested exampleEnv (constClock 0) (freshManager 0) (overheatReading 7 0)
    lock := LockHolder.ingest
    phase := IngestPhase.appended (constClock 0) (overheatReading 7 0)
    completed := [] }

/-! ## The baseline as the specification words it -/

/-- The arithmetic mean of a sequence: its sum divided by its length. -/
def specMean (xs : List ℚ) : ℚ := xs.sum / (xs.length : ℚ)

/-- The population standard deviation of a sequence: the square root of the
mean squared deviation from the mean. -/
def specPopulationStd (E : Env) (xs : List ℚ) : ℚ :=
  E.sqrt ((xs.map fun x => (x - specMean xs) * (x - specMean xs)).sum / (xs.length : ℚ))

/-- The seven feature sequences of a list of training vectors, in the order
speed, rpm, temperature, acceleration, fuel_consumption_rate, time_of_day,
day_of_week. -/
def featureColumns (data : List FeatureVector) : List (List ℚ) :=
  [data.map FeatureVector.speed, data.map FeatureVector.rpm,
   data.map FeatureVector.temperature, data.map FeatureVector.acceleration,
   data.map FeatureVector.fuel_consumption_rate, data.map FeatureVector.time_of_day,
   data.map FeatureVector.day_of_week]

/-! ## The kinds that are stored -/

/-- The kind tokens of the rules that store anomalies. -/
def emittableKinds : List String :=
  ["SPEED_RANGE", "RPM_RANGE", "TEMP_RANGE", "HARSH_ACCEL", "HARSH_BRAKE", "SENSOR_FAIL",
   "FUEL_LEAK", "ERRATIC", "MAINTENANCE", "GEOFENCE"]

/-- The kind tokens that no rule stores. -/
def neverEmittedKinds : List String :=
  ["SPEED_SPIKE", "RPM_SPIKE", "TEMP_SPIKE", "ENGINE_STALL", "OVERHEATING"]

/-- Kind and severity of the calls of `addEnhancedAnomaly` in the source. -/
def emittedPairs : List (AnomalyType × Int) :=
  [(AnomalyType.SPEED_OUT_OF_RANGE, 4), (AnomalyType.RPM_OUT_OF_RANGE, 3),
   (AnomalyType.TEMP_OUT_OF_RANGE, 5), (AnomalyType.HARSH_ACCELERATION, 3),
   (AnomalyType.HARSH_BRAKING, 3), (AnomalyType.SENSOR_FAILURE, 5),
   (AnomalyType.SENSOR_FAILURE, 3), (AnomalyType.FUEL_LEAK, 4),
   (AnomalyType.ERRATIC_BEHAVIOR, 3), (AnomalyType.MAINTENANCE_REQUIRED, 2),
   (AnomalyType.GEOFENCE_VIOLATION, 4)]

/-- The stalled-engine sample of scenario 5 of `applyAnomalyScenario` for vehicle
7: engine off, rpm 0, speed 0, the other fields those of the calm sample. -/
def stalledReading : SensorReading :=
  { calmReading 7 0 with engine_on := false, rpm := 0, speed_kmph := 0 }

/-- A run of nine samples of vehicle 3, six seconds apart, fuel falling by 8 per
sample, and the tenth sample of that run. -/
def fastDropCalls : List (Clock × SensorReading) := fuelCalls 6000000000 8 9

/-- The tenth sample of the run `fastDropCalls`, 54 seconds after the first. -/
def fastDropReading : SensorReading := fuelReading 6000000000 8 9

/-! ## Route, running mean and overdue maintenance -/

/-- The positions of a list of samples. -/
def positionsOf (samples : List SensorReading) : List (ℚ × ℚ) := samples.map positionOf

/-- The speeds of a list of samples. -/
def speedsOf (samples : List SensorReading) : List ℚ := samples.map fun r => r.speed_kmph

/-- The distance of a vehicle exceeds its maintenance interval. -/
def maintenanceOverdue (m : AdvancedDataManager) (v : Int) : Prop :=
  match m.vehicle_profiles v with
  | some p => MaybeNaN.gt p.total_distance_km (p.maintenance_interval_km : ℚ)
  | none => False

instance (m : AdvancedDataManager) (v : Int) : Decidable (maintenanceOverdue m v) := by
  unfold maintenanceOverdue
  cases m.vehicle_profiles v <;> infer_instance

/-- Vehicle 7 after two samples half the equator apart: at (0, 0) and at (0, 179). -/
def farManager : AdvancedDataManager :=
  processAll exampleEnv (freshManager 0)
    [(constClock 0, positionedReading 7 0 0 0), (constClock 0, positionedReading 7 0 0 179)]

/-- The double nearest to the sine of 88.2 degrees. -/
def sinOfSpan : ℚ := 4501377372817475 / 4503599627370496

/-- The double nearest to the cosine of 88.2 degrees. -/
def cosOfLatitude : ℚ := 4526767452149871 / 144115188075855872

/-- The example environment with double-precision values of `sin` and `cos` at
the four arguments that `haversine` passes for the positions (88.2, 180) and
(-88.2, 0): there `sin` and `cos` return the doubles nearest to the exact
values, as a correctly rounding libm does (`sin` of half the latitude span
-176.4 degrees, `sin` of -90 degrees, `cos` of 88.2 and of -88.2 degrees).  All
other values are those of `exampleEnv`. -/
def roundedEnv : Env :=
  { exampleEnv with
    sin := fun x =>
      if x = deg2rad (-882 / 10 - 882 / 10) / 2 then -sinOfSpan
      else if x = deg2rad (0 - 180) / 2 then -1
      else sinApprox x
    cos := fun x =>
      if x = deg2rad (882 / 10) ∨ x = deg2rad (-882 / 10) then cosOfLatitude
      else cosApprox x }

/-- Vehicle 7 after one sample at (-88.2, 0), in `roundedEnv`. -/
def polarManager : AdvancedDataManager :=
  processSensorReading roundedEnv (constClock 0) (freshManager 0)
    (positionedReading 7 0 (-882 / 10) 0)

/-- A calm sample of vehicle 7 at (88.2, 180), close to the antipode of (-88.2, 0). -/
def antipodeReading : SensorReading := positionedReading 7 0 (882 / 10) 180

/-- Five calm samples of vehicle 7, stamped and processed at clock time 0, at
the positions (0, 0), (0, 179), (-88.2, 0), (88.2, 180) and (0, 0). -/
def polarCalls : List (Clock × SensorReading) :=
  [(constClock 0, positionedReading 7 0 0 0), (constClock 0, positionedReading 7 0 0 179),
   (constClock 0, positionedReading 7 0 (-882 / 10) 0), (constClock 0, antipodeReading),
   (constClock 0, positionedReading 7 0 0 0)]

/-- The number of MAINTENANCE records stored under vehicle `v`. -/
def maintenanceCount (m : AdvancedDataManager) (v : Int) : Nat :=
  (m.detected_anomalies v).countP
    (fun a => decide (a.type = AnomalyType.MAINTENANCE_REQUIRED))

/-- The sequence `a + b*i` for `i = 0 .. n-1`. -/
def linearSequence (n : Nat) (a b : ℚ) : List ℚ :=
  (List.range n).map fun (i : Nat) => a + b * (i : ℚ)

/-- The sum of the indices `0 .. n-1`. -/
def sumIndex (n : Nat) : ℚ := ((List.range n).map fun (i : Nat) => (i : ℚ)).sum

/-- The sum of the squared indices `0 .. n-1`. -/
def sumIndexSq (n : Nat) : ℚ := ((List.range n).map fun (i : Nat) => (i : ℚ) * (i : ℚ)).sum

/-! ## Truncated durations and maps -/
theorem toSeconds_gt_thirty (d : Int) : toSeconds d > 30 ↔ d ≥ 31 * ticksPerSecond := by
  unfold toSeconds durationCast ticksPerSecond
  split <;> omega

theorem toMinutes_le_five (d : Int) : toMinutes d ≤ 5 ↔ d < 6 * (60 * ticksPerSecond) := by
  unfold toMinutes durationCast ticksPerSecond
  split <;> omega

theorem toMinutes_le_zero (d : Int) : toMinutes d ≤ 0 ↔ d < 60 * ticksPerSecond := by
  unfold toMinutes durationCast ticksPerSecond
  split <;> omega

theorem toHours_gt_quarter (d : Int) :
    toHours d > 24 * 30 * 3 ↔ d ≥ 2161 * (3600 * ticksPerSecond) := by
  unfold toHours durationCast ticksPerSecond
  split <;> omega

theorem mapSet_same {κ α : Type} [DecidableEq κ] (f : κ → α) (k : κ) (v : α) :
    mapSet f k v k = v := by
  simp [mapSet]

theorem mapSet_other {κ α : Type} [DecidableEq κ] (f : κ → α) (k j : κ) (v : α) (h : j ≠ k) :
    mapSet f k v j = f j := by
  simp [mapSet, h]

theorem mapSet_self {κ α : Type} [DecidableEq κ] (f : κ → α) (k : κ) :
    mapSet f k (f k) = f := by
  funext j
  by_cases h : j = k <;> simp [mapSet, h]

/-! ## Effect of `addEnhancedAnomaly` on each part of the store -/

section addFrames
variable (clk : Clock) (m : AdvancedDataManager) (v : Int) (sensor : String) (value : MaybeNaN)
  (type : AnomalyType) (description : String) (severity : Int) (location : String) (ml : ℚ)

theorem addEnhancedAnomaly_windows :
    (addEnhancedAnomaly clk m v sensor value type description severity location ml).vehicle_data_windows
      = m.vehicle_data_windows := by
  unfold addEnhancedAnomaly setProfile
  dsimp only
  split <;> split <;> split <;> rfl

theorem addEnhancedAnomaly_detected :
    (addEnhancedAnomaly clk m v sensor value type description severity location ml).detected_anomalies
      = mapSet m.detected_anomalies v (m.detected_anomalies v ++
          [AnomalyRecord.new (clk m.clock_reads) v sensor value type description severity location]) := by
  unfold addEnhancedAnomaly setProfile
  dsimp only
  split <;> split <;> split <;> rfl

theorem addEnhancedAnomaly_geofences :
    (addEnhancedAnomaly clk m v sensor value type description severity location ml).geofences
      = m.geofences := by
  unfold addEnhancedAnomaly setProfile
  dsimp only
  split <;> split <;> split <;> rfl

theorem addEnhancedAnomaly_analytics :
    (addEnhancedAnomaly clk m v sensor value type description severity location ml).analytics
      = m.analytics := by
  unfold addEnhancedAnomaly setProfile
  dsimp only
  split <;> split <;> split <;> rfl

theorem addEnhancedAnomaly_ml_detector :
    (addEnhancedAnomaly clk m v sensor value type description severity location ml).ml_detector
      = m.ml_detector := by
  unfold addEnhancedAnomaly setProfile
  dsimp only
  split <;> split <;> split <;> rfl

theorem addEnhancedAnomaly_total_readings :
    (addEnhancedAnomaly clk m v sensor value type description severity location
      ml).total_readings_processed = m.total_readings_processed := by
  unfold addEnhancedAnomaly setProfile
  dsimp only
  split <;> split <;> split <;> rfl

theorem addEnhancedAnomaly_data_log_open :
    (addEnhancedAnomaly clk m v sensor value type description severity location ml).data_log_open
      = m.data_log_open := by
  unfold addEnhancedAnomaly setProfile
  dsimp only
  split <;> split <;> split <;> rfl

theorem addEnhancedAnomaly_clock_reads :
    (addEnhancedAnomaly clk m v sensor value type description severity location ml).clock_reads
      = m.clock_reads + 1 := by
  unfold addEnhancedAnomaly setProfile
  dsimp only
  split <;> split <;> split <;> rfl

theorem addEnhancedAnomaly_profiles (u : Int) :
    (addEnhancedAnomaly clk m v sensor value type description severity location
      ml).vehicle_profiles u
      = if u = v then (m.vehicle_profiles v).map (bumpAnomalies 1) else m.vehicle_profiles u := by
  unfold addEnhancedAnomaly setProfile
  dsimp only
  split <;> split <;> split <;> rename_i h <;> by_cases hu : u = v <;>
    simp_all [mapSet, bumpAnomalies]

end addFrames

/-! ## Sequences of emissions -/

theorem bumpAnomalies_bump (a b : Int) (p : VehicleProfile) :
    bumpAnomalies a (bumpAnomalies b p) = bumpAnomalies (b + a) p := by
  simp [bumpAnomalies, add_assoc]

theorem bumpAnomalies_zero (p : VehicleProfile) : bumpAnomalies 0 p = p := by
  simp [bumpAnomalies]

theorem emitAll_append (clk : Clock) (vid : Int) (xs ys : List Emission)
    (m : AdvancedDataManager) :
    emitAll clk vid (xs ++ ys) m = emitAll clk vid ys (emitAll clk vid xs m) := by
  induction xs generalizing m with
  | nil => rfl
  | cons e es ih => simp [emitAll, ih]

theorem stamp_append (clk : Clock) (vid : Int) (k : Nat) (xs ys : List Emission) :
    stamp clk vid k (xs ++ ys) = stamp clk vid k xs ++ stamp clk vid (k + xs.length) ys := by
  induction xs generalizing k with
  | nil => simp [stamp]
  | cons e es ih => simp [stamp, ih, Nat.add_assoc, Nat.add_comm 1]

theorem stamp_length (clk : Clock) (vid : Int) (k : Nat) (xs : List Emission) :
    (stamp clk vid k xs).length = xs.length := by
  induction xs generalizing k with
  | nil => rfl
  | cons e es ih => simp [stamp, ih]

theorem emitAll_clock_reads (clk : Clock) (vid : Int) (es : List Emission)
    (m : AdvancedDataManager) :
    (emitAll clk vid es m).clock_reads = m.clock_reads + es.length := by
  induction es generalizing m with
  | nil => rfl
  | cons e es ih =>
      simp only [emitAll, ih, emit, addEnhancedAnomaly_clock_reads, List.length_cons]
      omega

theorem emitAll_windows (clk : Clock) (vid : Int) (es : List Emission)
    (m : AdvancedDataManager) :
    (emitAll clk vid es m).vehicle_data_windows = m.vehicle_data_windows := by
  induction es generalizing m with
  | nil => rfl
  | cons e es ih => simp only [emitAll, ih, emit, addEnhancedAnomaly_windows]

theorem emitAll_geofences (clk : Clock) (vid : Int) (es : List Emission)
    (m : AdvancedDataManager) :
    (emitAll clk vid es m).geofences = m.geofences := by
  induction es generalizing m with
  | nil => rfl
  | cons e es ih => simp only [emitAll, ih, emit, addEnhancedAnomaly_geofences]

theorem emitAll_analytics (clk : Clock) (vid : Int) (es : List Emission)
    (m : AdvancedDataManager) :
    (emitAll clk vid es m).analytics = m.analytics := by
  induction es generalizing m with
  | nil => rfl
  | cons e es ih => simp only [emitAll, ih, emit, addEnhancedAnomaly_analytics]

theorem emitAll_ml_detector (clk : Clock) (vid : Int) (es : List Emission)
    (m : AdvancedDataManager) :
    (emitAll clk vid es m).ml_detector = m.ml_detector := by
  induction es generalizing m with
  | nil => rfl
  | cons e es ih => simp only [emitAll, ih, emit, addEnhancedAnomaly_ml_detector]

theorem emitAll_total_readings (clk : Clock) (vid : Int) (es : List Emission)
    (m : AdvancedDataManager) :
    (emitAll clk vid es m).total_readings_processed = m.total_readings_processed := by
  induction es generalizing m with
  | nil => rfl
  | cons e es ih => simp only [emitAll, ih, emit, addEnhancedAnomaly_total_readings]

theorem emitAll_data_log_open (clk : Clock) (vid : Int) (es : List Emission)
    (m : AdvancedDataManager) :
    (emitAll clk vid es m).data_log_open = m.data_log_open := by
  induction es generalizing m with
  | nil => rfl
  | cons e es ih => simp only [emitAll, ih, emit, addEnhancedAnomaly_data_log_open]

theorem emitAll_detected (clk : Clock) (vid : Int) (es : List Emission)
    (m : AdvancedDataManager) (u : Int) :
    (emitAll clk vid es m).detected_anomalies u =
      if u = vid then m.detected_anomalies vid ++ stamp clk vid m.clock_reads es
      else m.detected_anomalies u := by
  induction es generalizing m with
  | nil => by_cases h : u = vid <;> simp [emitAll, stamp, h]
  | cons e es ih =>
      simp only [emitAll, ih, emit, addEnhancedAnomaly_detected, addEnhancedAnomaly_clock_reads,
        stamp]
      by_cases h : u = vid <;> simp [mapSet, h]

theorem emitAll_profiles (clk : Clock) (vid : Int) (es : List Emission)
    (m : AdvancedDataManager) (u : Int) :
    (emitAll clk vid es m).vehicle_profiles u =
      if u = vid then (m.vehicle_profiles vid).map (bumpAnomalies es.length)
      else m.vehicle_profiles u := by
  induction es generalizing m with
  | nil =>
      by_cases h : u = vid
      · cases hp : m.vehicle_profiles vid <;> simp [emitAll, h, hp, bumpAnomalies_zero]
      · simp [emitAll, h]
  | cons e es ih =>
      simp only [emitAll, ih, emit, addEnhancedAnomaly_profiles]
      by_cases h : u = vid
      · cases hp : m.vehicle_profiles vid <;>
          simp [h, hp, bumpAnomalies_bump, add_comm]
      · simp [h]

/-! ## The rule functions as sequences of emissions -/

theorem stepIf_fst (clk : Clock) (v : Int) (c : Prop) [Decidable c] (e : Emission)
    (s : AdvancedDataManager × Bool) :
    (stepIf clk v c e s).1 = emitAll clk v (if c then [e] else []) s.1 := by
  unfold stepIf
  split <;> rfl

theorem stepIf2_fst (clk : Clock) (v : Int) (a b : Prop) [Decidable a] [Decidable b]
    (e : Emission) (s : AdvancedDataManager × Bool) :
    (stepIf2 clk v a b e s).1 = emitAll clk v (if a ∧ b then [e] else []) s.1 := by
  unfold stepIf2
  by_cases ha : a <;> by_cases hb : b <;> simp [ha, hb, emitAll]

theorem detectEnhancedAnomalies_steps (E : Env) (clk : Clock) (m : AdvancedDataManager)
    (current : SensorReading) (window : List SensorReading) :
    detectEnhancedAnomalies E clk m current window =
      (let ml := m.ml_detector.calculateAnomalyScore E current.vehicle_id current
         (E.indeterminate m.calls_started 0)
       let v := current.vehicle_id
       let s : AdvancedDataManager × Bool := (m, false)
       let s := stepIf clk v (current.speed_kmph > 200 ∨ current.speed_kmph < -5)
         ⟨"speed", some current.speed_kmph, AnomalyType.SPEED_OUT_OF_RANGE,
          "Speed outside safe range", 4, "", ml⟩ s
       let s := stepIf clk v (current.rpm > 8000 ∨
           (current.rpm < 400 ∧ current.engine_on = true ∧ current.speed_kmph > 10))
         ⟨"rpm", some current.rpm, AnomalyType.RPM_OUT_OF_RANGE,
          "RPM outside normal range", 3, "", ml⟩ s
       let s := stepIf clk v (current.engine_temp_celsius > 110)
         ⟨"temperature", some current.engine_temp_celsius, AnomalyType.TEMP_OUT_OF_RANGE,
          "Engine overheating detected", 5, "", ml⟩ s
       let s := stepIf clk v (|current.acceleration_ms2| > 6)
         ⟨"acceleration", some current.acceleration_ms2,
          if current.acceleration_ms2 > 0 then AnomalyType.HARSH_ACCELERATION
          else AnomalyType.HARSH_BRAKING,
          if current.acceleration_ms2 > 0 then "Harsh acceleration detected"
          else "Harsh braking detected", 3, "", ml⟩ s
       let s := stepIf clk v (current.oil_pressure_bar < 1 ∧ current.engine_on = true)
         ⟨"oil_pressure", some current.oil_pressure_bar, AnomalyType.SENSOR_FAILURE,
          "Critically low oil pressure", 5, "", ml⟩ s
       let s := stepIf clk v (current.battery_voltage < 11 ∨ current.battery_voltage > 15)
         ⟨"battery", some current.battery_voltage, AnomalyType.SENSOR_FAILURE,
          "Battery voltage abnormal", 3, "", ml⟩ s
       let s := stepIf2 clk v (window.length ≥ 10) (calculateFuelDropRate window > 2)
         ⟨"fuel", some (calculateFuelDropRate window), AnomalyType.FUEL_LEAK,
          "Potential fuel leak detected", 4, "", ml⟩ s
       let s := stepIf clk v (ml > 3)
         ⟨"ml_pattern", some ml, AnomalyType.ERRATIC_BEHAVIOR,
          "ML detected unusual pattern", 3, "", ml⟩ s
       (checkMaintenanceRequirements E clk s.1 current, s.2)) := by
  rfl

theorem detectEnhancedAnomalies_fst (E : Env) (clk : Clock) (m : AdvancedDataManager)
    (current : SensorReading) (window : List SensorReading) :
    (detectEnhancedAnomalies E clk m current window).1 =
      checkMaintenanceRequirements E clk
        (emitAll clk current.vehicle_id
          (detectEmissions (m.ml_detector.calculateAnomalyScore E current.vehicle_id current
              (E.indeterminate m.calls_started 0))
            current window) m) current := by
  rw [detectEnhancedAnomalies_steps]
  simp only [stepIf_fst, stepIf2_fst, detectEmissions, instantEmissions, fuelEmissions,
    mlEmissions, emitAll_append]

theorem checkGeofenceLoop_eq (E : Env) (clk : Clock) (reading : SensorReading)
    (fences : List Geofence) (m : AdvancedDataManager) :
    checkGeofenceLoop E clk reading fences m =
      emitAll clk reading.vehicle_id
        ((violatedFences E fences reading).map geofenceEmission) m := by
  induction fences generalizing m with
  | nil => rfl
  | cons g gs ih =>
      unfold checkGeofenceLoop
      dsimp only
      rw [ih]
      by_cases h : (g.is_restricted && g.isInside E reading.latitude reading.longitude) = true
      · simp [violatedFences, List.filter_cons, h, emitAll, emit, geofenceEmission]
      · simp [violatedFences, List.filter_cons, h]

/-! ## The stages of `processSensorReading` -/

theorem processSensorReading_eq (E : Env) (clk : Clock) (m : AdvancedDataManager)
    (reading : SensorReading) :
    processSensorReading E clk m reading =
      logPerformance (updateVehicleState clk (beforeTransition E clk m reading)
        reading.vehicle_id) := by
  rfl

theorem updateVehicleProfile_some (E : Env) (clk : Clock) (m : AdvancedDataManager) (v : Int)
    (r : SensorReading) (p : VehicleProfile) (h : m.vehicle_profiles v = some p) :
    updateVehicleProfile E clk m v r = setProfile m v (updateProfileBody E p r) := by
  simp [updateVehicleProfile, touchProfile, profileRef, h]

theorem updateVehicleProfile_guarded (E : Env) (clk : Clock) (m : AdvancedDataManager)
    (v : Int) (r : SensorReading) :
    (if (m.vehicle_profiles v).isSome then updateVehicleProfile E clk m v r else m) =
      match m.vehicle_profiles v with
      | some p => setProfile m v (updateProfileBody E p r)
      | none => m := by
  cases h : m.vehicle_profiles v with
  | none => simp
  | some p => simp [updateVehicleProfile_some E clk m v r p h]

theorem ingested_windows (E : Env) (clk : Clock) (m : AdvancedDataManager) (reading : SensorReading) :
    (ingested E clk m reading).vehicle_data_windows =
      mapSet m.vehicle_data_windows reading.vehicle_id
        (pushEvict (m.vehicle_data_windows reading.vehicle_id) reading) := by
  unfold ingested
  simp only [updateVehicleProfile_guarded]
  unfold countReading appendToWindow trainPeriodically setProfile pushEvict
  dsimp only
  funext u
  by_cases hu : u = reading.vehicle_id
  · subst hu
    split <;> split <;> split <;> simp_all [mapSet] <;> split <;> first | rfl | omega
  · split <;> split <;> split <;> simp_all [mapSet]

theorem ingested_detected (E : Env) (clk : Clock) (m : AdvancedDataManager) (reading : SensorReading) :
    (ingested E clk m reading).detected_anomalies = m.detected_anomalies := by
  unfold ingested
  simp only [updateVehicleProfile_guarded]
  unfold countReading appendToWindow trainPeriodically setProfile
  dsimp only
  split <;> split <;> split <;> rfl

theorem ingested_clock_reads (E : Env) (clk : Clock) (m : AdvancedDataManager) (reading : SensorReading) :
    (ingested E clk m reading).clock_reads = 0 := by
  unfold ingested
  simp only [updateVehicleProfile_guarded]
  unfold countReading appendToWindow trainPeriodically setProfile
  dsimp only
  split <;> split <;> split <;> rfl

theorem ingested_geofences (E : Env) (clk : Clock) (m : AdvancedDataManager) (reading : SensorReading) :
    (ingested E clk m reading).geofences = m.geofences := by
  unfold ingested
  simp only [updateVehicleProfile_guarded]
  unfold countReading appendToWindow trainPeriodically setProfile
  dsimp only
  split <;> split <;> split <;> rfl

theorem ingested_data_log_open (E : Env) (clk : Clock) (m : AdvancedDataManager) (reading : SensorReading) :
    (ingested E clk m reading).data_log_open = m.data_log_open := by
  unfold ingested
  simp only [updateVehicleProfile_guarded]
  unfold countReading appendToWindow trainPeriodically setProfile
  dsimp only
  split <;> split <;> split <;> rfl

theorem ingested_profiles (E : Env) (clk : Clock) (m : AdvancedDataManager) (reading : SensorReading)
    (u : Int) :
    (ingested E clk m reading).vehicle_profiles u =
      if u = reading.vehicle_id then
        (m.vehicle_profiles reading.vehicle_id).map fun p => updateProfileBody E p reading
      else m.vehicle_profiles u := by
  unfold ingested
  simp only [updateVehicleProfile_guarded]
  unfold countReading appendToWindow trainPeriodically setProfile
  dsimp only
  by_cases hu : u = reading.vehicle_id
  · subst hu
    cases hp : m.vehicle_profiles reading.vehicle_id <;>
      split <;> split <;> split <;> simp_all [mapSet]
  · cases hp : m.vehicle_profiles reading.vehicle_id <;>
      split <;> split <;> split <;> simp_all [mapSet]

/-! ## The maintenance check -/

theorem maintenanceDue_bump (k : Int) (p : VehicleProfile) (reading : SensorReading) :
    maintenanceDue (bumpAnomalies k p) reading ↔ maintenanceDue p reading := by
  rfl

theorem maintenanceEmission_bump (k : Int) (p : VehicleProfile) :
    maintenanceEmission (bumpAnomalies k p) = maintenanceEmission p := by
  rfl

theorem touchProfile_of_some (E : Env) (clk : Clock) (m : AdvancedDataManager) (v : Int)
    (p : VehicleProfile) (h : m.vehicle_profiles v = some p) : touchProfile E clk m v = m := by
  simp [touchProfile, h]

theorem touchProfile_of_none (E : Env) (clk : Clock) (m : AdvancedDataManager) (v : Int)
    (h : m.vehicle_profiles v = none) :
    touchProfile E clk m v =
      { setProfile m v (insertedProfile E clk m.clock_reads) with
        clock_reads := m.clock_reads + 2 } := by
  simp [touchProfile, h, setProfile]

theorem profileRef_of_some (E : Env) (clk : Clock) (m : AdvancedDataManager) (v : Int)
    (p : VehicleProfile) (h : m.vehicle_profiles v = some p) : profileRef E clk m v = p := by
  simp [profileRef, h]

theorem profileRef_of_none (E : Env) (clk : Clock) (m : AdvancedDataManager) (v : Int)
    (h : m.vehicle_profiles v = none) :
    profileRef E clk m v = insertedProfile E clk m.clock_reads := by
  simp [profileRef, h]

theorem touchProfile_profiles (E : Env) (clk : Clock) (m : AdvancedDataManager) (v u : Int) :
    (touchProfile E clk m v).vehicle_profiles u =
      if u = v then some (profileRef E clk m v) else m.vehicle_profiles u := by
  cases h : m.vehicle_profiles v with
  | none =>
      rw [touchProfile_of_none E clk m v h, profileRef_of_none E clk m v h]
      by_cases hu : u = v <;> simp [setProfile, mapSet, hu]
  | some p =>
      rw [touchProfile_of_some E clk m v p h, profileRef_of_some E clk m v p h]
      by_cases hu : u = v
      · subst hu
        simp [h]
      · simp [hu]

theorem touchProfile_clock_reads (E : Env) (clk : Clock) (m : AdvancedDataManager) (v : Int) :
    (touchProfile E clk m v).clock_reads =
      m.clock_reads + (if (m.vehicle_profiles v).isSome then 0 else 2) := by
  cases h : m.vehicle_profiles v <;> simp [touchProfile, h]

@[simp]
theorem touchProfile_windows (E : Env) (clk : Clock) (m : AdvancedDataManager) (v : Int) :
    (touchProfile E clk m v).vehicle_data_windows = m.vehicle_data_windows := by
  cases h : m.vehicle_profiles v <;> simp [touchProfile, h]

@[simp]
theorem touchProfile_detected (E : Env) (clk : Clock) (m : AdvancedDataManager) (v : Int) :
    (touchProfile E clk m v).detected_anomalies = m.detected_anomalies := by
  cases h : m.vehicle_profiles v <;> simp [touchProfile, h]

@[simp]
theorem touchProfile_geofences (E : Env) (clk : Clock) (m : AdvancedDataManager) (v : Int) :
    (touchProfile E clk m v).geofences = m.geofences := by
  cases h : m.vehicle_profiles v <;> simp [touchProfile, h]

@[simp]
theorem touchProfile_analytics (E : Env) (clk : Clock) (m : AdvancedDataManager) (v : Int) :
    (touchProfile E clk m v).analytics = m.analytics := by
  cases h : m.vehicle_profiles v <;> simp [touchProfile, h]

@[simp]
theorem touchProfile_ml_detector (E : Env) (clk : Clock) (m : AdvancedDataManager) (v : Int) :
    (touchProfile E clk m v).ml_detector = m.ml_detector := by
  cases h : m.vehicle_profiles v <;> simp [touchProfile, h]

@[simp]
theorem touchProfile_total_readings (E : Env) (clk : Clock) (m : AdvancedDataManager)
    (v : Int) :
    (touchProfile E clk m v).total_readings_processed = m.total_readings_processed := by
  cases h : m.vehicle_profiles v <;> simp [touchProfile, h]

@[simp]
theorem touchProfile_total_anomalies (E : Env) (clk : Clock) (m : AdvancedDataManager)
    (v : Int) :
    (touchProfile E clk m v).total_anomalies_detected = m.total_anomalies_detected := by
  cases h : m.vehicle_profiles v <;> simp [touchProfile, h]

@[simp]
theorem touchProfile_queue (E : Env) (clk : Clock) (m : AdvancedDataManager) (v : Int) :
    (touchProfile E clk m v).anomaly_priority_queue = m.anomaly_priority_queue := by
  cases h : m.vehicle_profiles v <;> simp [touchProfile, h]

@[simp]
theorem touchProfile_data_log_open (E : Env) (clk : Clock) (m : AdvancedDataManager)
    (v : Int) : (touchProfile E clk m v).data_log_open = m.data_log_open := by
  cases h : m.vehicle_profiles v <;> simp [touchProfile, h]

@[simp]
theorem touchProfile_anomaly_log_open (E : Env) (clk : Clock) (m : AdvancedDataManager)
    (v : Int) : (touchProfile E clk m v).anomaly_log_open = m.anomaly_log_open := by
  cases h : m.vehicle_profiles v <;> simp [touchProfile, h]

@[simp]
theorem touchProfile_performance_log_open (E : Env) (clk : Clock) (m : AdvancedDataManager)
    (v : Int) :
    (touchProfile E clk m v).performance_log_open = m.performance_log_open := by
  cases h : m.vehicle_profiles v <;> simp [touchProfile, h]

@[simp]
theorem touchProfile_data_log (E : Env) (clk : Clock) (m : AdvancedDataManager) (v : Int) :
    (touchProfile E clk m v).data_log = m.data_log := by
  cases h : m.vehicle_profiles v <;> simp [touchProfile, h]

@[simp]
theorem touchProfile_anomaly_log (E : Env) (clk : Clock) (m : AdvancedDataManager) (v : Int) :
    (touchProfile E clk m v).anomaly_log = m.anomaly_log := by
  cases h : m.vehicle_profiles v <;> simp [touchProfile, h]

@[simp]
theorem touchProfile_performance_log (E : Env) (clk : Clock) (m : AdvancedDataManager)
    (v : Int) : (touchProfile E clk m v).performance_log = m.performance_log := by
  cases h : m.vehicle_profiles v <;> simp [touchProfile, h]

@[simp]
theorem touchProfile_calls_started (E : Env) (clk : Clock) (m : AdvancedDataManager)
    (v : Int) : (touchProfile E clk m v).calls_started = m.calls_started := by
  cases h : m.vehicle_profiles v <;> simp [touchProfile, h]

theorem checkMaintenanceRequirements_eq (E : Env) (clk : Clock) (m : AdvancedDataManager)
    (reading : SensorReading) :
    checkMaintenanceRequirements E clk m reading =
      if maintenanceDue (profileRef E clk m reading.vehicle_id) reading then
        setProfile
          (emitAll clk reading.vehicle_id
            [maintenanceEmission (profileRef E clk m reading.vehicle_id)]
            (touchProfile E clk m reading.vehicle_id))
          reading.vehicle_id
          { bumpAnomalies 1 (profileRef E clk m reading.vehicle_id) with
            current_state := VehicleState.MAINTENANCE }
      else touchProfile E clk m reading.vehicle_id := by
  unfold checkMaintenanceRequirements maintenanceDue
  dsimp only
  split
  · have hp : profileRef E clk
        (addEnhancedAnomaly clk (touchProfile E clk m reading.vehicle_id) reading.vehicle_id
          "maintenance" (profileRef E clk m reading.vehicle_id).total_distance_km
          AnomalyType.MAINTENANCE_REQUIRED "Scheduled maintenance due" 2 "" 0)
        reading.vehicle_id = bumpAnomalies 1 (profileRef E clk m reading.vehicle_id) := by
      unfold profileRef
      rw [addEnhancedAnomaly_profiles, if_pos rfl, touchProfile_profiles, if_pos rfl]
      rfl
    rw [hp]
    rfl
  · rfl

theorem setProfile_of_some (m : AdvancedDataManager) (v : Int) (p : VehicleProfile)
    (h : m.vehicle_profiles v = some p) : setProfile m v p = m := by
  unfold setProfile
  rw [← h, mapSet_self]

/-! ## The sliding window through a call -/

theorem checkMaintenanceRequirements_windows (E : Env) (clk : Clock) (m : AdvancedDataManager)
    (reading : SensorReading) :
    (checkMaintenanceRequirements E clk m reading).vehicle_data_windows =
      m.vehicle_data_windows := by
  rw [checkMaintenanceRequirements_eq]
  split <;> simp [setProfile, emitAll_windows, touchProfile_windows]

theorem detectEnhancedAnomalies_windows (E : Env) (clk : Clock) (m : AdvancedDataManager)
    (current : SensorReading) (window : List SensorReading) :
    (detectEnhancedAnomalies E clk m current window).1.vehicle_data_windows =
      m.vehicle_data_windows := by
  rw [detectEnhancedAnomalies_fst, checkMaintenanceRequirements_windows, emitAll_windows]

theorem checkGeofenceViolations_eq (E : Env) (clk : Clock) (m : AdvancedDataManager)
    (reading : SensorReading) :
    checkGeofenceViolations E clk m reading =
      emitAll clk reading.vehicle_id
        ((violatedFences E m.geofences reading).map geofenceEmission) m := by
  unfold checkGeofenceViolations
  exact checkGeofenceLoop_eq E clk reading m.geofences m

theorem updateVehicleState_windows (clk : Clock) (m : AdvancedDataManager) (v : Int) :
    (updateVehicleState clk m v).vehicle_data_windows = m.vehicle_data_windows := by
  unfold updateVehicleState
  split <;> rfl

theorem updateVehicleState_detected (clk : Clock) (m : AdvancedDataManager) (v : Int) :
    (updateVehicleState clk m v).detected_anomalies = m.detected_anomalies := by
  unfold updateVehicleState
  split <;> rfl

theorem logPerformance_windows (m : AdvancedDataManager) :
    (logPerformance m).vehicle_data_windows = m.vehicle_data_windows := by
  unfold logPerformance
  split <;> rfl

theorem logPerformance_detected (m : AdvancedDataManager) :
    (logPerformance m).detected_anomalies = m.detected_anomalies := by
  unfold logPerformance
  split <;> rfl

theorem logPerformance_profiles (m : AdvancedDataManager) :
    (logPerformance m).vehicle_profiles = m.vehicle_profiles := by
  unfold logPerformance
  split <;> rfl

theorem beforeTransition_windows (E : Env) (clk : Clock) (m : AdvancedDataManager)
    (reading : SensorReading) :
    (beforeTransition E clk m reading).vehicle_data_windows =
      (ingested E clk m reading).vehicle_data_windows := by
  unfold beforeTransition logReading
  dsimp only
  split <;>
    simp [checkGeofenceViolations_eq, emitAll_windows, detectEnhancedAnomalies_windows]

theorem processSensorReading_windows (E : Env) (clk : Clock) (m : AdvancedDataManager)
    (reading : SensorReading) :
    (processSensorReading E clk m reading).vehicle_data_windows =
      mapSet m.vehicle_data_windows reading.vehicle_id
        (pushEvict (m.vehicle_data_windows reading.vehicle_id) reading) := by
  rw [processSensorReading_eq, logPerformance_windows, updateVehicleState_windows,
    beforeTransition_windows, ingested_windows]

theorem pushEvict_length_le (window : List SensorReading) (reading : SensorReading)
    (h : window.length ≤ WINDOW_SIZE) : (pushEvict window reading).length ≤ WINDOW_SIZE := by
  unfold pushEvict
  split
  · simp only [List.length_tail, List.length_append, List.length_singleton]
    omega
  · omega

theorem processSensorReading_window_bound (E : Env) (clk : Clock) (m : AdvancedDataManager)
    (reading : SensorReading)
    (h : ∀ v, (m.vehicle_data_windows v).length ≤ WINDOW_SIZE) (v : Int) :
    ((processSensorReading E clk m reading).vehicle_data_windows v).length ≤ WINDOW_SIZE := by
  rw [processSensorReading_windows]
  by_cases hv : v = reading.vehicle_id
  · subst hv
    rw [mapSet_same]
    exact pushEvict_length_le _ _ (h _)
  · rw [mapSet_other _ _ _ _ hv]
    exact h v

theorem processAll_window_bound (E : Env) (calls : List (Clock × SensorReading))
    (m : AdvancedDataManager)
    (h : ∀ v, (m.vehicle_data_windows v).length ≤ WINDOW_SIZE) (v : Int) :
    ((processAll E m calls).vehicle_data_windows v).length ≤ WINDOW_SIZE := by
  induction calls generalizing m with
  | nil => exact h v
  | cons c cs ih =>
      obtain ⟨clk, reading⟩ := c
      exact ih _ (processSensorReading_window_bound E clk m reading h)

/-- Claim C1.  Starting from a freshly constructed manager, after every sequence
of `processSensorReading` calls (each with any clock and any sample) the sliding
window of every vehicle id holds at most 200 samples. -/
theorem window_at_most_200 (E : Env) (clk0 : Clock) (data_open anomaly_open performance_open : Bool)
    (calls : List (Clock × SensorReading)) (v : Int) :
    ((processAll E (AdvancedDataManager.new clk0 data_open anomaly_open performance_open)
      calls).vehicle_data_windows v).length ≤ 200 := by
  apply processAll_window_bound
  intro u
  simp [AdvancedDataManager.new]

/-- Claim C2.  One `processSensorReading` call on the window of the sample's
vehicle: a window of exactly 200 samples loses its first (oldest) sample, gains
the new sample at the end and keeps length 200; a window of fewer than 200
samples gains the new sample at the end and loses nothing. -/
theorem window_push_then_evict (E : Env) (clk : Clock) (m : AdvancedDataManager)
    (s : SensorReading) :
    ((m.vehicle_data_windows s.vehicle_id).length = 200 →
      (processSensorReading E clk m s).vehicle_data_windows s.vehicle_id =
          (m.vehicle_data_windows s.vehicle_id).tail ++ [s] ∧
        ((processSensorReading E clk m s).vehicle_data_windows s.vehicle_id).length = 200) ∧
    ((m.vehicle_data_windows s.vehicle_id).length < 200 →
      (processSensorReading E clk m s).vehicle_data_windows s.vehicle_id =
        m.vehicle_data_windows s.vehicle_id ++ [s]) := by
  rw [processSensorReading_windows, mapSet_same]
  unfold pushEvict WINDOW_SIZE
  constructor
  · intro h
    have hne : m.vehicle_data_windows s.vehicle_id ≠ [] := by
      intro h0
      rw [h0] at h
      simp at h
    rw [if_pos (by simp [h]), List.tail_append_of_ne_nil hne]
    simp [h]
  · intro h
    rw [if_neg (by simp; omega)]

/-- Witness for C2: a full window of vehicle 7 (samples stamped 0 .. 199), and a
fresh manager. -/
theorem window_push_then_evict_witness :
    ((fullWindowManager.vehicle_data_windows (calmReading 7 200).vehicle_id).length = 200 ∧
      (processSensorReading exampleEnv (constClock 200) fullWindowManager
          (calmReading 7 200)).vehicle_data_windows (calmReading 7 200).vehicle_id =
        (fullWindowManager.vehicle_data_windows (calmReading 7 200).vehicle_id).tail ++
          [calmReading 7 200]) ∧
    (((freshManager 0).vehicle_data_windows (calmReading 7 5).vehicle_id).length < 200 ∧
      (processSensorReading exampleEnv (constClock 5) (freshManager 0)
          (calmReading 7 5)).vehicle_data_windows (calmReading 7 5).vehicle_id =
        (freshManager 0).vehicle_data_windows (calmReading 7 5).vehicle_id ++
          [calmReading 7 5]) :=
  have h200 : (fullWindowManager.vehicle_data_windows (calmReading 7 200).vehicle_id).length
      = 200 := by
    show (if (7 : Int) = 7 then (List.range 200).map fun (i : Nat) => calmReading 7 (Int.ofNat i)
      else []).length = 200
    rw [if_pos rfl, List.length_map, List.length_range]
  have h0 : ((freshManager 0).vehicle_data_windows (calmReading 7 5).vehicle_id).length
      < 200 := by decide!
  ⟨⟨h200, ((window_push_then_evict exampleEnv (constClock 200) fullWindowManager
      (calmReading 7 200)).1 h200).1⟩,
   ⟨h0, (window_push_then_evict exampleEnv (constClock 5) (freshManager 0)
      (calmReading 7 5)).2 h0⟩⟩

/-! ## Stored anomalies of the rule functions -/

theorem stamp_map_key (clk : Clock) (v : Int) (k : Nat) (es : List Emission) :
    (stamp clk v k es).map kindAndSeverity = es.map emissionKey := by
  induction es generalizing k with
  | nil => rfl
  | cons e es ih =>
      simp only [stamp, List.map_cons, ih]
      rfl

theorem checkMaintenanceRequirements_detected (E : Env) (clk : Clock)
    (m : AdvancedDataManager) (reading : SensorReading) (u : Int) :
    (checkMaintenanceRequirements E clk m reading).detected_anomalies u =
      if u = reading.vehicle_id then
        m.detected_anomalies reading.vehicle_id ++
          stamp clk reading.vehicle_id
            (m.clock_reads + (if (m.vehicle_profiles reading.vehicle_id).isSome then 0 else 2))
            (if maintenanceDue (profileRef E clk m reading.vehicle_id) reading then
              [maintenanceEmission (profileRef E clk m reading.vehicle_id)] else [])
      else m.detected_anomalies u := by
  rw [checkMaintenanceRequirements_eq]
  by_cases hd : maintenanceDue (profileRef E clk m reading.vehicle_id) reading
  · simp only [if_pos hd]
    show (emitAll clk reading.vehicle_id _
      (touchProfile E clk m reading.vehicle_id)).detected_anomalies u = _
    rw [emitAll_detected, touchProfile_detected, touchProfile_clock_reads]
  · simp only [if_neg hd]
    by_cases hu : u = reading.vehicle_id <;> simp [hu, touchProfile_detected, stamp]

theorem emitAll_profiles_isSome (clk : Clock) (v u : Int) (es : List Emission)
    (m : AdvancedDataManager) :
    ((emitAll clk v es m).vehicle_profiles u).isSome = (m.vehicle_profiles u).isSome := by
  rw [emitAll_profiles]
  split
  · rename_i h
    subst h
    cases m.vehicle_profiles u <;> rfl
  · rfl

theorem detectEnhancedAnomalies_detected (E : Env) (clk : Clock) (m : AdvancedDataManager)
    (current : SensorReading) (window : List SensorReading) (u : Int) :
    (detectEnhancedAnomalies E clk m current window).1.detected_anomalies u =
      if u = current.vehicle_id then
        m.detected_anomalies current.vehicle_id ++
          (stamp clk current.vehicle_id m.clock_reads
              (detectEmissions (m.ml_detector.calculateAnomalyScore E current.vehicle_id current
                (E.indeterminate m.calls_started 0)) current window) ++
            stamp clk current.vehicle_id
              (m.clock_reads +
                (detectEmissions (m.ml_detector.calculateAnomalyScore E current.vehicle_id
                  current (E.indeterminate m.calls_started 0)) current window).length +
                (if (m.vehicle_profiles current.vehicle_id).isSome then 0 else 2))
              (if maintenanceDue
                    (profileRef E clk
                      (emitAll clk current.vehicle_id
                        (detectEmissions
                          (m.ml_detector.calculateAnomalyScore E current.vehicle_id current
                            (E.indeterminate m.calls_started 0))
                          current window) m) current.vehicle_id) current then
                [maintenanceEmission
                  (profileRef E clk
                    (emitAll clk current.vehicle_id
                      (detectEmissions
                        (m.ml_detector.calculateAnomalyScore E current.vehicle_id current
                          (E.indeterminate m.calls_started 0))
                        current window) m) current.vehicle_id)]
              else []))
      else m.detected_anomalies u := by
  rw [detectEnhancedAnomalies_fst, checkMaintenanceRequirements_detected]
  by_cases hu : u = current.vehicle_id
  · simp only [if_pos hu, emitAll_detected, emitAll_clock_reads, if_true,
      List.append_assoc, emitAll_profiles_isSome]
  · simp only [if_neg hu, emitAll_detected, if_false]

theorem harsh_segment (ml a : ℚ) (rest : List (String × Int)) :
    List.map emissionKey
        (if |a| > 6 then
          [{ sensor := "acceleration", value := some a,
             type := if a > 0 then AnomalyType.HARSH_ACCELERATION
               else AnomalyType.HARSH_BRAKING,
             description := if a > 0 then "Harsh acceleration detected"
               else "Harsh braking detected",
             severity := 3, location := "", ml_score := ml }]
        else []) ++ rest =
      (if a > 6 then [("HARSH_ACCEL", 3)] else []) ++
        ((if a < -6 then [("HARSH_BRAKE", 3)] else []) ++ rest) := by
  rcases le_or_lt 0 a with h | h
  · rw [abs_of_nonneg h]
    by_cases h6 : a > 6
    · have h0 : a > 0 := by linarith
      have hn : ¬ a < -6 := by linarith
      simp [h6, h0, hn, emissionKey, AnomalyRecord.new, AnomalyRecord.getTypeString]
    · have hn : ¬ a < -6 := by linarith
      simp [h6, hn]
  · rw [abs_of_neg h]
    have h0 : ¬ a > 0 := by linarith
    have hp : ¬ a > 6 := by linarith
    by_cases h6 : a < -6
    · have h6' : -a > 6 := by linarith
      simp [h6, h6', h0, hp, emissionKey, AnomalyRecord.new, AnomalyRecord.getTypeString]
    · have h6' : ¬ -a > 6 := by linarith
      simp [h6, h6', hp]

theorem instantEmissions_key (ml : ℚ) (S : SensorReading) :
    (instantEmissions ml S).map emissionKey = specInstantRules S := by
  unfold instantEmissions specInstantRules
  simp only [List.map_append, List.append_assoc]
  congr 1
  · split <;> rfl
  congr 1
  · split <;> rfl
  congr 1
  · split <;> rfl
  rw [harsh_segment]
  congr 2
  congr 1
  · split <;> rfl
  · split <;> rfl

theorem kind_of_later (clk : Clock) (v : Int) (k : Nat) (es : List Emission)
    (h : ∀ e ∈ es, e.type = AnomalyType.FUEL_LEAK ∨ e.type = AnomalyType.ERRATIC_BEHAVIOR ∨
      e.type = AnomalyType.MAINTENANCE_REQUIRED) :
    ∀ a ∈ stamp clk v k es, a.getTypeString = "FUEL_LEAK" ∨ a.getTypeString = "ERRATIC" ∨
      a.getTypeString = "MAINTENANCE" := by
  induction es generalizing k with
  | nil => intro a ha; simp [stamp] at ha
  | cons e es ih =>
      intro a ha
      simp only [stamp, List.mem_cons] at ha
      rcases ha with rfl | ha
      · rcases h e (List.mem_cons_self _ _) with h1 | h1 | h1 <;>
          simp [AnomalyRecord.new, AnomalyRecord.getTypeString, h1]
      · exact ih (k + 1) (fun e he => h e (List.mem_cons_of_mem _ he)) a ha

/-- Claim C3.  The anomalies that `detectEnhancedAnomalies` stores for a sample
are the records of the instantaneous rules followed by later ones (fuel leak,
baseline, maintenance).  The instantaneous records are, kind and severity, in
table order and one per rule, exactly the rows of R1 to R7 whose condition holds;
so no rule suppresses another (six violated rules give six records), speed 200
and temperature 110 fire nothing, speed 200.01 and temperature 110.01 fire. -/
theorem instant_rules_fire_exactly (E : Env) (clk : Clock) (m : AdvancedDataManager)
    (S : SensorReading) (window : List SensorReading) :
    ∃ instant later : List AnomalyRecord,
      (detectEnhancedAnomalies E clk m S window).1.detected_anomalies S.vehicle_id =
        m.detected_anomalies S.vehicle_id ++ (instant ++ later) ∧
      instant.map kindAndSeverity = specInstantRules S ∧
      (∀ a ∈ later, a.getTypeString = "FUEL_LEAK" ∨ a.getTypeString = "ERRATIC" ∨
        a.getTypeString = "MAINTENANCE") ∧
      (S.speed_kmph > 200 ∧ S.rpm > 8000 ∧ S.engine_temp_celsius > 110 ∧
          S.acceleration_ms2 > 6 ∧ (S.oil_pressure_bar < 1 ∧ S.engine_on = true) ∧
          S.battery_voltage < 11 →
        instant.map kindAndSeverity =
          [("SPEED_RANGE", 4), ("RPM_RANGE", 3), ("TEMP_RANGE", 5), ("HARSH_ACCEL", 3),
           ("SENSOR_FAIL", 5), ("SENSOR_FAIL", 3)]) ∧
      (S.speed_kmph = 200 → ∀ a ∈ instant, a.getTypeString ≠ "SPEED_RANGE") ∧
      (S.engine_temp_celsius = 110 → ∀ a ∈ instant, a.getTypeString ≠ "TEMP_RANGE") ∧
      (S.speed_kmph = 20001 / 100 → ("SPEED_RANGE", 4) ∈ instant.map kindAndSeverity) ∧
      (S.engine_temp_celsius = 11001 / 100 →
        ("TEMP_RANGE", 5) ∈ instant.map kindAndSeverity) := by
  have key := detectEnhancedAnomalies_detected E clk m S window S.vehicle_id
  rw [if_pos rfl] at key
  obtain ⟨ml, hml⟩ : ∃ ml, m.ml_detector.calculateAnomalyScore E S.vehicle_id S
      (E.indeterminate m.calls_started 0) = ml := ⟨_, rfl⟩
  rw [hml] at key
  obtain ⟨maint, hmaint, hkind⟩ : ∃ maint : List Emission,
      (if maintenanceDue
            (profileRef E clk (emitAll clk S.vehicle_id (detectEmissions ml S window) m)
              S.vehicle_id) S then
          [maintenanceEmission
            (profileRef E clk (emitAll clk S.vehicle_id (detectEmissions ml S window) m)
              S.vehicle_id)]
        else []) = maint ∧
      ∀ e ∈ maint, e.type = AnomalyType.MAINTENANCE_REQUIRED := by
    refine ⟨_, rfl, ?_⟩
    intro e he
    split at he
    · simp only [List.mem_singleton] at he
      subst he
      rfl
    · simp at he
  rw [hmaint] at key
  refine ⟨stamp clk S.vehicle_id m.clock_reads (instantEmissions ml S),
    stamp clk S.vehicle_id (m.clock_reads + (instantEmissions ml S).length)
        (fuelEmissions ml window ++ mlEmissions ml) ++
      stamp clk S.vehicle_id
        (m.clock_reads + (detectEmissions ml S window).length +
          (if (m.vehicle_profiles S.vehicle_id).isSome then 0 else 2)) maint,
    ?_, ?_, ?_, ?_, ?_, ?_, ?_, ?_⟩
  · rw [key]
    simp only [detectEmissions, stamp_append, List.append_assoc]
  · rw [stamp_map_key, instantEmissions_key]
  · intro a ha
    rcases List.mem_append.1 ha with ha | ha
    · refine kind_of_later clk S.vehicle_id _ _ ?_ a ha
      intro e he
      simp only [fuelEmissions, mlEmissions, List.mem_append] at he
      rcases he with he | he
      · split at he
        · simp only [List.mem_singleton] at he
          subst he
          exact Or.inl rfl
        · simp at he
      · split at he
        · simp only [List.mem_singleton] at he
          subst he
          exact Or.inr (Or.inl rfl)
        · simp at he
    · exact kind_of_later clk S.vehicle_id _ _ (fun e he => Or.inr (Or.inr (hkind e he))) a ha
  · rintro ⟨h1, h2, h3, h4, h5, h6⟩
    have h4n : ¬ S.acceleration_ms2 < -6 := by linarith
    rw [stamp_map_key, instantEmissions_key]
    simp [specInstantRules, h1, h2, h3, h4, h4n, h5, h6]
  · intro h a ha
    have hk : kindAndSeverity a ∈ specInstantRules S := by
      rw [← instantEmissions_key ml, ← stamp_map_key clk S.vehicle_id m.clock_reads]
      exact List.mem_map_of_mem _ ha
    intro hs
    have h1 : ¬ (S.speed_kmph > 200 ∨ S.speed_kmph < -5) := by rw [h]; norm_num
    simp [specInstantRules, h1, kindAndSeverity, hs] at hk
  · intro h a ha
    have hk : kindAndSeverity a ∈ specInstantRules S := by
      rw [← instantEmissions_key ml, ← stamp_map_key clk S.vehicle_id m.clock_reads]
      exact List.mem_map_of_mem _ ha
    intro hs
    have h1 : ¬ (S.engine_temp_celsius > 110) := by rw [h]; norm_num
    simp [specInstantRules, h1, kindAndSeverity, hs] at hk
  · intro h
    have h1 : S.speed_kmph > 200 ∨ S.speed_kmph < -5 := by rw [h]; norm_num
    rw [stamp_map_key, instantEmissions_key]
    simp [specInstantRules, h1]
  · intro h
    have h1 : S.engine_temp_celsius > 110 := by rw [h]; norm_num
    rw [stamp_map_key, instantEmissions_key]
    simp [specInstantRules, h1]

/-! ## The store before the state transition -/

theorem profileRef_emitAll (E : Env) (clk : Clock) (v : Int) (es : List Emission)
    (m : AdvancedDataManager) (hp : (m.vehicle_profiles v).isSome) :
    profileRef E clk (emitAll clk v es m) v = bumpAnomalies es.length (profileRef E clk m v) := by
  unfold profileRef
  rw [emitAll_profiles, if_pos rfl]
  cases h : m.vehicle_profiles v with
  | none => simp [h] at hp
  | some p => rfl

theorem maintenanceDue_emitAll (E : Env) (clk : Clock) (v : Int) (es : List Emission)
    (m : AdvancedDataManager) (reading : SensorReading) :
    maintenanceDue (profileRef E clk (emitAll clk v es m) v) reading ↔
      maintenanceDue (profileAfter E clk m v es.length) reading := by
  unfold profileRef profileAfter
  rw [emitAll_profiles, if_pos rfl, emitAll_clock_reads]
  cases h : m.vehicle_profiles v <;> rfl

theorem maintenanceEmission_emitAll (E : Env) (clk : Clock) (v : Int) (es : List Emission)
    (m : AdvancedDataManager) :
    maintenanceEmission (profileRef E clk (emitAll clk v es m) v) =
      maintenanceEmission (profileAfter E clk m v es.length) := by
  unfold profileRef profileAfter
  rw [emitAll_profiles, if_pos rfl, emitAll_clock_reads]
  cases h : m.vehicle_profiles v <;> rfl

theorem checkMaintenanceRequirements_clock_reads (E : Env) (clk : Clock)
    (m : AdvancedDataManager) (reading : SensorReading) :
    (checkMaintenanceRequirements E clk m reading).clock_reads =
      m.clock_reads + (if (m.vehicle_profiles reading.vehicle_id).isSome then 0 else 2) +
        (if maintenanceDue (profileRef E clk m reading.vehicle_id) reading then
          [maintenanceEmission (profileRef E clk m reading.vehicle_id)] else []).length := by
  rw [checkMaintenanceRequirements_eq]
  split
  · show (emitAll clk reading.vehicle_id _
      (touchProfile E clk m reading.vehicle_id)).clock_reads = _
    rw [emitAll_clock_reads, touchProfile_clock_reads]
  · rw [touchProfile_clock_reads]
    rfl

theorem checkMaintenanceRequirements_geofences (E : Env) (clk : Clock)
    (m : AdvancedDataManager) (reading : SensorReading) :
    (checkMaintenanceRequirements E clk m reading).geofences = m.geofences := by
  rw [checkMaintenanceRequirements_eq]
  split <;> simp [setProfile, emitAll_geofences, touchProfile_geofences]

theorem checkMaintenanceRequirements_data_log_open (E : Env) (clk : Clock)
    (m : AdvancedDataManager) (reading : SensorReading) :
    (checkMaintenanceRequirements E clk m reading).data_log_open = m.data_log_open := by
  rw [checkMaintenanceRequirements_eq]
  split <;> simp [setProfile, emitAll_data_log_open, touchProfile_data_log_open]

theorem checkMaintenanceRequirements_profiles (E : Env) (clk : Clock)
    (m : AdvancedDataManager) (reading : SensorReading) (u : Int) :
    (checkMaintenanceRequirements E clk m reading).vehicle_profiles u =
      if u = reading.vehicle_id then
        some (if maintenanceDue (profileRef E clk m reading.vehicle_id) reading then
          markMaintenance (bumpAnomalies 1 (profileRef E clk m reading.vehicle_id))
          else profileRef E clk m reading.vehicle_id)
      else m.vehicle_profiles u := by
  rw [checkMaintenanceRequirements_eq]
  by_cases hd : maintenanceDue (profileRef E clk m reading.vehicle_id) reading
  · simp only [if_pos hd]
    by_cases hu : u = reading.vehicle_id
    · simp [hu, setProfile, mapSet, markMaintenance]
    · simp only [if_neg hu]
      show mapSet (emitAll clk reading.vehicle_id _
        (touchProfile E clk m reading.vehicle_id)).vehicle_profiles reading.vehicle_id _ u = _
      rw [mapSet_other _ _ _ _ hu, emitAll_profiles, if_neg hu, touchProfile_profiles,
        if_neg hu]
  · simp only [if_neg hd]
    rw [touchProfile_profiles]

theorem detectEnhancedAnomalies_clock_reads (E : Env) (clk : Clock) (m : AdvancedDataManager)
    (current : SensorReading) (window : List SensorReading) :
    (detectEnhancedAnomalies E clk m current window).1.clock_reads =
      m.clock_reads +
        (detectEmissions (m.ml_detector.calculateAnomalyScore E current.vehicle_id current
            (E.indeterminate m.calls_started 0)) current window).length +
        (if (m.vehicle_profiles current.vehicle_id).isSome then 0 else 2) +
        (if maintenanceDue (profileAfter E clk m current.vehicle_id
              (detectEmissions (m.ml_detector.calculateAnomalyScore E current.vehicle_id current
                (E.indeterminate m.calls_started 0)) current window).length) current then
            [maintenanceEmission (profileAfter E clk m current.vehicle_id
              (detectEmissions (m.ml_detector.calculateAnomalyScore E current.vehicle_id current
                (E.indeterminate m.calls_started 0)) current window).length)]
          else []).length := by
  rw [detectEnhancedAnomalies_fst, checkMaintenanceRequirements_clock_reads,
    emitAll_clock_reads, maintenanceEmission_emitAll, emitAll_profiles_isSome]
  simp only [maintenanceDue_emitAll]

theorem detectEnhancedAnomalies_geofences (E : Env) (clk : Clock) (m : AdvancedDataManager)
    (current : SensorReading) (window : List SensorReading) :
    (detectEnhancedAnomalies E clk m current window).1.geofences = m.geofences := by
  rw [detectEnhancedAnomalies_fst, checkMaintenanceRequirements_geofences, emitAll_geofences]

theorem detectEnhancedAnomalies_data_log_open (E : Env) (clk : Clock)
    (m : AdvancedDataManager) (current : SensorReading) (window : List SensorReading) :
    (detectEnhancedAnomalies E clk m current window).1.data_log_open = m.data_log_open := by
  rw [detectEnhancedAnomalies_fst, checkMaintenanceRequirements_data_log_open,
    emitAll_data_log_open]

theorem detectEnhancedAnomalies_detected_call (E : Env) (clk : Clock)
    (m : AdvancedDataManager) (current : SensorReading) (window : List SensorReading)
    (u : Int) :
    (detectEnhancedAnomalies E clk m current window).1.detected_anomalies u =
      if u = current.vehicle_id then
        m.detected_anomalies current.vehicle_id ++
          (stamp clk current.vehicle_id m.clock_reads
              (detectEmissions (m.ml_detector.calculateAnomalyScore E current.vehicle_id current
                (E.indeterminate m.calls_started 0)) current window) ++
            stamp clk current.vehicle_id
              (m.clock_reads +
                (detectEmissions (m.ml_detector.calculateAnomalyScore E current.vehicle_id
                  current (E.indeterminate m.calls_started 0)) current window).length +
                (if (m.vehicle_profiles current.vehicle_id).isSome then 0 else 2))
              (if maintenanceDue (profileAfter E clk m current.vehicle_id
                    (detectEmissions (m.ml_detector.calculateAnomalyScore E current.vehicle_id
                      current (E.indeterminate m.calls_started 0)) current window).length)
                    current then
                [maintenanceEmission (profileAfter E clk m current.vehicle_id
                  (detectEmissions (m.ml_detector.calculateAnomalyScore E current.vehicle_id
                    current (E.indeterminate m.calls_started 0)) current window).length)]
              else []))
      else m.detected_anomalies u := by
  rw [detectEnhancedAnomalies_detected, maintenanceEmission_emitAll]
  simp only [maintenanceDue_emitAll]

theorem logReading_detected (m : AdvancedDataManager) (reading : SensorReading) :
    (logReading m reading).detected_anomalies = m.detected_anomalies := by
  unfold logReading
  split <;> rfl

theorem logReading_clock_reads (m : AdvancedDataManager) (reading : SensorReading) :
    (logReading m reading).clock_reads = m.clock_reads := by
  unfold logReading
  split <;> rfl

theorem logReading_profiles (m : AdvancedDataManager) (reading : SensorReading) :
    (logReading m reading).vehicle_profiles = m.vehicle_profiles := by
  unfold logReading
  split <;> rfl

theorem ingested_profiles_isSome (E : Env) (clk : Clock) (m : AdvancedDataManager)
    (reading : SensorReading) (u : Int) :
    ((ingested E clk m reading).vehicle_profiles u).isSome = (m.vehicle_profiles u).isSome := by
  rw [ingested_profiles]
  split
  · rename_i h
    subst h
    cases m.vehicle_profiles reading.vehicle_id <;> rfl
  · rfl

theorem ingested_calls_started (E : Env) (clk : Clock) (m : AdvancedDataManager)
    (reading : SensorReading) :
    (ingested E clk m reading).calls_started = m.calls_started + 1 := by
  unfold ingested
  simp only [updateVehicleProfile_guarded]
  unfold countReading appendToWindow trainPeriodically setProfile
  dsimp only
  split <;> split <;> split <;> rfl

theorem profileAfter_ingested (E : Env) (clk : Clock) (m : AdvancedDataManager)
    (reading : SensorReading) :
    profileAfter E clk (ingested E clk m reading) reading.vehicle_id
        (callDetections E clk m reading).length = checkedProfile E clk m reading := by
  unfold profileAfter checkedProfile
  rw [ingested_clock_reads, Nat.zero_add]

theorem insertionReads_eq (E : Env) (clk : Clock) (m : AdvancedDataManager)
    (reading : SensorReading) :
    (if ((ingested E clk m reading).vehicle_profiles reading.vehicle_id).isSome then 0 else 2) =
      insertionReads m reading := by
  unfold insertionReads
  rw [ingested_profiles_isSome]

theorem insertionReads_of_some (m : AdvancedDataManager) (reading : SensorReading)
    (h : (m.vehicle_profiles reading.vehicle_id).isSome = true) :
    insertionReads m reading = 0 := by
  unfold insertionReads
  rw [if_pos h]

theorem callRecords_of_some (E : Env) (clk : Clock) (m : AdvancedDataManager)
    (reading : SensorReading) (h : (m.vehicle_profiles reading.vehicle_id).isSome = true) :
    callRecords E clk m reading =
      stamp clk reading.vehicle_id 0 (callEmissions E clk m reading) := by
  unfold callRecords callEmissions
  rw [insertionReads_of_some m reading h]
  simp only [stamp_append, Nat.zero_add, Nat.add_zero, List.append_assoc]

theorem callRecords_length (E : Env) (clk : Clock) (m : AdvancedDataManager)
    (reading : SensorReading) :
    (callRecords E clk m reading).length = (callEmissions E clk m reading).length := by
  unfold callRecords callEmissions
  simp only [List.length_append, stamp_length]
  omega

theorem beforeTransition_detected (E : Env) (clk : Clock) (m : AdvancedDataManager)
    (reading : SensorReading) (u : Int) :
    (beforeTransition E clk m reading).detected_anomalies u =
      if u = reading.vehicle_id then
        m.detected_anomalies reading.vehicle_id ++ callRecords E clk m reading
      else m.detected_anomalies u := by
  unfold beforeTransition
  dsimp only
  rw [logReading_detected, checkGeofenceViolations_eq, emitAll_detected,
    detectEnhancedAnomalies_geofences, ingested_geofences,
    detectEnhancedAnomalies_clock_reads, ingested_clock_reads]
  by_cases hu : u = reading.vehicle_id
  · simp only [if_pos hu]
    rw [detectEnhancedAnomalies_detected_call, if_pos rfl, ingested_clock_reads,
      ingested_detected, ingested_calls_started]
    show _ = m.detected_anomalies reading.vehicle_id ++ callRecords E clk m reading
    have hD : detectEmissions
        ((ingested E clk m reading).ml_detector.calculateAnomalyScore E reading.vehicle_id
          reading (E.indeterminate (m.calls_started + 1) 0)) reading
        ((ingested E clk m reading).vehicle_data_windows reading.vehicle_id) =
        callDetections E clk m reading := by
      unfold callDetections callScore
      rw [ingested_calls_started]
    rw [hD, profileAfter_ingested, insertionReads_eq]
    unfold callRecords maintenanceEmissions
    simp only [Nat.zero_add, stamp_append, List.append_assoc, List.length_append]
  · simp only [if_neg hu]
    rw [detectEnhancedAnomalies_detected_call, if_neg hu, ingested_detected]

theorem beforeTransition_clock_reads (E : Env) (clk : Clock) (m : AdvancedDataManager)
    (reading : SensorReading) :
    (beforeTransition E clk m reading).clock_reads =
      (callEmissions E clk m reading).length + insertionReads m reading := by
  unfold beforeTransition
  dsimp only
  rw [logReading_clock_reads, checkGeofenceViolations_eq, emitAll_clock_reads,
    detectEnhancedAnomalies_geofences, ingested_geofences,
    detectEnhancedAnomalies_clock_reads, ingested_clock_reads, ingested_calls_started]
  have hD : detectEmissions
      ((ingested E clk m reading).ml_detector.calculateAnomalyScore E reading.vehicle_id
        reading (E.indeterminate (m.calls_started + 1) 0)) reading
      ((ingested E clk m reading).vehicle_data_windows reading.vehicle_id) =
      callDetections E clk m reading := by
    unfold callDetections callScore
    rw [ingested_calls_started]
  rw [hD, profileAfter_ingested, insertionReads_eq]
  unfold callEmissions maintenanceEmissions
  simp only [List.length_append]
  omega

theorem detectEnhancedAnomalies_profile (E : Env) (clk : Clock) (m : AdvancedDataManager)
    (current : SensorReading) (window : List SensorReading) (p : VehicleProfile)
    (hp : m.vehicle_profiles current.vehicle_id = some p) :
    (detectEnhancedAnomalies E clk m current window).1.vehicle_profiles current.vehicle_id =
      some (if maintenanceDue p current then
        markMaintenance (bumpAnomalies
          ((detectEmissions (m.ml_detector.calculateAnomalyScore E current.vehicle_id current
            (E.indeterminate m.calls_started 0)) current window).length + 1) p)
        else bumpAnomalies
          (detectEmissions (m.ml_detector.calculateAnomalyScore E current.vehicle_id current
            (E.indeterminate m.calls_started 0)) current window).length p) := by
  have hs : (m.vehicle_profiles current.vehicle_id).isSome := by simp [hp]
  have hr : profileRef E clk m current.vehicle_id = p := by simp [profileRef, hp]
  rw [detectEnhancedAnomalies_fst, checkMaintenanceRequirements_profiles, if_pos rfl,
    profileRef_emitAll E clk _ _ _ hs, hr]
  simp only [maintenanceDue_bump, bumpAnomalies_bump]

theorem beforeTransition_profile (E : Env) (clk : Clock) (m : AdvancedDataManager)
    (reading : SensorReading) (p : VehicleProfile)
    (hp : m.vehicle_profiles reading.vehicle_id = some p) :
    (beforeTransition E clk m reading).vehicle_profiles reading.vehicle_id =
      some (if maintenanceDue (updateProfileBody E p reading) reading then
        markMaintenance
          (bumpAnomalies (callEmissions E clk m reading).length (updateProfileBody E p reading))
        else bumpAnomalies (callEmissions E clk m reading).length
          (updateProfileBody E p reading)) := by
  have hi : (ingested E clk m reading).vehicle_profiles reading.vehicle_id =
      some (updateProfileBody E p reading) := by
    rw [ingested_profiles, if_pos rfl, hp]
    rfl
  have hc : checkedProfile E clk m reading = updateProfileBody E p reading := by
    simp [checkedProfile, hi]
  unfold beforeTransition
  dsimp only
  rw [logReading_profiles, checkGeofenceViolations_eq, emitAll_profiles, if_pos rfl,
    detectEnhancedAnomalies_geofences, ingested_geofences,
    detectEnhancedAnomalies_profile E clk _ _ _ _ hi, ingested_calls_started]
  have hD : detectEmissions
      ((ingested E clk m reading).ml_detector.calculateAnomalyScore E reading.vehicle_id
        reading (E.indeterminate (m.calls_started + 1) 0)) reading
      ((ingested E clk m reading).vehicle_data_windows reading.vehicle_id) =
      callDetections E clk m reading := by
    unfold callDetections callScore
    rw [ingested_calls_started]
  rw [hD]
  unfold callEmissions maintenanceEmissions
  rw [hc]
  by_cases hd : maintenanceDue (updateProfileBody E p reading) reading
  · simp only [if_pos hd, Option.map_some', List.length_append, List.length_singleton]
    congr 1
    simp [markMaintenance, bumpAnomalies, add_assoc]
  · simp only [if_neg hd, Option.map_some', List.length_append, List.length_nil,
      bumpAnomalies_bump]
    congr 2

/-! ## The state transition -/

theorem updateVehicleState_profile (clk : Clock) (m : AdvancedDataManager) (v : Int)
    (p : VehicleProfile) (hp : m.vehicle_profiles v = some p) :
    (updateVehicleState clk m v).vehicle_profiles v =
      some { p with
        current_state := transitionState (clk m.clock_reads) (m.detected_anomalies v) p } := by
  unfold updateVehicleState
  rw [hp]
  dsimp only
  unfold transitionState recentCritical recentHigh setProfile
  simp only [mapSet_same]
  congr 1
  split <;> split <;> first | rfl | (split <;> first | rfl | (split <;> rfl))

theorem transitionState_eq_spec (now : TimePoint) (anomalies : List AnomalyRecord)
    (profile : VehicleProfile) :
    transitionState now anomalies profile =
      specState (toSeconds (now - profile.last_seen) > 30) (recentCritical now anomalies)
        (recentHigh now anomalies) profile.current_state := by
  unfold transitionState specState
  by_cases h : profile.current_state = VehicleState.MAINTENANCE <;> simp [h]

theorem updateProfileBody_last_seen (E : Env) (p : VehicleProfile) (reading : SensorReading) :
    (updateProfileBody E p reading).last_seen = reading.timestamp := by
  unfold updateProfileBody
  dsimp only
  split <;> split <;> split <;> split <;> rfl

theorem updateProfileBody_current_state (E : Env) (p : VehicleProfile)
    (reading : SensorReading) :
    (updateProfileBody E p reading).current_state = p.current_state := by
  unfold updateProfileBody
  dsimp only
  split <;> split <;> split <;> split <;> rfl

theorem updateProfileBody_last_maintenance (E : Env) (p : VehicleProfile)
    (reading : SensorReading) :
    (updateProfileBody E p reading).last_maintenance = p.last_maintenance := by
  unfold updateProfileBody
  dsimp only
  split <;> split <;> split <;> split <;> rfl

theorem updateProfileBody_maintenance_interval (E : Env) (p : VehicleProfile)
    (reading : SensorReading) :
    (updateProfileBody E p reading).maintenance_interval_km = p.maintenance_interval_km := by
  unfold updateProfileBody
  dsimp only
  split <;> split <;> split <;> split <;> rfl

theorem processSensorReading_detected (E : Env) (clk : Clock) (m : AdvancedDataManager)
    (reading : SensorReading) (u : Int) :
    (processSensorReading E clk m reading).detected_anomalies u =
      if u = reading.vehicle_id then
        m.detected_anomalies reading.vehicle_id ++ callRecords E clk m reading
      else m.detected_anomalies u := by
  rw [processSensorReading_eq, logPerformance_detected, updateVehicleState_detected,
    beforeTransition_detected]

theorem processSensorReading_detected_some (E : Env) (clk : Clock) (m : AdvancedDataManager)
    (reading : SensorReading) (u : Int)
    (h : (m.vehicle_profiles reading.vehicle_id).isSome = true) :
    (processSensorReading E clk m reading).detected_anomalies u =
      if u = reading.vehicle_id then
        m.detected_anomalies reading.vehicle_id ++
          stamp clk reading.vehicle_id 0 (callEmissions E clk m reading)
      else m.detected_anomalies u := by
  rw [processSensorReading_detected, callRecords_of_some E clk m reading h]

theorem processSensorReading_profile (E : Env) (clk : Clock) (m : AdvancedDataManager)
    (reading : SensorReading) (p : VehicleProfile)
    (hp : m.vehicle_profiles reading.vehicle_id = some p) :
    ∃ p0 : VehicleProfile,
      (beforeTransition E clk m reading).vehicle_profiles reading.vehicle_id = some p0 ∧
      p0.last_seen = reading.timestamp ∧
      p0.current_state =
        (if maintenanceDue (updateProfileBody E p reading) reading then
          VehicleState.MAINTENANCE else p.current_state) ∧
      (processSensorReading E clk m reading).vehicle_profiles reading.vehicle_id =
        some { p0 with
          current_state := transitionState (transitionClock E clk m reading)
            ((processSensorReading E clk m reading).detected_anomalies reading.vehicle_id)
            p0 } := by
  refine ⟨_, beforeTransition_profile E clk m reading p hp, ?_, ?_, ?_⟩
  · split <;>
      simp [markMaintenance, bumpAnomalies, updateProfileBody_last_seen]
  · split <;>
      simp [markMaintenance, bumpAnomalies, updateProfileBody_current_state]
  · rw [processSensorReading_eq, logPerformance_profiles, logPerformance_detected,
      updateVehicleState_detected,
      updateVehicleState_profile clk _ _ _ (beforeTransition_profile E clk m reading p hp)]
    rfl

/-! ## Overheating -/

theorem stamp_filter_temp (clk : Clock) (v : Int) (k : Nat) (es : List Emission) :
    ((stamp clk v k es).filter isTempRecord).map kindAndSeverity =
      (es.filter isTempEmission).map emissionKey := by
  induction es generalizing k with
  | nil => rfl
  | cons e es ih =>
      have hk : isTempRecord (AnomalyRecord.new (clk k) v e.sensor e.value e.type e.description
          e.severity e.location) = isTempEmission e := rfl
      simp only [stamp, List.filter_cons, hk]
      split
      · simp only [List.map_cons, ih]
        rfl
      · exact ih (k + 1)

theorem stamp_vehicle_id (clk : Clock) (v : Int) (k : Nat) (es : List Emission) :
    ∀ a ∈ stamp clk v k es, a.vehicle_id = v := by
  induction es generalizing k with
  | nil => intro a ha; simp [stamp] at ha
  | cons e es ih =>
      intro a ha
      simp only [stamp, List.mem_cons] at ha
      rcases ha with rfl | ha
      · rfl
      · exact ih (k + 1) a ha

theorem mem_stamp (clk : Clock) (v : Int) (k : Nat) (es : List Emission) (e : Emission)
    (he : e ∈ es) :
    ∃ i : Nat, AnomalyRecord.new (clk i) v e.sensor e.value e.type e.description e.severity
      e.location ∈ stamp clk v k es := by
  induction es generalizing k with
  | nil => simp at he
  | cons x xs ih =>
      simp only [List.mem_cons] at he
      rcases he with rfl | he
      · exact ⟨k, by simp [stamp]⟩
      · obtain ⟨i, hi⟩ := ih (k + 1) he
        exact ⟨i, by simp [stamp, hi]⟩

theorem filter_temp_guard (c : Prop) [Decidable c] (e : Emission)
    (he : isTempEmission e = false) :
    (if c then [e] else []).filter isTempEmission = [] := by
  split <;> simp [he]

theorem instantEmissions_filter_temp (ml : ℚ) (S : SensorReading)
    (ht : S.engine_temp_celsius > 110) :
    (instantEmissions ml S).filter isTempEmission = [tempEmission ml S] := by
  unfold instantEmissions
  simp only [List.filter_append, if_pos ht]
  rw [filter_temp_guard _ _ (by rfl), filter_temp_guard _ _ (by rfl),
    filter_temp_guard (|S.acceleration_ms2| > 6) _
      (by unfold isTempEmission; split <;> rfl),
    filter_temp_guard _ _ (by rfl), filter_temp_guard _ _ (by rfl)]
  rfl

theorem callEmissions_filter_temp (E : Env) (clk : Clock) (m : AdvancedDataManager) (S : SensorReading)
    (ht : S.engine_temp_celsius > 110) :
    (callEmissions E clk m S).filter isTempEmission = [tempEmission (callScore E clk m S) S] := by
  unfold callEmissions callDetections detectEmissions
  simp only [List.filter_append, instantEmissions_filter_temp _ _ ht]
  have hf : (fuelEmissions (callScore E clk m S)
      ((ingested E clk m S).vehicle_data_windows S.vehicle_id)).filter isTempEmission = [] := by
    unfold fuelEmissions
    split <;> rfl
  have hm : (mlEmissions (callScore E clk m S)).filter isTempEmission = [] := by
    unfold mlEmissions
    split <;> rfl
  have hq : (maintenanceEmissions E clk m S).filter isTempEmission = [] := by
    unfold maintenanceEmissions
    split <;> rfl
  have hg : ((violatedFences E m.geofences S).map geofenceEmission).filter isTempEmission
      = [] := by
    rw [List.filter_eq_nil_iff]
    intro e he
    simp only [List.mem_map] at he
    obtain ⟨g, _, rfl⟩ := he
    simp [isTempEmission, geofenceEmission]
  rw [hf, hm, hq, hg]
  rfl

theorem tempEmission_mem_call (E : Env) (clk : Clock) (m : AdvancedDataManager) (S : SensorReading)
    (ht : S.engine_temp_celsius > 110) :
    tempEmission (callScore E clk m S) S ∈ callEmissions E clk m S := by
  have h : tempEmission (callScore E clk m S) S ∈ (callEmissions E clk m S).filter isTempEmission := by
    rw [callEmissions_filter_temp E clk m S ht]
    exact List.mem_singleton_self _
  exact List.mem_of_mem_filter h

theorem recentCritical_pos (now : TimePoint) (anomalies : List AnomalyRecord)
    (a : AnomalyRecord) (ha : a ∈ anomalies) (hs : a.severity = 5)
    (hr : now - a.timestamp < 6 * (60 * ticksPerSecond)) :
    recentCritical now anomalies > 0 := by
  unfold recentCritical
  rw [gt_iff_lt, List.countP_pos_iff]
  refine ⟨a, ha, ?_⟩
  simp [isRecent, hs, toMinutes_le_five, hr]

/-- Claim C4.  For a vehicle with a profile and a sample of it with engine
temperature above 110 that is processed while the clock is within 31 seconds of
the sample's timestamp, `processSensorReading` adds, among the anomalies it stores
under the vehicle, exactly one of kind TEMP_RANGE, of severity 5, and leaves the
state of the vehicle CRITICAL. -/
theorem overheat_gives_critical (E : Env) (clk : Clock) (m : AdvancedDataManager)
    (S : SensorReading) (hv : (m.vehicle_profiles S.vehicle_id).isSome = true)
    (ht : S.engine_temp_celsius > 110)
    (hclk : ∀ k, |clk k - S.timestamp| < 31 * ticksPerSecond) :
    ∃ (added : List AnomalyRecord) (p1 : VehicleProfile),
      (processSensorReading E clk m S).detected_anomalies S.vehicle_id =
        m.detected_anomalies S.vehicle_id ++ added ∧
      (∀ a ∈ added, a.vehicle_id = S.vehicle_id) ∧
      (added.filter isTempRecord).map kindAndSeverity = [("TEMP_RANGE", 5)] ∧
      (processSensorReading E clk m S).vehicle_profiles S.vehicle_id = some p1 ∧
      p1.current_state = VehicleState.CRITICAL := by
  obtain ⟨p, hp⟩ := Option.isSome_iff_exists.mp hv
  obtain ⟨p0, _, hls, _, hafter⟩ := processSensorReading_profile E clk m S p hp
  refine ⟨stamp clk S.vehicle_id 0 (callEmissions E clk m S), _, ?_, ?_, ?_, hafter, ?_⟩
  · rw [processSensorReading_detected_some E clk m S _ hv, if_pos rfl]
  · exact stamp_vehicle_id clk S.vehicle_id 0 _
  · rw [stamp_filter_temp, callEmissions_filter_temp E clk m S ht]
    rfl
  · show transitionState _ _ p0 = VehicleState.CRITICAL
    obtain ⟨i, hi⟩ := mem_stamp clk S.vehicle_id 0 _ _ (tempEmission_mem_call E clk m S ht)
    have hnow : -31000000000 < clk (beforeTransition E clk m S).clock_reads - S.timestamp ∧
        clk (beforeTransition E clk m S).clock_reads - S.timestamp < 31000000000 := by
      have h := abs_lt.mp (hclk (beforeTransition E clk m S).clock_reads)
      simpa [ticksPerSecond] using h
    have hthen : -31000000000 < clk i - S.timestamp ∧ clk i - S.timestamp < 31000000000 := by
      have h := abs_lt.mp (hclk i)
      simpa [ticksPerSecond] using h
    have hoff : ¬ toSeconds (transitionClock E clk m S - p0.last_seen) > 30 := by
      rw [toSeconds_gt_thirty, hls]
      unfold transitionClock ticksPerSecond
      linarith [hnow.1, hnow.2]
    have hcrit : recentCritical (transitionClock E clk m S)
        ((processSensorReading E clk m S).detected_anomalies S.vehicle_id) > 0 := by
      refine recentCritical_pos _ _
        (AnomalyRecord.new (clk i) S.vehicle_id (tempEmission (callScore E clk m S) S).sensor
          (tempEmission (callScore E clk m S) S).value (tempEmission (callScore E clk m S) S).type
          (tempEmission (callScore E clk m S) S).description
          (tempEmission (callScore E clk m S) S).severity
          (tempEmission (callScore E clk m S) S).location) ?_ rfl ?_
      · rw [processSensorReading_detected_some E clk m S _ hv, if_pos rfl]
        exact List.mem_append_right _ hi
      · show transitionClock E clk m S - clk i < _
        unfold transitionClock ticksPerSecond
        linarith [hnow.1, hnow.2, hthen.1, hthen.2]
    unfold transitionState
    rw [if_neg hoff, if_pos hcrit]

theorem seededManager_has_profile :
    (seededManager.vehicle_profiles (overheatReading 7 0).vehicle_id).isSome = true := by
  decide!

/-- Witness for C4: vehicle 7 after 60 samples at 90 degrees, then the overheat
sample (temperature 115), stamped and processed at clock time 0. -/
theorem overheat_gives_critical_witness :
    (seededManager.vehicle_profiles (overheatReading 7 0).vehicle_id).isSome = true ∧
    (overheatReading 7 0).engine_temp_celsius > 110 ∧
    (∀ k, |constClock 0 k - (overheatReading 7 0).timestamp| < 31 * ticksPerSecond) ∧
    ∃ (added : List AnomalyRecord) (p1 : VehicleProfile),
      (processSensorReading exampleEnv (constClock 0) seededManager
          (overheatReading 7 0)).detected_anomalies (overheatReading 7 0).vehicle_id =
        seededManager.detected_anomalies (overheatReading 7 0).vehicle_id ++ added ∧
      (∀ a ∈ added, a.vehicle_id = (overheatReading 7 0).vehicle_id) ∧
      (added.filter isTempRecord).map kindAndSeverity = [("TEMP_RANGE", 5)] ∧
      (processSensorReading exampleEnv (constClock 0) seededManager
          (overheatReading 7 0)).vehicle_profiles (overheatReading 7 0).vehicle_id = some p1 ∧
      p1.current_state = VehicleState.CRITICAL :=
  have h2 : (overheatReading 7 0).engine_temp_celsius > 110 := by decide!
  have h3 : ∀ k, |constClock 0 k - (overheatReading 7 0).timestamp| < 31 * ticksPerSecond :=
    fun _ => by
      show |(0 : Int) - 0| < 31 * ticksPerSecond
      decide!
  ⟨seededManager_has_profile, h2, h3,
    overheat_gives_critical exampleEnv (constClock 0) seededManager (overheatReading 7 0)
      seededManager_has_profile h2 h3⟩

/-! ## The state rule -/

/-- Counterexample to C5 as stated: the clock at the transition is 30.5 s past
`last_seen`, so the stated rule gives OFFLINE, and the call leaves the vehicle NORMAL. -/
theorem offline_rule_counterexample :
    (lateManager.vehicle_profiles 7).map (fun p => p.last_seen) = some 0 ∧
    transitionClock exampleEnv (constClock 30500000000) (freshManager 0) (calmReading 7 0)
      = 30500000000 ∧
    (30500000000 : Int) - 0 > 30 * ticksPerSecond ∧
    specState ((30500000000 : Int) - 0 > 30 * ticksPerSecond)
      (recentCritical 30500000000 (lateManager.detected_anomalies 7))
      (recentHigh 30500000000 (lateManager.detected_anomalies 7))
      VehicleState.NORMAL = VehicleState.OFFLINE ∧
    (lateManager.vehicle_profiles 7).map (fun p => p.current_state)
      = some VehicleState.NORMAL := by
  decide!

/-- Claim C5, amended.  After `processSensorReading` returns for a vehicle with a
profile, with `now` the clock value read at the transition, C5 and C4 the numbers
of the vehicle's recent anomalies of severity 5 and 4, and the prior state the
one found at the transition: the state is OFFLINE if the whole seconds of
`now - last_seen` exceed 30, otherwise CRITICAL if C5 > 0, otherwise WARNING if
C4 > 2, otherwise MAINTENANCE if the prior state was MAINTENANCE, otherwise
NORMAL.  With C5 = 0 and C4 = 2 it is not WARNING, and it is one of the five states. -/
theorem state_after_call (E : Env) (clk : Clock) (m : AdvancedDataManager)
    (reading : SensorReading)
    (hv : (m.vehicle_profiles reading.vehicle_id).isSome = true) :
    ∃ p0 p1 : VehicleProfile,
      (beforeTransition E clk m reading).vehicle_profiles reading.vehicle_id = some p0 ∧
      (processSensorReading E clk m reading).vehicle_profiles reading.vehicle_id = some p1 ∧
      p1.last_seen = reading.timestamp ∧
      p1.current_state =
        specState (toSeconds (transitionClock E clk m reading - p1.last_seen) > 30)
          (recentCritical (transitionClock E clk m reading)
            ((processSensorReading E clk m reading).detected_anomalies reading.vehicle_id))
          (recentHigh (transitionClock E clk m reading)
            ((processSensorReading E clk m reading).detected_anomalies reading.vehicle_id))
          p0.current_state ∧
      (recentCritical (transitionClock E clk m reading)
            ((processSensorReading E clk m reading).detected_anomalies reading.vehicle_id) = 0 →
        recentHigh (transitionClock E clk m reading)
            ((processSensorReading E clk m reading).detected_anomalies reading.vehicle_id) = 2 →
        p1.current_state ≠ VehicleState.WARNING) ∧
      (p1.current_state = VehicleState.NORMAL ∨ p1.current_state = VehicleState.WARNING ∨
        p1.current_state = VehicleState.CRITICAL ∨ p1.current_state = VehicleState.OFFLINE ∨
        p1.current_state = VehicleState.MAINTENANCE) := by
  obtain ⟨p, hp⟩ := Option.isSome_iff_exists.mp hv
  obtain ⟨p0, hbefore, hls, _, hafter⟩ := processSensorReading_profile E clk m reading p hp
  have hstate := transitionState_eq_spec (transitionClock E clk m reading)
    ((processSensorReading E clk m reading).detected_anomalies reading.vehicle_id) p0
  refine ⟨p0, _, hbefore, hafter, hls, hstate, ?_, ?_⟩
  · intro h5 h4
    show transitionState _ _ p0 ≠ VehicleState.WARNING
    rw [hstate, h5, h4]
    unfold specState
    split
    · simp
    · by_cases hm : p0.current_state = VehicleState.MAINTENANCE <;> simp [hm]
  · show _ ∨ _ ∨ _ ∨ _ ∨ transitionState _ _ p0 = _
    cases transitionState (transitionClock E clk m reading)
      ((processSensorReading E clk m reading).detected_anomalies reading.vehicle_id) p0 <;>
      simp

theorem freshManager_has_profile :
    ((freshManager 0).vehicle_profiles (calmReading 7 0).vehicle_id).isSome = true := by
  decide!

/-- Witness for C5: a calm sample of vehicle 7 on a fresh manager. -/
theorem state_after_call_witness :
    ((freshManager 0).vehicle_profiles (calmReading 7 0).vehicle_id).isSome = true ∧
    ∃ p0 p1 : VehicleProfile,
      (beforeTransition exampleEnv (constClock 0) (freshManager 0)
        (calmReading 7 0)).vehicle_profiles (calmReading 7 0).vehicle_id = some p0 ∧
      (processSensorReading exampleEnv (constClock 0) (freshManager 0)
        (calmReading 7 0)).vehicle_profiles (calmReading 7 0).vehicle_id = some p1 ∧
      p1.last_seen = (calmReading 7 0).timestamp :=
  ⟨freshManager_has_profile,
    (state_after_call exampleEnv (constClock 0) (freshManager 0) (calmReading 7 0)
      freshManager_has_profile).imp fun _ h => h.imp fun _ h => ⟨h.1, h.2.1, h.2.2.1⟩⟩

/-! ## Queries -/

/-- Claim C6, divergence.  Vehicle 12 gets one sample, stamped and processed at
time 0, and no further sample.  An analytics query and a report 31 s later, and
a report 1000 s later, show NORMAL, not OFFLINE; so does a report after a
sample of vehicle 7 has been processed at 1000 s.  The only assignment of
OFFLINE is in `updateVehicleState`, which runs for the vehicle of the sample
being processed, right after `last_seen` has been set to that sample's
timestamp; no query reads the clock. -/
theorem silent_vehicle_shows_normal :
    printEnhancedAnalytics exampleEnv (31 * ticksPerSecond) silentManager 12
      = some VehicleState.NORMAL ∧
    exportSystemReport (31 * ticksPerSecond) silentManager 12 = some VehicleState.NORMAL ∧
    exportSystemReport (1000 * ticksPerSecond) silentManager 12
      = some VehicleState.NORMAL ∧
    exportSystemReport (1000 * ticksPerSecond)
      (processSensorReading exampleEnv (constClock (1000 * ticksPerSecond)) silentManager
        (calmReading 7 (1000 * ticksPerSecond))) 12 = some VehicleState.NORMAL := by
  decide!

theorem transitionState_offline_iff (now : TimePoint) (anomalies : List AnomalyRecord)
    (profile : VehicleProfile) :
    transitionState now anomalies profile = VehicleState.OFFLINE ↔
      toSeconds (now - profile.last_seen) > 30 := by
  unfold transitionState
  constructor
  · intro h
    by_contra hn
    rw [if_neg hn] at h
    split at h
    · exact absurd h (by decide)
    · split at h
      · exact absurd h (by decide)
      · split at h
        · exact absurd h (by decide)
        · rename_i hm
          have hm' : profile.current_state = VehicleState.MAINTENANCE := by
            by_contra hc
            exact hm hc
          rw [hm'] at h
          exact absurd h (by decide)
  · intro h
    rw [if_pos h]

theorem processSensorReading_window_nonempty (E : Env) (clk : Clock) (m : AdvancedDataManager)
    (reading : SensorReading) :
    ((processSensorReading E clk m reading).vehicle_data_windows
      reading.vehicle_id).isEmpty = false := by
  rw [processSensorReading_windows, mapSet_same]
  unfold pushEvict WINDOW_SIZE
  split
  · rename_i h
    cases hw : m.vehicle_data_windows reading.vehicle_id with
    | nil => simp [hw] at h
    | cons x xs => simp
  · simp

/-- The state that an analytics query or a report shows for a vehicle with a
profile right after a sample of it has been processed is the state that the
call stored, at whatever time `now` the query runs: it is OFFLINE exactly when,
at the call's own transition, the clock was more than 30 whole seconds past the
sample's timestamp. -/
theorem query_after_call (E : Env) (clk : Clock) (m : AdvancedDataManager)
    (reading : SensorReading) (now : TimePoint)
    (hv : (m.vehicle_profiles reading.vehicle_id).isSome = true) :
    ∃ p1 : VehicleProfile,
      (processSensorReading E clk m reading).vehicle_profiles reading.vehicle_id = some p1 ∧
      printEnhancedAnalytics E now (processSensorReading E clk m reading) reading.vehicle_id
        = some p1.current_state ∧
      exportSystemReport now (processSensorReading E clk m reading) reading.vehicle_id
        = some p1.current_state ∧
      (p1.current_state = VehicleState.OFFLINE ↔
        toSeconds (transitionClock E clk m reading - reading.timestamp) > 30) := by
  obtain ⟨p, hp⟩ := Option.isSome_iff_exists.mp hv
  obtain ⟨p0, _, hls, _, hafter⟩ := processSensorReading_profile E clk m reading p hp
  refine ⟨_, hafter, ?_, ?_, ?_⟩
  · unfold printEnhancedAnalytics
    rw [processSensorReading_window_nonempty]
    simp [profileRef, hafter]
  · unfold exportSystemReport
    rw [hafter]
    rfl
  · show transitionState _ _ p0 = _ ↔ _
    rw [transitionState_offline_iff, hls]

/-! ## Maintenance -/

theorem updateVehicleState_profiles_other (clk : Clock) (m : AdvancedDataManager) (v u : Int)
    (hu : u ≠ v) :
    (updateVehicleState clk m v).vehicle_profiles u = m.vehicle_profiles u := by
  unfold updateVehicleState
  split
  · rfl
  · simp [setProfile, mapSet, hu]

theorem processSensorReading_profiles_other (E : Env) (clk : Clock) (m : AdvancedDataManager)
    (reading : SensorReading) (u : Int) (hu : u ≠ reading.vehicle_id) :
    (processSensorReading E clk m reading).vehicle_profiles u = m.vehicle_profiles u := by
  rw [processSensorReading_eq, logPerformance_profiles,
    updateVehicleState_profiles_other _ _ _ _ hu]
  unfold beforeTransition
  dsimp only
  rw [logReading_profiles, checkGeofenceViolations_eq, emitAll_profiles, if_neg hu,
    detectEnhancedAnomalies_fst, checkMaintenanceRequirements_profiles, if_neg hu,
    emitAll_profiles, if_neg hu, ingested_profiles, if_neg hu]

/-- Counterexample to C7: vehicle 7 is MAINTENANCE when one call returns, and
CRITICAL when the next call, with an overheat sample, returns. -/
theorem maintenance_persists_counterexample :
    stateOf maintenanceManager 7 = some VehicleState.MAINTENANCE ∧
    stateOf overheatedManager 7 = some VehicleState.CRITICAL := by
  decide!

/-- Claim C7, amended.  When the state of a vehicle is MAINTENANCE, a call of
`processSensorReading` for another vehicle leaves its profile unchanged, and a
call for the vehicle itself never resets it to NORMAL: the state it leaves is
OFFLINE if the sample is more than 30 whole seconds old at the transition,
otherwise CRITICAL if a recent severity-5 anomaly exists, otherwise WARNING if
more than two recent severity-4 anomalies exist, and otherwise MAINTENANCE. -/
theorem maintenance_not_reset (E : Env) (clk : Clock) (m : AdvancedDataManager)
    (reading : SensorReading) (v : Int)
    (hm : stateOf m v = some VehicleState.MAINTENANCE) :
    (v ≠ reading.vehicle_id →
      (processSensorReading E clk m reading).vehicle_profiles v = m.vehicle_profiles v) ∧
    (v = reading.vehicle_id →
      ∃ s1 : VehicleState,
        stateOf (processSensorReading E clk m reading) v = some s1 ∧
        s1 ≠ VehicleState.NORMAL ∧
        s1 = specState (toSeconds (transitionClock E clk m reading - reading.timestamp) > 30)
          (recentCritical (transitionClock E clk m reading)
            ((processSensorReading E clk m reading).detected_anomalies v))
          (recentHigh (transitionClock E clk m reading)
            ((processSensorReading E clk m reading).detected_anomalies v))
          VehicleState.MAINTENANCE) := by
  constructor
  · intro hv
    exact processSensorReading_profiles_other E clk m reading v hv
  · intro hv
    subst hv
    unfold stateOf at hm
    cases hp : m.vehicle_profiles reading.vehicle_id with
    | none => simp [hp] at hm
    | some p =>
        have hs : p.current_state = VehicleState.MAINTENANCE := by simpa [hp] using hm
        obtain ⟨p0, _, hls, hst, hafter⟩ :=
          processSensorReading_profile E clk m reading p hp
        have h0 : p0.current_state = VehicleState.MAINTENANCE := by
          rw [hst, hs]
          split <;> rfl
        have hspec := transitionState_eq_spec (transitionClock E clk m reading)
          ((processSensorReading E clk m reading).detected_anomalies reading.vehicle_id) p0
        rw [h0, hls] at hspec
        refine ⟨_, ?_, ?_, hspec⟩
        · unfold stateOf
          rw [hafter]
          rfl
        · rw [hspec]
          unfold specState
          split
          · decide
          · split
            · decide
            · split <;> simp

theorem maintenanceManager_state :
    stateOf maintenanceManager 7 = some VehicleState.MAINTENANCE := by
  decide!

/-- Witness for C7: vehicle 7 in MAINTENANCE, then its overheat sample. -/
theorem maintenance_not_reset_witness :
    stateOf maintenanceManager 7 = some VehicleState.MAINTENANCE ∧
    ∃ s1 : VehicleState,
      stateOf (processSensorReading exampleEnv (constClock dueTime) maintenanceManager
        (overheatReading 7 dueTime)) 7 = some s1 ∧
      s1 ≠ VehicleState.NORMAL :=
  ⟨maintenanceManager_state,
    ((maintenance_not_reset exampleEnv (constClock dueTime) maintenanceManager
      (overheatReading 7 dueTime) 7 maintenanceManager_state).2 rfl).imp
        fun _ h => ⟨h.1, h.2.1⟩⟩

/-- Counterexample to C8: 90 days and 30 minutes after the last maintenance (and
no distance driven) the check stores no anomaly and leaves the state NORMAL. -/
theorem maintenance_half_hour_counterexample :
    (servicedManager.vehicle_profiles 7).map
        (fun p => (calmReading 7 ninetyDaysAndHalfHour).timestamp - p.last_maintenance)
      = some ninetyDaysAndHalfHour ∧
    ninetyDaysAndHalfHour > hours (24 * 90) ∧
    (checkMaintenanceRequirements exampleEnv (constClock ninetyDaysAndHalfHour)
      servicedManager (calmReading 7 ninetyDaysAndHalfHour)).detected_anomalies 7 = [] ∧
    stateOf (checkMaintenanceRequirements exampleEnv (constClock ninetyDaysAndHalfHour)
      servicedManager (calmReading 7 ninetyDaysAndHalfHour)) 7 = some VehicleState.NORMAL := by
  decide!

theorem maintenanceDue_iff (p : VehicleProfile) (reading : SensorReading) :
    maintenanceDue p reading ↔
      (MaybeNaN.gt p.total_distance_km (p.maintenance_interval_km : ℚ) ∨
        reading.timestamp - p.last_maintenance ≥ hours (24 * 90) + hours 1) := by
  unfold maintenanceDue
  rw [toHours_gt_quarter]
  unfold hours ticksPerSecond
  constructor
  · rintro (h | h)
    · exact Or.inl h
    · exact Or.inr (by linarith)
  · rintro (h | h)
    · exact Or.inl h
    · exact Or.inr (by linarith)

/-- Claim C8, amended.  For a sample of a vehicle with profile `p`, rule R11
(`checkMaintenanceRequirements`) stores one MAINTENANCE anomaly (severity 2,
sensor "maintenance", value `p.total_distance_km`) and sets the state to
MAINTENANCE if `p.total_distance_km > p.maintenance_interval_km` or the whole
hours from `p.last_maintenance` to the sample's timestamp exceed 2160, that is
the time is at least 90 days and one hour; otherwise it stores nothing and
leaves the profile as it is.  Exactly 90 days and 90 days plus 30 minutes do not
fire by time, 90 days plus one hour does. -/
theorem maintenance_rule (E : Env) (clk : Clock) (m : AdvancedDataManager)
    (reading : SensorReading)
    (hv : (m.vehicle_profiles reading.vehicle_id).isSome = true) :
    ∃ p : VehicleProfile,
      m.vehicle_profiles reading.vehicle_id = some p ∧
      ((MaybeNaN.gt p.total_distance_km (p.maintenance_interval_km : ℚ) ∨
          reading.timestamp - p.last_maintenance ≥ hours (24 * 90) + hours 1) →
        (checkMaintenanceRequirements E clk m reading).detected_anomalies reading.vehicle_id =
            m.detected_anomalies reading.vehicle_id ++
              [maintenanceRecord (clk m.clock_reads) reading.vehicle_id p] ∧
          stateOf (checkMaintenanceRequirements E clk m reading) reading.vehicle_id =
            some VehicleState.MAINTENANCE) ∧
      (¬ (MaybeNaN.gt p.total_distance_km (p.maintenance_interval_km : ℚ) ∨
          reading.timestamp - p.last_maintenance ≥ hours (24 * 90) + hours 1) →
        (checkMaintenanceRequirements E clk m reading).detected_anomalies reading.vehicle_id =
            m.detected_anomalies reading.vehicle_id ∧
          (checkMaintenanceRequirements E clk m reading).vehicle_profiles reading.vehicle_id =
            some p) ∧
      (maintenanceRecord (clk m.clock_reads) reading.vehicle_id p).getTypeString
        = "MAINTENANCE" ∧
      (maintenanceRecord (clk m.clock_reads) reading.vehicle_id p).severity = 2 ∧
      (maintenanceRecord (clk m.clock_reads) reading.vehicle_id p).sensor_name
        = "maintenance" ∧
      (maintenanceRecord (clk m.clock_reads) reading.vehicle_id p).value
        = p.total_distance_km ∧
      (reading.timestamp - p.last_maintenance = hours (24 * 90) →
        ¬ reading.timestamp - p.last_maintenance ≥ hours (24 * 90) + hours 1) ∧
      (reading.timestamp - p.last_maintenance = ninetyDaysAndHalfHour →
        ¬ reading.timestamp - p.last_maintenance ≥ hours (24 * 90) + hours 1) ∧
      (reading.timestamp - p.last_maintenance = hours (24 * 90) + hours 1 →
        reading.timestamp - p.last_maintenance ≥ hours (24 * 90) + hours 1) := by
  obtain ⟨p, hp⟩ := Option.isSome_iff_exists.mp hv
  have hr : profileRef E clk m reading.vehicle_id = p := by simp [profileRef, hp]
  refine ⟨p, hp, ?_, ?_, rfl, rfl, rfl, rfl, ?_, ?_, ?_⟩
  · intro hd
    have hd' : maintenanceDue p reading := (maintenanceDue_iff p reading).mpr hd
    constructor
    · rw [checkMaintenanceRequirements_detected, if_pos rfl, if_pos hv, hr, if_pos hd']
      rfl
    · unfold stateOf
      rw [checkMaintenanceRequirements_profiles, if_pos rfl, hr, if_pos hd']
      rfl
  · intro hd
    have hd' : ¬ maintenanceDue p reading := fun h => hd ((maintenanceDue_iff p reading).mp h)
    constructor
    · rw [checkMaintenanceRequirements_detected, if_pos rfl, if_pos hv, hr, if_neg hd']
      simp [stamp]
    · rw [checkMaintenanceRequirements_profiles, if_pos rfl, hr, if_neg hd']
  · intro h
    rw [h]
    decide
  · intro h
    rw [h]
    decide
  · intro h
    rw [h]

theorem servicedManager_has_profile :
    (servicedManager.vehicle_profiles
      (calmReading 7 (hours (24 * 90) + hours 1)).vehicle_id).isSome = true := by
  decide!

/-- Witness for C8: vehicle 7, last maintenance at time 0, sample stamped 90 days
and one hour; the check stores the MAINTENANCE anomaly and sets the state. -/
theorem maintenance_rule_witness :
    (servicedManager.vehicle_profiles
      (calmReading 7 (hours (24 * 90) + hours 1)).vehicle_id).isSome = true ∧
    (∃ p : VehicleProfile,
      servicedManager.vehicle_profiles (calmReading 7 (hours (24 * 90) + hours 1)).vehicle_id
        = some p) ∧
    ((checkMaintenanceRequirements exampleEnv (constClock 0) servicedManager
        (calmReading 7 (hours (24 * 90) + hours 1))).detected_anomalies 7).map kindAndSeverity
      = [("MAINTENANCE", 2)] ∧
    stateOf (checkMaintenanceRequirements exampleEnv (constClock 0) servicedManager
        (calmReading 7 (hours (24 * 90) + hours 1))) 7 = some VehicleState.MAINTENANCE :=
  ⟨servicedManager_has_profile,
    (maintenance_rule exampleEnv (constClock 0) servicedManager
      (calmReading 7 (hours (24 * 90) + hours 1)) servicedManager_has_profile).imp
        fun _ h => h.1,
    by decide!, by decide!⟩

/-! ## Fuel leak -/

theorem stamp_filter_view (t : AnomalyType) (clk : Clock) (v : Int) (k : Nat)
    (es : List Emission) :
    ((stamp clk v k es).filter (isKindRecord t)).map recordView =
      (es.filter (isKindEmission t)).map emissionView := by
  induction es generalizing k with
  | nil => rfl
  | cons e es ih =>
      have hk : isKindRecord t (AnomalyRecord.new (clk k) v e.sensor e.value e.type
          e.description e.severity e.location) = isKindEmission t e := rfl
      simp only [stamp, List.filter_cons, hk]
      split
      · simp only [List.map_cons, ih]
        rfl
      · exact ih (k + 1)

theorem callRecords_filter_view (t : AnomalyType) (E : Env) (clk : Clock)
    (m : AdvancedDataManager) (S : SensorReading) :
    ((callRecords E clk m S).filter (isKindRecord t)).map recordView =
      ((callEmissions E clk m S).filter (isKindEmission t)).map emissionView := by
  unfold callRecords callEmissions
  simp only [List.filter_append, List.map_append, stamp_filter_view, List.append_assoc]

theorem callRecords_map_key (E : Env) (clk : Clock) (m : AdvancedDataManager)
    (S : SensorReading) :
    (callRecords E clk m S).map kindAndSeverity =
      (callEmissions E clk m S).map emissionKey := by
  unfold callRecords callEmissions
  simp only [List.map_append, stamp_map_key, List.append_assoc]

theorem callRecords_vehicle_id (E : Env) (clk : Clock) (m : AdvancedDataManager)
    (S : SensorReading) : ∀ a ∈ callRecords E clk m S, a.vehicle_id = S.vehicle_id := by
  intro a ha
  unfold callRecords at ha
  rcases List.mem_append.1 ha with h | h
  · exact stamp_vehicle_id clk S.vehicle_id _ _ a h
  · exact stamp_vehicle_id clk S.vehicle_id _ _ a h

theorem filter_kind_guard (t : AnomalyType) (c : Prop) [Decidable c] (e : Emission)
    (he : isKindEmission t e = false) :
    (if c then [e] else []).filter (isKindEmission t) = [] := by
  split <;> simp [he]

theorem instantEmissions_filter_fuel (ml : ℚ) (S : SensorReading) :
    (instantEmissions ml S).filter (isKindEmission AnomalyType.FUEL_LEAK) = [] := by
  unfold instantEmissions
  simp only [List.filter_append]
  rw [filter_kind_guard _ _ _ (by rfl), filter_kind_guard _ _ _ (by rfl),
    filter_kind_guard _ _ _ (by rfl),
    filter_kind_guard _ (|S.acceleration_ms2| > 6) _
      (by unfold isKindEmission; split <;> rfl),
    filter_kind_guard _ _ _ (by rfl), filter_kind_guard _ _ _ (by rfl)]
  rfl

theorem calculateFuelDropRate_short (H : List SensorReading) (h : H.length < 10) :
    calculateFuelDropRate H = 0 := by
  unfold calculateFuelDropRate
  rw [dif_pos h]

/-- Counterexample to C9 as stated: ten samples 3 s apart with fuel falling from
80 to 75.5 lose 4.5 % in 27 s, a rate of 10 % per minute, and no FUEL_LEAK is
stored: the elapsed time counts 0 whole minutes, so the computed rate is 0. -/
theorem fuel_leak_rate_counterexample :
    (fuelWindow 3000000000 (1 / 2) 10).length ≥ 10 ∧
    specDropRate (fuelWindow 3000000000 (1 / 2) 10) = 10 ∧
    calculateFuelDropRate (fuelWindow 3000000000 (1 / 2) 10) = 0 ∧
    (((detectEnhancedAnomalies exampleEnv (constClock 27000000000) (freshManager 0)
        (fuelReading 3000000000 (1 / 2) 9)
        (fuelWindow 3000000000 (1 / 2) 10)).1.detected_anomalies 3).filter
      (isKindRecord AnomalyType.FUEL_LEAK)) = [] ∧
    (((processAll exampleEnv (freshManager 0)
        (fuelCalls 3000000000 (1 / 2) 10)).detected_anomalies 3).filter
      (isKindRecord AnomalyType.FUEL_LEAK)) = [] := by
  decide!

/-- Claim C9, amended.  For every sample and window, `detectEnhancedAnomalies`
stores a FUEL_LEAK anomaly (exactly one, severity 4, sensor "fuel", value the
drop rate) if and only if the window holds at least 10 samples and its drop rate
exceeds 2; the drop rate is the fuel difference between the tenth-newest and the
newest sample divided by the whole minutes elapsed between them (the elapsed
time truncated to minutes), and 0 when that count is not positive, so also
whenever less than one minute elapsed.  Nine samples never fire. -/
theorem fuel_leak_rule (E : Env) (clk : Clock) (m : AdvancedDataManager)
    (S : SensorReading) (H : List SensorReading) :
    (∃ added : List AnomalyRecord,
      (detectEnhancedAnomalies E clk m S H).1.detected_anomalies S.vehicle_id =
        m.detected_anomalies S.vehicle_id ++ added ∧
      (added.filter (isKindRecord AnomalyType.FUEL_LEAK)).map recordView =
        if H.length ≥ 10 ∧ calculateFuelDropRate H > 2 then
          [("FUEL_LEAK", 4, "fuel", some (calculateFuelDropRate H), "")]
        else []) ∧
    (∀ h : 10 ≤ H.length,
      calculateFuelDropRate H =
        if toMinutes ((H.get ⟨H.length - 1, by omega⟩).timestamp -
            (H.get ⟨H.length - 10, by omega⟩).timestamp) ≤ 0 then 0
        else
          ((H.get ⟨H.length - 10, by omega⟩).fuel_level_percent -
              (H.get ⟨H.length - 1, by omega⟩).fuel_level_percent) /
            (toMinutes ((H.get ⟨H.length - 1, by omega⟩).timestamp -
              (H.get ⟨H.length - 10, by omega⟩).timestamp) : ℚ)) ∧
    (∀ h : 10 ≤ H.length,
      (H.get ⟨H.length - 1, by omega⟩).timestamp -
          (H.get ⟨H.length - 10, by omega⟩).timestamp < 60 * ticksPerSecond →
        calculateFuelDropRate H = 0) ∧
    (H.length < 10 → calculateFuelDropRate H = 0) := by
  refine ⟨?_, ?_, ?_, calculateFuelDropRate_short H⟩
  · have key := detectEnhancedAnomalies_detected_call E clk m S H S.vehicle_id
    rw [if_pos rfl] at key
    refine ⟨_, key, ?_⟩
    · simp only [List.filter_append, List.map_append, stamp_filter_view]
      unfold detectEmissions
      simp only [List.filter_append, instantEmissions_filter_fuel, List.nil_append]
      have hm : ∀ ml : ℚ, (mlEmissions ml).filter
          (isKindEmission AnomalyType.FUEL_LEAK) = [] := by
        intro ml
        unfold mlEmissions
        split <;> rfl
      have hq : ∀ p : VehicleProfile, (if maintenanceDue p S then
          [maintenanceEmission p] else []).filter
          (isKindEmission AnomalyType.FUEL_LEAK) = [] := by
        intro p
        split <;> rfl
      rw [hm, hq]
      unfold fuelEmissions
      split <;> rfl
  · intro h
    unfold calculateFuelDropRate
    rw [dif_neg (by omega)]
  · intro h hlt
    unfold calculateFuelDropRate
    rw [dif_neg (by omega)]
    dsimp only
    rw [if_pos ((toMinutes_le_zero _).mpr hlt)]

/-- Worked example for C9: ten samples spread over two minutes with fuel falling
from 80 to 60 have drop rate 10, the tenth call stores one FUEL_LEAK anomaly of
severity 4 with that value, and the first nine calls store none. -/
theorem fuel_leak_rule_witness :
    calculateFuelDropRate (fuelWindow twoMinuteStep twentyPercentDrop 10) = 10 ∧
    (((processAll exampleEnv (freshManager 0)
        (fuelCalls twoMinuteStep twentyPercentDrop 10)).detected_anomalies 3).filter
      (isKindRecord AnomalyType.FUEL_LEAK)).map recordView =
        [("FUEL_LEAK", 4, "fuel", some 10, "")] ∧
    (((processAll exampleEnv (freshManager 0)
        (fuelCalls twoMinuteStep twentyPercentDrop 9)).detected_anomalies 3).filter
      (isKindRecord AnomalyType.FUEL_LEAK)) = [] ∧
    (fuelWindow twoMinuteStep twentyPercentDrop 9).length < 10 ∧
    calculateFuelDropRate (fuelWindow twoMinuteStep twentyPercentDrop 9) = 0 :=
  ⟨by decide!, by decide!, by decide!, by decide!,
    (fuel_leak_rule exampleEnv (constClock 0) (freshManager 0)
      (fuelReading twoMinuteStep twentyPercentDrop 8)
      (fuelWindow twoMinuteStep twentyPercentDrop 9)).2.2.2 (by decide!)⟩

/-! ## Geofences -/

theorem haversine_self (E : Env) (hsin : E.sin 0 = 0) (hsqrt : E.sqrt 0 = 0)
    (hatan : ∀ x, E.atan2 0 x = 0) (lat lon : ℚ) :
    haversine E lat lon lat lon = some 0 := by
  unfold haversine haversineArg deg2rad
  simp [hsin, hsqrt, hatan]

/-- Counterexample to C10: two restricted fences contain the position of the
sample (it is their common centre, at distance 0 from both), and processing the
sample stores two GEOFENCE anomalies, one labelled with each fence. -/
theorem geofence_exactly_one_counterexample :
    haversine exampleEnv schoolZone.center_lat schoolZone.center_lon centreReading.latitude
      centreReading.longitude = some 0 ∧
    haversine exampleEnv campusZone.center_lat campusZone.center_lon centreReading.latitude
      centreReading.longitude = some 0 ∧
    (((processSensorReading exampleEnv (constClock 0) overlapManager
        centreReading).detected_anomalies 5).filter
      (isKindRecord AnomalyType.GEOFENCE_VIOLATION)).map recordView =
        [("GEOFENCE", 4, "location", some 0, "School Zone"),
         ("GEOFENCE", 4, "location", some 0, "Campus")] := by
  decide!

theorem callEmissions_filter_geofence (E : Env) (clk : Clock) (m : AdvancedDataManager)
    (S : SensorReading) :
    ((callEmissions E clk m S).filter (isKindEmission AnomalyType.GEOFENCE_VIOLATION)).map
        emissionView =
      (violatedFences E m.geofences S).map geofenceView := by
  unfold callEmissions callDetections detectEmissions
  simp only [List.filter_append]
  have hi : (instantEmissions (callScore E clk m S) S).filter
      (isKindEmission AnomalyType.GEOFENCE_VIOLATION) = [] := by
    unfold instantEmissions
    simp only [List.filter_append]
    rw [filter_kind_guard _ _ _ (by rfl), filter_kind_guard _ _ _ (by rfl),
      filter_kind_guard _ _ _ (by rfl),
      filter_kind_guard _ (|S.acceleration_ms2| > 6) _
        (by unfold isKindEmission; split <;> rfl),
      filter_kind_guard _ _ _ (by rfl), filter_kind_guard _ _ _ (by rfl)]
    rfl
  have hf : (fuelEmissions (callScore E clk m S)
      ((ingested E clk m S).vehicle_data_windows S.vehicle_id)).filter
      (isKindEmission AnomalyType.GEOFENCE_VIOLATION) = [] := by
    unfold fuelEmissions
    split <;> rfl
  have hm : (mlEmissions (callScore E clk m S)).filter
      (isKindEmission AnomalyType.GEOFENCE_VIOLATION) = [] := by
    unfold mlEmissions
    split <;> rfl
  have hq : (maintenanceEmissions E clk m S).filter
      (isKindEmission AnomalyType.GEOFENCE_VIOLATION) = [] := by
    unfold maintenanceEmissions
    split <;> rfl
  have hg : ((violatedFences E m.geofences S).map geofenceEmission).filter
      (isKindEmission AnomalyType.GEOFENCE_VIOLATION) =
      (violatedFences E m.geofences S).map geofenceEmission := by
    rw [List.filter_eq_self]
    intro e he
    simp only [List.mem_map] at he
    obtain ⟨g, _, rfl⟩ := he
    rfl
  rw [hi, hf, hm, hq, hg]
  simp only [List.nil_append, List.map_map]
  rfl

theorem mem_violatedFences (E : Env) (fences : List Geofence) (S : SensorReading)
    (g : Geofence) :
    g ∈ violatedFences E fences S ↔
      g ∈ fences ∧ g.is_restricted = true ∧
        MaybeNaN.le (haversine E g.center_lat g.center_lon S.latitude S.longitude) g.radius_km := by
  unfold violatedFences Geofence.isInside
  simp [List.mem_filter]

/-- Claim C10, amended.  For every geofence table and every sample, processing
the sample stores one GEOFENCE anomaly (severity 4, sensor "location", value 0)
for each restricted fence of the table that contains the sample's position
(haversine distance from its centre at most its radius), in table order, each
with the name of its fence as location label; it stores none when no restricted
fence contains the position, however many non-restricted fences do. -/
theorem geofence_rule (E : Env) (clk : Clock) (m : AdvancedDataManager) (S : SensorReading) :
    (∃ added : List AnomalyRecord,
      (processSensorReading E clk m S).detected_anomalies S.vehicle_id =
        m.detected_anomalies S.vehicle_id ++ added ∧
      (added.filter (isKindRecord AnomalyType.GEOFENCE_VIOLATION)).map recordView =
        (violatedFences E m.geofences S).map geofenceView ∧
      ((∀ g ∈ m.geofences, g.is_restricted = true →
          ¬ MaybeNaN.le (haversine E g.center_lat g.center_lon S.latitude S.longitude) g.radius_km) →
        added.filter (isKindRecord AnomalyType.GEOFENCE_VIOLATION) = [])) ∧
    (∀ g : Geofence, g ∈ violatedFences E m.geofences S ↔
      g ∈ m.geofences ∧ g.is_restricted = true ∧
        MaybeNaN.le (haversine E g.center_lat g.center_lon S.latitude S.longitude) g.radius_km) := by
  refine ⟨⟨callRecords E clk m S, ?_, ?_, ?_⟩,
    mem_violatedFences E m.geofences S⟩
  · rw [processSensorReading_detected, if_pos rfl]
  · rw [callRecords_filter_view, callEmissions_filter_geofence]
  · intro hnone
    have hv : violatedFences E m.geofences S = [] := by
      rw [List.eq_nil_iff_forall_not_mem]
      intro g hg
      obtain ⟨h1, h2, h3⟩ := (mem_violatedFences E m.geofences S g).mp hg
      exact hnone g h1 h2 h3
    have hmap := callRecords_filter_view AnomalyType.GEOFENCE_VIOLATION E clk m S
    rw [callEmissions_filter_geofence, hv] at hmap
    simpa using hmap

/-- Worked example for C10: the built-in table and vehicle 5 at (40.7590,
-73.9852); the only restricted fence that contains the position is "School
Zone", and processing the sample stores one GEOFENCE anomaly with that label. -/
theorem geofence_rule_witness :
    (violatedFences exampleEnv (freshManager 0).geofences schoolReading).map
        (fun g => g.name) = ["School Zone"] ∧
    ∃ added : List AnomalyRecord,
      (processSensorReading exampleEnv (constClock 0) (freshManager 0)
          schoolReading).detected_anomalies schoolReading.vehicle_id =
        (freshManager 0).detected_anomalies schoolReading.vehicle_id ++ added ∧
      (added.filter (isKindRecord AnomalyType.GEOFENCE_VIOLATION)).map recordView =
        [("GEOFENCE", 4, "location", some 0, "School Zone")] :=
  have hv : (violatedFences exampleEnv (freshManager 0).geofences schoolReading).map
      geofenceView = [("GEOFENCE", 4, "location", some 0, "School Zone")] := by decide!
  ⟨by decide!,
    (geofence_rule exampleEnv (constClock 0) (freshManager 0) schoolReading).1.imp
      fun _ h => ⟨h.1, h.2.1.trans hv⟩⟩

/-! ## Runs of calls -/

theorem processAll_append (E : Env) (m : AdvancedDataManager)
    (xs ys : List (Clock × SensorReading)) :
    processAll E m (xs ++ ys) = processAll E (processAll E m xs) ys := by
  induction xs generalizing m with
  | nil => rfl
  | cons c cs ih =>
      obtain ⟨clk, reading⟩ := c
      exact ih (processSensorReading E clk m reading)

theorem processAll_snoc (E : Env) (m : AdvancedDataManager)
    (xs : List (Clock × SensorReading)) (clk : Clock) (reading : SensorReading) :
    processAll E m (xs ++ [(clk, reading)]) =
      processSensorReading E clk (processAll E m xs) reading := by
  rw [processAll_append]
  rfl

theorem samplesOf_snoc (v : Int) (xs : List (Clock × SensorReading)) (clk : Clock)
    (reading : SensorReading) :
    samplesOf v (xs ++ [(clk, reading)]) =
      if reading.vehicle_id = v then samplesOf v xs ++ [reading] else samplesOf v xs := by
  unfold samplesOf
  by_cases h : reading.vehicle_id = v <;> simp [List.filter_append, h]

/-! ## The profile of the sample's vehicle through a call -/

theorem updateProfileBody_max_speed (E : Env) (p : VehicleProfile) (reading : SensorReading) :
    (updateProfileBody E p reading).max_speed_recorded =
      max p.max_speed_recorded reading.speed_kmph := by
  unfold updateProfileBody
  dsimp only
  split <;> split <;> split <;> split <;> rfl

theorem updateProfileBody_total_anomalies (E : Env) (p : VehicleProfile)
    (reading : SensorReading) :
    (updateProfileBody E p reading).total_anomalies = p.total_anomalies := by
  unfold updateProfileBody
  dsimp only
  split <;> split <;> split <;> split <;> rfl

theorem MaybeNaN.add_zero (x : MaybeNaN) : MaybeNaN.add x (some 0) = x := by
  cases x <;> simp [MaybeNaN.add]

theorem updateProfileBody_total_distance (E : Env) (p : VehicleProfile)
    (reading : SensorReading) :
    (updateProfileBody E p reading).total_distance_km =
      MaybeNaN.add p.total_distance_km (addedDistance E p reading) := by
  unfold updateProfileBody addedDistance
  dsimp only
  rcases h : p.route_history.getLast? with _ | last_pos
  · simp only [h]
    split <;> split <;> split <;> simp [MaybeNaN.add_zero]
  · simp only [h]
    split <;> split <;> split <;> rfl

theorem processSensorReading_profile_fields (E : Env) (clk : Clock) (m : AdvancedDataManager)
    (reading : SensorReading) (p : VehicleProfile)
    (hp : m.vehicle_profiles reading.vehicle_id = some p) :
    ∃ p1 : VehicleProfile,
      (processSensorReading E clk m reading).vehicle_profiles reading.vehicle_id = some p1 ∧
      p1.last_seen = reading.timestamp ∧
      p1.max_speed_recorded = max p.max_speed_recorded reading.speed_kmph ∧
      p1.total_distance_km = MaybeNaN.add p.total_distance_km (addedDistance E p reading) ∧
      p1.total_anomalies = p.total_anomalies + ((callEmissions E clk m reading).length : Int) := by
  obtain ⟨p0, hbefore, _, _, hafter⟩ := processSensorReading_profile E clk m reading p hp
  have hb := beforeTransition_profile E clk m reading p hp
  rw [hbefore] at hb
  have hp0 := Option.some.inj hb
  refine ⟨_, hafter, ?_, ?_, ?_, ?_⟩
  · show p0.last_seen = _
    rw [hp0]
    split <;> simp [markMaintenance, bumpAnomalies, updateProfileBody_last_seen]
  · show p0.max_speed_recorded = _
    rw [hp0]
    split <;> simp [markMaintenance, bumpAnomalies, updateProfileBody_max_speed]
  · show p0.total_distance_km = _
    rw [hp0]
    split <;> simp [markMaintenance, bumpAnomalies, updateProfileBody_total_distance]
  · show p0.total_anomalies = _
    rw [hp0]
    split <;> simp [markMaintenance, bumpAnomalies, updateProfileBody_total_anomalies]

/-! ## Order of the stored anomalies -/

/-- Counterexample to C11: for a sample on which R10 and R11 both fire, the
MAINTENANCE anomaly is indexed before the GEOFENCE anomaly. -/
theorem rule_order_counterexample :
    (bothFireManager.detected_anomalies 5).map kindAndSeverity =
      [("MAINTENANCE", 2), ("GEOFENCE", 4)] := by
  decide!

theorem ingested_window_eq_after (E : Env) (clk : Clock) (m : AdvancedDataManager)
    (S : SensorReading) :
    (ingested E clk m S).vehicle_data_windows =
      (processSensorReading E clk m S).vehicle_data_windows := by
  rw [ingested_windows, processSensorReading_windows]

/-- Claim C11, amended.  The anomalies that one `processSensorReading` call
appends to the index of the sample's vehicle are, in this order: the records of
R1 to R7 in table order, then R8 (fuel leak), then R9 (baseline), then R11
(maintenance), and last the records of R10 (geofence), one per violated fence
in table order.  So when R10 and R11 both fire, the MAINTENANCE anomaly is
indexed before the GEOFENCE anomaly. -/
theorem rule_order (E : Env) (clk : Clock) (m : AdvancedDataManager) (S : SensorReading) :
    ∃ r1to7 r8 r9 r11 r10 : List AnomalyRecord,
      (processSensorReading E clk m S).detected_anomalies S.vehicle_id =
        m.detected_anomalies S.vehicle_id ++ (r1to7 ++ (r8 ++ (r9 ++ (r11 ++ r10)))) ∧
      r1to7.map kindAndSeverity = specInstantRules S ∧
      r8.map kindAndSeverity =
        (if ((processSensorReading E clk m S).vehicle_data_windows S.vehicle_id).length ≥ 10 ∧
            calculateFuelDropRate
              ((processSensorReading E clk m S).vehicle_data_windows S.vehicle_id) > 2
          then [("FUEL_LEAK", 4)] else []) ∧
      r9.map kindAndSeverity = (if callScore E clk m S > 3 then [("ERRATIC", 3)] else []) ∧
      r11.map kindAndSeverity =
        (if maintenanceDue (checkedProfile E clk m S) S then [("MAINTENANCE", 2)] else []) ∧
      r10.map kindAndSeverity =
        (violatedFences E m.geofences S).map (fun _ => ("GEOFENCE", 4)) := by
  refine ⟨stamp clk S.vehicle_id 0 (instantEmissions (callScore E clk m S) S),
    stamp clk S.vehicle_id (0 + (instantEmissions (callScore E clk m S) S).length)
      (fuelEmissions (callScore E clk m S) ((ingested E clk m S).vehicle_data_windows S.vehicle_id)),
    stamp clk S.vehicle_id
      (0 + (instantEmissions (callScore E clk m S) S).length +
        (fuelEmissions (callScore E clk m S)
          ((ingested E clk m S).vehicle_data_windows S.vehicle_id)).length)
      (mlEmissions (callScore E clk m S)),
    stamp clk S.vehicle_id
      ((callDetections E clk m S).length + insertionReads m S)
      (maintenanceEmissions E clk m S),
    stamp clk S.vehicle_id
      ((callDetections E clk m S).length + insertionReads m S +
        (maintenanceEmissions E clk m S).length)
      ((violatedFences E m.geofences S).map geofenceEmission), ?_, ?_, ?_, ?_, ?_, ?_⟩
  · rw [processSensorReading_detected, if_pos rfl]
    unfold callRecords
    rw [stamp_append]
    unfold callDetections detectEmissions
    simp only [List.append_assoc, stamp_append, List.length_append, Nat.add_assoc]
  · rw [stamp_map_key, instantEmissions_key]
  · rw [stamp_map_key, ← ingested_window_eq_after E clk m S]
    unfold fuelEmissions
    split <;> rfl
  · rw [stamp_map_key]
    unfold mlEmissions
    split <;> rfl
  · rw [stamp_map_key]
    unfold maintenanceEmissions
    split <;> rfl
  · rw [stamp_map_key, List.map_map]
    rfl

/-! ## The anomaly sink through a call -/

theorem wrapInt32_add_wrap (a b : Int) : wrapInt32 (wrapInt32 a + b) = wrapInt32 (a + b) := by
  unfold wrapInt32
  omega

theorem wrapInt32_of_lt (a : Int) (h0 : 0 ≤ a) (h1 : a < 2147483648) : wrapInt32 a = a := by
  unfold wrapInt32
  omega


section addLog
variable (clk : Clock) (m : AdvancedDataManager) (v : Int) (sensor : String) (value : MaybeNaN)
  (type : AnomalyType) (description : String) (severity : Int) (location : String) (ml : ℚ)

theorem addEnhancedAnomaly_anomaly_log_open :
    (addEnhancedAnomaly clk m v sensor value type description severity location
      ml).anomaly_log_open = m.anomaly_log_open := by
  unfold addEnhancedAnomaly setProfile
  dsimp only
  split <;> split <;> split <;> rfl

theorem addEnhancedAnomaly_anomaly_log :
    (addEnhancedAnomaly clk m v sensor value type description severity location ml).anomaly_log
      = m.anomaly_log ++
          (if m.anomaly_log_open then
            stampLines clk v m.clock_reads
              [⟨sensor, value, type, description, severity, location, ml⟩]
          else []) := by
  unfold addEnhancedAnomaly setProfile
  dsimp only
  split <;> split <;> split <;> simp_all [stampLines, AnomalyRecord.new]

theorem addEnhancedAnomaly_total_anomalies :
    (addEnhancedAnomaly clk m v sensor value type description severity location
      ml).total_anomalies_detected = wrapInt32 (m.total_anomalies_detected + 1) := by
  unfold addEnhancedAnomaly setProfile
  dsimp only
  split <;> split <;> split <;> rfl

end addLog

theorem stampLines_append (clk : Clock) (vid : Int) (k : Nat) (xs ys : List Emission) :
    stampLines clk vid k (xs ++ ys) =
      stampLines clk vid k xs ++ stampLines clk vid (k + xs.length) ys := by
  induction xs generalizing k with
  | nil => simp [stampLines]
  | cons e es ih => simp [stampLines, ih, Nat.add_assoc, Nat.add_comm 1]

theorem emitAll_anomaly_log_open (clk : Clock) (vid : Int) (es : List Emission)
    (m : AdvancedDataManager) :
    (emitAll clk vid es m).anomaly_log_open = m.anomaly_log_open := by
  induction es generalizing m with
  | nil => rfl
  | cons e es ih => simp only [emitAll, ih, emit, addEnhancedAnomaly_anomaly_log_open]

theorem emitAll_anomaly_log (clk : Clock) (vid : Int) (es : List Emission)
    (m : AdvancedDataManager) :
    (emitAll clk vid es m).anomaly_log =
      m.anomaly_log ++
        (if m.anomaly_log_open then stampLines clk vid m.clock_reads es else []) := by
  induction es generalizing m with
  | nil => simp [emitAll, stampLines]
  | cons e es ih =>
      simp only [emitAll, ih, emit, addEnhancedAnomaly_anomaly_log,
        addEnhancedAnomaly_anomaly_log_open, addEnhancedAnomaly_clock_reads]
      by_cases h : m.anomaly_log_open = true <;> simp [h, stampLines]

theorem checkMaintenanceRequirements_anomaly_log_open (E : Env) (clk : Clock)
    (m : AdvancedDataManager) (reading : SensorReading) :
    (checkMaintenanceRequirements E clk m reading).anomaly_log_open = m.anomaly_log_open := by
  rw [checkMaintenanceRequirements_eq]
  split <;> simp [setProfile, emitAll_anomaly_log_open]

theorem checkMaintenanceRequirements_anomaly_log (E : Env) (clk : Clock)
    (m : AdvancedDataManager) (reading : SensorReading) :
    (checkMaintenanceRequirements E clk m reading).anomaly_log =
      m.anomaly_log ++
        (if m.anomaly_log_open then
          stampLines clk reading.vehicle_id
            (m.clock_reads + (if (m.vehicle_profiles reading.vehicle_id).isSome then 0 else 2))
            (if maintenanceDue (profileRef E clk m reading.vehicle_id) reading then
              [maintenanceEmission (profileRef E clk m reading.vehicle_id)] else [])
        else []) := by
  rw [checkMaintenanceRequirements_eq]
  split
  · show (emitAll clk reading.vehicle_id _
      (touchProfile E clk m reading.vehicle_id)).anomaly_log = _
    rw [emitAll_anomaly_log, touchProfile_anomaly_log, touchProfile_anomaly_log_open,
      touchProfile_clock_reads]
  · simp [stampLines]

theorem detectEnhancedAnomalies_anomaly_log_open (E : Env) (clk : Clock)
    (m : AdvancedDataManager) (current : SensorReading) (window : List SensorReading) :
    (detectEnhancedAnomalies E clk m current window).1.anomaly_log_open =
      m.anomaly_log_open := by
  rw [detectEnhancedAnomalies_fst, checkMaintenanceRequirements_anomaly_log_open,
    emitAll_anomaly_log_open]

theorem detectEnhancedAnomalies_anomaly_log (E : Env) (clk : Clock)
    (m : AdvancedDataManager) (current : SensorReading) (window : List SensorReading) :
    (detectEnhancedAnomalies E clk m current window).1.anomaly_log =
      m.anomaly_log ++
        (if m.anomaly_log_open then
          stampLines clk current.vehicle_id m.clock_reads
              (detectEmissions (m.ml_detector.calculateAnomalyScore E current.vehicle_id current
                (E.indeterminate m.calls_started 0)) current window) ++
            stampLines clk current.vehicle_id
              (m.clock_reads +
                (detectEmissions (m.ml_detector.calculateAnomalyScore E current.vehicle_id
                  current (E.indeterminate m.calls_started 0)) current window).length +
                (if (m.vehicle_profiles current.vehicle_id).isSome then 0 else 2))
              (if maintenanceDue (profileAfter E clk m current.vehicle_id
                    (detectEmissions (m.ml_detector.calculateAnomalyScore E current.vehicle_id
                      current (E.indeterminate m.calls_started 0)) current window).length)
                    current then
                [maintenanceEmission (profileAfter E clk m current.vehicle_id
                  (detectEmissions (m.ml_detector.calculateAnomalyScore E current.vehicle_id
                    current (E.indeterminate m.calls_started 0)) current window).length)]
              else [])
        else []) := by
  rw [detectEnhancedAnomalies_fst, checkMaintenanceRequirements_anomaly_log,
    emitAll_anomaly_log, emitAll_anomaly_log_open, emitAll_clock_reads,
    maintenanceEmission_emitAll, emitAll_profiles_isSome]
  simp only [maintenanceDue_emitAll]
  by_cases h : m.anomaly_log_open = true
  · simp only [if_pos h, List.append_assoc]
  · simp [h]

theorem ingested_anomaly_log (E : Env) (clk : Clock) (m : AdvancedDataManager) (reading : SensorReading) :
    (ingested E clk m reading).anomaly_log = m.anomaly_log := by
  unfold ingested
  simp only [updateVehicleProfile_guarded]
  unfold countReading appendToWindow trainPeriodically setProfile
  dsimp only
  split <;> split <;> split <;> rfl

theorem ingested_anomaly_log_open (E : Env) (clk : Clock) (m : AdvancedDataManager)
    (reading : SensorReading) :
    (ingested E clk m reading).anomaly_log_open = m.anomaly_log_open := by
  unfold ingested
  simp only [updateVehicleProfile_guarded]
  unfold countReading appendToWindow trainPeriodically setProfile
  dsimp only
  split <;> split <;> split <;> rfl

theorem logReading_anomaly_log (m : AdvancedDataManager) (reading : SensorReading) :
    (logReading m reading).anomaly_log = m.anomaly_log := by
  unfold logReading
  split <;> rfl

theorem updateVehicleState_anomaly_log (clk : Clock) (m : AdvancedDataManager) (v : Int) :
    (updateVehicleState clk m v).anomaly_log = m.anomaly_log := by
  unfold updateVehicleState
  split <;> rfl

theorem logPerformance_anomaly_log (m : AdvancedDataManager) :
    (logPerformance m).anomaly_log = m.anomaly_log := by
  unfold logPerformance
  split <;> rfl

theorem callDetections_eq (E : Env) (clk : Clock) (m : AdvancedDataManager)
    (reading : SensorReading) :
    detectEmissions
        ((ingested E clk m reading).ml_detector.calculateAnomalyScore E reading.vehicle_id
          reading (E.indeterminate (m.calls_started + 1) 0)) reading
        ((ingested E clk m reading).vehicle_data_windows reading.vehicle_id) =
      callDetections E clk m reading := by
  unfold callDetections callScore
  rw [ingested_calls_started]

theorem processSensorReading_anomaly_log (E : Env) (clk : Clock) (m : AdvancedDataManager)
    (reading : SensorReading) :
    (processSensorReading E clk m reading).anomaly_log =
      m.anomaly_log ++
        (if m.anomaly_log_open then callLines E clk m reading else []) := by
  rw [processSensorReading_eq, logPerformance_anomaly_log, updateVehicleState_anomaly_log]
  unfold beforeTransition
  dsimp only
  rw [logReading_anomaly_log, checkGeofenceViolations_eq, emitAll_anomaly_log,
    detectEnhancedAnomalies_anomaly_log_open, detectEnhancedAnomalies_anomaly_log,
    detectEnhancedAnomalies_clock_reads, detectEnhancedAnomalies_geofences,
    ingested_anomaly_log, ingested_anomaly_log_open, ingested_clock_reads, ingested_geofences,
    ingested_calls_started, callDetections_eq, profileAfter_ingested, insertionReads_eq]
  by_cases h : m.anomaly_log_open = true
  · simp only [if_pos h, List.append_assoc, Nat.zero_add]
    unfold callLines maintenanceEmissions
    simp only [stampLines_append, List.append_assoc]
  · simp [h]

theorem stampLines_map_key (clk : Clock) (v : Int) (k : Nat) (es : List Emission) :
    (stampLines clk v k es).map lineKey = es.map emissionKey := by
  induction es generalizing k with
  | nil => rfl
  | cons e es ih =>
      simp only [stampLines, List.map_cons, ih]
      rfl

theorem callLines_map_key (E : Env) (clk : Clock) (m : AdvancedDataManager)
    (S : SensorReading) :
    (callLines E clk m S).map lineKey = (callEmissions E clk m S).map emissionKey := by
  unfold callLines callEmissions
  simp only [List.map_append, stampLines_map_key, List.append_assoc]

theorem mem_stampLines (clk : Clock) (v : Int) (k : Nat) (es : List Emission) (l : AnomalyLine)
    (h : l ∈ stampLines clk v k es) :
    ∃ e ∈ es, l.type = (emissionKey e).1 ∧ l.ml_score = e.ml_score := by
  induction es generalizing k with
  | nil => simp [stampLines] at h
  | cons e es ih =>
      simp only [stampLines, List.mem_cons] at h
      rcases h with h | h
      · exact ⟨e, List.mem_cons_self _ _, by rw [h]; rfl, by rw [h]⟩
      · obtain ⟨e1, he1, h1⟩ := ih (k + 1) h
        exact ⟨e1, List.mem_cons_of_mem _ he1, h1⟩

theorem mem_callLines (E : Env) (clk : Clock) (m : AdvancedDataManager) (S : SensorReading)
    (l : AnomalyLine) (h : l ∈ callLines E clk m S) :
    ∃ e ∈ callEmissions E clk m S, l.type = (emissionKey e).1 ∧ l.ml_score = e.ml_score := by
  unfold callLines at h
  unfold callEmissions
  rcases List.mem_append.1 h with h | h
  · obtain ⟨e, he, h1⟩ := mem_stampLines _ _ _ _ _ h
    exact ⟨e, by simp [he], h1⟩
  · obtain ⟨e, he, h1⟩ := mem_stampLines _ _ _ _ _ h
    exact ⟨e, by
      rcases List.mem_append.1 he with he | he
      · simp [he]
      · simp only [List.mem_append]
        exact Or.inr he, h1⟩

theorem emissionKey_maintenance (e : Emission) :
    (emissionKey e).1 = "MAINTENANCE" ↔ e.type = AnomalyType.MAINTENANCE_REQUIRED := by
  obtain ⟨s, v, t, d, sev, loc, ml⟩ := e
  cases t <;> simp [emissionKey, AnomalyRecord.getTypeString, AnomalyRecord.new]

theorem emissionKey_geofence (e : Emission) :
    (emissionKey e).1 = "GEOFENCE" ↔ e.type = AnomalyType.GEOFENCE_VIOLATION := by
  obtain ⟨s, v, t, d, sev, loc, ml⟩ := e
  cases t <;> simp [emissionKey, AnomalyRecord.getTypeString, AnomalyRecord.new]

theorem mem_detectEmissions (ml : ℚ) (S : SensorReading) (H : List SensorReading)
    (e : Emission) (h : e ∈ detectEmissions ml S H) :
    e.ml_score = ml ∧ e.type ≠ AnomalyType.MAINTENANCE_REQUIRED ∧
      e.type ≠ AnomalyType.GEOFENCE_VIOLATION := by
  unfold detectEmissions instantEmissions fuelEmissions mlEmissions at h
  simp only [List.mem_append] at h
  rcases h with ((((((h | h) | h) | h) | h) | h) | h) | h <;>
    split at h <;> simp only [List.mem_singleton, List.not_mem_nil] at h <;>
    subst h <;> refine ⟨rfl, ?_, ?_⟩ <;> dsimp only <;>
    first | decide | (split <;> decide)

theorem score_of_lines_aux (E : Env) (clk : Clock) (m : AdvancedDataManager) (S : SensorReading)
    (e : Emission) (h : e ∈ callEmissions E clk m S) :
    e.ml_score =
      if (emissionKey e).1 = "MAINTENANCE" ∨ (emissionKey e).1 = "GEOFENCE" then 0
      else callScore E clk m S := by
  unfold callEmissions callDetections at h
  simp only [List.mem_append] at h
  rcases h with (h | h) | h
  · obtain ⟨h1, h2, h3⟩ := mem_detectEmissions _ _ _ _ h
    rw [if_neg (by rw [emissionKey_maintenance, emissionKey_geofence]; tauto), h1]
  · unfold maintenanceEmissions at h
    split at h
    · simp only [List.mem_singleton] at h
      subst h
      rfl
    · simp at h
  · simp only [List.mem_map] at h
    obtain ⟨g, _, hg⟩ := h
    subst hg
    rfl

/-! ## Baseline, counters and tables through a call -/

theorem checkMaintenanceRequirements_ml_detector (E : Env) (clk : Clock)
    (m : AdvancedDataManager) (reading : SensorReading) :
    (checkMaintenanceRequirements E clk m reading).ml_detector = m.ml_detector := by
  rw [checkMaintenanceRequirements_eq]
  split <;> simp [setProfile, emitAll_ml_detector]

theorem checkMaintenanceRequirements_total_readings (E : Env) (clk : Clock)
    (m : AdvancedDataManager) (reading : SensorReading) :
    (checkMaintenanceRequirements E clk m reading).total_readings_processed =
      m.total_readings_processed := by
  rw [checkMaintenanceRequirements_eq]
  split <;> simp [setProfile, emitAll_total_readings]

theorem detectEnhancedAnomalies_ml_detector (E : Env) (clk : Clock) (m : AdvancedDataManager)
    (current : SensorReading) (window : List SensorReading) :
    (detectEnhancedAnomalies E clk m current window).1.ml_detector = m.ml_detector := by
  rw [detectEnhancedAnomalies_fst, checkMaintenanceRequirements_ml_detector,
    emitAll_ml_detector]

theorem detectEnhancedAnomalies_total_readings (E : Env) (clk : Clock)
    (m : AdvancedDataManager) (current : SensorReading) (window : List SensorReading) :
    (detectEnhancedAnomalies E clk m current window).1.total_readings_processed =
      m.total_readings_processed := by
  rw [detectEnhancedAnomalies_fst, checkMaintenanceRequirements_total_readings,
    emitAll_total_readings]

theorem logReading_frame (m : AdvancedDataManager) (reading : SensorReading) :
    (logReading m reading).ml_detector = m.ml_detector ∧
    (logReading m reading).total_readings_processed = m.total_readings_processed ∧
    (logReading m reading).geofences = m.geofences ∧
    (logReading m reading).anomaly_log_open = m.anomaly_log_open := by
  unfold logReading
  split <;> exact ⟨rfl, rfl, rfl, rfl⟩

theorem updateVehicleState_frame (clk : Clock) (m : AdvancedDataManager) (v : Int) :
    (updateVehicleState clk m v).ml_detector = m.ml_detector ∧
    (updateVehicleState clk m v).total_readings_processed = m.total_readings_processed ∧
    (updateVehicleState clk m v).geofences = m.geofences ∧
    (updateVehicleState clk m v).anomaly_log_open = m.anomaly_log_open := by
  unfold updateVehicleState
  split <;> exact ⟨rfl, rfl, rfl, rfl⟩

theorem logPerformance_frame (m : AdvancedDataManager) :
    (logPerformance m).ml_detector = m.ml_detector ∧
    (logPerformance m).total_readings_processed = m.total_readings_processed ∧
    (logPerformance m).geofences = m.geofences ∧
    (logPerformance m).anomaly_log_open = m.anomaly_log_open := by
  unfold logPerformance
  split <;> exact ⟨rfl, rfl, rfl, rfl⟩

theorem processSensorReading_ml_detector (E : Env) (clk : Clock) (m : AdvancedDataManager)
    (reading : SensorReading) :
    (processSensorReading E clk m reading).ml_detector = (ingested E clk m reading).ml_detector := by
  rw [processSensorReading_eq, (logPerformance_frame _).1, (updateVehicleState_frame _ _ _).1]
  unfold beforeTransition
  dsimp only
  rw [(logReading_frame _ _).1, checkGeofenceViolations_eq, emitAll_ml_detector,
    detectEnhancedAnomalies_ml_detector]

theorem processSensorReading_geofences (E : Env) (clk : Clock) (m : AdvancedDataManager)
    (reading : SensorReading) :
    (processSensorReading E clk m reading).geofences = m.geofences := by
  rw [processSensorReading_eq, (logPerformance_frame _).2.2.1,
    (updateVehicleState_frame _ _ _).2.2.1]
  unfold beforeTransition
  dsimp only
  rw [(logReading_frame _ _).2.2.1, checkGeofenceViolations_eq, emitAll_geofences,
    detectEnhancedAnomalies_geofences, ingested_geofences]

theorem processSensorReading_anomaly_log_open (E : Env) (clk : Clock)
    (m : AdvancedDataManager) (reading : SensorReading) :
    (processSensorReading E clk m reading).anomaly_log_open = m.anomaly_log_open := by
  rw [processSensorReading_eq, (logPerformance_frame _).2.2.2,
    (updateVehicleState_frame _ _ _).2.2.2]
  unfold beforeTransition
  dsimp only
  rw [(logReading_frame _ _).2.2.2, checkGeofenceViolations_eq, emitAll_anomaly_log_open,
    detectEnhancedAnomalies_anomaly_log_open, ingested_anomaly_log_open]

theorem ingested_eq (E : Env) (clk : Clock) (m : AdvancedDataManager) (reading : SensorReading) :
    ingested E clk m reading = trainPeriodically E (preTraining E clk m reading) reading.vehicle_id := by
  rfl

theorem trainPeriodically_windows (E : Env) (m : AdvancedDataManager) (v : Int) :
    (trainPeriodically E m v).vehicle_data_windows = m.vehicle_data_windows := by
  unfold trainPeriodically
  split <;> rfl

theorem trainPeriodically_total_readings (E : Env) (m : AdvancedDataManager) (v : Int) :
    (trainPeriodically E m v).total_readings_processed = m.total_readings_processed := by
  unfold trainPeriodically
  split <;> rfl

theorem preTraining_windows (E : Env) (clk : Clock) (m : AdvancedDataManager) (reading : SensorReading) :
    (preTraining E clk m reading).vehicle_data_windows =
      mapSet m.vehicle_data_windows reading.vehicle_id
        (pushEvict (m.vehicle_data_windows reading.vehicle_id) reading) := by
  rw [← ingested_windows E clk m reading, ingested_eq, trainPeriodically_windows]

theorem preTraining_total_readings (E : Env) (clk : Clock) (m : AdvancedDataManager)
    (reading : SensorReading) :
    (preTraining E clk m reading).total_readings_processed =
      wrapInt32 (m.total_readings_processed + 1) := by
  unfold preTraining
  simp only [updateVehicleProfile_guarded]
  unfold countReading appendToWindow setProfile
  dsimp only
  split <;> split <;> rfl

theorem preTraining_ml_detector (E : Env) (clk : Clock) (m : AdvancedDataManager) (reading : SensorReading) :
    (preTraining E clk m reading).ml_detector = m.ml_detector := by
  unfold preTraining
  simp only [updateVehicleProfile_guarded]
  unfold countReading appendToWindow setProfile
  dsimp only
  split <;> split <;> rfl

theorem preTraining_calls_started (E : Env) (clk : Clock) (m : AdvancedDataManager)
    (reading : SensorReading) :
    (preTraining E clk m reading).calls_started = m.calls_started + 1 := by
  unfold preTraining
  simp only [updateVehicleProfile_guarded]
  unfold countReading appendToWindow setProfile
  dsimp only
  split <;> split <;> rfl

theorem ingested_ml_detector (E : Env) (clk : Clock) (m : AdvancedDataManager)
    (reading : SensorReading) :
    (ingested E clk m reading).ml_detector =
      if (pushEvict (m.vehicle_data_windows reading.vehicle_id) reading).length ≥ 100 ∧
          wrapInt32 (m.total_readings_processed + 1) % 100 = 0 then
        m.ml_detector.trainModel E reading.vehicle_id
          (pushEvict (m.vehicle_data_windows reading.vehicle_id) reading)
          (trainingReads E (m.calls_started + 1))
      else m.ml_detector := by
  rw [ingested_eq]
  unfold trainPeriodically
  by_cases hc : (pushEvict (m.vehicle_data_windows reading.vehicle_id) reading).length ≥ 100 ∧
      wrapInt32 (m.total_readings_processed + 1) % 100 = 0
  · rw [if_pos hc, if_pos (by
      rw [preTraining_windows, preTraining_total_readings, mapSet_same]
      exact hc)]
    show (preTraining E clk m reading).ml_detector.trainModel E _
      ((preTraining E clk m reading).vehicle_data_windows _) _ = _
    rw [preTraining_windows, preTraining_ml_detector, mapSet_same, preTraining_calls_started]
  · rw [if_neg hc, if_neg (by
      rw [preTraining_windows, preTraining_total_readings, mapSet_same]
      exact hc)]
    exact preTraining_ml_detector E clk m reading

theorem processSensorReading_total_readings (E : Env) (clk : Clock) (m : AdvancedDataManager)
    (reading : SensorReading) :
    (processSensorReading E clk m reading).total_readings_processed =
      wrapInt32 (m.total_readings_processed + 1) := by
  rw [processSensorReading_eq, (logPerformance_frame _).2.1,
    (updateVehicleState_frame _ _ _).2.1]
  unfold beforeTransition
  dsimp only
  rw [(logReading_frame _ _).2.1, checkGeofenceViolations_eq, emitAll_total_readings,
    detectEnhancedAnomalies_total_readings, ingested_eq, trainPeriodically_total_readings,
    preTraining_total_readings]

theorem processAll_geofences (E : Env) (calls : List (Clock × SensorReading))
    (m : AdvancedDataManager) : (processAll E m calls).geofences = m.geofences := by
  induction calls generalizing m with
  | nil => rfl
  | cons c cs ih =>
      obtain ⟨clk, reading⟩ := c
      exact (ih (processSensorReading E clk m reading)).trans
        (processSensorReading_geofences E clk m reading)

theorem processAll_anomaly_log_open (E : Env) (calls : List (Clock × SensorReading))
    (m : AdvancedDataManager) :
    (processAll E m calls).anomaly_log_open = m.anomaly_log_open := by
  induction calls generalizing m with
  | nil => rfl
  | cons c cs ih =>
      obtain ⟨clk, reading⟩ := c
      exact (ih (processSensorReading E clk m reading)).trans
        (processSensorReading_anomaly_log_open E clk m reading)

/-! ## A run of calm samples -/

theorem calmCalls_succ (vid : Int) (t : TimePoint) (n : Nat) :
    calmCalls vid t (n + 1) = calmCalls vid t n ++ [(constClock t, calmReading vid t)] := by
  unfold calmCalls
  exact List.replicate_succ' n _

theorem pushEvict_replicate (n : Nat) (hn : n < 200) (r : SensorReading) :
    pushEvict (List.replicate n r) r = List.replicate (n + 1) r := by
  unfold pushEvict WINDOW_SIZE
  rw [← List.replicate_succ' n r]
  simp only [List.length_replicate]
  rw [if_neg (by omega)]

/-- The store after `n` calm samples of vehicle 7, for `n` below 100: the window
holds them all, the reading counter is `n` and no baseline is trained. -/
theorem calm_run (n : Nat) (hn : n ≤ 99) :
    (processAll exampleEnv (freshManager 0) (calmCalls 7 0 n)).vehicle_data_windows 7 =
      List.replicate n (calmReading 7 0) ∧
    (processAll exampleEnv (freshManager 0) (calmCalls 7 0 n)).total_readings_processed =
      (n : Int) ∧
    (processAll exampleEnv (freshManager 0) (calmCalls 7 0 n)).ml_detector = {} := by
  induction n with
  | zero => exact ⟨rfl, rfl, rfl⟩
  | succ n ih =>
      obtain ⟨h1, h2, h3⟩ := ih (by omega)
      rw [calmCalls_succ, processAll_snoc]
      generalize processAll exampleEnv (freshManager 0) (calmCalls 7 0 n) = m at h1 h2 h3 ⊢
      have hv : (calmReading 7 0).vehicle_id = 7 := rfl
      have hw : wrapInt32 (m.total_readings_processed + 1) = (n : Int) + 1 := by
        rw [h2]
        exact wrapInt32_of_lt _ (by omega) (by omega)
      refine ⟨?_, ?_, ?_⟩
      · rw [processSensorReading_windows, hv, mapSet_same, h1,
          pushEvict_replicate n (by omega)]
      · rw [processSensorReading_total_readings, hw]
        push_cast
        rfl
      · rw [processSensorReading_ml_detector, ingested_ml_detector, hw, if_neg, h3]
        omega

theorem trainedManager_eq :
    trainedManager =
      processAll exampleEnv (freshManager 0)
        (calmCalls 7 0 99 ++ [(constClock 0, calmReading 7 0)]) := by
  unfold trainedManager
  rw [← calmCalls_succ]

theorem trainedManager_state :
    trainedManager.vehicle_data_windows 7 = List.replicate 100 (calmReading 7 0) ∧
    trainedManager.total_readings_processed = 100 ∧
    trainedManager.ml_detector =
      MLAnomalyDetector.trainModel exampleEnv {} 7 (List.replicate 100 (calmReading 7 0))
        (fun _ => 0) := by
  obtain ⟨h1, h2, h3⟩ := calm_run 99 (le_refl _)
  rw [trainedManager_eq, processAll_snoc]
  generalize processAll exampleEnv (freshManager 0) (calmCalls 7 0 99) = m at h1 h2 h3 ⊢
  have hv : (calmReading 7 0).vehicle_id = 7 := rfl
  have hw : wrapInt32 (m.total_readings_processed + 1) = 100 := by
    rw [h2]
    rfl
  refine ⟨?_, ?_, ?_⟩
  · rw [processSensorReading_windows, hv, mapSet_same, h1, pushEvict_replicate 99 (by omega)]
  · rw [processSensorReading_total_readings, hw]
  · rw [processSensorReading_ml_detector, ingested_ml_detector, hw, hv, h1, h3,
      pushEvict_replicate 99 (by omega), if_pos ⟨by simp, by decide⟩]
    rfl

theorem mem_stampLines_of_mem (clk : Clock) (v : Int) (k : Nat) (es : List Emission)
    (e : Emission) (h : e ∈ es) :
    ∃ l ∈ stampLines clk v k es, l.type = (emissionKey e).1 ∧ l.ml_score = e.ml_score := by
  induction es generalizing k with
  | nil => simp at h
  | cons e1 es ih =>
      rcases List.mem_cons.mp h with h | h
      · subst h
        exact ⟨_, List.mem_cons_self _ _, rfl, rfl⟩
      · obtain ⟨l, hl, h1⟩ := ih (k + 1) h
        exact ⟨l, List.mem_cons_of_mem _ hl, h1⟩

theorem mem_callLines_of_mem (E : Env) (clk : Clock) (m : AdvancedDataManager)
    (S : SensorReading) (e : Emission) (h : e ∈ callEmissions E clk m S) :
    ∃ l ∈ callLines E clk m S, l.type = (emissionKey e).1 ∧ l.ml_score = e.ml_score := by
  unfold callEmissions at h
  unfold callLines
  rw [List.append_assoc] at h
  rcases List.mem_append.1 h with h | h
  · obtain ⟨l, hl, h1⟩ := mem_stampLines_of_mem clk S.vehicle_id 0 _ e h
    exact ⟨l, List.mem_append_left _ hl, h1⟩
  · obtain ⟨l, hl, h1⟩ := mem_stampLines_of_mem clk S.vehicle_id
      ((callDetections E clk m S).length + insertionReads m S) _ e h
    exact ⟨l, List.mem_append_right _ hl, h1⟩

/-! ## The score on the anomaly lines -/

/-- Counterexample to C12: after 100 calm samples of vehicle 7 the baseline is
trained; the next sample, at 115 degrees inside "School Zone", has score
25000000, and the call appends a GEOFENCE line whose score is 0. -/
theorem score_on_all_lines_counterexample :
    callScore exampleEnv (constClock 0) trainedManager hotSchoolReading = 25000000 ∧
    ∃ l ∈ scoredManager.anomaly_log.drop trainedManager.anomaly_log.length,
      l.type = "GEOFENCE" ∧ l.ml_score = 0 := by
  obtain ⟨h1, h2, h3⟩ := trainedManager_state
  have hv : hotSchoolReading.vehicle_id = 7 := rfl
  have hopen : trainedManager.anomaly_log_open = true := by
    unfold trainedManager
    rw [processAll_anomaly_log_open]
    rfl
  have hg : trainedManager.geofences = initializeGeofences := by
    unfold trainedManager
    rw [processAll_geofences]
    rfl
  refine ⟨?_, ?_⟩
  · have hn : ¬((pushEvict (trainedManager.vehicle_data_windows hotSchoolReading.vehicle_id)
          hotSchoolReading).length ≥ 100 ∧ wrapInt32 (100 + 1) % 100 = 0) := by
      intro h
      have h0 := h.2
      unfold wrapInt32 at h0
      omega
    unfold callScore
    rw [ingested_ml_detector, h2, if_neg hn, h3]
    decide!
  · unfold scoredManager
    rw [processSensorReading_anomaly_log, if_pos hopen, List.drop_left]
    have hmem : geofenceEmission schoolZone ∈
        callEmissions exampleEnv (constClock 0) trainedManager hotSchoolReading := by
      unfold callEmissions
      rw [hg]
      apply List.mem_append_right
      have hf : violatedFences exampleEnv initializeGeofences hotSchoolReading =
          [schoolZone] := by decide!
      rw [hf]
      exact List.mem_singleton.mpr rfl
    obtain ⟨l, hl, ht, hs⟩ := mem_callLines_of_mem exampleEnv (constClock 0) trainedManager
      hotSchoolReading _ hmem
    exact ⟨l, hl, ht, hs⟩

/-- Claim C12, amended.  For every sample S with baseline score M (the score
that the call computes for S after its training step), the lines that the call
appends to an open anomaly sink are those of the anomalies it stores, in the
same order, and each line carries M in its MLScore column unless it is a
MAINTENANCE (R11) or GEOFENCE (R10) line, which carries 0. -/
theorem score_on_lines (E : Env) (clk : Clock) (m : AdvancedDataManager) (S : SensorReading)
    (hopen : m.anomaly_log_open = true) :
    ∃ (records : List AnomalyRecord) (lines : List AnomalyLine),
      (processSensorReading E clk m S).detected_anomalies S.vehicle_id =
        m.detected_anomalies S.vehicle_id ++ records ∧
      (processSensorReading E clk m S).anomaly_log = m.anomaly_log ++ lines ∧
      lines.map lineKey = records.map kindAndSeverity ∧
      ∀ l ∈ lines,
        l.ml_score =
          if l.type = "MAINTENANCE" ∨ l.type = "GEOFENCE" then 0 else callScore E clk m S := by
  refine ⟨callRecords E clk m S, callLines E clk m S, ?_, ?_, ?_, ?_⟩
  · rw [processSensorReading_detected, if_pos rfl]
  · rw [processSensorReading_anomaly_log, if_pos hopen]
  · rw [callLines_map_key, callRecords_map_key]
  · intro l hl
    obtain ⟨e, he, h1, h2⟩ := mem_callLines _ _ _ _ _ hl
    rw [h1, h2]
    exact score_of_lines_aux E clk m S e he

/-- Witness for C12: the overheating sample on the trained manager. -/
theorem score_on_lines_witness :
    (freshManager 0).anomaly_log_open = true ∧
    ∃ (records : List AnomalyRecord) (lines : List AnomalyLine),
      (processSensorReading exampleEnv (constClock 0) (freshManager 0)
          (overheatReading 7 0)).detected_anomalies (overheatReading 7 0).vehicle_id =
        (freshManager 0).detected_anomalies (overheatReading 7 0).vehicle_id ++ records ∧
      (processSensorReading exampleEnv (constClock 0) (freshManager 0)
          (overheatReading 7 0)).anomaly_log = (freshManager 0).anomaly_log ++ lines ∧
      lines.map lineKey = records.map kindAndSeverity ∧
      ∀ l ∈ lines,
        l.ml_score =
          if l.type = "MAINTENANCE" ∨ l.type = "GEOFENCE" then 0
          else callScore exampleEnv (constClock 0) (freshManager 0) (overheatReading 7 0) :=
  ⟨rfl, score_on_lines exampleEnv (constClock 0) (freshManager 0) (overheatReading 7 0) rfl⟩

/-! ## The anomaly counters through a call -/

theorem emitAll_total_anomalies (clk : Clock) (vid : Int) (es : List Emission)
    (m : AdvancedDataManager) (x : Int) (h : m.total_anomalies_detected = wrapInt32 x) :
    (emitAll clk vid es m).total_anomalies_detected = wrapInt32 (x + es.length) := by
  induction es generalizing m x with
  | nil => simpa [emitAll] using h
  | cons e es ih =>
      have h1 : (emit clk vid m e).total_anomalies_detected = wrapInt32 (x + 1) := by
        unfold emit
        rw [addEnhancedAnomaly_total_anomalies, h, wrapInt32_add_wrap]
      have h2 := ih (emit clk vid m e) (x + 1) h1
      simp only [emitAll, List.length_cons, Nat.cast_add, Nat.cast_one]
      rw [h2]
      congr 1
      omega

theorem checkMaintenanceRequirements_total_anomalies (E : Env) (clk : Clock)
    (m : AdvancedDataManager) (reading : SensorReading) (x : Int)
    (h : m.total_anomalies_detected = wrapInt32 x) :
    (checkMaintenanceRequirements E clk m reading).total_anomalies_detected =
      wrapInt32 (x +
        ((if maintenanceDue (profileRef E clk m reading.vehicle_id) reading then
          [maintenanceEmission (profileRef E clk m reading.vehicle_id)] else []).length : Int)) := by
  rw [checkMaintenanceRequirements_eq]
  split
  · show (emitAll clk reading.vehicle_id _
      (touchProfile E clk m reading.vehicle_id)).total_anomalies_detected = _
    exact emitAll_total_anomalies clk _ _ _ x (by rw [touchProfile_total_anomalies]; exact h)
  · simpa using h

theorem detectEnhancedAnomalies_total_anomalies (E : Env) (clk : Clock)
    (m : AdvancedDataManager) (current : SensorReading) (window : List SensorReading) (x : Int)
    (h : m.total_anomalies_detected = wrapInt32 x) :
    (detectEnhancedAnomalies E clk m current window).1.total_anomalies_detected =
      wrapInt32 (x +
        ((detectEmissions (m.ml_detector.calculateAnomalyScore E current.vehicle_id current
              (E.indeterminate m.calls_started 0)) current window ++
          (if maintenanceDue (profileAfter E clk m current.vehicle_id
              (detectEmissions (m.ml_detector.calculateAnomalyScore E current.vehicle_id current
                (E.indeterminate m.calls_started 0)) current window).length) current then
            [maintenanceEmission (profileAfter E clk m current.vehicle_id
              (detectEmissions (m.ml_detector.calculateAnomalyScore E current.vehicle_id current
                (E.indeterminate m.calls_started 0)) current window).length)]
            else [])).length : Int)) := by
  rw [detectEnhancedAnomalies_fst,
    checkMaintenanceRequirements_total_anomalies E clk _ _ _
      (emitAll_total_anomalies clk _ _ m x h),
    maintenanceEmission_emitAll]
  simp only [maintenanceDue_emitAll, List.length_append, Nat.cast_add, add_assoc]

theorem ingested_total_anomalies (E : Env) (clk : Clock) (m : AdvancedDataManager) (reading : SensorReading) :
    (ingested E clk m reading).total_anomalies_detected = m.total_anomalies_detected := by
  unfold ingested
  simp only [updateVehicleProfile_guarded]
  unfold countReading appendToWindow trainPeriodically setProfile
  dsimp only
  split <;> split <;> split <;> rfl

theorem logReading_total_anomalies (m : AdvancedDataManager) (reading : SensorReading) :
    (logReading m reading).total_anomalies_detected = m.total_anomalies_detected := by
  unfold logReading
  split <;> rfl

theorem updateVehicleState_total_anomalies (clk : Clock) (m : AdvancedDataManager) (v : Int) :
    (updateVehicleState clk m v).total_anomalies_detected = m.total_anomalies_detected := by
  unfold updateVehicleState
  split <;> rfl

theorem logPerformance_total_anomalies (m : AdvancedDataManager) :
    (logPerformance m).total_anomalies_detected = m.total_anomalies_detected := by
  unfold logPerformance
  split <;> rfl

theorem processSensorReading_total_anomalies (E : Env) (clk : Clock) (m : AdvancedDataManager)
    (reading : SensorReading) (x : Int) (h : m.total_anomalies_detected = wrapInt32 x) :
    (processSensorReading E clk m reading).total_anomalies_detected =
      wrapInt32 (x + ((callEmissions E clk m reading).length : Int)) := by
  rw [processSensorReading_eq, logPerformance_total_anomalies,
    updateVehicleState_total_anomalies]
  unfold beforeTransition
  dsimp only
  rw [logReading_total_anomalies, checkGeofenceViolations_eq,
    emitAll_total_anomalies clk _ _ _ _
      (detectEnhancedAnomalies_total_anomalies E clk _ _ _ x
        (by rw [ingested_total_anomalies]; exact h)),
    detectEnhancedAnomalies_geofences, ingested_geofences, ingested_calls_started,
    callDetections_eq, profileAfter_ingested]
  unfold callEmissions maintenanceEmissions
  simp only [List.length_append, Nat.cast_add, add_assoc]

theorem catalogueIds_nodup : catalogueIds.Nodup := by
  decide

theorem mem_catalogueIds (v : Int) : v ∈ catalogueIds ↔ catalogued v := by
  unfold catalogueIds catalogued
  simp only [List.mem_cons, List.mem_singleton, List.not_mem_nil, or_false]
  omega

theorem sum_map_update (ids : List Int) (hn : ids.Nodup) (f g : Int → Int) (v : Int) (k : Int)
    (hv : v ∈ ids) (hg : g v = f v + k) (ho : ∀ u, u ≠ v → g u = f u) :
    (ids.map g).sum = (ids.map f).sum + k := by
  induction ids with
  | nil => simp at hv
  | cons a as ih =>
      rw [List.nodup_cons] at hn
      simp only [List.map_cons, List.sum_cons]
      by_cases ha : a = v
      · subst ha
        have hrest : as.map g = as.map f := by
          apply List.map_congr_left
          intro u hu
          exact ho u (fun h => hn.1 (h ▸ hu))
        rw [hrest, hg]
        omega
      · have hv1 : v ∈ as := by
          rcases List.mem_cons.mp hv with h | h
          · exact absurd h.symm ha
          · exact h
        rw [ih hn.2 hv1, ho a ha]
        omega

theorem initializeVehicleProfiles_isSome (clk : Clock) (v : Int) :
    (initializeVehicleProfiles clk v).isSome ↔ catalogued v := by
  unfold initializeVehicleProfiles catalogued
  by_cases h : 1 ≤ v ∧ v ≤ 20
  · have hl : (v - 1).toNat < vehicles.length := by
      have : vehicles.length = 20 := rfl
      omega
    rw [if_pos h, List.get?_eq_get hl]
    simp [h]
  · simp [h]

theorem initializeVehicleProfiles_total (clk : Clock) (v : Int) (p : VehicleProfile)
    (h : initializeVehicleProfiles clk v = some p) : p.total_anomalies = 0 := by
  unfold initializeVehicleProfiles at h
  split at h
  · simp only [Option.map_eq_some'] at h
    obtain ⟨a, _, ha⟩ := h
    rw [← ha]
    rfl
  · simp at h

/-- The invariant of the counters for runs over catalogued ids. -/
theorem processAll_counters (E : Env) (clk0 : Clock)
    (data_open anomaly_open performance_open : Bool) (calls : List (Clock × SensorReading))
    (hc : allCatalogued calls) :
    (∀ v, ((processAll E (AdvancedDataManager.new clk0 data_open anomaly_open performance_open)
        calls).vehicle_profiles v).isSome ↔ catalogued v) ∧
    (processAll E (AdvancedDataManager.new clk0 data_open anomaly_open performance_open)
        calls).total_anomalies_detected =
      wrapInt32 (sumTotals (processAll E
        (AdvancedDataManager.new clk0 data_open anomaly_open performance_open) calls)) ∧
    0 ≤ sumTotals (processAll E
      (AdvancedDataManager.new clk0 data_open anomaly_open performance_open) calls) := by
  induction calls using List.reverseRecOn with
  | nil =>
      have hs : sumTotals (AdvancedDataManager.new clk0 data_open anomaly_open performance_open)
          = 0 := by
        unfold sumTotals
        have : ∀ v, profileTotal
            (AdvancedDataManager.new clk0 data_open anomaly_open performance_open) v = 0 := by
          intro v
          unfold profileTotal
          cases hp : (AdvancedDataManager.new clk0 data_open anomaly_open
            performance_open).vehicle_profiles v with
          | none => rfl
          | some p => exact initializeVehicleProfiles_total clk0 v p hp
        rw [funext this]
        rfl
      refine ⟨fun v => initializeVehicleProfiles_isSome clk0 v, ?_, ?_⟩
      · show (0 : Int) = wrapInt32 (sumTotals
          (AdvancedDataManager.new clk0 data_open anomaly_open performance_open))
        rw [hs]
        rfl
      · show 0 ≤ sumTotals
          (AdvancedDataManager.new clk0 data_open anomaly_open performance_open)
        rw [hs]
  | append_singleton cs c ih =>
      obtain ⟨clk, reading⟩ := c
      have hcs : allCatalogued cs := fun c hc1 => hc c (List.mem_append_left _ hc1)
      have hr : catalogued reading.vehicle_id :=
        hc (clk, reading) (List.mem_append_right _ (List.mem_singleton.mpr rfl))
      obtain ⟨ih1, ih2, ih3⟩ := ih hcs
      rw [processAll_snoc]
      generalize processAll E
        (AdvancedDataManager.new clk0 data_open anomaly_open performance_open) cs = m
        at ih1 ih2 ih3 ⊢
      obtain ⟨p, hp⟩ := Option.isSome_iff_exists.mp ((ih1 reading.vehicle_id).mpr hr)
      obtain ⟨p1, hp1, _, _, _, htot⟩ := processSensorReading_profile_fields E clk m reading p hp
      have hsum : sumTotals (processSensorReading E clk m reading) =
          sumTotals m + ((callEmissions E clk m reading).length : Int) := by
        unfold sumTotals
        apply sum_map_update catalogueIds catalogueIds_nodup _ _ reading.vehicle_id _
          ((mem_catalogueIds _).mpr hr)
        · simp [profileTotal, hp1, hp, htot]
        · intro u hu
          unfold profileTotal
          rw [processSensorReading_profiles_other E clk m reading u hu]
      refine ⟨fun v => ?_, ?_, ?_⟩
      · by_cases hv : v = reading.vehicle_id
        · subst hv
          simp [hp1, hr]
        · rw [processSensorReading_profiles_other E clk m reading v hv]
          exact ih1 v
      · rw [processSensorReading_total_anomalies E clk m reading _ ih2, hsum]
      · rw [hsum]
        omega

/-! ## The per-profile counter and the global counter -/

/-- Claim C13, divergence.  An overheating sample of the uncatalogued vehicle
99 on a fresh manager: the call stores two anomalies under 99 and leaves a
profile for 99 whose `total_anomalies` is 0. -/
theorem unknown_id_profile_miscount :
    (strangerManager.detected_anomalies 99).length = 2 ∧
    (strangerManager.vehicle_profiles 99).map (fun p => p.total_anomalies) = some 0 := by
  decide!

/-- Counterexample to C14: after an overheating sample of the uncatalogued
vehicle 99 the global counter is 2 while every profile counts 0 anomalies. -/
theorem anomaly_sum_counterexample :
    strangerManager.total_anomalies_detected = 2 ∧
    ∀ (v : Int) (p : VehicleProfile),
      strangerManager.vehicle_profiles v = some p → p.total_anomalies = 0 := by
  refine ⟨by decide!, fun v p h => ?_⟩
  by_cases hv : v = 99
  · subst hv
    have h0 : (strangerManager.vehicle_profiles 99).map (fun p => p.total_anomalies) =
        some 0 := by decide!
    rw [h] at h0
    simpa using h0
  · unfold strangerManager at h
    rw [processSensorReading_profiles_other _ _ _ _ v hv] at h
    exact initializeVehicleProfiles_total (constClock 0) v p h

/-- Claim C14, amended.  After every sequence of `processSensorReading` calls on
a freshly constructed manager in which every sample carries a catalogued
vehicle id (1 to 20), the profiles are exactly those of the catalogue, and
`total_anomalies_detected` equals the sum over all profiles of
`total_anomalies`, reduced to the range of the 32-bit counter; the two are
equal as long as the sum is below 2^31. -/
theorem anomaly_sum (E : Env) (clk0 : Clock) (data_open anomaly_open performance_open : Bool)
    (calls : List (Clock × SensorReading)) (hc : allCatalogued calls) :
    (∀ v, ((processAll E (AdvancedDataManager.new clk0 data_open anomaly_open performance_open)
        calls).vehicle_profiles v).isSome ↔ catalogued v) ∧
    (processAll E (AdvancedDataManager.new clk0 data_open anomaly_open performance_open)
        calls).total_anomalies_detected =
      wrapInt32 (sumTotals (processAll E
        (AdvancedDataManager.new clk0 data_open anomaly_open performance_open) calls)) ∧
    (sumTotals (processAll E
        (AdvancedDataManager.new clk0 data_open anomaly_open performance_open) calls) <
          2147483648 →
      (processAll E (AdvancedDataManager.new clk0 data_open anomaly_open performance_open)
          calls).total_anomalies_detected =
        sumTotals (processAll E
          (AdvancedDataManager.new clk0 data_open anomaly_open performance_open) calls)) := by
  obtain ⟨h1, h2, h3⟩ :=
    processAll_counters E clk0 data_open anomaly_open performance_open calls hc
  exact ⟨h1, h2, fun hlt => h2.trans (wrapInt32_of_lt _ h3 hlt)⟩

theorem allCatalogued_single (clk : Clock) (reading : SensorReading)
    (h : catalogued reading.vehicle_id) : allCatalogued [(clk, reading)] := by
  intro c hc
  rw [List.mem_singleton.mp hc]
  exact h

/-- Witness for C14: one overheating sample of vehicle 7. -/
theorem anomaly_sum_witness :
    allCatalogued [(constClock 0, overheatReading 7 0)] ∧
    ((∀ v, ((processAll exampleEnv (AdvancedDataManager.new (constClock 0) true true true)
        [(constClock 0, overheatReading 7 0)]).vehicle_profiles v).isSome ↔ catalogued v) ∧
    (processAll exampleEnv (AdvancedDataManager.new (constClock 0) true true true)
        [(constClock 0, overheatReading 7 0)]).total_anomalies_detected =
      wrapInt32 (sumTotals (processAll exampleEnv
        (AdvancedDataManager.new (constClock 0) true true true)
        [(constClock 0, overheatReading 7 0)])) ∧
    (sumTotals (processAll exampleEnv
        (AdvancedDataManager.new (constClock 0) true true true)
        [(constClock 0, overheatReading 7 0)]) < 2147483648 →
      (processAll exampleEnv (AdvancedDataManager.new (constClock 0) true true true)
          [(constClock 0, overheatReading 7 0)]).total_anomalies_detected =
        sumTotals (processAll exampleEnv
          (AdvancedDataManager.new (constClock 0) true true true)
          [(constClock 0, overheatReading 7 0)]))) :=
  ⟨allCatalogued_single _ _ (by decide),
    anomaly_sum exampleEnv (constClock 0) true true true [(constClock 0, overheatReading 7 0)]
      (allCatalogued_single _ _ (by decide))⟩

/-! ## The profile of a catalogued vehicle through a run -/

theorem processSensorReading_profile_shape (E : Env) (clk : Clock) (m : AdvancedDataManager)
    (reading : SensorReading) (p : VehicleProfile)
    (hp : m.vehicle_profiles reading.vehicle_id = some p) :
    ∃ (st : VehicleState) (k : Int),
      (processSensorReading E clk m reading).vehicle_profiles reading.vehicle_id =
        some { updateProfileBody E p reading with current_state := st, total_anomalies := k } := by
  obtain ⟨p0, hp0, _, _, hfin⟩ := processSensorReading_profile E clk m reading p hp
  rw [beforeTransition_profile E clk m reading p hp] at hp0
  rw [hfin, ← Option.some.inj hp0]
  split
  · exact ⟨_, _, rfl⟩
  · exact ⟨_, _, rfl⟩

theorem getLast?_tail_concat {α : Type} (l : List α) (x : α)
    (h : (l ++ [x]).length > 1000) : (l ++ [x]).tail.getLast? = some x := by
  cases l with
  | nil => simp at h
  | cons a rest => simp

theorem updateProfileBody_route_last (E : Env) (p : VehicleProfile) (reading : SensorReading) :
    (updateProfileBody E p reading).route_history.getLast? = some (positionOf reading) := by
  unfold updateProfileBody positionOf
  dsimp only
  rcases h : p.route_history.getLast? with _ | last_pos <;>
    simp only [h] <;> split <;> split <;> split <;> dsimp only <;>
    first
    | exact getLast?_tail_concat _ _ (by assumption)
    | exact List.getLast?_concat _

theorem samplesOf_nil (v : Int) : samplesOf v [] = [] := by
  rfl

/-- The profile of a catalogued vehicle after a run on a fresh manager: it
exists, its top speed bounds the speed of every sample of the vehicle, and
`last_seen` and the last route point are those of the vehicle's latest sample. -/
theorem processAll_profile (E : Env) (clk0 : Clock)
    (data_open anomaly_open performance_open : Bool) (calls : List (Clock × SensorReading))
    (v : Int) (hv : catalogued v) :
    ∃ p : VehicleProfile,
      (processAll E (AdvancedDataManager.new clk0 data_open anomaly_open performance_open)
        calls).vehicle_profiles v = some p ∧
      (∀ r ∈ samplesOf v calls, r.speed_kmph ≤ p.max_speed_recorded) ∧
      (∀ r, (samplesOf v calls).getLast? = some r → p.last_seen = r.timestamp) ∧
      p.route_history.getLast? = ((samplesOf v calls).getLast?).map positionOf := by
  induction calls using List.reverseRecOn with
  | nil =>
      obtain ⟨p, hp⟩ := Option.isSome_iff_exists.mp
        ((initializeVehicleProfiles_isSome clk0 v).mpr hv)
      refine ⟨p, hp, ?_, ?_, ?_⟩
      · intro r hr
        simp [samplesOf_nil] at hr
      · intro r hr
        simp [samplesOf_nil] at hr
      · unfold initializeVehicleProfiles at hp
        split at hp
        · simp only [Option.map_eq_some'] at hp
          obtain ⟨a, _, ha⟩ := hp
          rw [← ha]
          rfl
        · simp at hp
  | append_singleton cs c ih =>
      obtain ⟨clk, reading⟩ := c
      obtain ⟨p, hp, hspeed, hseen, hroute⟩ := ih
      rw [processAll_snoc, samplesOf_snoc]
      generalize processAll E
        (AdvancedDataManager.new clk0 data_open anomaly_open performance_open) cs = m at hp ⊢
      by_cases hid : reading.vehicle_id = v
      · subst hid
        obtain ⟨st, k, hp1⟩ := processSensorReading_profile_shape E clk m reading p hp
        refine ⟨_, hp1, ?_, ?_, ?_⟩
        · intro r hr
          rw [if_pos rfl] at hr
          show r.speed_kmph ≤ (updateProfileBody E p reading).max_speed_recorded
          rw [updateProfileBody_max_speed]
          rcases List.mem_append.mp hr with h | h
          · exact le_trans (hspeed r h) (le_max_left _ _)
          · rw [List.mem_singleton.mp h]
            exact le_max_right _ _
        · intro r hr
          rw [if_pos rfl, List.getLast?_concat] at hr
          show (updateProfileBody E p reading).last_seen = r.timestamp
          rw [updateProfileBody_last_seen, ← Option.some.inj hr]
        · rw [if_pos rfl, List.getLast?_concat]
          exact updateProfileBody_route_last E p reading
      · rw [if_neg hid]
        refine ⟨p, ?_, hspeed, hseen, hroute⟩
        rw [processSensorReading_profiles_other E clk m reading v (fun h => hid h.symm)]
        exact hp

/-! ## Top speed -/

/-- Claim C15.  After every sequence of `processSensorReading` calls on a freshly
constructed manager, every catalogued vehicle `v` has a profile, and its
`max_speed_recorded` is greater than or equal to the speed of every sample
processed so far for `v`. -/
theorem max_speed_bounds_samples (E : Env) (clk0 : Clock)
    (data_open anomaly_open performance_open : Bool) (calls : List (Clock × SensorReading))
    (v : Int) (hv : catalogued v) :
    ∃ p : VehicleProfile,
      (processAll E (AdvancedDataManager.new clk0 data_open anomaly_open performance_open)
        calls).vehicle_profiles v = some p ∧
      ∀ r ∈ samplesOf v calls, r.speed_kmph ≤ p.max_speed_recorded := by
  obtain ⟨p, hp, hspeed, _, _⟩ :=
    processAll_profile E clk0 data_open anomaly_open performance_open calls v hv
  exact ⟨p, hp, hspeed⟩

/-- Witness for C15: vehicle 7 after one overheating sample at 50 km/h. -/
theorem max_speed_bounds_samples_witness :
    catalogued 7 ∧
    ∃ p : VehicleProfile,
      (processAll exampleEnv (AdvancedDataManager.new (constClock 0) true true true)
        [(constClock 0, overheatReading 7 0)]).vehicle_profiles 7 = some p ∧
      ∀ r ∈ samplesOf 7 [(constClock 0, overheatReading 7 0)],
        r.speed_kmph ≤ p.max_speed_recorded :=
  ⟨by decide,
    max_speed_bounds_samples exampleEnv (constClock 0) true true true
      [(constClock 0, overheatReading 7 0)] 7 (by decide)⟩

/-! ## Last seen -/

/-- Counterexample to C17: vehicle 7 receives a sample stamped 10, then one
stamped 5; its `last_seen` is then 5, below the timestamp of the first sample. -/
theorem last_seen_counterexample :
    (outOfOrderManager.vehicle_profiles 7).map (fun p => p.last_seen) = some 5 ∧
    (samplesOf 7 outOfOrderCalls).map (fun r => r.timestamp) = [10, 5] := by
  decide!

/-- Claim C17, amended.  After every sequence of `processSensorReading` calls on
a freshly constructed manager, for every catalogued vehicle `v`,
`profile[v].last_seen` equals the timestamp of the sample processed last for
`v`; so it is greater than or equal to the timestamp of every sample processed
so far for `v` when the samples of `v` arrive in non-decreasing timestamp order. -/
theorem last_seen_is_latest (E : Env) (clk0 : Clock)
    (data_open anomaly_open performance_open : Bool) (calls : List (Clock × SensorReading))
    (v : Int) (hv : catalogued v) :
    ∃ p : VehicleProfile,
      (processAll E (AdvancedDataManager.new clk0 data_open anomaly_open performance_open)
        calls).vehicle_profiles v = some p ∧
      (∀ r, (samplesOf v calls).getLast? = some r → p.last_seen = r.timestamp) ∧
      (((samplesOf v calls).map fun r => r.timestamp).Pairwise (fun a b => a ≤ b) →
        ∀ r ∈ samplesOf v calls, r.timestamp ≤ p.last_seen) := by
  obtain ⟨p, hp, _, hseen, _⟩ :=
    processAll_profile E clk0 data_open anomaly_open performance_open calls v hv
  refine ⟨p, hp, hseen, fun hsorted r hr => ?_⟩
  rcases List.eq_nil_or_concat (samplesOf v calls) with hnil | ⟨l, a, hl⟩
  · rw [hnil] at hr
    simp at hr
  · rw [List.concat_eq_append] at hl
    rw [hl] at hr hsorted
    have hlast : (samplesOf v calls).getLast? = some a := by
      rw [hl, List.getLast?_concat]
    rw [hseen a hlast]
    rcases List.mem_append.mp hr with h | h
    · rw [List.map_append, List.pairwise_append] at hsorted
      exact hsorted.2.2 r.timestamp (List.mem_map_of_mem _ h) a.timestamp (by simp)
    · rw [List.mem_singleton.mp h]

/-- Witness for C17: vehicle 7 after one overheating sample stamped 0. -/
theorem last_seen_is_latest_witness :
    catalogued 7 ∧
    ∃ p : VehicleProfile,
      (processAll exampleEnv (AdvancedDataManager.new (constClock 0) true true true)
        [(constClock 0, overheatReading 7 0)]).vehicle_profiles 7 = some p ∧
      (∀ r, (samplesOf 7 [(constClock 0, overheatReading 7 0)]).getLast? = some r →
        p.last_seen = r.timestamp) ∧
      (((samplesOf 7 [(constClock 0, overheatReading 7 0)]).map
          fun r => r.timestamp).Pairwise (fun a b => a ≤ b) →
        ∀ r ∈ samplesOf 7 [(constClock 0, overheatReading 7 0)], r.timestamp ≤ p.last_seen) :=
  ⟨by decide,
    last_seen_is_latest exampleEnv (constClock 0) true true true
      [(constClock 0, overheatReading 7 0)] 7 (by decide)⟩

/-! ## The window as the latest samples -/

theorem pushEvict_drop (l : List SensorReading) (r : SensorReading) :
    pushEvict (l.drop (l.length - 200)) r = (l ++ [r]).drop ((l ++ [r]).length - 200) := by
  unfold pushEvict WINDOW_SIZE
  by_cases h : l.length < 200
  · have h0 : l.length - 200 = 0 := by omega
    have h1 : (l ++ [r]).length - 200 = 0 := by
      rw [List.length_append, List.length_singleton]
      omega
    rw [h0, h1, List.drop_zero, List.drop_zero, if_neg]
    rw [List.length_append, List.length_singleton]
    omega
  · have h1 : (l ++ [r]).length - 200 = (l.length - 200) + 1 := by
      rw [List.length_append, List.length_singleton]
      omega
    rw [h1, if_pos, ← List.drop_append_of_le_length (by omega), List.tail_drop]
    rw [List.length_append, List.length_drop, List.length_singleton]
    omega

/-- The window of a vehicle after a run on a fresh manager: the last 200 of its
samples, in processing order. -/
theorem processAll_window (E : Env) (clk0 : Clock)
    (data_open anomaly_open performance_open : Bool) (calls : List (Clock × SensorReading))
    (v : Int) :
    (processAll E (AdvancedDataManager.new clk0 data_open anomaly_open performance_open)
        calls).vehicle_data_windows v =
      (samplesOf v calls).drop ((samplesOf v calls).length - 200) := by
  induction calls using List.reverseRecOn with
  | nil =>
      rw [samplesOf_nil, List.drop_nil]
      rfl
  | append_singleton cs c ih =>
      obtain ⟨clk, reading⟩ := c
      rw [processAll_snoc, samplesOf_snoc, processSensorReading_windows]
      by_cases hid : reading.vehicle_id = v
      · subst hid
        rw [if_pos rfl, mapSet_same, ih, pushEvict_drop]
      · rw [if_neg hid, mapSet_other _ _ _ _ (fun h => hid h.symm), ih]

/-! ## Order of the timestamps in a window -/

/-- Counterexample to C16: vehicle 7 receives a sample stamped 10, then one
stamped 5; the timestamps of its window, front to back, are 10, 5. -/
theorem window_order_counterexample :
    (outOfOrderManager.vehicle_data_windows 7).map (fun r => r.timestamp) = [10, 5] := by
  decide!

/-- Claim C16, amended.  After every sequence of `processSensorReading` calls on
a freshly constructed manager, for every vehicle `v` the window of `v` holds
the last 200 samples processed for `v`, in processing order; so the timestamps
in the window, read front to back, are non-decreasing when the samples of `v`
arrive in non-decreasing timestamp order. -/
theorem window_keeps_arrival_order (E : Env) (clk0 : Clock)
    (data_open anomaly_open performance_open : Bool) (calls : List (Clock × SensorReading))
    (v : Int) :
    (processAll E (AdvancedDataManager.new clk0 data_open anomaly_open performance_open)
        calls).vehicle_data_windows v =
      (samplesOf v calls).drop ((samplesOf v calls).length - 200) ∧
    (((samplesOf v calls).map fun r => r.timestamp).Pairwise (fun a b => a ≤ b) →
      (((processAll E (AdvancedDataManager.new clk0 data_open anomaly_open performance_open)
        calls).vehicle_data_windows v).map fun r => r.timestamp).Pairwise
          (fun a b => a ≤ b)) := by
  refine ⟨processAll_window E clk0 data_open anomaly_open performance_open calls v, ?_⟩
  intro hsorted
  rw [processAll_window]
  exact hsorted.sublist ((List.drop_sublist _ _).map _)

/-! ## Distance -/

theorem haversine_nonneg (E : Env) (hsqrt : ∀ x, 0 ≤ x → 0 ≤ E.sqrt x)
    (hatan : ∀ y x, 0 ≤ y → 0 ≤ x → 0 ≤ E.atan2 y x) (lat1 lon1 lat2 lon2 d : ℚ)
    (h : haversine E lat1 lon1 lat2 lon2 = some d) : 0 ≤ d := by
  unfold haversine at h
  dsimp only at h
  split at h
  · exact absurd h (by simp)
  · rename_i hr
    rw [not_or, not_lt, not_lt] at hr
    have hd := Option.some.inj h
    have h0 := hatan _ _ (hsqrt _ hr.1) (hsqrt _ hr.2)
    rw [← hd]
    linarith

theorem sqrtApprox_nonneg (x : ℚ) : 0 ≤ sqrtApprox x := by
  unfold sqrtApprox
  split
  · exact le_refl _
  · exact div_nonneg (Nat.cast_nonneg _) (by norm_num)

theorem atanApprox_bounds (t : ℚ) (h0 : 0 ≤ t) (h1 : t ≤ 1) :
    0 ≤ atanApprox t ∧ atanApprox t ≤ t := by
  unfold atanApprox
  have hu0 : 0 ≤ t * t := mul_nonneg h0 h0
  have hu1 : t * t ≤ 1 := by nlinarith
  generalize t * t = u at hu0 hu1
  have ha0 : 0 ≤ 1 / 7 - u / 9 := by linarith
  have ha1 : 1 / 7 - u / 9 ≤ 1 / 7 := by linarith
  have hb0 : 0 ≤ u * (1 / 7 - u / 9) := mul_nonneg hu0 ha0
  have hb1 : u * (1 / 7 - u / 9) ≤ 1 / 7 := by nlinarith
  generalize u * (1 / 7 - u / 9) = a at hb0 hb1
  have hc0 : 0 ≤ u * (1 / 5 - a) := mul_nonneg hu0 (by linarith)
  have hc1 : u * (1 / 5 - a) ≤ 1 / 5 := by nlinarith
  generalize u * (1 / 5 - a) = b at hc0 hc1
  have hd0 : 0 ≤ u * (1 / 3 - b) := mul_nonneg hu0 (by linarith)
  have hd1 : u * (1 / 3 - b) ≤ 1 / 3 := by nlinarith
  generalize u * (1 / 3 - b) = c at hd0 hd1
  constructor
  · exact mul_nonneg h0 (by linarith)
  · nlinarith

theorem atan2Approx_nonneg (y x : ℚ) (hy : 0 ≤ y) (hx : 0 ≤ x) : 0 ≤ atan2Approx y x := by
  unfold atan2Approx
  split
  · exact le_refl _
  · rename_i hy0
    have hypos : 0 < y := lt_of_le_of_ne hy (Ne.symm hy0)
    split
    · rename_i hle
      have hxpos : 0 < x := lt_of_lt_of_le hypos hle
      exact (atanApprox_bounds (y / x) (div_nonneg hy hx)
        ((div_le_one hxpos).mpr hle)).1
    · rename_i hlt
      have hle : x ≤ y := le_of_lt (not_le.mp hlt)
      have hb := atanApprox_bounds (x / y) (div_nonneg hx hy) ((div_le_one hypos).mpr hle)
      have h1 : x / y ≤ 1 := (div_le_one hypos).mpr hle
      have hpi : (1 : ℚ) ≤ M_PI / 2 := by
        unfold M_PI
        norm_num
      linarith [hb.2]

theorem total_distance_accumulates (E : Env) (clk0 : Clock)
    (data_open anomaly_open performance_open : Bool) (calls : List (Clock × SensorReading))
    (clk : Clock) (reading : SensorReading) (v : Int) (hv : catalogued v) :
    ∃ p p1 : VehicleProfile,
      (processAll E (AdvancedDataManager.new clk0 data_open anomaly_open performance_open)
        calls).vehicle_profiles v = some p ∧
      (processSensorReading E clk
        (processAll E (AdvancedDataManager.new clk0 data_open anomaly_open performance_open)
          calls) reading).vehicle_profiles v = some p1 ∧
      p1.total_distance_km = MaybeNaN.add p.total_distance_km
        (if reading.vehicle_id = v then
          specAddedDistance E (samplesOf v calls).getLast? reading else some 0) := by
  obtain ⟨p, hp, _, _, hroute⟩ :=
    processAll_profile E clk0 data_open anomaly_open performance_open calls v hv
  generalize processAll E
    (AdvancedDataManager.new clk0 data_open anomaly_open performance_open) calls = m at hp ⊢
  by_cases hid : reading.vehicle_id = v
  · subst hid
    obtain ⟨st, k, hp1⟩ := processSensorReading_profile_shape E clk m reading p hp
    have hadd : addedDistance E p reading =
        specAddedDistance E (samplesOf reading.vehicle_id calls).getLast? reading := by
      unfold addedDistance specAddedDistance
      rw [hroute]
      cases (samplesOf reading.vehicle_id calls).getLast? <;> rfl
    refine ⟨p, _, hp, hp1, ?_⟩
    rw [if_pos rfl, ← hadd]
    exact updateProfileBody_total_distance E p reading
  · refine ⟨p, p, hp, ?_, ?_⟩
    · rw [processSensorReading_profiles_other E clk m reading v (fun h => hid h.symm)]
      exact hp
    · rw [if_neg hid, MaybeNaN.add_zero]

/-- Claim C18, divergence.  In an environment where `sin` and `cos` return the
nearest doubles, vehicle 7 reports the position (-88.2, 0) and then (88.2, 180).
For the second sample `haversine` computes `a > 1` (about `1 + 9e-17`), takes
the square root of the negative `1 - a` and returns NaN; `total_distance_km` is
0 before the call and NaN after it, and NaN is not greater than or equal to 0
(every comparison with NaN is false). -/
theorem distance_turns_nan :
    1 < haversineArg roundedEnv antipodeReading.latitude antipodeReading.longitude
      (-882 / 10) 0 ∧
    haversine roundedEnv antipodeReading.latitude antipodeReading.longitude (-882 / 10) 0 =
      none ∧
    (polarManager.vehicle_profiles 7).map (fun p => p.total_distance_km) = some (some 0) ∧
    ((processSensorReading roundedEnv (constClock 0) polarManager
        antipodeReading).vehicle_profiles 7).map (fun p => p.total_distance_km) =
      some none := by
  decide!

/-! ## The baseline through a run -/

theorem calculateStatistics_training_data (E : Env) (d : MLAnomalyDetector) (v : Int) :
    (d.calculateStatistics E v).training_data = d.training_data := by
  unfold MLAnomalyDetector.calculateStatistics
  dsimp only
  split <;> rfl

theorem trainModel_training_data (E : Env) (d : MLAnomalyDetector) (u : Int)
    (hist : List SensorReading) (stale : Nat → ℚ) (v : Int)
    (h : ((d.trainModel E u hist stale).training_data v).isSome) :
    (d.training_data v).isSome ∨ v = u := by
  unfold MLAnomalyDetector.trainModel at h
  split at h
  · exact Or.inl h
  · rw [calculateStatistics_training_data] at h
    by_cases hv : v = u
    · exact Or.inr hv
    · left
      simpa [mapSet, hv] using h

theorem processSensorReading_trained (E : Env) (clk : Clock) (m : AdvancedDataManager)
    (reading : SensorReading) (v : Int)
    (h : ((processSensorReading E clk m reading).ml_detector.training_data v).isSome) :
    (m.ml_detector.training_data v).isSome ∨
      (v = reading.vehicle_id ∧
        100 ≤ ((processSensorReading E clk m reading).vehicle_data_windows v).length) := by
  rw [processSensorReading_ml_detector, ingested_ml_detector] at h
  split at h
  · rename_i hc
    rcases trainModel_training_data E _ _ _ _ v h with h1 | h1
    · exact Or.inl h1
    · right
      refine ⟨h1, ?_⟩
      rw [processSensorReading_windows, h1, mapSet_same]
      exact hc.1
  · exact Or.inl h

theorem pushEvict_length_ge (window : List SensorReading) (reading : SensorReading) :
    window.length ≤ (pushEvict window reading).length := by
  unfold pushEvict
  split
  · simp only [List.length_tail, List.length_append, List.length_singleton]
    omega
  · simp only [List.length_append, List.length_singleton]
    omega

theorem processSensorReading_window_grows (E : Env) (clk : Clock) (m : AdvancedDataManager)
    (reading : SensorReading) (v : Int) :
    (m.vehicle_data_windows v).length ≤
      ((processSensorReading E clk m reading).vehicle_data_windows v).length := by
  rw [processSensorReading_windows]
  by_cases hv : v = reading.vehicle_id
  · rw [hv, mapSet_same]
    exact pushEvict_length_ge _ _
  · rw [mapSet_other _ _ _ _ hv]

theorem stamp_mem_type (clk : Clock) (v : Int) (k : Nat) (es : List Emission)
    (a : AnomalyRecord) (h : a ∈ stamp clk v k es) : ∃ e ∈ es, a.type = e.type := by
  induction es generalizing k with
  | nil => simp [stamp] at h
  | cons e es ih =>
      simp only [stamp, List.mem_cons] at h
      rcases h with h | h
      · exact ⟨e, List.mem_cons_self _ _, by rw [h]; rfl⟩
      · obtain ⟨e1, he1, h1⟩ := ih (k + 1) h
        exact ⟨e1, List.mem_cons_of_mem _ he1, h1⟩

theorem callRecords_mem_type (E : Env) (clk : Clock) (m : AdvancedDataManager)
    (S : SensorReading) (a : AnomalyRecord) (h : a ∈ callRecords E clk m S) :
    ∃ e ∈ callEmissions E clk m S, a.type = e.type := by
  unfold callRecords at h
  unfold callEmissions
  rw [List.append_assoc]
  rcases List.mem_append.1 h with h | h
  · obtain ⟨e, he, h1⟩ := stamp_mem_type _ _ _ _ a h
    exact ⟨e, List.mem_append_left _ he, h1⟩
  · obtain ⟨e, he, h1⟩ := stamp_mem_type _ _ _ _ a h
    exact ⟨e, List.mem_append_right _ he, h1⟩

theorem erratic_mem_callEmissions (E : Env) (clk : Clock) (m : AdvancedDataManager) (S : SensorReading)
    (e : Emission) (he : e ∈ callEmissions E clk m S)
    (ht : e.type = AnomalyType.ERRATIC_BEHAVIOR) : callScore E clk m S > 3 := by
  unfold callEmissions callDetections detectEmissions at he
  simp only [List.mem_append] at he
  rcases he with (((he | he) | he) | he) | he
  · exfalso
    unfold instantEmissions at he
    simp only [List.mem_append] at he
    rcases he with ((((he | he) | he) | he) | he) | he <;>
      split at he <;> simp only [List.mem_singleton, List.not_mem_nil] at he <;>
      subst he <;> dsimp only at ht <;>
      first | exact absurd ht (by decide) | (split at ht <;> exact absurd ht (by decide))
  · exfalso
    unfold fuelEmissions at he
    split at he
    · rw [List.mem_singleton.mp he] at ht
      simp at ht
    · simp at he
  · unfold mlEmissions at he
    split at he
    · assumption
    · simp at he
  · exfalso
    unfold maintenanceEmissions at he
    split at he
    · rw [List.mem_singleton.mp he] at ht
      simp [maintenanceEmission] at ht
    · simp at he
  · exfalso
    simp only [List.mem_map] at he
    obtain ⟨g, _, hg⟩ := he
    rw [← hg] at ht
    simp [geofenceEmission] at ht

theorem callScore_ne_zero (E : Env) (clk : Clock) (m : AdvancedDataManager)
    (S : SensorReading) (h : callScore E clk m S ≠ 0) :
    ((processSensorReading E clk m S).ml_detector.training_data S.vehicle_id).isSome := by
  rw [processSensorReading_ml_detector]
  unfold callScore MLAnomalyDetector.calculateAnomalyScore at h
  by_cases hn : ((ingested E clk m S).ml_detector.training_data S.vehicle_id).isNone
  · rw [if_pos hn] at h
    exact absurd rfl h
  · cases ht : (ingested E clk m S).ml_detector.training_data S.vehicle_id with
    | none => simp [ht] at hn
    | some x => rfl

theorem score_of_untrained (E : Env) (d : MLAnomalyDetector) (v : Int) (S : SensorReading)
    (stale : ℚ) (h : ¬(d.training_data v).isSome) :
    d.calculateAnomalyScore E v S stale = 0 := by
  unfold MLAnomalyDetector.calculateAnomalyScore
  rw [if_pos]
  cases ht : d.training_data v with
  | none => rfl
  | some x => simp [ht] at h

theorem score_nonneg (E : Env) (hsqrt : ∀ x, 0 ≤ E.sqrt x) (d : MLAnomalyDetector) (v : Int)
    (S : SensorReading) (stale : ℚ) : 0 ≤ d.calculateAnomalyScore E v S stale := by
  unfold MLAnomalyDetector.calculateAnomalyScore MLAnomalyDetector.calculateMahalanobisDistance
  split
  · exact le_refl _
  · exact hsqrt _

/-- A baseline for `v`, and an ERRATIC anomaly under `v`, exist only when the
window of `v` holds at least 100 samples. -/
theorem processAll_baseline (E : Env) (clk0 : Clock)
    (data_open anomaly_open performance_open : Bool) (calls : List (Clock × SensorReading))
    (v : Int) :
    (((processAll E (AdvancedDataManager.new clk0 data_open anomaly_open performance_open)
        calls).ml_detector.training_data v).isSome →
      100 ≤ ((processAll E
        (AdvancedDataManager.new clk0 data_open anomaly_open performance_open)
        calls).vehicle_data_windows v).length) ∧
    (∀ a ∈ (processAll E (AdvancedDataManager.new clk0 data_open anomaly_open performance_open)
        calls).detected_anomalies v,
      a.type = AnomalyType.ERRATIC_BEHAVIOR →
        100 ≤ ((processAll E
          (AdvancedDataManager.new clk0 data_open anomaly_open performance_open)
          calls).vehicle_data_windows v).length) := by
  induction calls using List.reverseRecOn with
  | nil =>
      refine ⟨fun h => ?_, fun a ha => ?_⟩
      · change (none : Option (List FeatureVector)).isSome = true at h
        exact absurd h (by decide)
      · change a ∈ ([] : List AnomalyRecord) at ha
        exact absurd ha (List.not_mem_nil _)
  | append_singleton cs c ih =>
      obtain ⟨clk, reading⟩ := c
      obtain ⟨ih1, ih2⟩ := ih
      rw [processAll_snoc]
      generalize processAll E
        (AdvancedDataManager.new clk0 data_open anomaly_open performance_open) cs = m
        at ih1 ih2 ⊢
      have hgrow := processSensorReading_window_grows E clk m reading v
      have htrained : ((processSensorReading E clk m reading).ml_detector.training_data
          v).isSome →
          100 ≤ ((processSensorReading E clk m reading).vehicle_data_windows v).length := by
        intro h
        rcases processSensorReading_trained E clk m reading v h with h1 | h1
        · exact le_trans (ih1 h1) hgrow
        · exact h1.2
      refine ⟨htrained, fun a ha ht => ?_⟩
      rw [processSensorReading_detected] at ha
      by_cases hv : v = reading.vehicle_id
      · rw [if_pos hv] at ha
        rcases List.mem_append.mp ha with h | h
        · rw [← hv] at h
          exact le_trans (ih2 a h ht) hgrow
        · obtain ⟨e, he, hte⟩ := callRecords_mem_type E clk m reading a h
          have hscore := erratic_mem_callEmissions E clk m reading e he (hte ▸ ht)
          have hne : callScore E clk m reading ≠ 0 := by
            intro h0
            rw [h0] at hscore
            exact absurd hscore (by norm_num)
          have := callScore_ne_zero E clk m reading hne
          rw [← hv] at this
          exact htrained this
      · rw [if_neg hv] at ha
        exact le_trans (ih2 a ha ht) hgrow

theorem processAll_window_le_samples (E : Env) (clk0 : Clock)
    (data_open anomaly_open performance_open : Bool) (calls : List (Clock × SensorReading))
    (v : Int) :
    ((processAll E (AdvancedDataManager.new clk0 data_open anomaly_open performance_open)
        calls).vehicle_data_windows v).length ≤ (samplesOf v calls).length := by
  rw [processAll_window, List.length_drop]
  omega

/-! ## No baseline on few samples -/

/-- Claim C19.  For every run on a freshly constructed manager in which fewer
than 50 samples have been processed for vehicle `v`: the baseline score of
every sample for `v` is 0 in the state reached, so is the score that a next
call computes for a sample of `v`, and no ERRATIC anomaly is stored under `v`;
the field values of the samples and the samples of other vehicles play no part. -/
theorem no_baseline_on_few_samples (E : Env) (clk0 : Clock)
    (data_open anomaly_open performance_open : Bool) (calls : List (Clock × SensorReading))
    (v : Int) (hfew : (samplesOf v calls).length < 50) :
    (∀ (S : SensorReading) (stale : ℚ),
      (processAll E (AdvancedDataManager.new clk0 data_open anomaly_open performance_open)
        calls).ml_detector.calculateAnomalyScore E v S stale = 0) ∧
    (∀ (clk : Clock) (S : SensorReading), S.vehicle_id = v →
      callScore E clk (processAll E
        (AdvancedDataManager.new clk0 data_open anomaly_open performance_open) calls) S = 0) ∧
    (∀ a ∈ (processAll E (AdvancedDataManager.new clk0 data_open anomaly_open performance_open)
        calls).detected_anomalies v, a.type ≠ AnomalyType.ERRATIC_BEHAVIOR) := by
  have hw := processAll_window_le_samples E clk0 data_open anomaly_open performance_open calls v
  obtain ⟨h1, h2⟩ :=
    processAll_baseline E clk0 data_open anomaly_open performance_open calls v
  refine ⟨fun S stale => ?_, fun clk S hS => ?_, fun a ha ht => ?_⟩
  · apply score_of_untrained
    intro h
    have := h1 h
    omega
  · subst hS
    by_contra hne
    have hs := callScore_ne_zero E clk _ S hne
    have hnext := (processAll_baseline E clk0 data_open anomaly_open performance_open
      (calls ++ [(clk, S)]) S.vehicle_id).1
    rw [processAll_snoc] at hnext
    have h100 := hnext hs
    have hle := processAll_window_le_samples E clk0 data_open anomaly_open performance_open
      (calls ++ [(clk, S)]) S.vehicle_id
    rw [processAll_snoc, samplesOf_snoc, if_pos rfl, List.length_append,
      List.length_singleton] at hle
    omega
  · have := h2 a ha ht
    omega

/-- Witness for C19: vehicle 7 after one calm sample. -/
theorem no_baseline_on_few_samples_witness :
    (samplesOf 7 [(constClock 0, calmReading 7 0)]).length < 50 ∧
    ((∀ (S : SensorReading) (stale : ℚ),
      (processAll exampleEnv (AdvancedDataManager.new (constClock 0) true true true)
        [(constClock 0, calmReading 7 0)]).ml_detector.calculateAnomalyScore exampleEnv 7 S
          stale = 0) ∧
    (∀ (clk : Clock) (S : SensorReading), S.vehicle_id = 7 →
      callScore exampleEnv clk (processAll exampleEnv
        (AdvancedDataManager.new (constClock 0) true true true)
        [(constClock 0, calmReading 7 0)]) S = 0) ∧
    (∀ a ∈ (processAll exampleEnv (AdvancedDataManager.new (constClock 0) true true true)
        [(constClock 0, calmReading 7 0)]).detected_anomalies 7,
      a.type ≠ AnomalyType.ERRATIC_BEHAVIOR)) :=
  ⟨by decide,
    no_baseline_on_few_samples exampleEnv (constClock 0) true true true
      [(constClock 0, calmReading 7 0)] 7 (by decide)⟩

/-! ## When the score is 0 -/

/-- Counterexample to C20: after 60 calm samples of vehicle 7 its window holds
60 samples, and the score of an overheating sample of vehicle 7 is 0. -/
theorem score_zero_iff_counterexample :
    (seededManager.vehicle_data_windows 7).length = 60 ∧
    seededManager.ml_detector.calculateAnomalyScore exampleEnv 7 (overheatReading 7 0)
      (exampleEnv.indeterminate 61 0) = 0 := by
  obtain ⟨h1, _, h3⟩ := calm_run 60 (by omega)
  unfold seededManager
  rw [h1, h3]
  exact ⟨List.length_replicate _ _, rfl⟩

theorem score_of_trained (E : Env) (d : MLAnomalyDetector) (v : Int) (S : SensorReading)
    (stale : ℚ) (h : (d.training_data v).isSome) :
    d.calculateAnomalyScore E v S stale =
      d.calculateMahalanobisDistance E v (scoreFeatures E S stale) := by
  unfold MLAnomalyDetector.calculateAnomalyScore
  rw [if_neg]
  · rfl
  · cases ht : d.training_data v with
    | none => simp [ht] at h
    | some x => simp

/-- Claim C20, amended.  In every state reached from a freshly constructed
manager and for every sample of vehicle `v`: the baseline score is 0 if fewer
than 100 samples are available in the window of `v`, hence if fewer than 50
are, and whenever no baseline is trained for `v`; whenever a baseline is
trained the score is the distance of the sample's feature vector from it; and
the score is >= 0 in every case (the square root is non-negative). -/
theorem score_zero_without_baseline (E : Env) (hsqrt : ∀ x, 0 ≤ E.sqrt x) (clk0 : Clock)
    (data_open anomaly_open performance_open : Bool) (calls : List (Clock × SensorReading))
    (v : Int) (S : SensorReading) (stale : ℚ) :
    (((processAll E (AdvancedDataManager.new clk0 data_open anomaly_open performance_open)
        calls).vehicle_data_windows v).length < 100 →
      (processAll E (AdvancedDataManager.new clk0 data_open anomaly_open performance_open)
        calls).ml_detector.calculateAnomalyScore E v S stale = 0) ∧
    (((processAll E (AdvancedDataManager.new clk0 data_open anomaly_open performance_open)
        calls).ml_detector.training_data v).isNone →
      (processAll E (AdvancedDataManager.new clk0 data_open anomaly_open performance_open)
        calls).ml_detector.calculateAnomalyScore E v S stale = 0) ∧
    (((processAll E (AdvancedDataManager.new clk0 data_open anomaly_open performance_open)
        calls).ml_detector.training_data v).isSome →
      (processAll E (AdvancedDataManager.new clk0 data_open anomaly_open performance_open)
        calls).ml_detector.calculateAnomalyScore E v S stale =
        (processAll E (AdvancedDataManager.new clk0 data_open anomaly_open performance_open)
          calls).ml_detector.calculateMahalanobisDistance E v (scoreFeatures E S stale)) ∧
    0 ≤ (processAll E (AdvancedDataManager.new clk0 data_open anomaly_open performance_open)
        calls).ml_detector.calculateAnomalyScore E v S stale := by
  obtain ⟨h1, _⟩ :=
    processAll_baseline E clk0 data_open anomaly_open performance_open calls v
  refine ⟨fun hlt => ?_, fun hnone => ?_, fun hsome => score_of_trained E _ v S stale hsome,
    score_nonneg E hsqrt _ v S stale⟩
  · apply score_of_untrained
    intro h
    have := h1 h
    omega
  · apply score_of_untrained
    intro h
    rw [Option.isNone_iff_eq_none] at hnone
    rw [hnone] at h
    exact absurd h (by simp)

/-- Witness for C20: vehicle 7 after one calm sample, in the example environment. -/
theorem score_zero_without_baseline_witness :
    (∀ x, 0 ≤ exampleEnv.sqrt x) ∧
    ((((processAll exampleEnv (AdvancedDataManager.new (constClock 0) true true true)
        [(constClock 0, calmReading 7 0)]).vehicle_data_windows 7).length < 100 →
      (processAll exampleEnv (AdvancedDataManager.new (constClock 0) true true true)
        [(constClock 0, calmReading 7 0)]).ml_detector.calculateAnomalyScore exampleEnv 7
          (overheatReading 7 0) 0 = 0) ∧
    (((processAll exampleEnv (AdvancedDataManager.new (constClock 0) true true true)
        [(constClock 0, calmReading 7 0)]).ml_detector.training_data 7).isNone →
      (processAll exampleEnv (AdvancedDataManager.new (constClock 0) true true true)
        [(constClock 0, calmReading 7 0)]).ml_detector.calculateAnomalyScore exampleEnv 7
          (overheatReading 7 0) 0 = 0) ∧
    (((processAll exampleEnv (AdvancedDataManager.new (constClock 0) true true true)
        [(constClock 0, calmReading 7 0)]).ml_detector.training_data 7).isSome →
      (processAll exampleEnv (AdvancedDataManager.new (constClock 0) true true true)
        [(constClock 0, calmReading 7 0)]).ml_detector.calculateAnomalyScore exampleEnv 7
          (overheatReading 7 0) 0 =
        (processAll exampleEnv (AdvancedDataManager.new (constClock 0) true true true)
          [(constClock 0, calmReading 7 0)]).ml_detector.calculateMahalanobisDistance
            exampleEnv 7 (scoreFeatures exampleEnv (overheatReading 7 0) 0)) ∧
    0 ≤ (processAll exampleEnv (AdvancedDataManager.new (constClock 0) true true true)
        [(constClock 0, calmReading 7 0)]).ml_detector.calculateAnomalyScore exampleEnv 7
          (overheatReading 7 0) 0) :=
  ⟨sqrtApprox_nonneg,
    score_zero_without_baseline exampleEnv sqrtApprox_nonneg (constClock 0) true true true
      [(constClock 0, calmReading 7 0)] 7 (overheatReading 7 0) 0⟩

/-! ## The baseline vectors -/

theorem trainFeatures_length (E : Env) (l : List SensorReading) (stale : Nat → ℚ) :
    (trainFeatures E l stale).length = l.length - 1 := by
  induction l generalizing stale with
  | nil => rfl
  | cons a rest ih =>
      cases rest with
      | nil => rfl
      | cons b rest2 =>
          have := ih (fun i => stale (i + 1))
          simp only [trainFeatures, List.length_cons] at this ⊢
          omega

theorem trainFeatures_get? (E : Env) (l : List SensorReading) (stale : Nat → ℚ) (i : Nat)
    (previous current : SensorReading) (hp : l.get? i = some previous)
    (hc : l.get? (i + 1) = some current) :
    (trainFeatures E l stale).get? i = some (trainFeature E previous current (stale i)) := by
  induction l generalizing i stale with
  | nil => simp at hp
  | cons a rest ih =>
      cases rest with
      | nil => simp at hc
      | cons b rest2 =>
          cases i with
          | zero =>
              simp only [List.get?_cons_zero, Option.some.injEq] at hp
              simp only [zero_add, List.get?_cons_succ, List.get?_cons_zero,
                Option.some.injEq] at hc
              simp only [trainFeatures, List.get?_cons_zero, hp, hc]
          | succ j =>
              simp only [List.get?_cons_succ] at hp hc
              simp only [trainFeatures, List.get?_cons_succ]
              exact ih (fun i => stale (i + 1)) j hp hc

/-- What `trainModel` leaves for the trained vehicle on 50 or more samples:
the consecutive-pair vectors, and two vectors of seven entries, the second
made of square roots. -/
theorem trainModel_vectors (E : Env) (d : MLAnomalyDetector) (u : Int)
    (hist : List SensorReading) (stale : Nat → ℚ) (h50 : 50 ≤ hist.length) :
    (d.trainModel E u hist stale).training_data =
      mapSet d.training_data u (some (trainFeatures E hist stale)) ∧
    ((d.trainModel E u hist stale).feature_means u).length = 7 ∧
    ((d.trainModel E u hist stale).feature_stds u).length = 7 ∧
    (∀ s ∈ (d.trainModel E u hist stale).feature_stds u, ∃ x, s = E.sqrt x) ∧
    (∀ w, w ≠ u →
      (d.trainModel E u hist stale).feature_means w = d.feature_means w ∧
      (d.trainModel E u hist stale).feature_stds w = d.feature_stds w) := by
  have hne : (trainFeatures E hist stale).isEmpty = false := by
    have hl := trainFeatures_length E hist stale
    cases hf : trainFeatures E hist stale with
    | nil =>
        rw [hf] at hl
        simp at hl
        omega
    | cons a rest => rfl
  unfold MLAnomalyDetector.trainModel
  rw [if_neg (by omega)]
  unfold MLAnomalyDetector.calculateStatistics
  simp only [mapSet_same, Option.getD_some, hne, Bool.false_eq_true, if_false]
  refine ⟨trivial, by simp, by simp, ?_, ?_⟩
  · intro s hs
    simp only [List.map_cons, List.map_nil, List.zip_cons_cons, List.zip_nil_right,
      List.mem_cons, List.mem_singleton, List.not_mem_nil, or_false] at hs
    rcases hs with h | h | h | h | h | h | h <;> exact ⟨_, h⟩
  · intro w hw
    exact ⟨mapSet_other _ _ _ _ hw, mapSet_other _ _ _ _ hw⟩

theorem trainModel_short (E : Env) (d : MLAnomalyDetector) (u : Int)
    (hist : List SensorReading) (stale : Nat → ℚ) (h : hist.length < 50) :
    d.trainModel E u hist stale = d := by
  unfold MLAnomalyDetector.trainModel
  rw [if_pos h]

/-- The baseline vectors in every state reached from a fresh manager: a vehicle
with training vectors has seven means and seven standard deviations, each of
the latter a square root. -/
theorem processAll_baseline_vectors (E : Env) (clk0 : Clock)
    (data_open anomaly_open performance_open : Bool) (calls : List (Clock × SensorReading))
    (v : Int)
    (h : ((processAll E (AdvancedDataManager.new clk0 data_open anomaly_open performance_open)
      calls).ml_detector.training_data v).isSome) :
    ((processAll E (AdvancedDataManager.new clk0 data_open anomaly_open performance_open)
      calls).ml_detector.feature_means v).length = 7 ∧
    ((processAll E (AdvancedDataManager.new clk0 data_open anomaly_open performance_open)
      calls).ml_detector.feature_stds v).length = 7 ∧
    ∀ s ∈ (processAll E (AdvancedDataManager.new clk0 data_open anomaly_open performance_open)
      calls).ml_detector.feature_stds v, ∃ x, s = E.sqrt x := by
  induction calls using List.reverseRecOn with
  | nil =>
      change (none : Option (List FeatureVector)).isSome = true at h
      exact absurd h (by decide)
  | append_singleton cs c ih =>
      obtain ⟨clk, reading⟩ := c
      rw [processAll_snoc] at h ⊢
      generalize processAll E
        (AdvancedDataManager.new clk0 data_open anomaly_open performance_open) cs = m at ih h ⊢
      rw [processSensorReading_ml_detector, ingested_ml_detector] at h ⊢
      by_cases hc : (pushEvict (m.vehicle_data_windows reading.vehicle_id) reading).length ≥ 100 ∧
          wrapInt32 (m.total_readings_processed + 1) % 100 = 0
      · rw [if_pos hc] at h ⊢
        have h50 : 50 ≤ (pushEvict (m.vehicle_data_windows reading.vehicle_id)
            reading).length := by
          have := hc.1
          omega
        obtain ⟨ht, hm, hs, hq, ho⟩ :=
          trainModel_vectors E m.ml_detector reading.vehicle_id _
            (trainingReads E (m.calls_started + 1)) h50
        by_cases hv : v = reading.vehicle_id
        · rw [hv]
          exact ⟨hm, hs, hq⟩
        · rw [(ho v hv).1, (ho v hv).2]
          apply ih
          rw [ht, mapSet_other _ _ _ _ hv] at h
          exact h
      · rw [if_neg hc] at h ⊢
        exact ih h

theorem specScore_eq (E : Env) (d : MLAnomalyDetector) (v : Int) (fv : FeatureVector) :
    d.calculateMahalanobisDistance E v fv =
      specScore E (featureList fv) (d.feature_means v) (d.feature_stds v) := by
  unfold MLAnomalyDetector.calculateMahalanobisDistance specScore featureList
  simp [List.range_succ, add_assoc]

/-! ## The score formula -/

/-- The score of a vehicle with a trained baseline, in every state reached from
a freshly constructed manager: seven means, seven standard deviations that are
not negative, divisors that are positive, and the score is the square root of
the sum of the squared z-scores of the vector that `calculateAnomalyScore`
builds.  The fifth entry of that vector is `stale`, the value that the read of
the never-assigned member `fuel_consumption_rate` yields. -/
theorem score_formula (E : Env) (hsqrt : ∀ x, 0 ≤ E.sqrt x) (clk0 : Clock)
    (data_open anomaly_open performance_open : Bool) (calls : List (Clock × SensorReading))
    (v : Int) (S : SensorReading) (stale : ℚ)
    (htrained : ((processAll E
      (AdvancedDataManager.new clk0 data_open anomaly_open performance_open)
      calls).ml_detector.training_data v).isSome) :
    ((processAll E (AdvancedDataManager.new clk0 data_open anomaly_open performance_open)
      calls).ml_detector.feature_means v).length = 7 ∧
    ((processAll E (AdvancedDataManager.new clk0 data_open anomaly_open performance_open)
      calls).ml_detector.feature_stds v).length = 7 ∧
    (∀ sigma ∈ (processAll E
        (AdvancedDataManager.new clk0 data_open anomaly_open performance_open)
        calls).ml_detector.feature_stds v, 0 ≤ sigma ∧ 0 < sigma + 1 / 1000000) ∧
    featureList (scoreFeatures E S stale) =
      [S.speed_kmph, S.rpm, S.engine_temp_celsius, S.acceleration_ms2, stale,
       ((E.localtime S.timestamp).tm_hour : ℚ) + ((E.localtime S.timestamp).tm_min : ℚ) / 60,
       ((E.localtime S.timestamp).tm_wday : ℚ)] ∧
    (processAll E (AdvancedDataManager.new clk0 data_open anomaly_open performance_open)
      calls).ml_detector.calculateAnomalyScore E v S stale =
      specScore E (featureList (scoreFeatures E S stale))
        ((processAll E (AdvancedDataManager.new clk0 data_open anomaly_open performance_open)
          calls).ml_detector.feature_means v)
        ((processAll E (AdvancedDataManager.new clk0 data_open anomaly_open performance_open)
          calls).ml_detector.feature_stds v) ∧
    0 ≤ (processAll E (AdvancedDataManager.new clk0 data_open anomaly_open performance_open)
      calls).ml_detector.calculateAnomalyScore E v S stale := by
  obtain ⟨hm, hs, hq⟩ := processAll_baseline_vectors E clk0 data_open anomaly_open
    performance_open calls v htrained
  refine ⟨hm, hs, ?_, rfl, ?_, score_nonneg E hsqrt _ v S stale⟩
  · intro sigma hsig
    obtain ⟨x, hx⟩ := hq sigma hsig
    have h0 : 0 ≤ sigma := hx ▸ hsqrt x
    exact ⟨h0, by linarith⟩
  · rw [score_of_trained E _ v S stale htrained, specScore_eq]

theorem trainedManager_trained :
    ((processAll exampleEnv (AdvancedDataManager.new (constClock 0) true true true)
      (calmCalls 7 0 100)).ml_detector.training_data 7).isSome := by
  have h := trainedManager_state.2.2
  unfold trainedManager freshManager at h
  rw [h, (trainModel_vectors exampleEnv {} 7
    (List.replicate 100 (calmReading 7 0)) (fun _ => 0)
    (by rw [List.length_replicate]; exact Nat.le_of_ble_eq_true rfl)).1, mapSet_same]
  exact Option.isSome_some

theorem trainedManager_score (stale : ℚ) :
    trainedManager.ml_detector.calculateAnomalyScore exampleEnv 7 (overheatReading 7 0) stale =
      (MLAnomalyDetector.trainModel exampleEnv {} 7 (List.replicate 100 (calmReading 7 0))
        (fun _ => 0)).calculateAnomalyScore exampleEnv 7 (overheatReading 7 0) stale := by
  rw [trainedManager_state.2.2]

/-- Claim C21, divergence.  `calculateAnomalyScore` builds its feature vector
without assigning `fuel_consumption_rate` (`trainModel` assigns the member of
its vectors), so the fifth z-score is taken from whatever the read of the
member yields and not from the sample.  For vehicle 7 with the baseline of 100
calm samples and one overheating sample: the vector holds the value read in
its fifth entry, the score is 25000000 when the read yields 0 and larger when it
yields 1, with the same sample and the same baseline. -/
theorem score_reads_unset_member :
    featureList (scoreFeatures exampleEnv (overheatReading 7 0) 0) =
      [50, 2500, 115, 0, 0, 0, 0] ∧
    featureList (scoreFeatures exampleEnv (overheatReading 7 0) 1) =
      [50, 2500, 115, 0, 1, 0, 0] ∧
    trainedManager.ml_detector.calculateAnomalyScore exampleEnv 7 (overheatReading 7 0) 0 =
      25000000 ∧
    trainedManager.ml_detector.calculateAnomalyScore exampleEnv 7 (overheatReading 7 0) 0 <
      trainedManager.ml_detector.calculateAnomalyScore exampleEnv 7 (overheatReading 7 0) 1 := by
  rw [trainedManager_score, trainedManager_score]
  decide!

/-! ## The fuel consumption rate of a training vector -/

theorem toSeconds_pos (d : Int) : toSeconds d > 0 ↔ d ≥ ticksPerSecond := by
  unfold toSeconds durationCast ticksPerSecond
  split <;> omega

theorem trainFeature_rate (E : Env) (previous current : SensorReading) (stale : ℚ)
    (h : ticksPerSecond ≤ current.timestamp - previous.timestamp) :
    (trainFeature E previous current stale).fuel_consumption_rate =
      (previous.fuel_level_percent - current.fuel_level_percent) /
        (toSeconds (current.timestamp - previous.timestamp) : ℚ) := by
  unfold trainFeature
  dsimp only
  rw [if_pos ((toSeconds_pos _).mpr h)]

/-- The member `fuel_consumption_rate` of a training vector is not assigned when
less than one whole second lies between the two samples: the vector holds the
value `stale` that the read of the member yields. -/
theorem trainFeature_unassigned (E : Env) (previous current : SensorReading) (stale : ℚ)
    (h : current.timestamp - previous.timestamp < ticksPerSecond) :
    (trainFeature E previous current stale).fuel_consumption_rate = stale := by
  unfold trainFeature
  dsimp only
  rw [if_neg]
  intro hpos
  exact absurd ((toSeconds_pos _).mp hpos) (not_le.mpr h)

/-- Counterexample to C30: two samples 1.5 s apart with fuel 80 and 77; the
training vector holds rate 3 (the difference divided by 1 whole second), the
rate over the elapsed 1.5 s is 2. -/
theorem fuel_rate_counterexample :
    (trainFeature exampleEnv (fuelSample 0 80) (fuelSample 1500000000 77)
      0).fuel_consumption_rate = 3 ∧
    specFuelRate (fuelSample 0 80) (fuelSample 1500000000 77) = 2 := by
  decide!

/-- Claim C30, amended.  When the baseline is trained on a window of 50 or more
samples, its training vectors are those of the consecutive pairs of the
window, and for every consecutive pair (previous, current) that lies at least
one second apart the feature `fuel_consumption_rate` is
`(previous.fuel - current.fuel)` divided by the whole seconds elapsed (the
elapsed time truncated to seconds); it equals the rate over the elapsed time
when that time is a whole number of seconds. -/
theorem fuel_rate_feature (E : Env) (d : MLAnomalyDetector) (v : Int)
    (hist : List SensorReading) (stale : Nat → ℚ) (h50 : 50 ≤ hist.length) (i : Nat)
    (previous current : SensorReading) (hp : hist.get? i = some previous)
    (hc : hist.get? (i + 1) = some current)
    (hdt : ticksPerSecond ≤ current.timestamp - previous.timestamp) :
    ∃ fv : FeatureVector,
      ((d.trainModel E v hist stale).training_data v).map (fun data => data.get? i) =
        some (some fv) ∧
      fv.fuel_consumption_rate =
        (previous.fuel_level_percent - current.fuel_level_percent) /
          (toSeconds (current.timestamp - previous.timestamp) : ℚ) ∧
      (∀ k : Int, current.timestamp - previous.timestamp = k * ticksPerSecond →
        fv.fuel_consumption_rate = specFuelRate previous current) := by
  refine ⟨trainFeature E previous current (stale i), ?_,
    trainFeature_rate E previous current (stale i) hdt, ?_⟩
  · rw [(trainModel_vectors E d v hist stale h50).1, mapSet_same]
    simp only [Option.map_some', Option.some.injEq]
    exact trainFeatures_get? E hist stale i previous current hp hc
  · intro k hk
    rw [trainFeature_rate E previous current (stale i) hdt]
    unfold specFuelRate
    dsimp only
    have hkpos : 1 ≤ k := by
      by_contra hneg
      have hk0 : k ≤ 0 := by omega
      unfold ticksPerSecond at hk hdt
      linarith
    have hsec : toSeconds (current.timestamp - previous.timestamp) = k := by
      rw [hk]
      unfold toSeconds durationCast ticksPerSecond
      rw [if_pos (by omega)]
      omega
    have hq : ((current.timestamp - previous.timestamp : Int) : ℚ) / (ticksPerSecond : ℚ) =
        (k : ℚ) := by
      rw [hk]
      unfold ticksPerSecond
      push_cast
      field_simp
    rw [hsec, hq, if_neg]
    have : (1 : ℚ) ≤ (k : ℚ) := by exact_mod_cast hkpos
    linarith

/-- Witness for C30: a window of 50 samples one second apart, fuel falling by 1 per sample. -/
theorem fuel_rate_feature_witness :
    50 ≤ ((List.range 50).map fun (j : Nat) =>
      fuelSample (Int.ofNat j * 1000000000) (80 - (j : ℚ))).length ∧
    ((List.range 50).map fun (j : Nat) =>
      fuelSample (Int.ofNat j * 1000000000) (80 - (j : ℚ))).get? 0 =
        some (fuelSample 0 80) ∧
    ((List.range 50).map fun (j : Nat) =>
      fuelSample (Int.ofNat j * 1000000000) (80 - (j : ℚ))).get? (0 + 1) =
        some (fuelSample 1000000000 79) ∧
    ticksPerSecond ≤ (fuelSample 1000000000 79).timestamp - (fuelSample 0 80).timestamp ∧
    ∃ fv : FeatureVector,
      (((({} : MLAnomalyDetector).trainModel exampleEnv 7
        ((List.range 50).map fun (j : Nat) =>
          fuelSample (Int.ofNat j * 1000000000) (80 - (j : ℚ)))
        (fun _ => 0)).training_data 7).map
            (fun data => data.get? 0) = some (some fv)) ∧
      fv.fuel_consumption_rate =
        ((fuelSample 0 80).fuel_level_percent - (fuelSample 1000000000 79).fuel_level_percent) /
          (toSeconds ((fuelSample 1000000000 79).timestamp - (fuelSample 0 80).timestamp) : ℚ) ∧
      (∀ k : Int,
        (fuelSample 1000000000 79).timestamp - (fuelSample 0 80).timestamp =
          k * ticksPerSecond →
        fv.fuel_consumption_rate = specFuelRate (fuelSample 0 80) (fuelSample 1000000000 79)) :=
  ⟨by decide, by decide!, by decide!, by decide,
    fuel_rate_feature exampleEnv {} 7
      ((List.range 50).map fun (j : Nat) =>
        fuelSample (Int.ofNat j * 1000000000) (80 - (j : ℚ)))
      (fun _ => 0) (by decide) 0 (fuelSample 0 80) (fuelSample 1000000000 79) (by decide!) (by decide!)
      (by decide)⟩

/-! ## A sample of an id without profile -/

theorem checkedProfile_none (E : Env) (clk : Clock) (m : AdvancedDataManager)
    (reading : SensorReading) (hp : m.vehicle_profiles reading.vehicle_id = none) :
    checkedProfile E clk m reading =
      insertedProfile E clk (callDetections E clk m reading).length := by
  unfold checkedProfile
  rw [ingested_profiles, if_pos rfl, hp]
  rfl

theorem beforeTransition_profile_none (E : Env) (clk : Clock) (m : AdvancedDataManager)
    (reading : SensorReading) (hp : m.vehicle_profiles reading.vehicle_id = none) :
    ∃ (st : VehicleState) (k : Int),
      (beforeTransition E clk m reading).vehicle_profiles reading.vehicle_id =
        some { insertedProfile E clk (callDetections E clk m reading).length with
          current_state := st, total_anomalies := k } := by
  have hi : (ingested E clk m reading).vehicle_profiles reading.vehicle_id = none := by
    rw [ingested_profiles, if_pos rfl, hp]
    rfl
  unfold beforeTransition
  dsimp only
  rw [logReading_profiles, checkGeofenceViolations_eq, emitAll_profiles, if_pos rfl,
    detectEnhancedAnomalies_fst, checkMaintenanceRequirements_profiles, if_pos rfl]
  have hr : profileRef E clk
      (emitAll clk reading.vehicle_id
        (detectEmissions
          ((ingested E clk m reading).ml_detector.calculateAnomalyScore E reading.vehicle_id
            reading (E.indeterminate (ingested E clk m reading).calls_started 0)) reading
          ((ingested E clk m reading).vehicle_data_windows reading.vehicle_id))
        (ingested E clk m reading))
      reading.vehicle_id = insertedProfile E clk (callDetections E clk m reading).length := by
    unfold profileRef
    rw [emitAll_profiles, if_pos rfl, hi, emitAll_clock_reads, ingested_clock_reads,
      Nat.zero_add]
    rfl
  rw [hr]
  split
  · exact ⟨_, _, rfl⟩
  · exact ⟨_, _, rfl⟩

theorem callEmissions_filter_maintenance (E : Env) (clk : Clock) (m : AdvancedDataManager)
    (S : SensorReading) :
    (callEmissions E clk m S).filter (isKindEmission AnomalyType.MAINTENANCE_REQUIRED) =
      maintenanceEmissions E clk m S := by
  unfold callEmissions callDetections detectEmissions
  simp only [List.filter_append]
  have hi : (instantEmissions (callScore E clk m S) S).filter
      (isKindEmission AnomalyType.MAINTENANCE_REQUIRED) = [] := by
    unfold instantEmissions
    simp only [List.filter_append]
    rw [filter_kind_guard _ _ _ (by rfl), filter_kind_guard _ _ _ (by rfl),
      filter_kind_guard _ _ _ (by rfl),
      filter_kind_guard _ (|S.acceleration_ms2| > 6) _
        (by unfold isKindEmission; split <;> rfl),
      filter_kind_guard _ _ _ (by rfl), filter_kind_guard _ _ _ (by rfl)]
    rfl
  have hf : (fuelEmissions (callScore E clk m S)
      ((ingested E clk m S).vehicle_data_windows S.vehicle_id)).filter
      (isKindEmission AnomalyType.MAINTENANCE_REQUIRED) = [] := by
    unfold fuelEmissions
    split <;> rfl
  have hm : (mlEmissions (callScore E clk m S)).filter
      (isKindEmission AnomalyType.MAINTENANCE_REQUIRED) = [] := by
    unfold mlEmissions
    split <;> rfl
  have hq : (maintenanceEmissions E clk m S).filter
      (isKindEmission AnomalyType.MAINTENANCE_REQUIRED) = maintenanceEmissions E clk m S := by
    unfold maintenanceEmissions
    split <;> rfl
  have hg : ((violatedFences E m.geofences S).map geofenceEmission).filter
      (isKindEmission AnomalyType.MAINTENANCE_REQUIRED) = [] := by
    rw [List.filter_eq_nil_iff]
    intro e he
    simp only [List.mem_map] at he
    obtain ⟨g, _, rfl⟩ := he
    simp [isKindEmission, geofenceEmission]
  rw [hi, hf, hm, hq, hg]
  simp

theorem maintenanceDue_inserted (E : Env) (clk : Clock) (k : Nat) (S : SensorReading) :
    maintenanceDue (insertedProfile E clk k) S ↔
      toHours (S.timestamp - (clk (k + 1) - hours (24 * 30))) > 24 * 30 * 3 := by
  unfold maintenanceDue insertedProfile VehicleProfile.new MaybeNaN.gt
  simp

/-- Claim C22, divergence.  For every sample whose vehicle id has no profile,
`processSensorReading` leaves a profile for that id: the access
`vehicle_profiles[id]` in `checkMaintenanceRequirements` inserts the profile
that the constructor builds from its defaults at the clock reads that follow
the records of the detection rules, and the call then sets its state and
anomaly counter.  The sample is appended to the window of the id.  R11 is not
skipped but evaluated on the inserted profile, whose `last_maintenance` is 720
hours before the second clock read of the constructor: the call stores one
MAINTENANCE anomaly under the id when the sample is stamped more than 2160 whole
hours after that time, and none otherwise. -/
theorem unknown_id_gets_profile (E : Env) (clk : Clock) (m : AdvancedDataManager)
    (S : SensorReading) (hp : m.vehicle_profiles S.vehicle_id = none) :
    (∃ (st : VehicleState) (k : Int),
      (processSensorReading E clk m S).vehicle_profiles S.vehicle_id =
        some { VehicleProfile.new (clk (callDetections E clk m S).length)
            (clk ((callDetections E clk m S).length + 1)) E.default_vehicle_id
            "Unknown Vehicle" "" with
          current_state := st, total_anomalies := k }) ∧
    (processSensorReading E clk m S).vehicle_data_windows S.vehicle_id =
      pushEvict (m.vehicle_data_windows S.vehicle_id) S ∧
    (∃ added : List AnomalyRecord,
      (processSensorReading E clk m S).detected_anomalies S.vehicle_id =
        m.detected_anomalies S.vehicle_id ++ added ∧
      (added.filter (isKindRecord AnomalyType.MAINTENANCE_REQUIRED)).map kindAndSeverity =
        if toHours (S.timestamp -
            (clk ((callDetections E clk m S).length + 1) - hours (24 * 30))) > 24 * 30 * 3
        then [("MAINTENANCE", 2)] else []) := by
  refine ⟨?_, ?_, callRecords E clk m S, ?_, ?_⟩
  · obtain ⟨st, k, hb⟩ := beforeTransition_profile_none E clk m S hp
    rw [processSensorReading_eq, logPerformance_profiles,
      updateVehicleState_profile clk _ _ _ hb]
    exact ⟨_, _, rfl⟩
  · rw [processSensorReading_windows, mapSet_same]
  · rw [processSensorReading_detected, if_pos rfl]
  · have hview := callRecords_filter_view AnomalyType.MAINTENANCE_REQUIRED E clk m S
    have hkey : ∀ l : List AnomalyRecord, l.map kindAndSeverity =
        (l.map recordView).map (fun w => (w.1, w.2.1)) := by
      intro l
      rw [List.map_map]
      rfl
    rw [hkey, hview, callEmissions_filter_maintenance]
    unfold maintenanceEmissions
    rw [checkedProfile_none E clk m S hp]
    by_cases hd : maintenanceDue (insertedProfile E clk (callDetections E clk m S).length) S
    · rw [if_pos hd, if_pos ((maintenanceDue_inserted E clk _ S).mp hd)]
      rfl
    · rw [if_neg hd, if_neg (fun h => hd ((maintenanceDue_inserted E clk _ S).mpr h))]
      rfl

/-- Witness for C22: a calm sample of the uncatalogued id 99, stamped and
processed at clock time 0 on a fresh manager. -/
theorem unknown_id_gets_profile_witness :
    (freshManager 0).vehicle_profiles (calmReading 99 0).vehicle_id = none ∧
    (∃ (st : VehicleState) (k : Int),
      (processSensorReading exampleEnv (constClock 0) (freshManager 0)
          (calmReading 99 0)).vehicle_profiles (calmReading 99 0).vehicle_id =
        some { VehicleProfile.new
            (constClock 0
              (callDetections exampleEnv (constClock 0) (freshManager 0)
                (calmReading 99 0)).length)
            (constClock 0
              ((callDetections exampleEnv (constClock 0) (freshManager 0)
                (calmReading 99 0)).length + 1)) exampleEnv.default_vehicle_id
            "Unknown Vehicle" "" with
          current_state := st, total_anomalies := k }) :=
  ⟨rfl,
    (unknown_id_gets_profile exampleEnv (constClock 0) (freshManager 0)
      (calmReading 99 0) rfl).1⟩

/-- The two samples of id 99 in the example environment.  Stamped at the clock
time: the id has no profile before the call and one after it, in state NORMAL,
and no anomaly is stored.  Stamped 61 days ahead of the clock: the call stores a
MAINTENANCE anomaly under the id and leaves the inserted profile in state
MAINTENANCE. -/
theorem stranger_example :
    ((freshManager 0).vehicle_profiles 99).isSome = false ∧
    stateOf calmStrangerManager 99 = some VehicleState.NORMAL ∧
    calmStrangerManager.detected_anomalies 99 = [] ∧
    (aheadStrangerManager.detected_anomalies 99).map kindAndSeverity =
      [("MAINTENANCE", 2)] ∧
    stateOf aheadStrangerManager 99 = some VehicleState.MAINTENANCE := by
  decide!

/-! ## Harsh events -/

theorem updateProfileBody_harsh (E : Env) (p : VehicleProfile) (reading : SensorReading) :
    (updateProfileBody E p reading).harsh_events_count =
      p.harsh_events_count + (if |reading.acceleration_ms2| > 4 then 1 else 0) := by
  unfold updateProfileBody
  dsimp only
  rcases h : p.route_history.getLast? with _ | last_pos <;>
    simp only [h] <;> split <;> split <;> split <;> simp

theorem harsh_mem_callEmissions (E : Env) (clk : Clock) (m : AdvancedDataManager) (S : SensorReading)
    (e : Emission) (he : e ∈ callEmissions E clk m S)
    (ht : e.type = AnomalyType.HARSH_ACCELERATION ∨ e.type = AnomalyType.HARSH_BRAKING) :
    |S.acceleration_ms2| > 6 ∧ e.severity = 3 := by
  unfold callEmissions callDetections detectEmissions at he
  simp only [List.mem_append] at he
  rcases he with (((he | he) | he) | he) | he
  · unfold instantEmissions at he
    simp only [List.mem_append] at he
    rcases he with ((((he | he) | he) | he) | he) | he <;>
      split at he <;> simp only [List.mem_singleton, List.not_mem_nil] at he <;>
      subst he <;> dsimp only at ht ⊢ <;>
      first
      | exact ⟨by assumption, rfl⟩
      | (exfalso; rcases ht with ht | ht <;> exact absurd ht (by decide))
  · exfalso
    unfold fuelEmissions at he
    split at he
    · rw [List.mem_singleton.mp he] at ht
      simp at ht
    · simp at he
  · exfalso
    unfold mlEmissions at he
    split at he
    · rw [List.mem_singleton.mp he] at ht
      simp at ht
    · simp at he
  · exfalso
    unfold maintenanceEmissions at he
    split at he
    · rw [List.mem_singleton.mp he] at ht
      simp [maintenanceEmission] at ht
    · simp at he
  · exfalso
    simp only [List.mem_map] at he
    obtain ⟨g, _, hg⟩ := he
    rw [← hg] at ht
    simp [geofenceEmission] at ht

theorem stamp_mem_severity (clk : Clock) (v : Int) (k : Nat) (es : List Emission)
    (a : AnomalyRecord) (h : a ∈ stamp clk v k es) :
    ∃ e ∈ es, a.type = e.type ∧ a.severity = e.severity := by
  induction es generalizing k with
  | nil => simp [stamp] at h
  | cons e es ih =>
      simp only [stamp, List.mem_cons] at h
      rcases h with h | h
      · exact ⟨e, List.mem_cons_self _ _, by rw [h]; rfl, by rw [h]; rfl⟩
      · obtain ⟨e1, he1, h1⟩ := ih (k + 1) h
        exact ⟨e1, List.mem_cons_of_mem _ he1, h1⟩

/-- Claim C27.  For every vehicle with a profile (every catalogued vehicle),
`processSensorReading` increases `profile.harsh_events_count` by exactly one
when `|acceleration| > 4.0` and leaves it unchanged otherwise; every HARSH_ACCEL
or HARSH_BRAKE anomaly that the call stores has severity 3 and comes with
`|acceleration| > 6`, so with an increment of the counter. -/
theorem harsh_events_counted (E : Env) (clk : Clock) (m : AdvancedDataManager)
    (S : SensorReading) (hv : (m.vehicle_profiles S.vehicle_id).isSome = true) :
    ∃ (p p1 : VehicleProfile) (records : List AnomalyRecord),
      m.vehicle_profiles S.vehicle_id = some p ∧
      (processSensorReading E clk m S).vehicle_profiles S.vehicle_id = some p1 ∧
      (|S.acceleration_ms2| > 4 → p1.harsh_events_count = p.harsh_events_count + 1) ∧
      (¬ |S.acceleration_ms2| > 4 → p1.harsh_events_count = p.harsh_events_count) ∧
      (processSensorReading E clk m S).detected_anomalies S.vehicle_id =
        m.detected_anomalies S.vehicle_id ++ records ∧
      ∀ a ∈ records,
        a.type = AnomalyType.HARSH_ACCELERATION ∨ a.type = AnomalyType.HARSH_BRAKING →
          a.severity = 3 ∧ |S.acceleration_ms2| > 6 ∧
            p1.harsh_events_count = p.harsh_events_count + 1 := by
  obtain ⟨p, hp⟩ := Option.isSome_iff_exists.mp hv
  obtain ⟨st, k, hp1⟩ := processSensorReading_profile_shape E clk m S p hp
  have hh : ∀ c : Prop, c → |S.acceleration_ms2| > 4 →
      (updateProfileBody E p S).harsh_events_count = p.harsh_events_count + 1 := by
    intro c _ h4
    rw [updateProfileBody_harsh, if_pos h4]
  refine ⟨p, _, stamp clk S.vehicle_id 0 (callEmissions E clk m S), hp, hp1, ?_, ?_, ?_, ?_⟩
  · exact hh True trivial
  · intro h4
    show (updateProfileBody E p S).harsh_events_count = _
    rw [updateProfileBody_harsh, if_neg h4, add_zero]
  · rw [processSensorReading_detected_some E clk m S _ hv, if_pos rfl]
  · intro a ha ht
    obtain ⟨e, he, hte, hse⟩ := stamp_mem_severity _ _ _ _ a ha
    obtain ⟨h6, h3⟩ := harsh_mem_callEmissions E clk m S e he (hte ▸ ht)
    refine ⟨hse.trans h3, h6, hh True trivial ?_⟩
    have : (4 : ℚ) < 6 := by norm_num
    exact lt_trans this h6

theorem freshManager_has_profile_3 :
    ((freshManager 0).vehicle_profiles harshReading.vehicle_id).isSome = true := by
  decide!

/-- Witness for C27: vehicle 3 accelerating at 13.9 m/s^2 on a fresh manager. -/
theorem harsh_events_counted_witness :
    ((freshManager 0).vehicle_profiles harshReading.vehicle_id).isSome = true ∧
    ∃ (p p1 : VehicleProfile) (records : List AnomalyRecord),
      (freshManager 0).vehicle_profiles harshReading.vehicle_id = some p ∧
      (processSensorReading exampleEnv (constClock 0) (freshManager 0)
        harshReading).vehicle_profiles harshReading.vehicle_id = some p1 ∧
      (|harshReading.acceleration_ms2| > 4 →
        p1.harsh_events_count = p.harsh_events_count + 1) ∧
      (¬ |harshReading.acceleration_ms2| > 4 →
        p1.harsh_events_count = p.harsh_events_count) ∧
      (processSensorReading exampleEnv (constClock 0) (freshManager 0)
        harshReading).detected_anomalies harshReading.vehicle_id =
        (freshManager 0).detected_anomalies harshReading.vehicle_id ++ records ∧
      ∀ a ∈ records,
        a.type = AnomalyType.HARSH_ACCELERATION ∨ a.type = AnomalyType.HARSH_BRAKING →
          a.severity = 3 ∧ |harshReading.acceleration_ms2| > 6 ∧
            p1.harsh_events_count = p.harsh_events_count + 1 :=
  ⟨freshManager_has_profile_3,
    harsh_events_counted exampleEnv (constClock 0) (freshManager 0) harshReading
      freshManager_has_profile_3⟩

/-- The sample of the witness: the call stores one HARSH_ACCEL anomaly of
severity 3 and the counter of vehicle 3 goes from 0 to 1. -/
theorem harshReading_example :
    ((freshManager 0).vehicle_profiles 3).map (fun p => p.harsh_events_count) = some 0 ∧
    ((processSensorReading exampleEnv (constClock 0) (freshManager 0)
      harshReading).vehicle_profiles 3).map (fun p => p.harsh_events_count) = some 1 ∧
    ((processSensorReading exampleEnv (constClock 0) (freshManager 0)
      harshReading).detected_anomalies 3).map kindAndSeverity = [("HARSH_ACCEL", 3)] := by
  decide!

/-! ## Which anomalies count as recent -/

theorem recentCritical_eq (now : TimePoint) (anomalies : List AnomalyRecord) :
    recentCritical now anomalies = wholeMinuteCount 5 now anomalies := by
  unfold recentCritical wholeMinuteCount isRecent
  congr 1
  funext a
  simp only [toMinutes_le_five]

theorem recentHigh_eq (now : TimePoint) (anomalies : List AnomalyRecord) :
    recentHigh now anomalies = wholeMinuteCount 4 now anomalies := by
  unfold recentHigh wholeMinuteCount isRecent
  congr 1
  funext a
  simp only [toMinutes_le_five]
  by_cases h4 : a.severity = 4
  · simp [h4]
  · simp [h4]

/-- Counterexample to C29: the two severity-5 anomalies of vehicle 7 are stamped
0; when its state is recomputed 5 minutes 30 seconds later the rule of the claim
counts none of them, the program counts both and the state is CRITICAL. -/
theorem recent_five_thirty_counterexample :
    (agedManager.detected_anomalies 7).map (fun a => (a.timestamp, a.severity)) =
      [(0, 5), (0, 5)] ∧
    specRecentCount 5 fiveMinutesThirty (agedManager.detected_anomalies 7) = 0 ∧
    recentCritical fiveMinutesThirty (agedManager.detected_anomalies 7) = 2 ∧
    stateOf agedManager 7 = some VehicleState.CRITICAL := by
  decide!

/-- Claim C29, amended.  When the vehicle state is recomputed at clock time
`now`, an anomaly of `v` is counted toward C5 (severity 5) or C4 (severity 4) if
and only if the whole minutes from its timestamp to `now` are at most 5, that
is, `now - timestamp < 6 minutes`; an anomaly that is 5 minutes 30 seconds old
is counted, one that is 6 minutes old is not, and anomalies of severity 1-3
are never counted. -/
theorem recent_count_rule (clk : Clock) (m : AdvancedDataManager) (v : Int)
    (hv : (m.vehicle_profiles v).isSome = true) :
    ∃ p : VehicleProfile,
      m.vehicle_profiles v = some p ∧
      (updateVehicleState clk m v).vehicle_profiles v =
        some { p with
          current_state :=
            specState (toSeconds (clk m.clock_reads - p.last_seen) > 30)
              (wholeMinuteCount 5 (clk m.clock_reads) (m.detected_anomalies v))
              (wholeMinuteCount 4 (clk m.clock_reads) (m.detected_anomalies v))
              p.current_state } ∧
      (∀ (severity : Int) (a : AnomalyRecord) (rest : List AnomalyRecord),
        wholeMinuteCount severity (clk m.clock_reads) (a :: rest) =
          wholeMinuteCount severity (clk m.clock_reads) rest +
            (if clk m.clock_reads - a.timestamp < 6 * (60 * ticksPerSecond) ∧
                a.severity = severity then 1 else 0)) ∧
      (∀ (severity : Int) (a : AnomalyRecord),
        clk m.clock_reads - a.timestamp = fiveMinutesThirty → a.severity = severity →
          wholeMinuteCount severity (clk m.clock_reads) [a] = 1) ∧
      (∀ (severity : Int) (a : AnomalyRecord),
        clk m.clock_reads - a.timestamp = 6 * (60 * ticksPerSecond) →
          wholeMinuteCount severity (clk m.clock_reads) [a] = 0) := by
  obtain ⟨p, hp⟩ := Option.isSome_iff_exists.mp hv
  refine ⟨p, hp, ?_, ?_, ?_, ?_⟩
  · rw [updateVehicleState_profile clk m v p hp, transitionState_eq_spec, recentCritical_eq,
      recentHigh_eq]
  · intro severity a rest
    unfold wholeMinuteCount
    rw [List.countP_cons]
    congr 1
    by_cases h1 : clk m.clock_reads - a.timestamp < 6 * (60 * ticksPerSecond) <;>
      by_cases h2 : a.severity = severity <;> simp [h1, h2]
  · intro severity a hage hsev
    unfold wholeMinuteCount
    simp [hage, hsev, fiveMinutesThirty, ticksPerSecond]
  · intro severity a hage
    unfold wholeMinuteCount
    simp [hage]

theorem agedManager_example :
    ((processSensorReading exampleEnv (constClock 0) (freshManager 0)
      (overheatReading 7 0)).vehicle_profiles 7).isSome = true := by
  decide!

/-- Witness for C29: vehicle 7 after an overheating sample. -/
theorem recent_count_rule_witness :
    ((processSensorReading exampleEnv (constClock 0) (freshManager 0)
      (overheatReading 7 0)).vehicle_profiles 7).isSome = true ∧
    ∃ p : VehicleProfile,
      (processSensorReading exampleEnv (constClock 0) (freshManager 0)
        (overheatReading 7 0)).vehicle_profiles 7 = some p ∧
      (updateVehicleState (constClock fiveMinutesThirty)
        (processSensorReading exampleEnv (constClock 0) (freshManager 0)
          (overheatReading 7 0)) 7).vehicle_profiles 7 =
        some { p with
          current_state :=
            specState
              (toSeconds ((constClock fiveMinutesThirty)
                (processSensorReading exampleEnv (constClock 0) (freshManager 0)
                  (overheatReading 7 0)).clock_reads - p.last_seen) > 30)
              (wholeMinuteCount 5 ((constClock fiveMinutesThirty)
                  (processSensorReading exampleEnv (constClock 0) (freshManager 0)
                    (overheatReading 7 0)).clock_reads)
                ((processSensorReading exampleEnv (constClock 0) (freshManager 0)
                  (overheatReading 7 0)).detected_anomalies 7))
              (wholeMinuteCount 4 ((constClock fiveMinutesThirty)
                  (processSensorReading exampleEnv (constClock 0) (freshManager 0)
                    (overheatReading 7 0)).clock_reads)
                ((processSensorReading exampleEnv (constClock 0) (freshManager 0)
                  (overheatReading 7 0)).detected_anomalies 7))
              p.current_state } ∧
      (∀ (severity : Int) (a : AnomalyRecord) (rest : List AnomalyRecord),
        wholeMinuteCount severity ((constClock fiveMinutesThirty)
            (processSensorReading exampleEnv (constClock 0) (freshManager 0)
              (overheatReading 7 0)).clock_reads) (a :: rest) =
          wholeMinuteCount severity ((constClock fiveMinutesThirty)
            (processSensorReading exampleEnv (constClock 0) (freshManager 0)
              (overheatReading 7 0)).clock_reads) rest +
            (if (constClock fiveMinutesThirty)
                (processSensorReading exampleEnv (constClock 0) (freshManager 0)
                  (overheatReading 7 0)).clock_reads - a.timestamp <
                  6 * (60 * ticksPerSecond) ∧
                a.severity = severity then 1 else 0)) ∧
      (∀ (severity : Int) (a : AnomalyRecord),
        (constClock fiveMinutesThirty)
            (processSensorReading exampleEnv (constClock 0) (freshManager 0)
              (overheatReading 7 0)).clock_reads - a.timestamp = fiveMinutesThirty →
          a.severity = severity →
          wholeMinuteCount severity ((constClock fiveMinutesThirty)
            (processSensorReading exampleEnv (constClock 0) (freshManager 0)
              (overheatReading 7 0)).clock_reads) [a] = 1) ∧
      (∀ (severity : Int) (a : AnomalyRecord),
        (constClock fiveMinutesThirty)
            (processSensorReading exampleEnv (constClock 0) (freshManager 0)
              (overheatReading 7 0)).clock_reads - a.timestamp = 6 * (60 * ticksPerSecond) →
          wholeMinuteCount severity ((constClock fiveMinutesThirty)
            (processSensorReading exampleEnv (constClock 0) (freshManager 0)
              (overheatReading 7 0)).clock_reads) [a] = 0) :=
  ⟨agedManager_example,
    recent_count_rule (constClock fiveMinutesThirty)
      (processSensorReading exampleEnv (constClock 0) (freshManager 0) (overheatReading 7 0)) 7
      agedManager_example⟩

/-! ## Rolling statistics -/

theorem truncToSize_eq_floor (x : ℚ) : truncToSize x = ⌊x⌋.toNat := by
  unfold truncToSize
  rw [Rat.floor_def]

theorem p95_index_lt (n : Nat) (hn : 0 < n) :
    truncToSize (95 / 100 * ((n - 1 : Nat) : ℚ)) < n := by
  rw [truncToSize_eq_floor]
  have h0 : (0 : ℚ) ≤ ((n - 1 : Nat) : ℚ) := Nat.cast_nonneg _
  have hle : (95 / 100 * ((n - 1 : Nat) : ℚ) : ℚ) ≤ ((n - 1 : Nat) : ℚ) := by linarith
  have hfl : ⌊(95 / 100 * ((n - 1 : Nat) : ℚ) : ℚ)⌋ ≤ ((n - 1 : Nat) : Int) := by
    have := Int.floor_le_floor hle
    rwa [Int.floor_natCast] at this
  have hpos : 0 ≤ ⌊(95 / 100 * ((n - 1 : Nat) : ℚ) : ℚ)⌋ :=
    Int.floor_nonneg.mpr (by positivity)
  omega

theorem head?_getD_eq (l : List ℚ) : l.head?.getD 0 = l.getD 0 0 := by
  cases l <;> rfl

theorem getLast?_getD_eq (l : List ℚ) : l.getLast?.getD 0 = l.getD (l.length - 1) 0 := by
  rcases List.eq_nil_or_concat l with h | ⟨l1, a, h⟩
  · rw [h]
    rfl
  · rw [h, List.concat_eq_append, List.getLast?_concat]
    simp [List.getD_eq_getElem?_getD]

/-- Claim C24.  `calculateStatistics` returns the all-zero record on the empty
sequence, and on every non-empty sequence X of length n, with A the ascending
sort of X (the sorted rearrangement of X): min = A[0], max = A[n-1],
mean = (sum of X)/n, median = A[n/2] for odd n and (A[n/2-1] + A[n/2])/2 for
even n, and percentile_95 = A[floor(0.95*(n-1))], an index that is < n. -/
theorem statistics_of_sorted (E : Env) :
    AdvancedAnalytics.calculateStatistics E [] =
      { mean := 0, median := 0, std_deviation := 0, min_val := 0, max_val := 0,
        percentile_95 := 0, trend_slope := 0, coefficient_of_variation := 0,
        outlier_count := 0 } ∧
    ∀ (x : ℚ) (rest : List ℚ),
      ∃ A : List ℚ,
        A.Sorted (fun a b => a ≤ b) ∧ A.Perm (x :: rest) ∧
        (AdvancedAnalytics.calculateStatistics E (x :: rest)).min_val = A.getD 0 0 ∧
        (AdvancedAnalytics.calculateStatistics E (x :: rest)).max_val =
          A.getD ((x :: rest).length - 1) 0 ∧
        (AdvancedAnalytics.calculateStatistics E (x :: rest)).mean =
          (x :: rest).sum / ((x :: rest).length : ℚ) ∧
        ((x :: rest).length % 2 = 1 →
          (AdvancedAnalytics.calculateStatistics E (x :: rest)).median =
            A.getD ((x :: rest).length / 2) 0) ∧
        ((x :: rest).length % 2 = 0 →
          (AdvancedAnalytics.calculateStatistics E (x :: rest)).median =
            (A.getD ((x :: rest).length / 2 - 1) 0 + A.getD ((x :: rest).length / 2) 0) / 2) ∧
        (AdvancedAnalytics.calculateStatistics E (x :: rest)).percentile_95 =
          A.getD ⌊(95 / 100 : ℚ) * (((x :: rest).length : ℚ) - 1)⌋.toNat 0 ∧
        ⌊(95 / 100 : ℚ) * (((x :: rest).length : ℚ) - 1)⌋.toNat < (x :: rest).length := by
  refine ⟨rfl, fun x rest => ?_⟩
  have hlen : ((x :: rest).insertionSort (fun a b => a ≤ b)).length = (x :: rest).length :=
    List.length_insertionSort _ _
  have hcast : (((x :: rest).length - 1 : Nat) : ℚ) = ((x :: rest).length : ℚ) - 1 := by
    simp
  refine ⟨(x :: rest).insertionSort (fun a b => a ≤ b), List.sorted_insertionSort _ _,
    List.perm_insertionSort _ _, ?_, ?_, ?_, ?_, ?_, ?_, ?_⟩
  · show (List.insertionSort _ (x :: rest)).head?.getD 0 = _
    exact head?_getD_eq _
  · show (List.insertionSort _ (x :: rest)).getLast?.getD 0 = _
    rw [getLast?_getD_eq, hlen]
  · show (x :: rest).sum / ((List.insertionSort _ (x :: rest)).length : ℚ) = _
    rw [hlen]
  · intro hodd
    show (if (List.insertionSort _ (x :: rest)).length % 2 = 0 then _ else _) = _
    rw [hlen, if_neg (by omega)]
  · intro heven
    show (if (List.insertionSort _ (x :: rest)).length % 2 = 0 then _ else _) = _
    rw [hlen, if_pos heven]
  · show (List.insertionSort _ (x :: rest)).getD
      (truncToSize (95 / 100 * (((List.insertionSort _ (x :: rest)).length - 1 : Nat) : ℚ))) 0 = _
    rw [hlen, truncToSize_eq_floor, hcast]
  · rw [← hcast, ← truncToSize_eq_floor]
    exact p95_index_lt _ (by simp)

/-! ## Trend slope -/

theorem slopeLoop_eq (l : List ℚ) (i : Nat) (acc : ℚ × ℚ × ℚ × ℚ) :
    slopeLoop i l acc =
      (acc.1 + ((List.range l.length).map fun (j : Nat) => ((i + j : Nat) : ℚ)).sum,
       acc.2.1 + ((List.range l.length).map fun (j : Nat) => l.getD j 0).sum,
       acc.2.2.1 + ((List.range l.length).map fun (j : Nat) =>
         ((i + j : Nat) : ℚ) * l.getD j 0).sum,
       acc.2.2.2 + ((List.range l.length).map fun (j : Nat) =>
         ((i + j : Nat) : ℚ) * ((i + j : Nat) : ℚ)).sum) := by
  induction l generalizing i acc with
  | nil => simp [slopeLoop]
  | cons y rest ih =>
      rw [slopeLoop, ih]
      simp only [List.length_cons, List.range_succ_eq_map, List.map_cons, List.sum_cons,
        List.map_map, Function.comp_def, List.getD_cons_zero, List.getD_cons_succ,
        Nat.add_zero]
      have hidx : ∀ j : Nat, i + 1 + j = i + (j + 1) := by
        intro j
        omega
      simp only [hidx]
      refine Prod.ext ?_ (Prod.ext ?_ (Prod.ext ?_ ?_))
      · simp only [add_assoc]
      · simp only [add_assoc]
      · simp only [add_assoc]
      · simp only [add_assoc, Nat.cast_mul]

/-- Claim C25.  For every sequence X of length n, `calculateStatistics(X)
.trend_slope` is 0 when n < 2 and otherwise the ordinary-least-squares slope of
X in its original order against the indices 0..n-1,
`(n*sum(i*x_i) - sum(i)*sum(x_i)) / (n*sum(i^2) - (sum(i))^2)`, and 0 if that
denominator is 0. -/
theorem trend_slope_is_least_squares (E : Env) (X : List ℚ) :
    (AdvancedAnalytics.calculateStatistics E X).trend_slope = specSlope X := by
  have hslope : trendSlope X = specSlope X := by
    unfold trendSlope specSlope
    dsimp only
    by_cases hn : X.length ≥ 2
    · rw [if_pos hn, if_neg (show ¬ X.length < 2 by omega), slopeLoop_eq]
      simp only [Nat.zero_add, zero_add]
      by_cases hd : (X.length : ℚ) *
          ((List.range X.length).map fun (j : Nat) => (j : ℚ) * (j : ℚ)).sum -
          ((List.range X.length).map fun (j : Nat) => (j : ℚ)).sum *
            ((List.range X.length).map fun (j : Nat) => (j : ℚ)).sum = 0
      · rw [if_neg (not_not.mpr hd), if_pos hd]
      · rw [if_pos hd, if_neg hd]
    · rw [if_neg hn, if_pos (show X.length < 2 by omega)]
  cases X with
  | nil => rfl
  | cons x rest => exact hslope

/-! ## The trend buffers follow the window -/

theorem map_pushEvict (f : SensorReading → ℚ) (window : List SensorReading)
    (reading : SensorReading) :
    (pushEvict window reading).map f = updateTrend (window.map f) (f reading) := by
  unfold pushEvict updateTrend WINDOW_SIZE MAX_TREND_SIZE
  dsimp only
  have hl : (window ++ [reading]).length = (List.map f window ++ [f reading]).length := by
    simp
  rw [← hl]
  split
  · rw [List.map_tail, List.map_append, List.map_singleton]
  · rw [List.map_append, List.map_singleton]

theorem checkMaintenanceRequirements_analytics (E : Env) (clk : Clock)
    (m : AdvancedDataManager) (reading : SensorReading) :
    (checkMaintenanceRequirements E clk m reading).analytics = m.analytics := by
  rw [checkMaintenanceRequirements_eq]
  split <;> simp [setProfile, emitAll_analytics]

theorem ingested_analytics (E : Env) (clk : Clock) (m : AdvancedDataManager) (reading : SensorReading) :
    (ingested E clk m reading).analytics = m.analytics.updateTrends reading.vehicle_id reading := by
  unfold ingested
  simp only [updateVehicleProfile_guarded]
  unfold countReading appendToWindow trainPeriodically setProfile
  dsimp only
  split <;> split <;> split <;> rfl

theorem processSensorReading_analytics (E : Env) (clk : Clock) (m : AdvancedDataManager)
    (reading : SensorReading) :
    (processSensorReading E clk m reading).analytics =
      m.analytics.updateTrends reading.vehicle_id reading := by
  have h1 : ∀ x : AdvancedDataManager, (logPerformance x).analytics = x.analytics := by
    intro x
    unfold logPerformance
    split <;> rfl
  have h2 : ∀ (x : AdvancedDataManager) (v : Int),
      (updateVehicleState clk x v).analytics = x.analytics := by
    intro x v
    unfold updateVehicleState
    split <;> rfl
  have h3 : ∀ x : AdvancedDataManager, (logReading x reading).analytics = x.analytics := by
    intro x
    unfold logReading
    split <;> rfl
  rw [processSensorReading_eq, h1, h2]
  unfold beforeTransition
  dsimp only
  rw [h3, checkGeofenceViolations_eq, emitAll_analytics, detectEnhancedAnomalies_fst,
    checkMaintenanceRequirements_analytics, emitAll_analytics, ingested_analytics]

/-- The five trend buffers of a vehicle after a run on a fresh manager: the
five field sequences of its window. -/
theorem processAll_trends (E : Env) (clk0 : Clock)
    (data_open anomaly_open performance_open : Bool) (calls : List (Clock × SensorReading))
    (v : Int) :
    trendBuffers (processAll E
      (AdvancedDataManager.new clk0 data_open anomaly_open performance_open) calls).analytics v =
      windowFields ((processAll E
        (AdvancedDataManager.new clk0 data_open anomaly_open performance_open)
        calls).vehicle_data_windows v) := by
  induction calls using List.reverseRecOn with
  | nil => rfl
  | append_singleton cs c ih =>
      obtain ⟨clk, reading⟩ := c
      rw [processAll_snoc]
      generalize processAll E
        (AdvancedDataManager.new clk0 data_open anomaly_open performance_open) cs = m at ih ⊢
      rw [processSensorReading_analytics, processSensorReading_windows]
      unfold trendBuffers windowFields at ih ⊢
      unfold AdvancedAnalytics.updateTrends
      dsimp only
      simp only [List.cons.injEq, and_true] at ih ⊢
      obtain ⟨h1, h2, h3, h4, h5⟩ := ih
      by_cases hv : v = reading.vehicle_id
      · subst hv
        simp only [mapSet_same, map_pushEvict, h1, h2, h3, h4, h5, and_self]
      · simp only [mapSet_other _ _ _ _ hv, h1, h2, h3, h4, h5, and_self]

/-- Claim C26.  In every state reached from a freshly constructed manager and
for every vehicle `v`, each of the five trend buffers of `v` equals the
sequence of its field (speed, rpm, temperature, fuel, acceleration) over
`window[v]` in window order, so each holds at most 200 values and evicts in
step with the window; the statistics that `printEnhancedAnalytics` reports are
`calculateStatistics` of these five sequences of the current window. -/
theorem statistics_follow_window (E : Env) (clk0 : Clock)
    (data_open anomaly_open performance_open : Bool) (calls : List (Clock × SensorReading))
    (v : Int) :
    trendBuffers (processAll E
      (AdvancedDataManager.new clk0 data_open anomaly_open performance_open) calls).analytics v =
      windowFields ((processAll E
        (AdvancedDataManager.new clk0 data_open anomaly_open performance_open)
        calls).vehicle_data_windows v) ∧
    (∀ buffer ∈ trendBuffers (processAll E
      (AdvancedDataManager.new clk0 data_open anomaly_open performance_open) calls).analytics v,
      buffer.length ≤ 200) ∧
    printedStatistics E (processAll E
      (AdvancedDataManager.new clk0 data_open anomaly_open performance_open) calls) v =
      (if ((processAll E
          (AdvancedDataManager.new clk0 data_open anomaly_open performance_open)
          calls).vehicle_data_windows v).isEmpty then none
       else some ((windowFields ((processAll E
          (AdvancedDataManager.new clk0 data_open anomaly_open performance_open)
          calls).vehicle_data_windows v)).map (AdvancedAnalytics.calculateStatistics E))) := by
  have ht := processAll_trends E clk0 data_open anomaly_open performance_open calls v
  have hw : ((processAll E
      (AdvancedDataManager.new clk0 data_open anomaly_open performance_open)
      calls).vehicle_data_windows v).length ≤ 200 :=
    processAll_window_bound E calls _ (fun u => by simp [AdvancedDataManager.new]) v
  refine ⟨ht, ?_, ?_⟩
  · intro buffer hb
    rw [ht] at hb
    unfold windowFields at hb
    simp only [List.mem_cons, List.mem_singleton, List.not_mem_nil, or_false] at hb
    rcases hb with h | h | h | h | h <;> rw [h, List.length_map] <;> exact hw
  · unfold printedStatistics
    split
    · rfl
    · congr 1
      rw [← ht]
      rfl

/-! ## No fault in a call -/

theorem indexChecked_of_lt {α : Type} (l : List α) (i : Nat) (h : i < l.length) :
    indexChecked l (i : Int) = some (l.get ⟨i, h⟩) := by
  unfold indexChecked
  rw [if_pos ⟨by omega, by omega⟩, Int.toNat_ofNat, List.get?_eq_get h]

theorem calculateFuelDropRateChecked_eq (window : List SensorReading) :
    calculateFuelDropRateChecked window = some (calculateFuelDropRate window) := by
  unfold calculateFuelDropRateChecked calculateFuelDropRate
  by_cases h : window.length < 10
  · rw [if_pos h, dif_pos h]
  · rw [if_neg h, dif_neg h]
    have h10 : (window.length : Int) - 10 = ((window.length - 10 : Nat) : Int) := by omega
    have h1 : (window.length : Int) - 1 = ((window.length - 1 : Nat) : Int) := by omega
    rw [h10, h1, indexChecked_of_lt window (window.length - 10) (by omega),
      indexChecked_of_lt window (window.length - 1) (by omega)]
    simp only [Option.some_bind]
    split
    · rfl
    · rename_i hpos
      unfold divChecked
      rw [if_neg]
      intro h0
      have : toMinutes ((window.get ⟨window.length - 1, by omega⟩).timestamp -
          (window.get ⟨window.length - 10, by omega⟩).timestamp) = 0 := by exact_mod_cast h0
      exact hpos (le_of_eq this)

theorem trainFeatureChecked_eq (E : Env) (previous current : SensorReading) (stale : ℚ) :
    trainFeatureChecked E previous current stale =
      some (trainFeature E previous current stale) := by
  unfold trainFeatureChecked trainFeature divChecked
  dsimp only
  by_cases h : toSeconds (current.timestamp - previous.timestamp) > 0
  · have hne : ¬ ((toSeconds (current.timestamp - previous.timestamp) : ℚ) = 0) := by
      intro h0
      have : toSeconds (current.timestamp - previous.timestamp) = 0 := by exact_mod_cast h0
      omega
    simp only [if_pos h, if_neg hne, Option.map_some']
  · simp only [if_neg h, Option.map_some']

theorem updateProfileBody_metrics (E : Env) (p : VehicleProfile) (reading : SensorReading) :
    (updateProfileBody E p reading).performance_metrics "total_speed_sum" =
      some (avgSpeedSum p reading) ∧
    (updateProfileBody E p reading).performance_metrics "speed_count" =
      some (avgSpeedCount p) ∧
    (updateProfileBody E p reading).avg_speed = avgSpeedSum p reading / avgSpeedCount p := by
  unfold updateProfileBody avgSpeedSum avgSpeedCount
  dsimp only
  rcases h : p.route_history.getLast? with _ | last_pos <;>
    simp only [h] <;> split <;> split <;> split <;>
    simp_all [mapSet]

theorem avgSpeedCount_pos (p : VehicleProfile) (h : metricsSound p) : 1 ≤ avgSpeedCount p := by
  unfold avgSpeedCount
  rcases h with h | h
  · rw [if_pos h]
    norm_num
  · split
    · norm_num
    · linarith

theorem metricsSound_update (E : Env) (p : VehicleProfile) (reading : SensorReading)
    (h : metricsSound p) : metricsSound (updateProfileBody E p reading) := by
  right
  rw [(updateProfileBody_metrics E p reading).2.1]
  have := avgSpeedCount_pos p h
  simp only [Option.getD_some]
  linarith

theorem initializeVehicleProfiles_metrics (clk : Clock) (v : Int) (p : VehicleProfile)
    (h : initializeVehicleProfiles clk v = some p) : metricsSound p := by
  unfold initializeVehicleProfiles at h
  split at h
  · simp only [Option.map_eq_some'] at h
    obtain ⟨a, _, ha⟩ := h
    rw [← ha]
    exact Or.inl rfl
  · simp at h

theorem processSensorReading_profile_none (E : Env) (clk : Clock) (m : AdvancedDataManager)
    (reading : SensorReading) (hp : m.vehicle_profiles reading.vehicle_id = none) :
    ∃ (st : VehicleState) (k : Int),
      (processSensorReading E clk m reading).vehicle_profiles reading.vehicle_id =
        some { insertedProfile E clk (callDetections E clk m reading).length with
          current_state := st, total_anomalies := k } := by
  obtain ⟨st, k, hb⟩ := beforeTransition_profile_none E clk m reading hp
  rw [processSensorReading_eq, logPerformance_profiles,
    updateVehicleState_profile clk _ _ _ hb]
  exact ⟨_, _, rfl⟩

/-- The speed counter of every profile is sound in every state reached from a
fresh manager, the profiles inserted for unknown ids included: a newly built
profile has no counter yet. -/
theorem processAll_metrics (E : Env)
    (clk0 : Clock) (data_open anomaly_open performance_open : Bool)
    (calls : List (Clock × SensorReading)) (v : Int) (p : VehicleProfile)
    (hp : (processAll E (AdvancedDataManager.new clk0 data_open anomaly_open performance_open)
      calls).vehicle_profiles v = some p) : metricsSound p := by
  induction calls using List.reverseRecOn generalizing p with
  | nil => exact initializeVehicleProfiles_metrics clk0 v p hp
  | append_singleton cs c ih =>
      obtain ⟨clk, reading⟩ := c
      rw [processAll_snoc] at hp
      generalize processAll E
        (AdvancedDataManager.new clk0 data_open anomaly_open performance_open) cs = m at ih hp
      by_cases hv : v = reading.vehicle_id
      · subst hv
        cases hm : m.vehicle_profiles reading.vehicle_id with
        | none =>
            obtain ⟨st, k, h1⟩ := processSensorReading_profile_none E clk m reading hm
            rw [h1] at hp
            rw [← Option.some.inj hp]
            exact Or.inl rfl
        | some p0 =>
            obtain ⟨st, k, h1⟩ := processSensorReading_profile_shape E clk m reading p0 hm
            rw [h1] at hp
            rw [← Option.some.inj hp]
            exact metricsSound_update E p0 reading (ih p0 hm)
      · rw [processSensorReading_profiles_other E clk m reading v hv] at hp
        exact ih p hp

theorem length_seven (l : List ℚ) (h : l.length = 7) :
    ∃ a b c d e f g : ℚ, l = [a, b, c, d, e, f, g] := by
  match l, h with
  | [a, b, c, d, e, f, g], _ => exact ⟨a, b, c, d, e, f, g, rfl⟩

theorem calculateMahalanobisDistanceChecked_eq (E : Env) (d : MLAnomalyDetector) (v : Int)
    (fv : FeatureVector) (hm : (d.feature_means v).length = 7)
    (hs : (d.feature_stds v).length = 7) (hpos : ∀ s ∈ d.feature_stds v, 0 ≤ s) :
    d.calculateMahalanobisDistanceChecked E v fv =
      some (d.calculateMahalanobisDistance E v fv) := by
  obtain ⟨m0, m1, m2, m3, m4, m5, m6, hml⟩ := length_seven _ hm
  obtain ⟨s0, s1, s2, s3, s4, s5, s6, hsl⟩ := length_seven _ hs
  rw [hsl] at hpos
  have hne : ∀ s ∈ [s0, s1, s2, s3, s4, s5, s6], ¬ (s + 1 / 1000000 = 0) := by
    intro s hmem h0
    have := hpos s hmem
    linarith
  simp only [List.mem_cons, List.mem_singleton, List.not_mem_nil, or_false,
    forall_eq_or_imp, forall_eq] at hne
  obtain ⟨h0, h1, h2, h3, h4, h5, h6⟩ := hne
  simp only [one_div] at h0 h1 h2 h3 h4 h5 h6
  unfold MLAnomalyDetector.calculateMahalanobisDistanceChecked
    MLAnomalyDetector.calculateMahalanobisDistance
  rw [hml, hsl]
  simp [zScoreChecked, indexChecked, divChecked, sequenceChecked, h0, h1, h2, h3, h4, h5, h6]

/-- Claim C23.  `processSensorReading` is a total function of the store and the
sample, and in every state reached from a freshly constructed manager and for
every sample (unknown id, first sample, equal or decreasing timestamps,
untrained baseline) none of its partial operations faults: `window[size-10]`
and `window[size-1]` are read in range and the fuel drop rate divides by a
positive count of minutes; the fuel consumption rate divides by a positive
count of seconds and the training statistics by a vector count >= 1;
`avg_speed` divides by a count >= 1; and the two baseline vectors are read at
0..6 only when they have seven entries, with divisors that are not 0. -/
theorem call_has_no_fault (E : Env) (hsqrt : ∀ x, 0 ≤ E.sqrt x) (clk0 : Clock)
    (data_open anomaly_open performance_open : Bool) (calls : List (Clock × SensorReading))
    (clk : Clock) (reading : SensorReading) :
    (∀ window : List SensorReading,
      calculateFuelDropRateChecked window = some (calculateFuelDropRate window)) ∧
    (∀ (previous current : SensorReading) (stale : ℚ),
      trainFeatureChecked E previous current stale =
        some (trainFeature E previous current stale)) ∧
    (∀ (hist : List SensorReading) (stale : Nat → ℚ),
      50 ≤ hist.length → 1 ≤ (trainFeatures E hist stale).length) ∧
    (∀ p : VehicleProfile,
      (processAll E (AdvancedDataManager.new clk0 data_open anomaly_open performance_open)
        calls).vehicle_profiles reading.vehicle_id = some p →
      1 ≤ avgSpeedCount p ∧
        avgSpeedChecked p reading = some (updateProfileBody E p reading).avg_speed) ∧
    (ingested E clk (processAll E
        (AdvancedDataManager.new clk0 data_open anomaly_open performance_open) calls)
        reading).ml_detector.calculateAnomalyScoreChecked E reading.vehicle_id reading
        (E.indeterminate (ingested E clk (processAll E
          (AdvancedDataManager.new clk0 data_open anomaly_open performance_open) calls)
          reading).calls_started 0) =
      some (callScore E clk (processAll E
        (AdvancedDataManager.new clk0 data_open anomaly_open performance_open) calls)
        reading) := by
  refine ⟨calculateFuelDropRateChecked_eq, trainFeatureChecked_eq E, ?_, ?_, ?_⟩
  · intro hist stale h50
    rw [trainFeatures_length]
    omega
  · intro p hp
    have hsound := processAll_metrics E clk0 data_open anomaly_open performance_open
      calls reading.vehicle_id p hp
    have hc := avgSpeedCount_pos p hsound
    refine ⟨hc, ?_⟩
    unfold avgSpeedChecked divChecked
    rw [if_neg (by linarith), (updateProfileBody_metrics E p reading).2.2]
  · unfold MLAnomalyDetector.calculateAnomalyScoreChecked callScore
      MLAnomalyDetector.calculateAnomalyScore
    by_cases hn : ((ingested E clk (processAll E
        (AdvancedDataManager.new clk0 data_open anomaly_open performance_open) calls)
        reading).ml_detector.training_data reading.vehicle_id).isNone
    · rw [if_pos hn, if_pos hn]
    · rw [if_neg hn, if_neg hn]
      have hsome : ((processAll E
          (AdvancedDataManager.new clk0 data_open anomaly_open performance_open)
          (calls ++ [(clk, reading)])).ml_detector.training_data
            reading.vehicle_id).isSome := by
        rw [processAll_snoc, processSensorReading_ml_detector]
        cases ht : (ingested E clk (processAll E
            (AdvancedDataManager.new clk0 data_open anomaly_open performance_open) calls)
            reading).ml_detector.training_data reading.vehicle_id with
        | none => simp [ht] at hn
        | some x => rfl
      obtain ⟨hm, hs, hq⟩ := processAll_baseline_vectors E clk0 data_open anomaly_open
        performance_open (calls ++ [(clk, reading)]) reading.vehicle_id hsome
      rw [processAll_snoc, processSensorReading_ml_detector] at hm hs hq
      exact calculateMahalanobisDistanceChecked_eq E _ _ _ hm hs
        (fun s hmem => by
          obtain ⟨x, hx⟩ := hq s hmem
          rw [hx]
          exact hsqrt x)

/-- Witness for C23: an overheating sample of vehicle 7 after one calm sample,
in the example environment. -/
theorem call_has_no_fault_witness :
    (∀ x, 0 ≤ exampleEnv.sqrt x) ∧
    ((∀ window : List SensorReading,
      calculateFuelDropRateChecked window = some (calculateFuelDropRate window)) ∧
    (∀ (previous current : SensorReading) (stale : ℚ),
      trainFeatureChecked exampleEnv previous current stale =
        some (trainFeature exampleEnv previous current stale)) ∧
    (∀ (hist : List SensorReading) (stale : Nat → ℚ),
      50 ≤ hist.length → 1 ≤ (trainFeatures exampleEnv hist stale).length) ∧
    (∀ p : VehicleProfile,
      (processAll exampleEnv (AdvancedDataManager.new (constClock 0) true true true)
        [(constClock 0, calmReading 7 0)]).vehicle_profiles (overheatReading 7 0).vehicle_id =
          some p →
      1 ≤ avgSpeedCount p ∧
        avgSpeedChecked p (overheatReading 7 0) =
          some (updateProfileBody exampleEnv p (overheatReading 7 0)).avg_speed) ∧
    (ingested exampleEnv (constClock 0) (processAll exampleEnv
        (AdvancedDataManager.new (constClock 0) true true true)
        [(constClock 0, calmReading 7 0)])
        (overheatReading 7 0)).ml_detector.calculateAnomalyScoreChecked exampleEnv
          (overheatReading 7 0).vehicle_id (overheatReading 7 0)
          (exampleEnv.indeterminate (ingested exampleEnv (constClock 0) (processAll exampleEnv
            (AdvancedDataManager.new (constClock 0) true true true)
            [(constClock 0, calmReading 7 0)]) (overheatReading 7 0)).calls_started 0) =
      some (callScore exampleEnv (constClock 0) (processAll exampleEnv
        (AdvancedDataManager.new (constClock 0) true true true)
        [(constClock 0, calmReading 7 0)]) (overheatReading 7 0))) :=
  ⟨sqrtApprox_nonneg,
    call_has_no_fault exampleEnv sqrtApprox_nonneg (constClock 0)
      true true true [(constClock 0, calmReading 7 0)] (constClock 0) (overheatReading 7 0)⟩

/-! ## Readers and the lock -/

theorem processAll_detected_mono (E : Env) (calls : List (Clock × SensorReading))
    (m : AdvancedDataManager) (v : Int) (a : AnomalyRecord)
    (ha : a ∈ m.detected_anomalies v) : a ∈ (processAll E m calls).detected_anomalies v := by
  induction calls generalizing m with
  | nil => exact ha
  | cons c cs ih =>
      obtain ⟨clk, reading⟩ := c
      apply ih (processSensorReading E clk m reading)
      rw [processSensorReading_detected]
      split
      · rename_i h
        subst h
        exact List.mem_append_left _ ha
      · exact ha

theorem processAll_call_indexed (E : Env) (m : AdvancedDataManager)
    (cs rest : List (Clock × SensorReading)) (clk : Clock) (S : SensorReading)
    (a : AnomalyRecord)
    (ha : a ∈ callRecords E clk (processAll E m cs) S) :
    a ∈ (processAll E m (cs ++ (clk, S) :: rest)).detected_anomalies S.vehicle_id := by
  rw [processAll_append]
  show a ∈ (processAll E (processSensorReading E clk (processAll E m cs) S)
    rest).detected_anomalies S.vehicle_id
  apply processAll_detected_mono
  rw [processSensorReading_detected, if_pos rfl]
  exact List.mem_append_right _ ha

theorem processAll_indexed_origin (E : Env) (m : AdvancedDataManager)
    (h0 : ∀ v, m.detected_anomalies v = []) (calls : List (Clock × SensorReading)) (v : Int)
    (a : AnomalyRecord) (ha : a ∈ (processAll E m calls).detected_anomalies v) :
    ∃ (cs : List (Clock × SensorReading)) (clk : Clock) (S : SensorReading)
      (rest : List (Clock × SensorReading)),
      calls = cs ++ (clk, S) :: rest ∧ S.vehicle_id = v ∧
        a ∈ callRecords E clk (processAll E m cs) S := by
  induction calls using List.reverseRecOn with
  | nil =>
      rw [show processAll E m [] = m from rfl, h0 v] at ha
      exact absurd ha (List.not_mem_nil a)
  | append_singleton xs c ih =>
      obtain ⟨clk, reading⟩ := c
      rw [processAll_snoc, processSensorReading_detected] at ha
      have hold : a ∈ (processAll E m xs).detected_anomalies v →
          ∃ (cs : List (Clock × SensorReading)) (clk0 : Clock) (S : SensorReading)
            (rest : List (Clock × SensorReading)),
            xs ++ [(clk, reading)] = cs ++ (clk0, S) :: rest ∧ S.vehicle_id = v ∧
              a ∈ callRecords E clk0 (processAll E m cs) S := by
        intro h
        obtain ⟨cs, clk0, S, rest, hx, hv, hmem⟩ := ih h
        refine ⟨cs, clk0, S, rest ++ [(clk, reading)], ?_, hv, hmem⟩
        rw [hx, List.append_assoc, List.cons_append]
      split at ha
      · rename_i hv
        subst hv
        rcases List.mem_append.mp ha with h | h
        · exact hold h
        · exact ⟨xs, clk, reading, [], rfl, rfl, h⟩
      · exact hold ha

theorem mem_pushEvict_self (window : List SensorReading) (reading : SensorReading) :
    reading ∈ pushEvict window reading := by
  unfold pushEvict
  split
  · rename_i h
    cases window with
    | nil => simp [WINDOW_SIZE] at h
    | cons a rest => simp
  · exact List.mem_append_right _ (List.mem_singleton_self reading)

theorem mem_samplesOf (v : Int) (calls : List (Clock × SensorReading)) (S : SensorReading)
    (h : S ∈ samplesOf v calls) : S.vehicle_id = v ∧ ∃ clk : Clock, (clk, S) ∈ calls := by
  unfold samplesOf at h
  rw [List.mem_filter, List.mem_map] at h
  obtain ⟨⟨c, hc, hS⟩, hv⟩ := h
  refine ⟨of_decide_eq_true hv, c.1, ?_⟩
  rw [← hS]
  exact hc

/-- A vehicle with a sample in its window has a profile, in every state between
two calls: `printEnhancedAnalytics`, which evaluates `vehicle_profiles[vehicle_id]`
only behind its window guard, inserts no profile and leaves the store as it is. -/
theorem processAll_window_profile (E : Env) (clk0 : Clock)
    (data_open anomaly_open performance_open : Bool) (calls : List (Clock × SensorReading))
    (v : Int)
    (h : (processAll E (AdvancedDataManager.new clk0 data_open anomaly_open performance_open)
      calls).vehicle_data_windows v ≠ []) :
    ((processAll E (AdvancedDataManager.new clk0 data_open anomaly_open performance_open)
      calls).vehicle_profiles v).isSome = true := by
  induction calls using List.reverseRecOn with
  | nil => exact absurd rfl h
  | append_singleton cs c ih =>
      obtain ⟨clk, reading⟩ := c
      rw [processAll_snoc] at h ⊢
      generalize processAll E
        (AdvancedDataManager.new clk0 data_open anomaly_open performance_open) cs = m at ih h ⊢
      by_cases hv : v = reading.vehicle_id
      · subst hv
        cases hm : m.vehicle_profiles reading.vehicle_id with
        | none =>
            obtain ⟨st, k, h1⟩ := processSensorReading_profile_none E clk m reading hm
            rw [h1]
            rfl
        | some p0 =>
            obtain ⟨st, k, h1⟩ := processSensorReading_profile_shape E clk m reading p0 hm
            rw [h1]
            rfl
      · rw [processSensorReading_profiles_other E clk m reading v hv]
        apply ih
        rw [processSensorReading_windows, mapSet_other _ _ _ _ hv] at h
        exact h

theorem step_lockInvariant (E : Env) (init : AdvancedDataManager) (s t : System)
    (hs : lockInvariant E init s) (hst : Step E s t) : lockInvariant E init t := by
  cases hst with
  | ingestLock clk reading hl hp =>
      unfold lockInvariant at hs ⊢
      rw [hp] at hs
      exact ⟨rfl, hs.2⟩
  | ingestAppend clk reading hp =>
      unfold lockInvariant at hs ⊢
      rw [hp] at hs
      refine ⟨hs.1, ?_⟩
      show ingested E clk s.store reading = ingested E clk (processAll E init s.completed) reading
      rw [hs.2]
  | ingestIndex clk reading hp =>
      unfold lockInvariant at hs ⊢
      rw [hp] at hs
      refine ⟨hs.1, ?_⟩
      show logReading (checkGeofenceViolations E clk
          (detectEnhancedAnomalies E clk s.store reading
            (s.store.vehicle_data_windows reading.vehicle_id)).1 reading) reading =
        beforeTransition E clk (processAll E init s.completed) reading
      rw [hs.2]
      rfl
  | ingestFinish clk reading hp =>
      unfold lockInvariant at hs ⊢
      rw [hp] at hs
      refine ⟨hs.1, ?_⟩
      show logPerformance (updateVehicleState clk s.store reading.vehicle_id) =
        processSensorReading E clk (processAll E init s.completed) reading
      rw [hs.2, processSensorReading_eq]
  | ingestUnlock clk reading hp =>
      unfold lockInvariant at hs ⊢
      rw [hp] at hs
      refine ⟨by simp, ?_⟩
      show s.store = processAll E init (s.completed ++ [(clk, reading)])
      rw [processAll_snoc, hs.2]
  | readerLock hl =>
      unfold lockInvariant at hs ⊢
      cases hp : s.phase with
      | idle =>
          rw [hp] at hs
          exact ⟨by simp, hs.2⟩
      | locked clk reading =>
          rw [hp] at hs
          rw [hl] at hs
          exact absurd hs.1 (by simp)
      | appended clk reading =>
          rw [hp] at hs
          rw [hl] at hs
          exact absurd hs.1 (by simp)
      | indexed clk reading =>
          rw [hp] at hs
          rw [hl] at hs
          exact absurd hs.1 (by simp)
      | finished clk reading =>
          rw [hp] at hs
          rw [hl] at hs
          exact absurd hs.1 (by simp)
  | readerUnlock hl =>
      unfold lockInvariant at hs ⊢
      cases hp : s.phase with
      | idle =>
          rw [hp] at hs
          exact ⟨by simp, hs.2⟩
      | locked clk reading =>
          rw [hp] at hs
          rw [hl] at hs
          exact absurd hs.1 (by simp)
      | appended clk reading =>
          rw [hp] at hs
          rw [hl] at hs
          exact absurd hs.1 (by simp)
      | indexed clk reading =>
          rw [hp] at hs
          rw [hl] at hs
          exact absurd hs.1 (by simp)
      | finished clk reading =>
          rw [hp] at hs
          rw [hl] at hs
          exact absurd hs.1 (by simp)

theorem reachable_lockInvariant (E : Env) (clk0 : Clock)
    (data_open anomaly_open performance_open : Bool) (s : System)
    (hr : Reachable E clk0 data_open anomaly_open performance_open s) :
    lockInvariant E (AdvancedDataManager.new clk0 data_open anomaly_open performance_open) s := by
  unfold Reachable at hr
  induction hr with
  | refl => exact ⟨by simp [System.start], rfl⟩
  | tail _ hstep ih => exact step_lockInvariant E _ _ _ ih hstep

theorem reader_store (E : Env) (clk0 : Clock)
    (data_open anomaly_open performance_open : Bool) (s : System)
    (hr : Reachable E clk0 data_open anomaly_open performance_open s)
    (hl : s.lock = LockHolder.reader) :
    s.store = processAll E
      (AdvancedDataManager.new clk0 data_open anomaly_open performance_open) s.completed := by
  have h := reachable_lockInvariant E clk0 data_open anomaly_open performance_open s hr
  unfold lockInvariant at h
  cases hp : s.phase with
  | idle =>
      rw [hp] at h
      exact h.2
  | locked clk reading =>
      rw [hp] at h
      rw [hl] at h
      exact absurd h.1 (by simp)
  | appended clk reading =>
      rw [hp] at h
      rw [hl] at h
      exact absurd h.1 (by simp)
  | indexed clk reading =>
      rw [hp] at h
      rw [hl] at h
      exact absurd h.1 (by simp)
  | finished clk reading =>
      rw [hp] at h
      rw [hl] at h
      exact absurd h.1 (by simp)

theorem reachable_call (E : Env) (clk0 : Clock)
    (data_open anomaly_open performance_open : Bool) (m : AdvancedDataManager)
    (calls : List (Clock × SensorReading)) (clk : Clock) (reading : SensorReading)
    (hr : Reachable E clk0 data_open anomaly_open performance_open (restAt m calls)) :
    Reachable E clk0 data_open anomaly_open performance_open
      (restAt (processSensorReading E clk m reading) (calls ++ [(clk, reading)])) := by
  unfold Reachable at hr ⊢
  have h1 := Relation.ReflTransGen.tail hr
    (Step.ingestLock (restAt m calls) clk reading rfl rfl)
  have h2 := Relation.ReflTransGen.tail h1 (Step.ingestAppend _ clk reading rfl)
  have h3 := Relation.ReflTransGen.tail h2 (Step.ingestIndex _ clk reading rfl)
  have h4 := Relation.ReflTransGen.tail h3 (Step.ingestFinish _ clk reading rfl)
  exact Relation.ReflTransGen.tail h4 (Step.ingestUnlock _ clk reading rfl)

theorem reachable_run (E : Env) (clk0 : Clock)
    (data_open anomaly_open performance_open : Bool) (calls : List (Clock × SensorReading)) :
    Reachable E clk0 data_open anomaly_open performance_open
      (restAt (processAll E
        (AdvancedDataManager.new clk0 data_open anomaly_open performance_open) calls) calls) := by
  induction calls using List.reverseRecOn with
  | nil => exact Relation.ReflTransGen.refl
  | append_singleton cs c ih =>
      obtain ⟨clk, reading⟩ := c
      rw [processAll_snoc]
      exact reachable_call E clk0 data_open anomaly_open performance_open _ cs clk reading ih

theorem reachable_reader (E : Env) (clk0 : Clock)
    (data_open anomaly_open performance_open : Bool) (calls : List (Clock × SensorReading)) :
    Reachable E clk0 data_open anomaly_open performance_open
      (readerAt (processAll E
        (AdvancedDataManager.new clk0 data_open anomaly_open performance_open) calls) calls) :=
  Relation.ReflTransGen.tail
    (reachable_run E clk0 data_open anomaly_open performance_open calls)
    (Step.readerLock _ rfl)

theorem samplesOf_calmCalls (v : Int) (t : TimePoint) (n : Nat) :
    samplesOf v (calmCalls v t n) = List.replicate n (calmReading v t) := by
  induction n with
  | zero => rfl
  | succ n ih =>
      rw [calmCalls_succ, samplesOf_snoc,
        if_pos (show (calmReading v t).vehicle_id = v from rfl), ih, List.replicate_succ']

theorem evicting_window :
    (processAll exampleEnv (AdvancedDataManager.new (constClock 0) true true true)
      ((constClock 0, overheatReading 7 0) :: calmCalls 7 0 200)).vehicle_data_windows 7 =
      List.replicate 200 (calmReading 7 0) := by
  rw [processAll_window]
  have hs : samplesOf 7 ((constClock 0, overheatReading 7 0) :: calmCalls 7 0 200) =
      overheatReading 7 0 :: List.replicate 200 (calmReading 7 0) := by
    rw [← samplesOf_calmCalls 7 0 200]
    rfl
  rw [hs, List.length_cons, List.length_replicate]
  rfl

/-- Inside a call, between the window append and the anomaly indexing, the store
holds the sample in the window and none of its anomalies: the state that the
lock hides from the readers. -/
theorem midCall_example :
    Relation.ReflTransGen (Step exampleEnv) (System.start (constClock 0) true true true)
      midCallSystem ∧
    midCallSystem.store.vehicle_data_windows 7 = [overheatReading 7 0] ∧
    midCallSystem.store.detected_anomalies 7 = [] ∧
    midCallSystem.lock = LockHolder.ingest := by
  refine ⟨?_, ?_, ?_, rfl⟩
  · exact Relation.ReflTransGen.tail
      (Relation.ReflTransGen.tail Relation.ReflTransGen.refl
        (Step.ingestLock _ (constClock 0) (overheatReading 7 0) rfl rfl))
      (Step.ingestAppend _ (constClock 0) (overheatReading 7 0) rfl)
  · show (ingested exampleEnv (constClock 0) (freshManager 0)
      (overheatReading 7 0)).vehicle_data_windows 7 = _
    rw [ingested_windows]
    rfl
  · show (ingested exampleEnv (constClock 0) (freshManager 0)
      (overheatReading 7 0)).detected_anomalies 7 = _
    rw [ingested_detected]
    rfl

theorem overheat_indexed (E : Env) (m : AdvancedDataManager) (clk : Clock)
    (S : SensorReading) (rest : List (Clock × SensorReading)) (v : Int)
    (hv : S.vehicle_id = v) (ht : S.engine_temp_celsius > 110) :
    ∃ a ∈ (processAll E m ((clk, S) :: rest)).detected_anomalies v,
      a.type = AnomalyType.TEMP_OUT_OF_RANGE ∧ a.value = some S.engine_temp_celsius := by
  subst hv
  have hmem : tempEmission (callScore E clk (processAll E m []) S) S ∈
      callDetections E clk (processAll E m []) S := by
    have h := tempEmission_mem_call E clk (processAll E m []) S ht
    have hn : ∀ e ∈ maintenanceEmissions E clk (processAll E m []) S ++
        (violatedFences E (processAll E m []).geofences S).map geofenceEmission,
        e.type ≠ AnomalyType.TEMP_OUT_OF_RANGE := by
      intro e he
      rcases List.mem_append.1 he with he | he
      · unfold maintenanceEmissions at he
        split at he
        · rw [List.mem_singleton.mp he]
          simp [maintenanceEmission]
        · simp at he
      · simp only [List.mem_map] at he
        obtain ⟨g, _, hg⟩ := he
        rw [← hg]
        simp [geofenceEmission]
    unfold callEmissions at h
    rw [List.append_assoc] at h
    rcases List.mem_append.1 h with h | h
    · exact h
    · exact absurd rfl (hn _ h)
  obtain ⟨i, hi⟩ := mem_stamp clk S.vehicle_id 0 _ _ hmem
  have hidx := processAll_call_indexed E m [] rest clk S _
    (List.mem_append_left _ hi)
  rw [List.nil_append] at hidx
  exact ⟨_, hidx, rfl, rfl⟩

theorem evicting_indexed :
    ∃ a ∈ (processAll exampleEnv (AdvancedDataManager.new (constClock 0) true true true)
        ((constClock 0, overheatReading 7 0) :: calmCalls 7 0 200)).detected_anomalies 7,
      a.type = AnomalyType.TEMP_OUT_OF_RANGE ∧ a.value = some 115 :=
  overheat_indexed exampleEnv (AdvancedDataManager.new (constClock 0) true true true)
    (constClock 0) (overheatReading 7 0) (calmCalls 7 0 200) 7 rfl (by decide)

theorem readerAt_store (m : AdvancedDataManager) (calls : List (Clock × SensorReading)) :
    (readerAt m calls).store = m := rfl

/-- A reader after an eviction.  After an overheat sample of vehicle 7 and 200
calm samples of vehicle 7, a reader that holds the lock finds a TEMP_RANGE
anomaly of value 115 indexed under vehicle 7 while the window of vehicle 7 holds
200 samples, each the calm sample of 90 degrees: the window has evicted the
sample that triggered the anomaly, long after the call that indexed it. -/
theorem reader_after_eviction :
    ∃ s : System,
      Reachable exampleEnv (constClock 0) true true true s ∧
      s.lock = LockHolder.reader ∧
      (∃ a ∈ s.store.detected_anomalies 7,
        a.type = AnomalyType.TEMP_OUT_OF_RANGE ∧ a.value = some 115) ∧
      (s.store.vehicle_data_windows 7).length = 200 ∧
      (∀ S ∈ s.store.vehicle_data_windows 7, S = calmReading 7 0) ∧
      overheatReading 7 0 ∉ s.store.vehicle_data_windows 7 := by
  refine ⟨readerAt (processAll exampleEnv
      (AdvancedDataManager.new (constClock 0) true true true)
      ((constClock 0, overheatReading 7 0) :: calmCalls 7 0 200))
      ((constClock 0, overheatReading 7 0) :: calmCalls 7 0 200),
    reachable_reader exampleEnv (constClock 0) true true true
      ((constClock 0, overheatReading 7 0) :: calmCalls 7 0 200), rfl, ?_, ?_, ?_, ?_⟩
  · rw [readerAt_store]
    exact evicting_indexed
  · rw [readerAt_store, evicting_window, List.length_replicate]
  · rw [readerAt_store, evicting_window]
    intro S hS
    exact List.eq_of_mem_replicate hS
  · rw [readerAt_store, evicting_window]
    intro hS
    have ht := congrArg SensorReading.engine_temp_celsius (List.eq_of_mem_replicate hS)
    revert ht
    decide

/-- Claim C28.  The window append and the anomaly indexing of one
`processSensorReading` call are visible atomically: a reader that holds
`data_mutex` observes the store as a whole number of calls left it.  Every
anomaly it finds indexed under a vehicle was stored by a completed call on a
sample of that vehicle, which that call appended to the window; every sample it
finds in a window was appended by a completed call; and every anomaly of every
completed call is indexed, so no window holds a sample whose anomalies are not
indexed yet. -/
theorem reader_sees_whole_calls (E : Env) (clk0 : Clock)
    (data_open anomaly_open performance_open : Bool) (s : System)
    (hr : Reachable E clk0 data_open anomaly_open performance_open s)
    (hl : s.lock = LockHolder.reader) :
    s.store = processAll E
      (AdvancedDataManager.new clk0 data_open anomaly_open performance_open) s.completed ∧
    (∀ (v : Int) (a : AnomalyRecord), a ∈ s.store.detected_anomalies v →
      ∃ (cs : List (Clock × SensorReading)) (clk : Clock) (S : SensorReading)
        (rest : List (Clock × SensorReading)),
        s.completed = cs ++ (clk, S) :: rest ∧ S.vehicle_id = v ∧
        S ∈ (processAll E
          (AdvancedDataManager.new clk0 data_open anomaly_open performance_open)
          (cs ++ [(clk, S)])).vehicle_data_windows v ∧
        a ∈ callRecords E clk (processAll E
          (AdvancedDataManager.new clk0 data_open anomaly_open performance_open) cs) S) ∧
    (∀ (v : Int) (S : SensorReading), S ∈ s.store.vehicle_data_windows v →
      S.vehicle_id = v ∧ ∃ clk : Clock, (clk, S) ∈ s.completed) ∧
    (∀ (cs : List (Clock × SensorReading)) (clk : Clock) (S : SensorReading)
      (rest : List (Clock × SensorReading)), s.completed = cs ++ (clk, S) :: rest →
      ∀ a ∈ callRecords E clk (processAll E
          (AdvancedDataManager.new clk0 data_open anomaly_open performance_open) cs) S,
        a ∈ s.store.detected_anomalies S.vehicle_id) := by
  have hstore := reader_store E clk0 data_open anomaly_open performance_open s hr hl
  refine ⟨hstore, ?_, ?_, ?_⟩
  · intro v a ha
    rw [hstore] at ha
    obtain ⟨cs, clk, S, rest, hc, hv, hmem⟩ := processAll_indexed_origin E _
      (fun _ => rfl) s.completed v a ha
    refine ⟨cs, clk, S, rest, hc, hv, ?_, hmem⟩
    rw [processAll_snoc, processSensorReading_windows, ← hv, mapSet_same]
    exact mem_pushEvict_self _ S
  · intro v S hS
    rw [hstore, processAll_window] at hS
    exact mem_samplesOf v s.completed S (List.mem_of_mem_drop hS)
  · intro cs clk S rest hc a ha
    rw [hstore, hc]
    exact processAll_call_indexed E _ cs rest clk S a ha

/-- Witness for C28: a reader that takes the lock after the call on an overheat
sample of vehicle 7. -/
theorem reader_sees_whole_calls_witness :
    Reachable exampleEnv (constClock 0) true true true
      (readerAt (processAll exampleEnv (AdvancedDataManager.new (constClock 0) true true true)
        [(constClock 0, overheatReading 7 0)]) [(constClock 0, overheatReading 7 0)]) ∧
    (readerAt (processAll exampleEnv (AdvancedDataManager.new (constClock 0) true true true)
        [(constClock 0, overheatReading 7 0)]) [(constClock 0, overheatReading 7 0)]).lock =
      LockHolder.reader ∧
    ∀ (cs : List (Clock × SensorReading)) (clk : Clock) (S : SensorReading)
      (rest : List (Clock × SensorReading)),
      [(constClock 0, overheatReading 7 0)] = cs ++ (clk, S) :: rest →
      ∀ a ∈ callRecords exampleEnv clk (processAll exampleEnv
          (AdvancedDataManager.new (constClock 0) true true true) cs) S,
        a ∈ (processAll exampleEnv (AdvancedDataManager.new (constClock 0) true true true)
          [(constClock 0, overheatReading 7 0)]).detected_anomalies S.vehicle_id :=
  ⟨reachable_reader exampleEnv (constClock 0) true true true
      [(constClock 0, overheatReading 7 0)], rfl,
    (reader_sees_whole_calls exampleEnv (constClock 0) true true true _
      (reachable_reader exampleEnv (constClock 0) true true true
        [(constClock 0, overheatReading 7 0)]) rfl).2.2.2⟩

/-! ## Retraining and the frame of a call -/

theorem sum_map_sq_dev (data : List FeatureVector) (f : FeatureVector → ℚ) (mu : ℚ) :
    (data.map fun fv => (f fv - mu) * (f fv - mu)).sum =
      ((data.map f).map fun x => (x - mu) * (x - mu)).sum := by
  rw [List.map_map]
  rfl

theorem trainModel_statistics (E : Env) (d : MLAnomalyDetector) (u : Int)
    (hist : List SensorReading) (stale : Nat → ℚ) (h50 : 50 ≤ hist.length) :
    (d.trainModel E u hist stale).feature_means u =
      (featureColumns (trainFeatures E hist stale)).map specMean ∧
    (d.trainModel E u hist stale).feature_stds u =
      (featureColumns (trainFeatures E hist stale)).map (specPopulationStd E) := by
  have hne : (trainFeatures E hist stale).isEmpty = false := by
    have hl := trainFeatures_length E hist stale
    cases hf : trainFeatures E hist stale with
    | nil =>
        rw [hf] at hl
        simp at hl
        omega
    | cons a rest => rfl
  unfold MLAnomalyDetector.trainModel
  rw [if_neg (by omega)]
  unfold MLAnomalyDetector.calculateStatistics
  simp only [mapSet_same, Option.getD_some, hne, Bool.false_eq_true, if_false]
  constructor
  · simp only [featureColumns, List.map_cons, List.map_nil, specMean, sumOver,
      List.length_map]
  · simp only [featureColumns, List.map_cons, List.map_nil, specPopulationStd, specMean,
      sumOver, List.length_map, List.zip_cons_cons, List.zip_nil_right, sum_map_sq_dev]

theorem trainModel_other (E : Env) (d : MLAnomalyDetector) (u w : Int)
    (hist : List SensorReading) (stale : Nat → ℚ) (hw : w ≠ u) :
    (d.trainModel E u hist stale).training_data w = d.training_data w ∧
    (d.trainModel E u hist stale).feature_means w = d.feature_means w ∧
    (d.trainModel E u hist stale).feature_stds w = d.feature_stds w := by
  by_cases h : hist.length < 50
  · rw [trainModel_short E d u hist stale h]
    exact ⟨rfl, rfl, rfl⟩
  · obtain ⟨h1, _, _, _, h5⟩ := trainModel_vectors E d u hist stale (by omega)
    rw [h1]
    exact ⟨mapSet_other _ _ _ _ hw, (h5 w hw).1, (h5 w hw).2⟩

theorem updateTrends_other (a : AdvancedAnalytics) (v u : Int) (reading : SensorReading)
    (hu : u ≠ v) :
    (a.updateTrends v reading).speed_trends u = a.speed_trends u ∧
    (a.updateTrends v reading).rpm_trends u = a.rpm_trends u ∧
    (a.updateTrends v reading).temp_trends u = a.temp_trends u ∧
    (a.updateTrends v reading).fuel_trends u = a.fuel_trends u ∧
    (a.updateTrends v reading).acceleration_trends u = a.acceleration_trends u := by
  unfold AdvancedAnalytics.updateTrends
  exact ⟨mapSet_other _ _ _ _ hu, mapSet_other _ _ _ _ hu, mapSet_other _ _ _ _ hu,
    mapSet_other _ _ _ _ hu, mapSet_other _ _ _ _ hu⟩

/-- Claim C31.  A `processSensorReading` call on a sample of vehicle `v` retrains
the baseline of `v` when the window of `v` it leaves holds at least 100 samples
and the counter `total_readings_processed` it leaves (the incremented counter)
is divisible by 100: the training vectors of `v` become the `|window| - 1`
vectors of the consecutive pairs of that window, the means and standard
deviations of `v` become the means and population standard deviations of the
seven features over these vectors, and the baseline of every other vehicle
stays.  In every other call the whole detector stays as it was. -/
theorem retrain_rule (E : Env) (clk : Clock) (m : AdvancedDataManager) (S : SensorReading) :
    ((processSensorReading E clk m S).vehicle_data_windows S.vehicle_id =
        pushEvict (m.vehicle_data_windows S.vehicle_id) S ∧
      (processSensorReading E clk m S).total_readings_processed =
        wrapInt32 (m.total_readings_processed + 1)) ∧
    (100 ≤ ((processSensorReading E clk m S).vehicle_data_windows S.vehicle_id).length ∧
        (processSensorReading E clk m S).total_readings_processed % 100 = 0 →
      (processSensorReading E clk m S).ml_detector.training_data S.vehicle_id =
        some (trainFeatures E
          ((processSensorReading E clk m S).vehicle_data_windows S.vehicle_id)
          (trainingReads E (m.calls_started + 1))) ∧
      (trainFeatures E
        ((processSensorReading E clk m S).vehicle_data_windows S.vehicle_id)
        (trainingReads E (m.calls_started + 1))).length =
        ((processSensorReading E clk m S).vehicle_data_windows S.vehicle_id).length - 1 ∧
      (∀ (i : Nat) (previous current : SensorReading),
        ((processSensorReading E clk m S).vehicle_data_windows S.vehicle_id).get? i =
          some previous →
        ((processSensorReading E clk m S).vehicle_data_windows S.vehicle_id).get? (i + 1) =
          some current →
        (trainFeatures E
          ((processSensorReading E clk m S).vehicle_data_windows S.vehicle_id)
          (trainingReads E (m.calls_started + 1))).get? i =
          some (trainFeature E previous current
            (trainingReads E (m.calls_started + 1) i))) ∧
      (processSensorReading E clk m S).ml_detector.feature_means S.vehicle_id =
        (featureColumns (trainFeatures E
          ((processSensorReading E clk m S).vehicle_data_windows S.vehicle_id)
          (trainingReads E (m.calls_started + 1)))).map
          specMean ∧
      (processSensorReading E clk m S).ml_detector.feature_stds S.vehicle_id =
        (featureColumns (trainFeatures E
          ((processSensorReading E clk m S).vehicle_data_windows S.vehicle_id)
          (trainingReads E (m.calls_started + 1)))).map
          (specPopulationStd E) ∧
      ∀ u, u ≠ S.vehicle_id →
        (processSensorReading E clk m S).ml_detector.training_data u =
          m.ml_detector.training_data u ∧
        (processSensorReading E clk m S).ml_detector.feature_means u =
          m.ml_detector.feature_means u ∧
        (processSensorReading E clk m S).ml_detector.feature_stds u =
          m.ml_detector.feature_stds u) ∧
    (¬ (100 ≤ ((processSensorReading E clk m S).vehicle_data_windows S.vehicle_id).length ∧
        (processSensorReading E clk m S).total_readings_processed % 100 = 0) →
      (processSensorReading E clk m S).ml_detector = m.ml_detector) := by
  have hw : (processSensorReading E clk m S).vehicle_data_windows S.vehicle_id =
      pushEvict (m.vehicle_data_windows S.vehicle_id) S := by
    rw [processSensorReading_windows, mapSet_same]
  have hn := processSensorReading_total_readings E clk m S
  rw [hw, hn, processSensorReading_ml_detector, ingested_ml_detector]
  refine ⟨⟨rfl, rfl⟩, ?_, ?_⟩
  · intro hc
    rw [if_pos hc]
    have h50 : 50 ≤ (pushEvict (m.vehicle_data_windows S.vehicle_id) S).length := by omega
    obtain ⟨h1, _, _, _, _⟩ := trainModel_vectors E m.ml_detector S.vehicle_id _
      (trainingReads E (m.calls_started + 1)) h50
    obtain ⟨h6, h7⟩ := trainModel_statistics E m.ml_detector S.vehicle_id _
      (trainingReads E (m.calls_started + 1)) h50
    refine ⟨?_, trainFeatures_length E _ _, ?_, h6, h7, ?_⟩
    · rw [h1, mapSet_same]
    · intro i previous current hp hcur
      exact trainFeatures_get? E _ _ i previous current hp hcur
    · intro u hu
      exact trainModel_other E m.ml_detector S.vehicle_id u _ _ hu
  · intro hc
    rw [if_neg hc]

/-- Claim C34.  `processSensorReading` of a sample for vehicle `v` leaves
unchanged, for every other vehicle id `u`: the window, the five trend buffers,
the anomaly index entry, the trained baseline (training vectors, means and
standard deviations) and the profile of `u` with every field of it. -/
theorem other_vehicles_untouched (E : Env) (clk : Clock) (m : AdvancedDataManager)
    (S : SensorReading) (u : Int) (hu : u ≠ S.vehicle_id) :
    (processSensorReading E clk m S).vehicle_data_windows u = m.vehicle_data_windows u ∧
    ((processSensorReading E clk m S).analytics.speed_trends u = m.analytics.speed_trends u ∧
      (processSensorReading E clk m S).analytics.rpm_trends u = m.analytics.rpm_trends u ∧
      (processSensorReading E clk m S).analytics.temp_trends u = m.analytics.temp_trends u ∧
      (processSensorReading E clk m S).analytics.fuel_trends u = m.analytics.fuel_trends u ∧
      (processSensorReading E clk m S).analytics.acceleration_trends u =
        m.analytics.acceleration_trends u) ∧
    (processSensorReading E clk m S).detected_anomalies u = m.detected_anomalies u ∧
    ((processSensorReading E clk m S).ml_detector.training_data u =
        m.ml_detector.training_data u ∧
      (processSensorReading E clk m S).ml_detector.feature_means u =
        m.ml_detector.feature_means u ∧
      (processSensorReading E clk m S).ml_detector.feature_stds u =
        m.ml_detector.feature_stds u) ∧
    (processSensorReading E clk m S).vehicle_profiles u = m.vehicle_profiles u := by
  refine ⟨?_, ?_, ?_, ?_, processSensorReading_profiles_other E clk m S u hu⟩
  · rw [processSensorReading_windows, mapSet_other _ _ _ _ hu]
  · rw [processSensorReading_analytics]
    exact updateTrends_other m.analytics S.vehicle_id u S hu
  · rw [processSensorReading_detected, if_neg hu]
  · rw [processSensorReading_ml_detector, ingested_ml_detector]
    split
    · exact trainModel_other E m.ml_detector S.vehicle_id u _ _ hu
    · exact ⟨rfl, rfl, rfl⟩

/-- Witness for C34: vehicle 3 through the call on an overheat sample of vehicle 7. -/
theorem other_vehicles_untouched_witness :
    (3 : Int) ≠ (overheatReading 7 0).vehicle_id ∧
    (processSensorReading exampleEnv (constClock 0) (freshManager 0)
      (overheatReading 7 0)).vehicle_profiles 3 = (freshManager 0).vehicle_profiles 3 :=
  ⟨by decide,
    (other_vehicles_untouched exampleEnv (constClock 0) (freshManager 0)
      (overheatReading 7 0) 3 (by decide)).2.2.2.2⟩

/-! ## Kinds and severities of the stored anomalies -/

theorem callEmissions_pairs (E : Env) (clk : Clock) (m : AdvancedDataManager) (S : SensorReading)
    (e : Emission) (he : e ∈ callEmissions E clk m S) :
    (e.type, e.severity) ∈ emittedPairs ∧
    (e.type = AnomalyType.RPM_OUT_OF_RANGE →
      S.rpm > 8000 ∨ (S.rpm < 400 ∧ S.engine_on = true ∧ S.speed_kmph > 10)) ∧
    (e.type = AnomalyType.FUEL_LEAK →
      e ∈ fuelEmissions (callScore E clk m S)
        ((ingested E clk m S).vehicle_data_windows S.vehicle_id)) := by
  unfold callEmissions callDetections detectEmissions at he
  simp only [List.mem_append] at he
  rcases he with (((he | he) | he) | he) | he
  · unfold instantEmissions at he
    simp only [List.mem_append] at he
    rcases he with ((((he | he) | he) | he) | he) | he <;>
      split at he <;> simp only [List.mem_singleton, List.not_mem_nil] at he <;>
      subst he <;> dsimp only <;>
      refine ⟨?_, ?_, ?_⟩ <;>
      first
      | (intro ht; assumption)
      | (intro ht; split at ht <;> exact absurd ht (by decide))
      | (intro ht; exact absurd ht (by decide))
      | (split <;> simp [emittedPairs])
      | simp [emittedPairs]
  · refine ⟨?_, ?_, fun _ => he⟩
    · unfold fuelEmissions at he
      split at he
      · rw [List.mem_singleton.mp he]
        simp [emittedPairs]
      · simp at he
    · intro ht
      unfold fuelEmissions at he
      split at he
      · rw [List.mem_singleton.mp he] at ht
        simp at ht
      · simp at he
  · unfold mlEmissions at he
    split at he
    · rw [List.mem_singleton.mp he]
      simp [emittedPairs]
    · simp at he
  · unfold maintenanceEmissions at he
    split at he
    · rw [List.mem_singleton.mp he]
      simp [emittedPairs, maintenanceEmission]
    · simp at he
  · simp only [List.mem_map] at he
    obtain ⟨g, _, hg⟩ := he
    rw [← hg]
    simp [emittedPairs, geofenceEmission]

theorem mem_stamp_fields (clk : Clock) (v : Int) (k : Nat) (es : List Emission)
    (a : AnomalyRecord) (h : a ∈ stamp clk v k es) :
    ∃ e ∈ es, a.type = e.type ∧ a.severity = e.severity ∧ a.sensor_name = e.sensor ∧
      a.value = e.value := by
  induction es generalizing k with
  | nil => simp [stamp] at h
  | cons x xs ih =>
      simp only [stamp, List.mem_cons] at h
      rcases h with h | h
      · exact ⟨x, List.mem_cons_self _ _, by rw [h]; rfl, by rw [h]; rfl, by rw [h]; rfl,
          by rw [h]; rfl⟩
      · obtain ⟨e, he, h1⟩ := ih (k + 1) h
        exact ⟨e, List.mem_cons_of_mem _ he, h1⟩

theorem mem_callRecords_fields (E : Env) (clk : Clock) (m : AdvancedDataManager)
    (S : SensorReading) (a : AnomalyRecord) (h : a ∈ callRecords E clk m S) :
    ∃ e ∈ callEmissions E clk m S, a.type = e.type ∧ a.severity = e.severity ∧
      a.sensor_name = e.sensor ∧ a.value = e.value := by
  unfold callRecords at h
  unfold callEmissions
  rw [List.append_assoc]
  rcases List.mem_append.1 h with h | h
  · obtain ⟨e, he, h1⟩ := mem_stamp_fields _ _ _ _ a h
    exact ⟨e, List.mem_append_left _ he, h1⟩
  · obtain ⟨e, he, h1⟩ := mem_stamp_fields _ _ _ _ a h
    exact ⟨e, List.mem_append_right _ he, h1⟩

theorem mem_callRecords_of_mem (E : Env) (clk : Clock) (m : AdvancedDataManager)
    (S : SensorReading) (e : Emission) (h : e ∈ callEmissions E clk m S) :
    ∃ i : Nat, AnomalyRecord.new (clk i) S.vehicle_id e.sensor e.value e.type e.description
      e.severity e.location ∈ callRecords E clk m S := by
  unfold callEmissions at h
  unfold callRecords
  rw [List.append_assoc] at h
  rcases List.mem_append.1 h with h | h
  · obtain ⟨i, hi⟩ := mem_stamp clk S.vehicle_id 0 _ e h
    exact ⟨i, List.mem_append_left _ hi⟩
  · obtain ⟨i, hi⟩ := mem_stamp clk S.vehicle_id
      ((callDetections E clk m S).length + insertionReads m S) _ e h
    exact ⟨i, List.mem_append_right _ hi⟩

theorem pair_kind (a : AnomalyRecord) (h : (a.type, a.severity) ∈ emittedPairs) :
    a.getTypeString ∈ emittableKinds ∧ a.getTypeString ∉ neverEmittedKinds ∧
      a.severity ∈ ([2, 3, 4, 5] : List Int) := by
  unfold emittedPairs at h
  simp only [List.mem_cons, List.mem_singleton, Prod.mk.injEq, List.not_mem_nil,
    or_false] at h
  unfold AnomalyRecord.getTypeString
  rcases h with h | h | h | h | h | h | h | h | h | h | h <;>
    rw [h.1, h.2] <;> refine ⟨?_, ?_, ?_⟩ <;> decide

/-- Claim C38.  Every anomaly that a `processSensorReading` call stores has a
kind token among SPEED_RANGE, RPM_RANGE, TEMP_RANGE, HARSH_ACCEL, HARSH_BRAKE,
SENSOR_FAIL, FUEL_LEAK, ERRATIC, MAINTENANCE and GEOFENCE, none among
SPEED_SPIKE, RPM_SPIKE, TEMP_SPIKE, ENGINE_STALL and OVERHEATING, and a severity
among 2, 3, 4 and 5; a stalled-engine sample (engine off, rpm 0, speed 0) gets
no ENGINE_STALL and no RPM_RANGE anomaly. -/
theorem stored_kinds_and_severities (E : Env) (clk : Clock) (m : AdvancedDataManager)
    (S : SensorReading) :
    ∃ records : List AnomalyRecord,
      (processSensorReading E clk m S).detected_anomalies S.vehicle_id =
        m.detected_anomalies S.vehicle_id ++ records ∧
      (∀ u, u ≠ S.vehicle_id →
        (processSensorReading E clk m S).detected_anomalies u = m.detected_anomalies u) ∧
      (∀ a ∈ records,
        a.getTypeString ∈ emittableKinds ∧ a.getTypeString ∉ neverEmittedKinds ∧
          a.severity ∈ ([2, 3, 4, 5] : List Int)) ∧
      (S.engine_on = false → S.rpm = 0 → S.speed_kmph = 0 →
        ∀ a ∈ records,
          a.type ≠ AnomalyType.ENGINE_STALL ∧ a.getTypeString ≠ "ENGINE_STALL" ∧
          a.type ≠ AnomalyType.RPM_OUT_OF_RANGE ∧ a.getTypeString ≠ "RPM_RANGE") := by
  refine ⟨callRecords E clk m S, ?_, ?_, ?_, ?_⟩
  · rw [processSensorReading_detected, if_pos rfl]
  · intro u hu
    rw [processSensorReading_detected, if_neg hu]
  · intro a ha
    obtain ⟨e, he, ht, hs, _, _⟩ := mem_callRecords_fields E clk m S a ha
    apply pair_kind
    rw [ht, hs]
    exact (callEmissions_pairs E clk m S e he).1
  · intro hoff hrpm hspeed a ha
    obtain ⟨e, he, ht, hs, _, _⟩ := mem_callRecords_fields E clk m S a ha
    obtain ⟨hp, hr, _⟩ := callEmissions_pairs E clk m S e he
    have hk := pair_kind a (by rw [ht, hs]; exact hp)
    have hnot : a.type ≠ AnomalyType.RPM_OUT_OF_RANGE := by
      intro hty
      rw [ht] at hty
      rcases hr hty with h | h
      · rw [hrpm] at h
        exact absurd h (by norm_num)
      · rw [hoff] at h
        exact absurd h.2.1 (by decide)
    refine ⟨?_, ?_, hnot, ?_⟩
    · intro hty
      apply hk.2.1
      unfold AnomalyRecord.getTypeString
      rw [hty]
      decide
    · intro hty
      apply hk.2.1
      rw [hty]
      decide
    · intro hty
      apply hnot
      revert hty
      unfold AnomalyRecord.getTypeString
      cases a.type <;> decide

/-- The stalled-engine sample of vehicle 7 on a fresh manager stores no anomaly. -/
theorem stalledReading_example :
    (processSensorReading exampleEnv (constClock 0) (freshManager 0)
      stalledReading).detected_anomalies 7 = [] := by
  decide!

theorem oil_mem_callEmissions (E : Env) (clk : Clock) (m : AdvancedDataManager) (S : SensorReading)
    (h : S.oil_pressure_bar < 1 ∧ S.engine_on = true) :
    ({ sensor := "oil_pressure", value := some S.oil_pressure_bar,
       type := AnomalyType.SENSOR_FAILURE, description := "Critically low oil pressure",
       severity := 5, location := "", ml_score := callScore E clk m S } : Emission) ∈
      callEmissions E clk m S := by
  unfold callEmissions callDetections detectEmissions instantEmissions
  rw [if_pos h]
  simp only [List.mem_append, List.mem_singleton, true_or, or_true]

/-- Claim C35.  Every `SensorReading` built with the nine-argument constructor
and `engine_on = true` has `oil_pressure_bar = 0`, and the call that processes
it unmodified stores a SENSOR_FAIL anomaly of severity 5 with sensor
"oil_pressure" and value 0, whatever its speed, rpm, temperature and fuel. -/
theorem constructed_reading_fails_oil (E : Env) (clk : Clock) (m : AdvancedDataManager)
    (now : TimePoint) (vid : Int) (speed r temp fuel throttle lat lon : ℚ) :
    (SensorReading.new now vid speed r temp fuel throttle true lat lon).oil_pressure_bar = 0 ∧
    ∃ records : List AnomalyRecord,
      (processSensorReading E clk m
        (SensorReading.new now vid speed r temp fuel throttle true lat lon)).detected_anomalies
          vid = m.detected_anomalies vid ++ records ∧
      ∃ a ∈ records,
        a.getTypeString = "SENSOR_FAIL" ∧ a.severity = 5 ∧ a.sensor_name = "oil_pressure" ∧
          a.value = some 0 ∧ a.vehicle_id = vid := by
  refine ⟨rfl, callRecords E clk m
    (SensorReading.new now vid speed r temp fuel throttle true lat lon), ?_, ?_⟩
  · rw [processSensorReading_detected]
    exact if_pos rfl
  · have hmem := oil_mem_callEmissions E clk m
      (SensorReading.new now vid speed r temp fuel throttle true lat lon)
      ⟨by show (0 : ℚ) < 1; norm_num, rfl⟩
    obtain ⟨i, hi⟩ := mem_callRecords_of_mem E clk m _ _ hmem
    exact ⟨_, hi, rfl, rfl, rfl, rfl, rfl⟩

/-- A sample built by the constructor with every value in its normal range (speed
50, rpm 2500, 90 degrees, fuel 80) on a fresh manager: the one anomaly stored is
the SENSOR_FAIL of the oil pressure. -/
theorem constructed_calm_example :
    ((processSensorReading exampleEnv (constClock 0) (freshManager 0)
      (SensorReading.new 0 7 50 2500 90 80 0 true 0 0)).detected_anomalies 7).map
        recordView = [("SENSOR_FAIL", 5, "oil_pressure", some 0, "")] := by
  decide!

theorem get?_get_eq {α : Type} (l : List α) (i : Nat) (h : i < l.length) (x : α)
    (hx : l.get? i = some x) : l.get ⟨i, h⟩ = x := by
  rw [List.get?_eq_get h] at hx
  exact Option.some.inj hx

theorem calculateFuelDropRate_within_minute (window : List SensorReading)
    (oldest newest : SensorReading) (h10 : 10 ≤ window.length)
    (ho : window.get? (window.length - 10) = some oldest)
    (hn : window.get? (window.length - 1) = some newest)
    (hdt : newest.timestamp - oldest.timestamp < 60 * ticksPerSecond) :
    calculateFuelDropRate window = 0 := by
  unfold calculateFuelDropRate
  rw [dif_neg (by omega)]
  dsimp only
  rw [get?_get_eq window (window.length - 10) (by omega) oldest ho,
    get?_get_eq window (window.length - 1) (by omega) newest hn,
    if_pos ((toMinutes_le_zero _).mpr hdt)]

/-- Claim C36.  For every call that leaves a window of at least 10 samples in
which the tenth-newest and the newest sample are less than 60 seconds apart,
`calculateFuelDropRate` of that window is 0 and the call stores no FUEL_LEAK
anomaly, however large the fuel drop between the two samples. -/
theorem no_leak_within_a_minute (E : Env) (clk : Clock) (m : AdvancedDataManager)
    (S oldest newest : SensorReading)
    (h10 : 10 ≤ ((processSensorReading E clk m S).vehicle_data_windows S.vehicle_id).length)
    (ho : ((processSensorReading E clk m S).vehicle_data_windows S.vehicle_id).get?
      (((processSensorReading E clk m S).vehicle_data_windows S.vehicle_id).length - 10) =
        some oldest)
    (hn : ((processSensorReading E clk m S).vehicle_data_windows S.vehicle_id).get?
      (((processSensorReading E clk m S).vehicle_data_windows S.vehicle_id).length - 1) =
        some newest)
    (hdt : newest.timestamp - oldest.timestamp < 60 * ticksPerSecond) :
    calculateFuelDropRate
      ((processSensorReading E clk m S).vehicle_data_windows S.vehicle_id) = 0 ∧
    ∃ records : List AnomalyRecord,
      (processSensorReading E clk m S).detected_anomalies S.vehicle_id =
        m.detected_anomalies S.vehicle_id ++ records ∧
      ∀ a ∈ records, a.type ≠ AnomalyType.FUEL_LEAK ∧ a.getTypeString ≠ "FUEL_LEAK" := by
  have hzero := calculateFuelDropRate_within_minute _ oldest newest h10 ho hn hdt
  refine ⟨hzero, callRecords E clk m S, ?_, ?_⟩
  · rw [processSensorReading_detected, if_pos rfl]
  · intro a ha
    obtain ⟨e, he, ht, _, _, _⟩ := mem_callRecords_fields E clk m S a ha
    have hnot : a.type ≠ AnomalyType.FUEL_LEAK := by
      intro hty
      rw [ht] at hty
      have hf := (callEmissions_pairs E clk m S e he).2.2 hty
      rw [processSensorReading_windows, ← ingested_windows E clk] at hzero
      unfold fuelEmissions at hf
      rw [hzero] at hf
      rw [if_neg (by norm_num)] at hf
      exact absurd hf (List.not_mem_nil e)
    refine ⟨hnot, ?_⟩
    intro hty
    apply hnot
    revert hty
    unfold AnomalyRecord.getTypeString
    cases a.type <;> decide

/-- Witness for C36: ten samples of vehicle 3 six seconds apart, the fuel falling
from 80 to 8 within 54 seconds. -/
theorem no_leak_within_a_minute_witness :
    fastDropReading.timestamp - (fuelReading 6000000000 8 0).timestamp <
        60 * ticksPerSecond ∧
    (fuelReading 6000000000 8 0).fuel_level_percent - fastDropReading.fuel_level_percent =
        72 ∧
    (calculateFuelDropRate
      ((processSensorReading exampleEnv (constClock 54000000000)
        (processAll exampleEnv (freshManager 0) fastDropCalls)
        fastDropReading).vehicle_data_windows fastDropReading.vehicle_id) = 0 ∧
    ∃ records : List AnomalyRecord,
      (processSensorReading exampleEnv (constClock 54000000000)
        (processAll exampleEnv (freshManager 0) fastDropCalls)
        fastDropReading).detected_anomalies fastDropReading.vehicle_id =
        (processAll exampleEnv (freshManager 0) fastDropCalls).detected_anomalies
          fastDropReading.vehicle_id ++ records ∧
      ∀ a ∈ records, a.type ≠ AnomalyType.FUEL_LEAK ∧ a.getTypeString ≠ "FUEL_LEAK") :=
  ⟨by decide!, by decide!,
    no_leak_within_a_minute exampleEnv (constClock 54000000000)
      (processAll exampleEnv (freshManager 0) fastDropCalls) fastDropReading
      (fuelReading 6000000000 8 0) fastDropReading (by decide!) (by decide!) (by decide!)
      (by decide!)⟩

/-! ## Route history and running mean of the speed -/

theorem updateProfileBody_route (E : Env) (p : VehicleProfile) (reading : SensorReading) :
    (updateProfileBody E p reading).route_history =
      if (p.route_history ++ [positionOf reading]).length > 1000 then
        (p.route_history ++ [positionOf reading]).tail
      else p.route_history ++ [positionOf reading] := by
  unfold updateProfileBody positionOf
  dsimp only
  rcases h : p.route_history.getLast? with _ | last_pos <;>
    simp only [h] <;> split <;> split <;> split <;> rfl

theorem cap_push_drop {α : Type} (l : List α) (x : α) :
    (if (l.drop (l.length - 1000) ++ [x]).length > 1000 then
        (l.drop (l.length - 1000) ++ [x]).tail
      else l.drop (l.length - 1000) ++ [x]) =
      (l ++ [x]).drop ((l ++ [x]).length - 1000) := by
  by_cases h : l.length < 1000
  · have h0 : l.length - 1000 = 0 := by omega
    have h1 : (l ++ [x]).length - 1000 = 0 := by
      rw [List.length_append, List.length_singleton]
      omega
    rw [h0, h1, List.drop_zero, List.drop_zero, if_neg]
    rw [List.length_append, List.length_singleton]
    omega
  · have h1 : (l ++ [x]).length - 1000 = (l.length - 1000) + 1 := by
      rw [List.length_append, List.length_singleton]
      omega
    rw [h1, if_pos, ← List.drop_append_of_le_length (by omega), List.tail_drop]
    rw [List.length_append, List.length_drop, List.length_singleton]
    omega

theorem initializeVehicleProfiles_fresh (clk : Clock) (v : Int) (p : VehicleProfile)
    (h : initializeVehicleProfiles clk v = some p) :
    p.route_history = [] ∧ p.performance_metrics "total_speed_sum" = none := by
  unfold initializeVehicleProfiles at h
  split at h
  · simp only [Option.map_eq_some'] at h
    obtain ⟨a, _, ha⟩ := h
    rw [← ha]
    exact ⟨rfl, rfl⟩
  · simp at h

/-- The route and the speed counters of a catalogued vehicle after a run on a
fresh manager. -/
theorem processAll_route_metrics (E : Env) (clk0 : Clock)
    (data_open anomaly_open performance_open : Bool) (calls : List (Clock × SensorReading))
    (v : Int) (hv : catalogued v) :
    ∃ p : VehicleProfile,
      (processAll E (AdvancedDataManager.new clk0 data_open anomaly_open performance_open)
        calls).vehicle_profiles v = some p ∧
      p.route_history = (positionsOf (samplesOf v calls)).drop
        ((positionsOf (samplesOf v calls)).length - 1000) ∧
      (samplesOf v calls = [] → p.performance_metrics "total_speed_sum" = none) ∧
      (samplesOf v calls ≠ [] →
        p.performance_metrics "total_speed_sum" = some (speedsOf (samplesOf v calls)).sum ∧
        p.performance_metrics "speed_count" = some ((samplesOf v calls).length : ℚ) ∧
        p.avg_speed = (speedsOf (samplesOf v calls)).sum / ((samplesOf v calls).length : ℚ)) := by
  induction calls using List.reverseRecOn with
  | nil =>
      obtain ⟨p, hp⟩ := Option.isSome_iff_exists.mp
        ((initializeVehicleProfiles_isSome clk0 v).mpr hv)
      obtain ⟨hr, hm⟩ := initializeVehicleProfiles_fresh clk0 v p hp
      refine ⟨p, hp, ?_, fun _ => hm, fun h => absurd (samplesOf_nil v) h⟩
      rw [hr, samplesOf_nil]
      rfl
  | append_singleton cs c ih =>
      obtain ⟨clk, reading⟩ := c
      obtain ⟨p, hp, hroute, hnone, hsome⟩ := ih
      rw [processAll_snoc, samplesOf_snoc]
      generalize processAll E
        (AdvancedDataManager.new clk0 data_open anomaly_open performance_open) cs = m at hp ⊢
      by_cases hid : reading.vehicle_id = v
      · subst hid
        obtain ⟨st, k, hp1⟩ := processSensorReading_profile_shape E clk m reading p hp
        obtain ⟨hsum, hcount, havg⟩ := updateProfileBody_metrics E p reading
        rw [if_pos rfl]
        have hs : avgSpeedSum p reading =
            (speedsOf (samplesOf reading.vehicle_id cs ++ [reading])).sum := by
          unfold avgSpeedSum speedsOf
          rw [List.map_append, List.sum_append]
          by_cases hk : samplesOf reading.vehicle_id cs = []
          · rw [hnone hk, hk]
            simp
          · rw [(hsome hk).1]
            simp [speedsOf]
        have hc : avgSpeedCount p =
            ((samplesOf reading.vehicle_id cs ++ [reading]).length : ℚ) := by
          unfold avgSpeedCount
          rw [List.length_append, List.length_singleton]
          by_cases hk : samplesOf reading.vehicle_id cs = []
          · rw [hnone hk, hk]
            simp
          · rw [(hsome hk).1, (hsome hk).2.1]
            simp
        refine ⟨_, hp1, ?_, ?_, ?_⟩
        · show (updateProfileBody E p reading).route_history = _
          rw [updateProfileBody_route, hroute]
          unfold positionsOf
          rw [List.map_append, List.map_singleton]
          exact cap_push_drop _ _
        · intro h
          simp at h
        · intro _
          refine ⟨?_, ?_, ?_⟩
          · show (updateProfileBody E p reading).performance_metrics "total_speed_sum" = _
            rw [hsum, hs]
          · show (updateProfileBody E p reading).performance_metrics "speed_count" = _
            rw [hcount, hc]
          · show (updateProfileBody E p reading).avg_speed = _
            rw [havg, hs, hc]
      · rw [if_neg hid]
        refine ⟨p, ?_, hroute, hnone, hsome⟩
        rw [processSensorReading_profiles_other E clk m reading v (fun h => hid h.symm)]
        exact hp

/-- Claim C32.  After every sequence of `processSensorReading` calls on a freshly
constructed manager, for every catalogued vehicle `v` with `k` samples processed,
`profile[v].route_history` is the sequence of (lat, lon) of the most recent
`min(k, 1000)` samples of `v`, in processing order, and so holds at most 1,000
points. -/
theorem route_history_is_recent (E : Env) (clk0 : Clock)
    (data_open anomaly_open performance_open : Bool) (calls : List (Clock × SensorReading))
    (v : Int) (hv : catalogued v) :
    ∃ p : VehicleProfile,
      (processAll E (AdvancedDataManager.new clk0 data_open anomaly_open performance_open)
        calls).vehicle_profiles v = some p ∧
      p.route_history = (positionsOf (samplesOf v calls)).drop
        ((samplesOf v calls).length - min (samplesOf v calls).length 1000) ∧
      p.route_history.length = min (samplesOf v calls).length 1000 ∧
      p.route_history.length ≤ 1000 := by
  obtain ⟨p, hp, hroute, _, _⟩ := processAll_route_metrics E clk0 data_open anomaly_open
    performance_open calls v hv
  have hlen : (positionsOf (samplesOf v calls)).length = (samplesOf v calls).length := by
    unfold positionsOf
    rw [List.length_map]
  have hidx : (samplesOf v calls).length - min (samplesOf v calls).length 1000 =
      (samplesOf v calls).length - 1000 := by
    omega
  refine ⟨p, hp, ?_, ?_, ?_⟩
  · rw [hroute, hlen, hidx]
  · rw [hroute, List.length_drop, hlen]
    omega
  · rw [hroute, List.length_drop, hlen]
    omega

/-- Witness for C32: vehicle 7 after one overheat sample. -/
theorem route_history_is_recent_witness :
    catalogued 7 ∧
    ∃ p : VehicleProfile,
      (processAll exampleEnv (AdvancedDataManager.new (constClock 0) true true true)
        [(constClock 0, overheatReading 7 0)]).vehicle_profiles 7 = some p ∧
      p.route_history = (positionsOf (samplesOf 7 [(constClock 0, overheatReading 7 0)])).drop
        ((samplesOf 7 [(constClock 0, overheatReading 7 0)]).length -
          min (samplesOf 7 [(constClock 0, overheatReading 7 0)]).length 1000) ∧
      p.route_history.length =
        min (samplesOf 7 [(constClock 0, overheatReading 7 0)]).length 1000 ∧
      p.route_history.length ≤ 1000 :=
  ⟨by decide,
    route_history_is_recent exampleEnv (constClock 0) true true true
      [(constClock 0, overheatReading 7 0)] 7 (by decide)⟩

/-- Claim C33.  After `k >= 1` samples have been processed for a catalogued
vehicle `v` on a freshly constructed manager, `profile[v].avg_speed` is the sum
of the speeds of all `k` samples divided by `k`, the samples that the window no
longer holds included. -/
theorem avg_speed_is_mean (E : Env) (clk0 : Clock)
    (data_open anomaly_open performance_open : Bool) (calls : List (Clock × SensorReading))
    (v : Int) (hv : catalogued v) (hk : 1 ≤ (samplesOf v calls).length) :
    ∃ p : VehicleProfile,
      (processAll E (AdvancedDataManager.new clk0 data_open anomaly_open performance_open)
        calls).vehicle_profiles v = some p ∧
      p.avg_speed =
        ((samplesOf v calls).map fun r => r.speed_kmph).sum / ((samplesOf v calls).length : ℚ) := by
  obtain ⟨p, hp, _, _, hsome⟩ := processAll_route_metrics E clk0 data_open anomaly_open
    performance_open calls v hv
  have hne : samplesOf v calls ≠ [] := by
    intro h
    rw [h] at hk
    simp at hk
  exact ⟨p, hp, (hsome hne).2.2⟩

/-- Witness for C33: vehicle 7 after two samples of speed 50. -/
theorem avg_speed_is_mean_witness :
    catalogued 7 ∧
    1 ≤ (samplesOf 7
      [(constClock 0, calmReading 7 0), (constClock 0, overheatReading 7 0)]).length ∧
    ∃ p : VehicleProfile,
      (processAll exampleEnv (AdvancedDataManager.new (constClock 0) true true true)
        [(constClock 0, calmReading 7 0), (constClock 0, overheatReading 7 0)]).vehicle_profiles
          7 = some p ∧
      p.avg_speed =
        ((samplesOf 7 [(constClock 0, calmReading 7 0),
            (constClock 0, overheatReading 7 0)]).map fun r => r.speed_kmph).sum /
          ((samplesOf 7 [(constClock 0, calmReading 7 0),
            (constClock 0, overheatReading 7 0)]).length : ℚ) :=
  ⟨by decide, by decide,
    avg_speed_is_mean exampleEnv (constClock 0) true true true
      [(constClock 0, calmReading 7 0), (constClock 0, overheatReading 7 0)] 7 (by decide)
      (by decide)⟩

/-! ## Overdue maintenance -/

theorem stamp_countP_kind (t : AnomalyType) (clk : Clock) (v : Int) (k : Nat)
    (es : List Emission) :
    (stamp clk v k es).countP (isKindRecord t) = es.countP (isKindEmission t) := by
  induction es generalizing k with
  | nil => rfl
  | cons x xs ih =>
      simp only [stamp, List.countP_cons, ih]
      rfl

theorem callEmissions_countP_maintenance (E : Env) (clk : Clock) (m : AdvancedDataManager)
    (S : SensorReading) :
    (callEmissions E clk m S).countP (isKindEmission AnomalyType.MAINTENANCE_REQUIRED) =
      if maintenanceDue (checkedProfile E clk m S) S then 1 else 0 := by
  unfold callEmissions callDetections
  rw [List.countP_append, List.countP_append]
  have h1 : (detectEmissions (callScore E clk m S) S
      ((ingested E clk m S).vehicle_data_windows S.vehicle_id)).countP
      (isKindEmission AnomalyType.MAINTENANCE_REQUIRED) = 0 := by
    rw [List.countP_eq_zero]
    intro e he
    have := (mem_detectEmissions _ _ _ e he).2.1
    simp [isKindEmission, this]
  have h3 : ((violatedFences E m.geofences S).map geofenceEmission).countP
      (isKindEmission AnomalyType.MAINTENANCE_REQUIRED) = 0 := by
    rw [List.countP_eq_zero]
    intro e he
    simp only [List.mem_map] at he
    obtain ⟨g, _, hg⟩ := he
    rw [← hg]
    simp [isKindEmission, geofenceEmission]
  rw [h1, h3]
  unfold maintenanceEmissions
  split
  · simp [isKindEmission, maintenanceEmission]
  · simp

theorem checkedProfile_some (E : Env) (clk : Clock) (m : AdvancedDataManager)
    (S : SensorReading) (p : VehicleProfile)
    (hp : m.vehicle_profiles S.vehicle_id = some p) :
    checkedProfile E clk m S = updateProfileBody E p S := by
  unfold checkedProfile
  rw [ingested_profiles, if_pos rfl, hp]
  rfl

/-- One call on a sample of a vehicle with a profile whose distance, after the
sample's distance is added, exceeds the interval: the profile keeps its interval
and its last maintenance and exactly one MAINTENANCE record is stored.  The
comparison is false when the distance is NaN. -/
theorem maintenance_call (E : Env) (clk : Clock)
    (m : AdvancedDataManager) (S : SensorReading) (p : VehicleProfile)
    (hp : m.vehicle_profiles S.vehicle_id = some p)
    (hd : MaybeNaN.gt (MaybeNaN.add p.total_distance_km (addedDistance E p S))
      (p.maintenance_interval_km : ℚ)) :
    (∃ p1 : VehicleProfile,
      (processSensorReading E clk m S).vehicle_profiles S.vehicle_id = some p1 ∧
      p1.maintenance_interval_km = p.maintenance_interval_km ∧
      p1.last_maintenance = p.last_maintenance ∧
      p1.total_distance_km = MaybeNaN.add p.total_distance_km (addedDistance E p S)) ∧
    ((processSensorReading E clk m S).detected_anomalies S.vehicle_id).countP
        (isKindRecord AnomalyType.MAINTENANCE_REQUIRED) =
      (m.detected_anomalies S.vehicle_id).countP
        (isKindRecord AnomalyType.MAINTENANCE_REQUIRED) + 1 := by
  have hs : (m.vehicle_profiles S.vehicle_id).isSome = true := by simp [hp]
  have hdue : maintenanceDue (checkedProfile E clk m S) S := by
    rw [checkedProfile_some E clk m S p hp]
    left
    rw [updateProfileBody_total_distance, updateProfileBody_maintenance_interval]
    exact hd
  have hcount : (stamp clk S.vehicle_id 0 (callEmissions E clk m S)).countP
      (isKindRecord AnomalyType.MAINTENANCE_REQUIRED) = 1 := by
    rw [stamp_countP_kind, callEmissions_countP_maintenance, if_pos hdue]
  refine ⟨?_, ?_⟩
  · obtain ⟨st, k, hp1⟩ := processSensorReading_profile_shape E clk m S p hp
    refine ⟨_, hp1, ?_, ?_, ?_⟩
    · show (updateProfileBody E p S).maintenance_interval_km = _
      exact updateProfileBody_maintenance_interval E p S
    · show (updateProfileBody E p S).last_maintenance = _
      exact updateProfileBody_last_maintenance E p S
    · show (updateProfileBody E p S).total_distance_km = _
      exact updateProfileBody_total_distance E p S
  · rw [processSensorReading_detected_some E clk m S _ hs, if_pos rfl, List.countP_append,
      hcount]

/-- Vehicle 7 after two samples half the equator apart has covered more than its
interval of 10,000 km. -/
theorem farManager_overdue : maintenanceOverdue farManager 7 := by
  decide!

/-- Claim C37, divergence.  Vehicle 7 reports the positions (0, 0), (0, 179),
(-88.2, 0), (88.2, 180) and (0, 0) in an environment where `sin` and `cos`
return the nearest doubles.  After the second sample its distance exceeds the
interval of 10,000 km, and the second and the third sample each store one
MAINTENANCE anomaly.  For the fourth sample `haversine` returns NaN (the defect
of C18), the distance of the profile becomes NaN and stays NaN, the test
`total_distance_km > maintenance_interval_km` is false from then on, and the
fourth and the fifth sample store no MAINTENANCE anomaly. -/
theorem maintenance_stops_after_nan :
    maintenanceOverdue (processAll roundedEnv (freshManager 0) (polarCalls.take 2)) 7 ∧
    maintenanceOverdue (processAll roundedEnv (freshManager 0) (polarCalls.take 3)) 7 ∧
    ((List.range 6).map fun n =>
      maintenanceCount (processAll roundedEnv (freshManager 0) (polarCalls.take n)) 7) =
      [0, 0, 1, 2, 2, 2] ∧
    ((processAll roundedEnv (freshManager 0) (polarCalls.take 4)).vehicle_profiles 7).map
      (fun p => p.total_distance_km) = some none ∧
    ((processAll roundedEnv (freshManager 0) polarCalls).vehicle_profiles 7).map
      (fun p => p.total_distance_km) = some none ∧
    ¬ maintenanceOverdue (processAll roundedEnv (freshManager 0) polarCalls) 7 := by
  decide!

/-! ## The slope of a linear sequence -/

theorem sumIndex_closed (n : Nat) : sumIndex n = (n : ℚ) * ((n : ℚ) - 1) / 2 := by
  unfold sumIndex
  induction n with
  | zero => simp
  | succ n ih =>
      rw [List.range_succ, List.map_append, List.sum_append, ih]
      simp only [List.map_cons, List.map_nil, List.sum_cons, List.sum_nil]
      push_cast
      ring

theorem sumIndexSq_closed (n : Nat) :
    sumIndexSq n = ((n : ℚ) - 1) * (n : ℚ) * (2 * (n : ℚ) - 1) / 6 := by
  unfold sumIndexSq
  induction n with
  | zero => simp
  | succ n ih =>
      rw [List.range_succ, List.map_append, List.sum_append, ih]
      simp only [List.map_cons, List.map_nil, List.sum_cons, List.sum_nil]
      push_cast
      ring

theorem sum_linear (n : Nat) (a b : ℚ) :
    ((List.range n).map fun (i : Nat) => a + b * (i : ℚ)).sum =
      (n : ℚ) * a + b * sumIndex n := by
  unfold sumIndex
  induction n with
  | zero => simp
  | succ n ih =>
      rw [List.range_succ, List.map_append, List.sum_append, ih, List.map_append,
        List.sum_append]
      simp only [List.map_cons, List.map_nil, List.sum_cons, List.sum_nil]
      push_cast
      ring

theorem sum_weighted (n : Nat) (a b : ℚ) :
    ((List.range n).map fun (i : Nat) => (i : ℚ) * (a + b * (i : ℚ))).sum =
      a * sumIndex n + b * sumIndexSq n := by
  unfold sumIndex sumIndexSq
  induction n with
  | zero => simp
  | succ n ih =>
      rw [List.range_succ, List.map_append, List.sum_append, ih, List.map_append,
        List.sum_append, List.map_append, List.sum_append]
      simp only [List.map_cons, List.map_nil, List.sum_cons, List.sum_nil]
      ring

theorem linearSequence_getD (n : Nat) (a b : ℚ) (j : Nat) (hj : j < n) :
    (linearSequence n a b).getD j 0 = a + b * (j : ℚ) := by
  unfold linearSequence
  rw [List.getD_eq_getElem?_getD, List.getElem?_map, List.getElem?_range hj]
  rfl

theorem denominator_closed (n : Nat) :
    (n : ℚ) * sumIndexSq n - sumIndex n * sumIndex n =
      (n : ℚ) ^ 2 * ((n : ℚ) ^ 2 - 1) / 12 := by
  rw [sumIndex_closed, sumIndexSq_closed]
  ring

theorem denominator_pos (n : Nat) (hn : 2 ≤ n) :
    0 < (n : ℚ) ^ 2 * ((n : ℚ) ^ 2 - 1) / 12 := by
  have h2 : (2 : ℚ) ≤ (n : ℚ) := by exact_mod_cast hn
  have h1 : 0 < (n : ℚ) ^ 2 := by positivity
  have h3 : 0 < (n : ℚ) ^ 2 - 1 := by nlinarith
  positivity

/-- Claim C39.  In exact arithmetic, for every `n >= 2` and all `a`, `b`,
`calculateStatistics` on the sequence `x_i = a + b*i` (`i = 0 .. n-1`) returns
`trend_slope = b` (0 for a constant sequence): the denominator
`n*sum(i^2) - (sum(i))^2` equals `n^2*(n^2-1)/12` and is strictly positive, so
the zero-denominator fallback is not taken. -/
theorem linear_sequence_slope (E : Env) (n : Nat) (hn : 2 ≤ n) (a b : ℚ) :
    (AdvancedAnalytics.calculateStatistics E (linearSequence n a b)).trend_slope = b ∧
    (AdvancedAnalytics.calculateStatistics E (linearSequence n a 0)).trend_slope = 0 ∧
    (n : ℚ) * sumIndexSq n - sumIndex n * sumIndex n =
      (n : ℚ) ^ 2 * ((n : ℚ) ^ 2 - 1) / 12 ∧
    0 < (n : ℚ) * sumIndexSq n - sumIndex n * sumIndex n ∧
    (slopeLoop 0 (linearSequence n a b) (0, 0, 0, 0)).1 = sumIndex n ∧
    (slopeLoop 0 (linearSequence n a b) (0, 0, 0, 0)).2.2.2 = sumIndexSq n := by
  have hlen : ∀ c d : ℚ, (linearSequence n c d).length = n := by
    intro c d
    unfold linearSequence
    rw [List.length_map, List.length_range]
  have hloop : ∀ c d : ℚ, slopeLoop 0 (linearSequence n c d) (0, 0, 0, 0) =
      (sumIndex n, (n : ℚ) * c + d * sumIndex n, c * sumIndex n + d * sumIndexSq n,
        sumIndexSq n) := by
    intro c d
    rw [slopeLoop_eq, hlen]
    simp only [zero_add]
    have h2 : ((List.range n).map fun (j : Nat) => (linearSequence n c d).getD j 0) =
        (List.range n).map fun (i : Nat) => c + d * (i : ℚ) := by
      apply List.map_congr_left
      intro j hj
      exact linearSequence_getD n c d j (List.mem_range.mp hj)
    have h3 : ((List.range n).map fun (j : Nat) =>
        ((j : Nat) : ℚ) * (linearSequence n c d).getD j 0) =
        (List.range n).map fun (i : Nat) => (i : ℚ) * (c + d * (i : ℚ)) := by
      apply List.map_congr_left
      intro j hj
      rw [linearSequence_getD n c d j (List.mem_range.mp hj)]
    rw [h2, h3, sum_linear, sum_weighted]
    rfl
  have hpos : 0 < (n : ℚ) * sumIndexSq n - sumIndex n * sumIndex n := by
    rw [denominator_closed]
    exact denominator_pos n hn
  have hslope : ∀ c d : ℚ,
      (AdvancedAnalytics.calculateStatistics E (linearSequence n c d)).trend_slope = d := by
    intro c d
    have hne : (linearSequence n c d).isEmpty = false := by
      cases hl : linearSequence n c d with
      | nil =>
          have := hlen c d
          rw [hl] at this
          simp at this
          omega
      | cons x xs => rfl
    unfold AdvancedAnalytics.calculateStatistics
    rw [hne]
    simp only [Bool.false_eq_true, if_false]
    unfold trendSlope
    simp only [hlen, hloop]
    rw [if_pos hn, if_pos (ne_of_gt hpos)]
    rw [div_eq_iff (ne_of_gt hpos)]
    ring
  refine ⟨hslope a b, hslope a 0, denominator_closed n, hpos, ?_, ?_⟩
  · rw [hloop]
  · rw [hloop]

/-- Witness for C39: the sequence 3, 5, 7, 9. -/
theorem linear_sequence_slope_witness :
    2 ≤ 4 ∧ linearSequence 4 3 2 = [3, 5, 7, 9] ∧
    (AdvancedAnalytics.calculateStatistics exampleEnv (linearSequence 4 3 2)).trend_slope = 2 :=
  ⟨by decide, by decide!, (linear_sequence_slope exampleEnv 4 (by decide) 3 2).1⟩

end Telematics
